import Mathlib

/-!
Frame codec of the access-point MAC.

A shallow embedding of `wifi-mac-header.cc` (ns-3.26 with the OFDMA / 802.11ax
additions): the 802.11 MAC header `WifiMacHeader` and the user-info headers of
the HE trigger family (`WifiHeMuRtsHeader`, `WifiHEBasicTriggerMacHeader`,
`WifiHEMuBarTriggerMacHeader`, `WifiHEBsrpMacHeader`).

Machine integers are natural numbers; a value stored in or returned as a
`uintN_t` is reduced modulo `2 ^ N` wherever the source does not mask it
already.  A C++ condition `if (x)` on an integer is `x ≠ 0`.
-/

namespace ns3

/-! ## Byte buffer -/

/-- Modelled from the spec: the byte buffer and its iterator (`Buffer::Iterator`)
are not among the sources.  A buffer is the sequence of octets that starts at
the iterator; writing appends octets, and reading takes them from the front and
has no result when fewer octets remain than the read needs.  Multi-octet
integers are little-endian (`Htolsb` / `Lsbtoh`). -/
abbrev Buffer := List Nat

/-- Octets written by `Buffer::Iterator::WriteU8`. -/
def WriteU8 (v : Nat) : Buffer := [v % 256]

/-- Octets written by `Buffer::Iterator::WriteHtolsbU16`. -/
def WriteHtolsbU16 (v : Nat) : Buffer := [v % 256, v / 256 % 256]

/-- Octets written by `Buffer::Iterator::WriteHtolsbU32`. -/
def WriteHtolsbU32 (v : Nat) : Buffer :=
  [v % 256, v / 256 % 256, v / 65536 % 256, v / 16777216 % 256]

/-- Result of `Buffer::Iterator::ReadU8`: the octet and the advanced iterator. -/
def ReadU8 : Buffer → Option (Nat × Buffer)
  | b :: i => some (b % 256, i)
  | [] => none

/-- Result of `Buffer::Iterator::ReadLsbtohU16`. -/
def ReadLsbtohU16 (i : Buffer) : Option (Nat × Buffer) := do
  let (b0, i) ← ReadU8 i
  let (b1, i) ← ReadU8 i
  pure (b0 + 256 * b1, i)

/-- Result of `Buffer::Iterator::ReadU16` (the iterator reads the low octet first). -/
def ReadU16 (i : Buffer) : Option (Nat × Buffer) := ReadLsbtohU16 i

/-- Result of `Buffer::Iterator::ReadLsbtohU32`. -/
def ReadLsbtohU32 (i : Buffer) : Option (Nat × Buffer) := do
  let (b0, i) ← ReadU8 i
  let (b1, i) ← ReadU8 i
  let (b2, i) ← ReadU8 i
  let (b3, i) ← ReadU8 i
  pure (b0 + 256 * b1 + 65536 * b2 + 16777216 * b3, i)

/-- Value of `i.GetDistanceFrom (start)`: the number of octets consumed between
the iterator `start` and the later iterator `i` of the same buffer. -/
def GetDistanceFrom (i start : Buffer) : Nat := start.length - i.length

/-! ## Hardware addresses -/

/-- Modelled from the spec: `Mac48Address` is declared outside the sources; it
is a hardware address of six octets. -/
structure Mac48Address where
  b0 : Nat
  b1 : Nat
  b2 : Nat
  b3 : Nat
  b4 : Nat
  b5 : Nat
  deriving DecidableEq, Repr, Inhabited

/-- Every octet of the address fits in eight bits. -/
def Mac48Address.IsOctets (a : Mac48Address) : Prop :=
  a.b0 < 256 ∧ a.b1 < 256 ∧ a.b2 < 256 ∧ a.b3 < 256 ∧ a.b4 < 256 ∧ a.b5 < 256

instance (a : Mac48Address) : Decidable a.IsOctets := by
  unfold Mac48Address.IsOctets; infer_instance

/-- Octets written by `WriteTo (i, address)`. -/
def WriteTo (ad : Mac48Address) : Buffer :=
  WriteU8 ad.b0 ++ WriteU8 ad.b1 ++ WriteU8 ad.b2 ++ WriteU8 ad.b3 ++ WriteU8 ad.b4
    ++ WriteU8 ad.b5

/-- Result of `ReadFrom (i, address)`. -/
def ReadFrom (i : Buffer) : Option (Mac48Address × Buffer) := do
  let (b0, i) ← ReadU8 i
  let (b1, i) ← ReadU8 i
  let (b2, i) ← ReadU8 i
  let (b3, i) ← ReadU8 i
  let (b4, i) ← ReadU8 i
  let (b5, i) ← ReadU8 i
  pure (⟨b0, b1, b2, b3, b4, b5⟩, i)

/-! ## The MAC header -/

def TYPE_MGT : Nat := 0
def TYPE_CTL : Nat := 1
def TYPE_DATA : Nat := 2

def SUBTYPE_CTL_CTLWRAPPER : Nat := 7
def SUBTYPE_CTL_BACKREQ : Nat := 8
def SUBTYPE_CTL_BACKRESP : Nat := 9
def SUBTYPE_CTL_RTS : Nat := 11
def SUBTYPE_CTL_CTS : Nat := 12
def SUBTYPE_CTL_ACK : Nat := 13
def SUBTYPE_CTL_TRIGGER : Nat := 3

/-- The data members of `WifiMacHeader` that the codec reads and writes. -/
structure WifiMacHeader where
  m_ctrlType : Nat
  m_ctrlSubtype : Nat
  m_ctrlToDs : Nat
  m_ctrlFromDs : Nat
  m_ctrlMoreFrag : Nat
  m_ctrlRetry : Nat
  m_ctrlMoreData : Nat
  m_ctrlWep : Nat
  m_ctrlOrder : Nat
  m_duration : Nat
  m_addr1 : Mac48Address
  m_addr2 : Mac48Address
  m_addr3 : Mac48Address
  m_seqFrag : Nat
  m_seqSeq : Nat
  m_addr4 : Mac48Address
  m_qosTid : Nat
  m_qosEosp : Nat
  m_qosAckPolicy : Nat
  m_amsduPresent : Nat
  m_qosStuff : Nat
  m_htControlType : Nat
  m_htControlId : Nat
  m_htControlAcibitmap : Nat
  m_htControlDeltatid : Nat
  m_htControlAcihigh : Nat
  m_htControlSf : Nat
  m_htControlQueueHigh : Nat
  m_htControlQueueAll : Nat
  m_qsize_vo : Nat
  m_qsize_vi : Nat
  m_qsize_be : Nat
  m_qsize_bk : Nat
  deriving DecidableEq, Repr, Inhabited

namespace WifiMacHeader

/-- `WifiMacHeader::GetSequenceControl`, returned as a `uint16_t`. -/
def GetSequenceControl (h : WifiMacHeader) : Nat :=
  ((h.m_seqSeq <<< 4) ||| h.m_seqFrag) % 65536

/-- `WifiMacHeader::GetFrameControl`. -/
def GetFrameControl (h : WifiMacHeader) : Nat :=
  let val := 0
  let val := val ||| ((h.m_ctrlType <<< 2) &&& (0x3 <<< 2))
  let val := val ||| ((h.m_ctrlSubtype <<< 4) &&& (0xf <<< 4))
  let val := val ||| ((h.m_ctrlToDs <<< 8) &&& (0x1 <<< 8))
  let val := val ||| ((h.m_ctrlFromDs <<< 9) &&& (0x1 <<< 9))
  let val := val ||| ((h.m_ctrlMoreFrag <<< 10) &&& (0x1 <<< 10))
  let val := val ||| ((h.m_ctrlRetry <<< 11) &&& (0x1 <<< 11))
  let val := val ||| ((h.m_ctrlMoreData <<< 13) &&& (0x1 <<< 13))
  let val := val ||| ((h.m_ctrlWep <<< 14) &&& (0x1 <<< 14))
  let val := val ||| ((h.m_ctrlOrder <<< 15) &&& (0x1 <<< 15))
  val

/-- `WifiMacHeader::GetQosControl`; `val` is a `uint16_t`. -/
def GetQosControl (h : WifiMacHeader) : Nat :=
  let val := 0
  let val := (val ||| h.m_qosTid) % 65536
  let val := (val ||| (h.m_qosEosp <<< 4)) % 65536
  let val := (val ||| (h.m_qosAckPolicy <<< 5)) % 65536
  let val := (val ||| (h.m_amsduPresent <<< 7)) % 65536
  let val := (val ||| (h.m_qosStuff <<< 8)) % 65536
  val

/-- `WifiMacHeader::GetControlHeader`; `val` is a `uint32_t`. -/
def GetControlHeader (h : WifiMacHeader) : Nat :=
  let val := 0
  let val := (val ||| h.m_htControlType) % 4294967296
  let val := (val ||| (h.m_htControlId <<< 2)) % 4294967296
  if h.m_htControlId = 3 then
    let val := (val ||| (h.m_htControlAcibitmap <<< 6)) % 4294967296
    let val := (val ||| (h.m_htControlDeltatid <<< 10)) % 4294967296
    let val := (val ||| (h.m_htControlAcihigh <<< 12)) % 4294967296
    let val := (val ||| (h.m_htControlSf <<< 14)) % 4294967296
    let val := (val ||| (h.m_htControlQueueHigh <<< 16)) % 4294967296
    let val := (val ||| (h.m_htControlQueueAll <<< 24)) % 4294967296
    val
  else if h.m_htControlId = 7 then
    let val := (val ||| (h.m_qsize_be <<< 6)) % 4294967296
    let val := (val ||| (h.m_qsize_bk <<< 12)) % 4294967296
    let val := (val ||| (h.m_qsize_vi <<< 18)) % 4294967296
    let val := (val ||| (h.m_qsize_vo <<< 24)) % 4294967296
    val
  else
    val

/-- `WifiMacHeader::SetControlHeader`. -/
def SetControlHeader (h : WifiMacHeader) (htCtrlHeader : Nat) : WifiMacHeader :=
  let h := { h with m_htControlType := htCtrlHeader &&& 0x00000003 }
  let h := { h with m_htControlId := (htCtrlHeader >>> 2) &&& 0x0000000f }
  if h.m_htControlId = 3 then
    { h with
      m_htControlAcibitmap := (htCtrlHeader >>> 6) &&& 0x0000000f
      m_htControlDeltatid := (htCtrlHeader >>> 10) &&& 0x00000003
      m_htControlAcihigh := (htCtrlHeader >>> 12) &&& 0x00000003
      m_htControlSf := (htCtrlHeader >>> 14) &&& 0x00000003
      m_htControlQueueHigh := (htCtrlHeader >>> 16) &&& 0x000000ff
      m_htControlQueueAll := (htCtrlHeader >>> 24) &&& 0x000000ff }
  else if h.m_htControlId = 7 then
    { h with
      m_qsize_be := (htCtrlHeader >>> 6) &&& 0x0000003f
      m_qsize_bk := (htCtrlHeader >>> 12) &&& 0x0000003f
      m_qsize_vi := (htCtrlHeader >>> 18) &&& 0x0000003f
      m_qsize_vo := (htCtrlHeader >>> 24) &&& 0x0000003f }
  else
    h

/-- `WifiMacHeader::SetFrameControl`. -/
def SetFrameControl (h : WifiMacHeader) (ctrl : Nat) : WifiMacHeader :=
  { h with
    m_ctrlType := (ctrl >>> 2) &&& 0x03
    m_ctrlSubtype := (ctrl >>> 4) &&& 0x0f
    m_ctrlToDs := (ctrl >>> 8) &&& 0x01
    m_ctrlFromDs := (ctrl >>> 9) &&& 0x01
    m_ctrlMoreFrag := (ctrl >>> 10) &&& 0x01
    m_ctrlRetry := (ctrl >>> 11) &&& 0x01
    m_ctrlMoreData := (ctrl >>> 13) &&& 0x01
    m_ctrlWep := (ctrl >>> 14) &&& 0x01
    m_ctrlOrder := (ctrl >>> 15) &&& 0x01 }

/-- `WifiMacHeader::SetSequenceControl`. -/
def SetSequenceControl (h : WifiMacHeader) (seq : Nat) : WifiMacHeader :=
  { h with
    m_seqFrag := seq &&& 0x0f
    m_seqSeq := (seq >>> 4) &&& 0x0fff }

/-- `WifiMacHeader::SetQosControl`. -/
def SetQosControl (h : WifiMacHeader) (qos : Nat) : WifiMacHeader :=
  { h with
    m_qosTid := qos &&& 0x000f
    m_qosEosp := (qos >>> 4) &&& 0x0001
    m_qosAckPolicy := (qos >>> 5) &&& 0x0003
    m_amsduPresent := (qos >>> 7) &&& 0x0001
    m_qosStuff := (qos >>> 8) &&& 0x00ff }

/-- `WifiMacHeader::GetSize`. -/
def GetSize (h : WifiMacHeader) : Nat :=
  if h.m_ctrlType = TYPE_MGT then
    2 + 2 + 6 + 6 + 6 + 2
  else if h.m_ctrlType = TYPE_CTL then
    if h.m_ctrlSubtype = SUBTYPE_CTL_RTS ∨ h.m_ctrlSubtype = SUBTYPE_CTL_TRIGGER then
      2 + 2 + 6 + 6
    else if h.m_ctrlSubtype = SUBTYPE_CTL_CTS ∨ h.m_ctrlSubtype = SUBTYPE_CTL_ACK then
      2 + 2 + 6
    else if h.m_ctrlSubtype = SUBTYPE_CTL_BACKREQ ∨ h.m_ctrlSubtype = SUBTYPE_CTL_BACKRESP then
      2 + 2 + 6 + 6
    else if h.m_ctrlSubtype = SUBTYPE_CTL_CTLWRAPPER then
      2 + 2 + 6 + 2 + 4
    else
      0
  else if h.m_ctrlType = TYPE_DATA then
    let size := 2 + 2 + 6 + 6 + 6 + 2
    let size := if h.m_ctrlToDs ≠ 0 ∧ h.m_ctrlFromDs ≠ 0 then size + 6 else size
    let size :=
      if h.m_ctrlSubtype &&& 0x08 ≠ 0 then
        let size := size + 2
        if h.m_ctrlOrder ≠ 0 then size + 4 else size
      else size
    size
  else
    0

/-- `WifiMacHeader::Serialize`: the octets written, or no result where the
source reaches `NS_ASSERT (false)`. -/
def Serialize (h : WifiMacHeader) : Option Buffer :=
  let i := WriteHtolsbU16 h.GetFrameControl
  let i := i ++ WriteHtolsbU16 h.m_duration
  let i := i ++ WriteTo h.m_addr1
  if h.m_ctrlType = TYPE_MGT then
    let i := i ++ WriteTo h.m_addr2
    let i := i ++ WriteTo h.m_addr3
    let i := i ++ WriteHtolsbU16 h.GetSequenceControl
    some i
  else if h.m_ctrlType = TYPE_CTL then
    if h.m_ctrlSubtype = SUBTYPE_CTL_RTS then
      some (i ++ WriteTo h.m_addr2)
    else if h.m_ctrlSubtype = SUBTYPE_CTL_CTS ∨ h.m_ctrlSubtype = SUBTYPE_CTL_ACK then
      some i
    else if h.m_ctrlSubtype = SUBTYPE_CTL_BACKREQ ∨ h.m_ctrlSubtype = SUBTYPE_CTL_BACKRESP then
      some (i ++ WriteTo h.m_addr2)
    else if h.m_ctrlSubtype = SUBTYPE_CTL_TRIGGER then
      some (i ++ WriteTo h.m_addr2)
    else
      none
  else if h.m_ctrlType = TYPE_DATA then
    let i := i ++ WriteTo h.m_addr2
    let i := i ++ WriteTo h.m_addr3
    let i := i ++ WriteHtolsbU16 h.GetSequenceControl
    let i := if h.m_ctrlToDs ≠ 0 ∧ h.m_ctrlFromDs ≠ 0 then i ++ WriteTo h.m_addr4 else i
    let i :=
      if h.m_ctrlSubtype &&& 0x08 ≠ 0 then
        let i := i ++ WriteHtolsbU16 h.GetQosControl
        if h.m_ctrlOrder ≠ 0 then i ++ WriteHtolsbU32 h.GetControlHeader else i
      else i
    some i
  else
    none

/-- The type-dependent part of `WifiMacHeader::Deserialize` (its `switch`), run
after the frame control, the duration and the first address have been read. -/
def DeserializeBody (h : WifiMacHeader) (i : Buffer) : Option (WifiMacHeader × Buffer) :=
  if h.m_ctrlType = TYPE_MGT then do
    let (a2, i) ← ReadFrom i
    let h := { h with m_addr2 := a2 }
    let (a3, i) ← ReadFrom i
    let h := { h with m_addr3 := a3 }
    let (sc, i) ← ReadLsbtohU16 i
    pure (h.SetSequenceControl sc, i)
  else if h.m_ctrlType = TYPE_CTL then
    if h.m_ctrlSubtype = SUBTYPE_CTL_RTS ∨ h.m_ctrlSubtype = SUBTYPE_CTL_TRIGGER then do
      let (a2, i) ← ReadFrom i
      pure ({ h with m_addr2 := a2 }, i)
    else if h.m_ctrlSubtype = SUBTYPE_CTL_CTS ∨ h.m_ctrlSubtype = SUBTYPE_CTL_ACK then
      pure (h, i)
    else if h.m_ctrlSubtype = SUBTYPE_CTL_BACKREQ ∨ h.m_ctrlSubtype = SUBTYPE_CTL_BACKRESP then do
      let (a2, i) ← ReadFrom i
      pure ({ h with m_addr2 := a2 }, i)
    else
      pure (h, i)
  else if h.m_ctrlType = TYPE_DATA then do
    let (a2, i) ← ReadFrom i
    let h := { h with m_addr2 := a2 }
    let (a3, i) ← ReadFrom i
    let h := { h with m_addr3 := a3 }
    let (sc, i) ← ReadLsbtohU16 i
    let h := h.SetSequenceControl sc
    let (h, i) ←
      if h.m_ctrlToDs ≠ 0 ∧ h.m_ctrlFromDs ≠ 0 then do
        let (a4, i) ← ReadFrom i
        pure ({ h with m_addr4 := a4 }, i)
      else pure (h, i)
    if h.m_ctrlSubtype &&& 0x08 ≠ 0 then do
      let (qc, i) ← ReadLsbtohU16 i
      let h := h.SetQosControl qc
      if h.m_ctrlOrder ≠ 0 then do
        let (hc, i) ← ReadLsbtohU32 i
        pure (h.SetControlHeader hc, i)
      else pure (h, i)
    else pure (h, i)
  else
    pure (h, i)

/-- `WifiMacHeader::Deserialize` run on the object `h` with the iterator `start`:
the updated object and the returned number of octets consumed; no result when
the buffer ends before a read. -/
def Deserialize (h : WifiMacHeader) (start : Buffer) : Option (WifiMacHeader × Nat) := do
  let i := start
  let (frame_control, i) ← ReadLsbtohU16 i
  let h := h.SetFrameControl frame_control
  let (d, i) ← ReadLsbtohU16 i
  let h := { h with m_duration := d }
  let (a1, i) ← ReadFrom i
  let h := { h with m_addr1 := a1 }
  let (h, i) ← DeserializeBody h i
  pure (h, GetDistanceFrom i start)

/-- The kinds of header the codec supports: any management subtype; control
RTS, CTS, ACK, BlockAckReq, BlockAck or Trigger; any data subtype. -/
def IsSupportedKind (h : WifiMacHeader) : Prop :=
  h.m_ctrlType = TYPE_MGT ∨
  (h.m_ctrlType = TYPE_CTL ∧
    (h.m_ctrlSubtype = SUBTYPE_CTL_RTS ∨ h.m_ctrlSubtype = SUBTYPE_CTL_CTS ∨
      h.m_ctrlSubtype = SUBTYPE_CTL_ACK ∨ h.m_ctrlSubtype = SUBTYPE_CTL_BACKREQ ∨
      h.m_ctrlSubtype = SUBTYPE_CTL_BACKRESP ∨ h.m_ctrlSubtype = SUBTYPE_CTL_TRIGGER)) ∨
  h.m_ctrlType = TYPE_DATA

instance (h : WifiMacHeader) : Decidable h.IsSupportedKind := by
  unfold IsSupportedKind; infer_instance

/-- The nine members of the frame control are within their wire widths. -/
def FrameControlValid (h : WifiMacHeader) : Prop :=
  h.m_ctrlType < 4 ∧ h.m_ctrlSubtype < 16 ∧ h.m_ctrlToDs < 2 ∧ h.m_ctrlFromDs < 2 ∧
    h.m_ctrlMoreFrag < 2 ∧ h.m_ctrlRetry < 2 ∧ h.m_ctrlMoreData < 2 ∧ h.m_ctrlWep < 2 ∧
    h.m_ctrlOrder < 2

instance (h : WifiMacHeader) : Decidable h.FrameControlValid := by
  unfold FrameControlValid; infer_instance

/-- Every member is within the width its field has on the wire. -/
def WireValid (h : WifiMacHeader) : Prop :=
  h.FrameControlValid ∧
  h.m_duration < 65536 ∧
  (h.m_addr1.IsOctets ∧ h.m_addr2.IsOctets ∧ h.m_addr3.IsOctets ∧ h.m_addr4.IsOctets) ∧
  (h.m_seqFrag < 16 ∧ h.m_seqSeq < 4096) ∧
  (h.m_qosTid < 16 ∧ h.m_qosEosp < 2 ∧ h.m_qosAckPolicy < 4 ∧ h.m_amsduPresent < 2 ∧
    h.m_qosStuff < 256) ∧
  (h.m_htControlType < 4 ∧ h.m_htControlId < 16 ∧ h.m_htControlAcibitmap < 16 ∧
    h.m_htControlDeltatid < 4 ∧ h.m_htControlAcihigh < 4 ∧ h.m_htControlSf < 4 ∧
    h.m_htControlQueueHigh < 256 ∧ h.m_htControlQueueAll < 256) ∧
  (h.m_qsize_be < 64 ∧ h.m_qsize_bk < 64 ∧ h.m_qsize_vi < 64 ∧ h.m_qsize_vo < 64)

instance (h : WifiMacHeader) : Decidable h.WireValid := by
  unfold WireValid; infer_instance

/-- The object `d` agrees with the header `h` on every member that the layout
of `h` (its type, subtype, ToDS and FromDS) carries: the frame-control flags,
the duration, the populated addresses, the sequence and fragment number, the QoS
control and the HT / HE control. -/
def AgreeOnLayout (h d : WifiMacHeader) : Prop :=
  (d.m_ctrlType = h.m_ctrlType ∧ d.m_ctrlSubtype = h.m_ctrlSubtype ∧
    d.m_ctrlToDs = h.m_ctrlToDs ∧ d.m_ctrlFromDs = h.m_ctrlFromDs ∧
    d.m_ctrlMoreFrag = h.m_ctrlMoreFrag ∧ d.m_ctrlRetry = h.m_ctrlRetry ∧
    d.m_ctrlMoreData = h.m_ctrlMoreData ∧ d.m_ctrlWep = h.m_ctrlWep ∧
    d.m_ctrlOrder = h.m_ctrlOrder) ∧
  d.m_duration = h.m_duration ∧
  d.m_addr1 = h.m_addr1 ∧
  (¬(h.m_ctrlType = TYPE_CTL ∧
      (h.m_ctrlSubtype = SUBTYPE_CTL_CTS ∨ h.m_ctrlSubtype = SUBTYPE_CTL_ACK)) →
    d.m_addr2 = h.m_addr2) ∧
  (h.m_ctrlType = TYPE_MGT ∨ h.m_ctrlType = TYPE_DATA →
    d.m_addr3 = h.m_addr3 ∧ d.m_seqSeq = h.m_seqSeq ∧ d.m_seqFrag = h.m_seqFrag) ∧
  (h.m_ctrlType = TYPE_DATA → h.m_ctrlToDs ≠ 0 ∧ h.m_ctrlFromDs ≠ 0 →
    d.m_addr4 = h.m_addr4) ∧
  (h.m_ctrlType = TYPE_DATA → h.m_ctrlSubtype &&& 0x08 ≠ 0 →
    d.m_qosTid = h.m_qosTid ∧ d.m_qosEosp = h.m_qosEosp ∧
    d.m_qosAckPolicy = h.m_qosAckPolicy ∧ d.m_amsduPresent = h.m_amsduPresent ∧
    d.m_qosStuff = h.m_qosStuff) ∧
  (h.m_ctrlType = TYPE_DATA → h.m_ctrlSubtype &&& 0x08 ≠ 0 → h.m_ctrlOrder ≠ 0 →
    d.m_htControlType = h.m_htControlType ∧ d.m_htControlId = h.m_htControlId ∧
    (h.m_htControlId = 3 →
      d.m_htControlAcibitmap = h.m_htControlAcibitmap ∧
      d.m_htControlDeltatid = h.m_htControlDeltatid ∧
      d.m_htControlAcihigh = h.m_htControlAcihigh ∧
      d.m_htControlSf = h.m_htControlSf ∧
      d.m_htControlQueueHigh = h.m_htControlQueueHigh ∧
      d.m_htControlQueueAll = h.m_htControlQueueAll) ∧
    (h.m_htControlId = 7 →
      d.m_qsize_be = h.m_qsize_be ∧ d.m_qsize_bk = h.m_qsize_bk ∧
      d.m_qsize_vi = h.m_qsize_vi ∧ d.m_qsize_vo = h.m_qsize_vo) ∧
    d.GetControlHeader = h.GetControlHeader)

/-- The number of octets that the type-dependent part of `Deserialize` (its
`switch`) reads for an object with the frame-control members of `x`: two
addresses and the sequence control for a management frame; one address for
control RTS, Trigger, BlockAckReq and BlockAck and nothing for any other control
subtype; for a data frame two addresses and the sequence control, then the
fourth address, the QoS control and the HT / HE control as the flags select. -/
def bodyOctets (x : WifiMacHeader) : Nat :=
  if x.m_ctrlType = TYPE_MGT then 14
  else if x.m_ctrlType = TYPE_CTL then
    if x.m_ctrlSubtype = SUBTYPE_CTL_RTS ∨ x.m_ctrlSubtype = SUBTYPE_CTL_TRIGGER ∨
        x.m_ctrlSubtype = SUBTYPE_CTL_BACKREQ ∨ x.m_ctrlSubtype = SUBTYPE_CTL_BACKRESP then 6
    else 0
  else if x.m_ctrlType = TYPE_DATA then
    14 + (if x.m_ctrlToDs ≠ 0 ∧ x.m_ctrlFromDs ≠ 0 then 6 else 0) +
      (if x.m_ctrlSubtype &&& 0x08 ≠ 0 then 2 + (if x.m_ctrlOrder ≠ 0 then 4 else 0) else 0)
  else 0

/-- The frame-control field of a buffer: its first two octets, low octet first. -/
def frameControlOf (buf : Buffer) : Nat := buf.getD 0 0 % 256 + 256 * (buf.getD 1 0 % 256)

/-- A sample header: a QoS data frame in the four-address format with the order
bit set and a buffer-status report in its HT / HE control. -/
def sampleQosData : WifiMacHeader :=
  { m_ctrlType := 2, m_ctrlSubtype := 8, m_ctrlToDs := 1, m_ctrlFromDs := 1,
    m_ctrlMoreFrag := 0, m_ctrlRetry := 1, m_ctrlMoreData := 0, m_ctrlWep := 0,
    m_ctrlOrder := 1, m_duration := 314,
    m_addr1 := ⟨0, 0, 0, 0, 0, 1⟩, m_addr2 := ⟨0, 0, 0, 0, 0, 2⟩,
    m_addr3 := ⟨0, 0, 0, 0, 0, 3⟩, m_seqFrag := 2, m_seqSeq := 1000,
    m_addr4 := ⟨0, 0, 0, 0, 0, 4⟩,
    m_qosTid := 5, m_qosEosp := 1, m_qosAckPolicy := 3, m_amsduPresent := 0, m_qosStuff := 7,
    m_htControlType := 3, m_htControlId := 3, m_htControlAcibitmap := 9,
    m_htControlDeltatid := 0, m_htControlAcihigh := 2, m_htControlSf := 0,
    m_htControlQueueHigh := 200, m_htControlQueueAll := 250,
    m_qsize_vo := 0, m_qsize_vi := 0, m_qsize_be := 0, m_qsize_bk := 0 }

end WifiMacHeader

/-! ## User-info records of the HE trigger family -/

/-- Modelled from the spec: `RuInfo` is declared outside the sources; it is the
user-info record of a trigger frame, with the members the four user-info
headers read and write. -/
structure RuInfo where
  m_aid : Nat
  index : Nat
  codingType : Nat
  mcs : Nat
  dcm : Nat
  ssAllocation : Nat
  mpduMuSpacingFactor : Nat
  tidAggregationLimit : Nat
  acPreferenceLevel : Nat
  preferredAc : Nat
  m_baAckPolicy : Nat
  m_multiTid : Nat
  m_compressed : Nat
  m_tidInfo : Nat
  deriving DecidableEq, Repr, Inhabited

/-- Modelled from the spec: `staRuMap` is declared outside the sources; it is the
AID-keyed mapping (a `std::map`) of user-info records, kept as the list of its
entries in ascending key order, the order in which its iterator visits them. -/
abbrev staRuMap := List (Nat × RuInfo)

namespace staRuMap

/-- The entries are in strictly ascending key order (the `std::map` invariant). -/
def Ordered (m : staRuMap) : Prop := (m.map Prod.fst).Pairwise (· < ·)

instance (m : staRuMap) : Decidable m.Ordered := by
  unfold Ordered; infer_instance

/-- `std::map::size`. -/
def size (m : staRuMap) : Nat := m.length

/-- `std::map::insert (std::make_pair (k, v))`: a key that is present keeps its
entry, a new key is entered at its place in the key order. -/
def insert : staRuMap → Nat → RuInfo → staRuMap
  | [], k, v => [(k, v)]
  | e :: m, k, v =>
    if k < e.1 then (k, v) :: e :: m
    else if k = e.1 then e :: m
    else e :: insert m k v

/-- `std::map::find`: the record stored under a key, if any. -/
def find : staRuMap → Nat → Option RuInfo
  | [], _ => none
  | e :: m, k => if e.1 = k then some e.2 else find m k

/-- The keys of the map, in iteration order. -/
def keys (m : staRuMap) : List Nat := m.map Prod.fst

/-- A value of the map type: the keys are strictly ascending and each is a
16-bit AID (`uint16_t`, as association ids are throughout the access point). -/
def WellFormed (m : staRuMap) : Prop := m.Ordered ∧ ∀ e ∈ m, e.1 < 65536

instance (m : staRuMap) : Decidable m.WellFormed := by
  unfold WellFormed; infer_instance

/-- The map is keyed by the AID of its records. -/
def KeyedByAid (m : staRuMap) : Prop := ∀ e ∈ m, e.1 = e.2.m_aid

end staRuMap

/-- The AIDs of the first `n` user-info records of a buffer whose records are
`stride` octets long: the low twelve bits of the first two octets of each. -/
def recordAids (stride : Nat) : Nat → Buffer → List Nat
  | 0, _ => []
  | n + 1, buf =>
    (buf.getD 0 0 % 256 + 256 * (buf.getD 1 0 % 256)) % 4096 ::
      recordAids stride n (buf.drop stride)

/-- The 32-bit `value` word that every `Serialize` of the family packs from a
record (the statements are the same in the four functions). -/
def userInfoValue (j : RuInfo) : Nat :=
  let value := 0
  let value := value ||| (j.m_aid &&& 0xfff)
  let value := value ||| ((j.index <<< 12) &&& (0xff <<< 12))
  let value := value ||| ((j.codingType <<< 20) &&& (0x1 <<< 20))
  let value := value ||| ((j.mcs <<< 21) &&& (0xf <<< 21))
  let value := value ||| ((j.dcm <<< 25) &&& (0x1 <<< 25))
  let value := value ||| ((j.ssAllocation <<< 26) &&& (0x3f <<< 26))
  value

/-- The six assignments from the `value` word that `Deserialize` of the Basic
Trigger, MU-BAR and BSRP headers makes (the statements are the same in the three
functions). -/
def setUserInfo (ruInfo : RuInfo) (value : Nat) : RuInfo :=
  let ruInfo := { ruInfo with m_aid := value &&& 0xfff }
  let ruInfo := { ruInfo with index := (value >>> 12) &&& 0xff }
  let ruInfo := { ruInfo with codingType := (value >>> 20) &&& 0x1 }
  let ruInfo := { ruInfo with mcs := (value >>> 21) &&& 0xf }
  let ruInfo := { ruInfo with dcm := (value >>> 25) &&& 0x1 }
  let ruInfo := { ruInfo with ssAllocation := (value >>> 26) &&& 0x3f }
  ruInfo

/-- A sample record, for the station with AID 1. -/
def sampleRu1 : RuInfo :=
  { m_aid := 1, index := 10, codingType := 1, mcs := 5, dcm := 0, ssAllocation := 2,
    mpduMuSpacingFactor := 3, tidAggregationLimit := 5, acPreferenceLevel := 1,
    preferredAc := 2, m_baAckPolicy := 1, m_multiTid := 0, m_compressed := 1, m_tidInfo := 6 }

/-- A sample record, for the station with AID 2, whose per-variant members are
all zero. -/
def sampleRu2 : RuInfo :=
  { m_aid := 2, index := 20, codingType := 0, mcs := 7, dcm := 1, ssAllocation := 4,
    mpduMuSpacingFactor := 0, tidAggregationLimit := 0, acPreferenceLevel := 0,
    preferredAc := 0, m_baAckPolicy := 0, m_multiTid := 0, m_compressed := 0, m_tidInfo := 0 }

/-- A sample map of the two sample records, keyed by their AID. -/
def sampleMap : staRuMap := [(1, sampleRu1), (2, sampleRu2)]

/-- The `for (j = 0; j < m_numOfUsers; j ++)` loop shared by the four
`Deserialize` functions: `body` reads one record into the local `ruInfo`, which
is then inserted under its AID; `n` is the number of iterations left. -/
def userInfoLoop (body : RuInfo → Buffer → Option (RuInfo × Buffer)) :
    Nat → Buffer → RuInfo → staRuMap → Option (Buffer × staRuMap)
  | 0, i, _, m => some (i, m)
  | n + 1, i, ruInfo, m =>
    match body ruInfo i with
    | none => none
    | some (ruInfo, i) => userInfoLoop body n i ruInfo (m.insert ruInfo.m_aid ruInfo)

/-! ### MU-RTS -/

/-- The data members of `WifiHeMuRtsHeader`. -/
structure WifiHeMuRtsHeader where
  m_numOfUsers : Nat
  staRuMapInfo : staRuMap
  deriving DecidableEq, Repr, Inhabited

namespace WifiHeMuRtsHeader

/-- `WifiHeMuRtsHeader::GetSize`, returned as a `uint32_t`. -/
def GetSize (h : WifiHeMuRtsHeader) : Nat := (5 * h.staRuMapInfo.size) % 4294967296

/-- `WifiHeMuRtsHeader::SetStaRuMap`. -/
def SetStaRuMap (h : WifiHeMuRtsHeader) (staMap : staRuMap) : WifiHeMuRtsHeader :=
  { h with staRuMapInfo := staMap }

/-- `WifiHeMuRtsHeader::SetNumOfUsers`; the argument is a `uint8_t`. -/
def SetNumOfUsers (h : WifiHeMuRtsHeader) (users : Nat) : WifiHeMuRtsHeader :=
  { h with m_numOfUsers := users % 256 }

/-- The loop of `WifiHeMuRtsHeader::Serialize` over the entries still to visit. -/
def SerializeLoop : staRuMap → Buffer
  | [] => []
  | j :: rest =>
    let reserved := 0
    WriteHtolsbU32 (userInfoValue j.2) ++ WriteU8 reserved ++ SerializeLoop rest

/-- `WifiHeMuRtsHeader::Serialize`: the octets written. -/
def Serialize (h : WifiHeMuRtsHeader) : Buffer := SerializeLoop h.staRuMapInfo

/-- One iteration of the loop of `WifiHeMuRtsHeader::Deserialize` without the
insertion: the record read into `ruInfo` and the reserved octet skipped (the
source skips it after the insertion, which does not depend on it).  The last
assignment from the word goes to `mcs`, as in the source, and `ssAllocation` is
not assigned. -/
def DeserializeBody (ruInfo : RuInfo) (i : Buffer) : Option (RuInfo × Buffer) := do
  let (value, i) ← ReadLsbtohU32 i
  let ruInfo := { ruInfo with m_aid := value &&& 0xfff }
  let ruInfo := { ruInfo with index := (value >>> 12) &&& 0xff }
  let ruInfo := { ruInfo with codingType := (value >>> 20) &&& 0x1 }
  let ruInfo := { ruInfo with mcs := (value >>> 21) &&& 0xf }
  let ruInfo := { ruInfo with dcm := (value >>> 25) &&& 0x1 }
  let ruInfo := { ruInfo with mcs := (value >>> 26) &&& 0x3f }
  let (_, i) ← ReadU8 i
  pure (ruInfo, i)

/-- `WifiHeMuRtsHeader::Deserialize` run on the object `h` with the iterator
`start`; `ruInfo` is the initial content of the local record, which the source
leaves uninitialised.  The result is the updated object and the returned number
of octets consumed. -/
def Deserialize (h : WifiHeMuRtsHeader) (ruInfo : RuInfo) (start : Buffer) :
    Option (WifiHeMuRtsHeader × Nat) :=
  match userInfoLoop DeserializeBody h.m_numOfUsers start ruInfo [] with
  | none => none
  | some (i, m) => some ({ h with staRuMapInfo := m }, GetDistanceFrom i start)

end WifiHeMuRtsHeader

/-- A sample MU-RTS header holding the first sample record under its AID. -/
def sampleMuRts : WifiHeMuRtsHeader := ⟨0, [(1, sampleRu1)]⟩

/-! ### Basic Trigger -/

/-- The data members of `WifiHEBasicTriggerMacHeader`. -/
structure WifiHEBasicTriggerMacHeader where
  m_numOfUsers : Nat
  staRuMapInfo : staRuMap
  deriving DecidableEq, Repr, Inhabited

namespace WifiHEBasicTriggerMacHeader

/-- `WifiHEBasicTriggerMacHeader::GetSize`, returned as a `uint32_t`. -/
def GetSize (h : WifiHEBasicTriggerMacHeader) : Nat := (6 * h.staRuMapInfo.size) % 4294967296

/-- `WifiHEBasicTriggerMacHeader::SetStaRuMap`. -/
def SetStaRuMap (h : WifiHEBasicTriggerMacHeader) (staMap : staRuMap) :
    WifiHEBasicTriggerMacHeader :=
  { h with staRuMapInfo := staMap }

/-- `WifiHEBasicTriggerMacHeader::SetNumOfUsers`; the argument is a `uint8_t`. -/
def SetNumOfUsers (h : WifiHEBasicTriggerMacHeader) (users : Nat) :
    WifiHEBasicTriggerMacHeader :=
  { h with m_numOfUsers := users % 256 }

/-- The loop of `WifiHEBasicTriggerMacHeader::Serialize` over the entries still
to visit.  The `uint8_t` local `triggerDependent` is declared before the loop
and only ever or-ed into, so it is carried from one iteration to the next. -/
def SerializeLoop (triggerDependent : Nat) : staRuMap → Buffer
  | [] => []
  | j :: rest =>
    let reserved := 0
    let i := WriteHtolsbU32 (userInfoValue j.2) ++ WriteU8 reserved
    let triggerDependent := (triggerDependent ||| (j.2.mpduMuSpacingFactor &&& 0x3)) % 256
    let triggerDependent :=
      (triggerDependent ||| ((j.2.tidAggregationLimit <<< 2) &&& (0x7 <<< 2))) % 256
    let triggerDependent :=
      (triggerDependent ||| ((j.2.acPreferenceLevel <<< 5) &&& (0x1 <<< 5))) % 256
    let triggerDependent :=
      (triggerDependent ||| ((j.2.preferredAc <<< 6) &&& (0x3 <<< 6))) % 256
    i ++ WriteU8 triggerDependent ++ SerializeLoop triggerDependent rest

/-- `WifiHEBasicTriggerMacHeader::Serialize`: the octets written. -/
def Serialize (h : WifiHEBasicTriggerMacHeader) : Buffer :=
  let triggerDependent := 0
  SerializeLoop triggerDependent h.staRuMapInfo

/-- One iteration of the loop of `WifiHEBasicTriggerMacHeader::Deserialize` up
to the insertion. -/
def DeserializeBody (ruInfo : RuInfo) (i : Buffer) : Option (RuInfo × Buffer) := do
  let (value, i) ← ReadLsbtohU32 i
  let ruInfo := setUserInfo ruInfo value
  let (_, i) ← ReadU8 i
  let (value, i) ← ReadU8 i
  let ruInfo := { ruInfo with mpduMuSpacingFactor := value &&& 0x3 }
  let ruInfo := { ruInfo with tidAggregationLimit := (value >>> 2) &&& 0x7 }
  let ruInfo := { ruInfo with acPreferenceLevel := (value >>> 5) &&& 0x1 }
  let ruInfo := { ruInfo with preferredAc := (value >>> 6) &&& 0x3 }
  pure (ruInfo, i)

/-- `WifiHEBasicTriggerMacHeader::Deserialize`, as for the MU-RTS header. -/
def Deserialize (h : WifiHEBasicTriggerMacHeader) (ruInfo : RuInfo) (start : Buffer) :
    Option (WifiHEBasicTriggerMacHeader × Nat) :=
  match userInfoLoop DeserializeBody h.m_numOfUsers start ruInfo [] with
  | none => none
  | some (i, m) => some ({ h with staRuMapInfo := m }, GetDistanceFrom i start)

end WifiHEBasicTriggerMacHeader

/-- A sample Basic Trigger header holding the two sample records under their
AIDs. -/
def sampleBasicTrigger : WifiHEBasicTriggerMacHeader := ⟨0, sampleMap⟩

/-! ### MU-BAR -/

/-- The data members of `WifiHEMuBarTriggerMacHeader`. -/
structure WifiHEMuBarTriggerMacHeader where
  m_numOfUsers : Nat
  staRuMapInfo : staRuMap
  deriving DecidableEq, Repr, Inhabited

namespace WifiHEMuBarTriggerMacHeader

/-- `WifiHEMuBarTriggerMacHeader::GetSize`, returned as a `uint32_t`. -/
def GetSize (h : WifiHEMuBarTriggerMacHeader) : Nat := (7 * h.staRuMapInfo.size) % 4294967296

/-- `WifiHEMuBarTriggerMacHeader::SetNumOfUsers`; the argument is a `uint8_t`. -/
def SetNumOfUsers (h : WifiHEMuBarTriggerMacHeader) (users : Nat) :
    WifiHEMuBarTriggerMacHeader :=
  { h with m_numOfUsers := users % 256 }

/-- The loop of `WifiHEMuBarTriggerMacHeader::Serialize` over the entries still
to visit.  The `uint16_t` local `barControl` is declared before the loop and
only ever or-ed into, so it is carried from one iteration to the next. -/
def SerializeLoop (barControl : Nat) : staRuMap → Buffer
  | [] => []
  | j :: rest =>
    let reserved := 0
    let i := WriteHtolsbU32 (userInfoValue j.2) ++ WriteU8 reserved
    let barControl := if j.2.m_baAckPolicy ≠ 0 then (barControl ||| 0x1) % 65536 else barControl
    let barControl :=
      if j.2.m_multiTid ≠ 0 then (barControl ||| (0x1 <<< 1)) % 65536 else barControl
    let barControl :=
      if j.2.m_compressed ≠ 0 then (barControl ||| (0x1 <<< 2)) % 65536 else barControl
    let barControl := (barControl ||| ((j.2.m_tidInfo <<< 12) &&& (0xf <<< 12))) % 65536
    i ++ WriteHtolsbU16 barControl ++ SerializeLoop barControl rest

/-- `WifiHEMuBarTriggerMacHeader::Serialize`: the octets written. -/
def Serialize (h : WifiHEMuBarTriggerMacHeader) : Buffer :=
  let barControl := 0
  SerializeLoop barControl h.staRuMapInfo

/-- One iteration of the loop of `WifiHEMuBarTriggerMacHeader::Deserialize` up
to the insertion. -/
def DeserializeBody (ruInfo : RuInfo) (i : Buffer) : Option (RuInfo × Buffer) := do
  let (value, i) ← ReadLsbtohU32 i
  let ruInfo := setUserInfo ruInfo value
  let (_, i) ← ReadU8 i
  let (value, i) ← ReadU16 i
  let ruInfo := { ruInfo with m_baAckPolicy := value &&& 0x1 }
  let ruInfo := { ruInfo with m_multiTid := (value >>> 1) &&& 0x1 }
  let ruInfo := { ruInfo with m_compressed := (value >>> 3) &&& 0x1 }
  let ruInfo := { ruInfo with m_tidInfo := (value >>> 12) &&& 0xf }
  pure (ruInfo, i)

/-- `WifiHEMuBarTriggerMacHeader::Deserialize`, as for the MU-RTS header. -/
def Deserialize (h : WifiHEMuBarTriggerMacHeader) (ruInfo : RuInfo) (start : Buffer) :
    Option (WifiHEMuBarTriggerMacHeader × Nat) :=
  match userInfoLoop DeserializeBody h.m_numOfUsers start ruInfo [] with
  | none => none
  | some (i, m) => some ({ h with staRuMapInfo := m }, GetDistanceFrom i start)

end WifiHEMuBarTriggerMacHeader

/-! ### BSRP -/

/-- The data members of `WifiHEBsrpMacHeader`. -/
structure WifiHEBsrpMacHeader where
  m_numOfUsers : Nat
  staRuMapInfo : staRuMap
  deriving DecidableEq, Repr, Inhabited

namespace WifiHEBsrpMacHeader

/-- `WifiHEBsrpMacHeader::GetSize`, returned as a `uint32_t`. -/
def GetSize (h : WifiHEBsrpMacHeader) : Nat := (5 * h.staRuMapInfo.size) % 4294967296

/-- `WifiHEBsrpMacHeader::SetStaRuMap`. -/
def SetStaRuMap (h : WifiHEBsrpMacHeader) (staMap : staRuMap) : WifiHEBsrpMacHeader :=
  { h with staRuMapInfo := staMap }

/-- `WifiHEBsrpMacHeader::SetNumOfUsers`; the argument is a `uint8_t`. -/
def SetNumOfUsers (h : WifiHEBsrpMacHeader) (users : Nat) : WifiHEBsrpMacHeader :=
  { h with m_numOfUsers := users % 256 }

/-- The loop of `WifiHEBsrpMacHeader::Serialize` over the entries still to visit. -/
def SerializeLoop : staRuMap → Buffer
  | [] => []
  | j :: rest =>
    let reserved := 0
    WriteHtolsbU32 (userInfoValue j.2) ++ WriteU8 reserved ++ SerializeLoop rest

/-- `WifiHEBsrpMacHeader::Serialize`: the octets written. -/
def Serialize (h : WifiHEBsrpMacHeader) : Buffer := SerializeLoop h.staRuMapInfo

/-- One iteration of the loop of `WifiHEBsrpMacHeader::Deserialize` up to the
insertion. -/
def DeserializeBody (ruInfo : RuInfo) (i : Buffer) : Option (RuInfo × Buffer) := do
  let (value, i) ← ReadLsbtohU32 i
  let ruInfo := setUserInfo ruInfo value
  let (_, i) ← ReadU8 i
  pure (ruInfo, i)

/-- `WifiHEBsrpMacHeader::Deserialize`, as for the MU-RTS header. -/
def Deserialize (h : WifiHEBsrpMacHeader) (ruInfo : RuInfo) (start : Buffer) :
    Option (WifiHEBsrpMacHeader × Nat) :=
  match userInfoLoop DeserializeBody h.m_numOfUsers start ruInfo [] with
  | none => none
  | some (i, m) => some ({ h with staRuMapInfo := m }, GetDistanceFrom i start)

end WifiHEBsrpMacHeader

end ns3

namespace ns3

/-! ## Further samples and notions for the user-info records -/

/-- A sample MU-BAR header holding the first sample record under its AID. -/
def sampleMuBar : WifiHEMuBarTriggerMacHeader := ⟨0, [(1, sampleRu1)]⟩

/-- A sample MU-BAR header holding the two sample records under their AIDs. -/
def sampleMuBarTwo : WifiHEMuBarTriggerMacHeader := ⟨0, sampleMap⟩

/-- A sample BSRP header holding the two sample records under their AIDs. -/
def sampleBsrp : WifiHEBsrpMacHeader := ⟨0, sampleMap⟩

/-- The members of a record that the 32-bit user-info word carries: AID, RU
index, coding type, MCS, DCM and spatial-stream allocation. -/
def RuInfo.userInfo (r : RuInfo) : Nat × Nat × Nat × Nat × Nat × Nat :=
  (r.m_aid, r.index, r.codingType, r.mcs, r.dcm, r.ssAllocation)

/-- Every member that the user-info word carries is within its width on the
wire: 12, 8, 1, 4, 1 and 6 bits. -/
def RuInfo.WithinWireWidth (r : RuInfo) : Prop :=
  r.m_aid < 4096 ∧ r.index < 256 ∧ r.codingType < 2 ∧ r.mcs < 16 ∧ r.dcm < 2 ∧
    r.ssAllocation < 64

instance (r : RuInfo) : Decidable r.WithinWireWidth := by
  unfold RuInfo.WithinWireWidth; infer_instance

instance (m : staRuMap) : Decidable m.KeyedByAid := by
  unfold staRuMap.KeyedByAid; infer_instance

/-- The map that a caller builds from the empty map by inserting the records of
a list one after the other, each under its AID. -/
def staRuMap.ofRecords (rs : List RuInfo) : staRuMap :=
  rs.foldl (fun m r => m.insert r.m_aid r) []

end ns3

namespace ns3

/-! ## Frame kinds and the accessors of the MAC header -/

/-- Modelled from the spec: the enumeration `WifiMacType` is declared outside the
sources; these are the enumerators that `SetType` and `GetType` name. -/
inductive WifiMacType
  | WIFI_MAC_CTL_CTLWRAPPER
  | WIFI_MAC_CTL_BACKREQ
  | WIFI_MAC_CTL_BACKRESP
  | WIFI_MAC_CTL_RTS
  | WIFI_MAC_CTL_CTS
  | WIFI_MAC_CTL_ACK
  | WIFI_MAC_MGT_ASSOCIATION_REQUEST
  | WIFI_MAC_MGT_ASSOCIATION_RESPONSE
  | WIFI_MAC_MGT_REASSOCIATION_REQUEST
  | WIFI_MAC_MGT_REASSOCIATION_RESPONSE
  | WIFI_MAC_MGT_PROBE_REQUEST
  | WIFI_MAC_MGT_PROBE_RESPONSE
  | WIFI_MAC_MGT_BEACON
  | WIFI_MAC_MGT_DISASSOCIATION
  | WIFI_MAC_MGT_AUTHENTICATION
  | WIFI_MAC_MGT_DEAUTHENTICATION
  | WIFI_MAC_MGT_ACTION
  | WIFI_MAC_MGT_ACTION_NO_ACK
  | WIFI_MAC_MGT_MULTIHOP_ACTION
  | WIFI_MAC_DATA
  | WIFI_MAC_DATA_CFACK
  | WIFI_MAC_DATA_CFPOLL
  | WIFI_MAC_DATA_CFACK_CFPOLL
  | WIFI_MAC_DATA_NULL
  | WIFI_MAC_DATA_NULL_CFACK
  | WIFI_MAC_DATA_NULL_CFPOLL
  | WIFI_MAC_DATA_NULL_CFACK_CFPOLL
  | WIFI_MAC_QOSDATA
  | WIFI_MAC_QOSDATA_CFACK
  | WIFI_MAC_QOSDATA_CFPOLL
  | WIFI_MAC_QOSDATA_CFACK_CFPOLL
  | WIFI_MAC_QOSDATA_NULL
  | WIFI_MAC_QOSDATA_NULL_CFPOLL
  | WIFI_MAC_QOSDATA_NULL_CFACK_CFPOLL
  | WIFI_MAC_CTL_HE_TRIGGER
  deriving DecidableEq, Repr, Inhabited

/-- Modelled from the spec: the enumeration `WifiMacHeader::QosAckPolicy` is
declared outside the sources; these are the enumerators that `SetQosAckPolicy`
names. -/
inductive QosAckPolicy
  | NORMAL_ACK
  | NO_ACK
  | NO_EXPLICIT_ACK
  | BLOCK_ACK
  deriving DecidableEq, Repr, Inhabited

/-- Modelled from the spec: `Mac48Address::GetBroadcast`, the address
ff:ff:ff:ff:ff:ff. -/
def Mac48Address.GetBroadcast : Mac48Address := ⟨255, 255, 255, 255, 255, 255⟩

/-- Modelled from the spec: `Mac48Address::IsBroadcast`. -/
def Mac48Address.IsBroadcast (a : Mac48Address) : Bool := decide (a = Mac48Address.GetBroadcast)

/-- Modelled from the spec: `Mac48Address::IsGroup`, the group bit of the first
octet. -/
def Mac48Address.IsGroup (a : Mac48Address) : Bool := decide (a.b0 &&& 0x01 = 0x01)

namespace WifiMacHeader

/-- `WifiMacHeader::WifiMacHeader ()`: the constructor sets the ten members that
its initialiser list and body name; every other member keeps what the storage
`mem`, in which the object is constructed, held. -/
def construct (mem : WifiMacHeader) : WifiMacHeader :=
  { mem with
    m_ctrlMoreData := 0
    m_ctrlWep := 0
    m_ctrlOrder := 1
    m_amsduPresent := 0
    m_htControlType := 0
    m_htControlId := 0
    m_qsize_vo := 0
    m_qsize_vi := 0
    m_qsize_be := 0
    m_qsize_bk := 0 }

/-- `WifiMacHeader::SetDsFrom`. -/
def SetDsFrom (h : WifiMacHeader) : WifiMacHeader := { h with m_ctrlFromDs := 1 }

/-- `WifiMacHeader::SetDsNotFrom`. -/
def SetDsNotFrom (h : WifiMacHeader) : WifiMacHeader := { h with m_ctrlFromDs := 0 }

/-- `WifiMacHeader::SetDsTo`. -/
def SetDsTo (h : WifiMacHeader) : WifiMacHeader := { h with m_ctrlToDs := 1 }

/-- `WifiMacHeader::SetDsNotTo`. -/
def SetDsNotTo (h : WifiMacHeader) : WifiMacHeader := { h with m_ctrlToDs := 0 }

/-- `WifiMacHeader::SetAddr1`. -/
def SetAddr1 (h : WifiMacHeader) (address : Mac48Address) : WifiMacHeader :=
  { h with m_addr1 := address }

/-- `WifiMacHeader::SetAddr2`. -/
def SetAddr2 (h : WifiMacHeader) (address : Mac48Address) : WifiMacHeader :=
  { h with m_addr2 := address }

/-- `WifiMacHeader::SetAddr3`. -/
def SetAddr3 (h : WifiMacHeader) (address : Mac48Address) : WifiMacHeader :=
  { h with m_addr3 := address }

/-- `WifiMacHeader::SetAddr4`. -/
def SetAddr4 (h : WifiMacHeader) (address : Mac48Address) : WifiMacHeader :=
  { h with m_addr4 := address }

/-- `WifiMacHeader::SetAssocReq`. -/
def SetAssocReq (h : WifiMacHeader) : WifiMacHeader :=
  { h with m_ctrlType := TYPE_MGT, m_ctrlSubtype := 0 }

/-- `WifiMacHeader::SetAssocResp`. -/
def SetAssocResp (h : WifiMacHeader) : WifiMacHeader :=
  { h with m_ctrlType := TYPE_MGT, m_ctrlSubtype := 1 }

/-- `WifiMacHeader::SetProbeReq`. -/
def SetProbeReq (h : WifiMacHeader) : WifiMacHeader :=
  { h with m_ctrlType := TYPE_MGT, m_ctrlSubtype := 4 }

/-- `WifiMacHeader::SetProbeResp`. -/
def SetProbeResp (h : WifiMacHeader) : WifiMacHeader :=
  { h with m_ctrlType := TYPE_MGT, m_ctrlSubtype := 5 }

/-- `WifiMacHeader::SetBeacon`. -/
def SetBeacon (h : WifiMacHeader) : WifiMacHeader :=
  { h with m_ctrlType := TYPE_MGT, m_ctrlSubtype := 8 }

/-- `WifiMacHeader::SetBlockAckReq`. -/
def SetBlockAckReq (h : WifiMacHeader) : WifiMacHeader :=
  { h with m_ctrlType := TYPE_CTL, m_ctrlSubtype := 8 }

/-- `WifiMacHeader::SetBlockAck`. -/
def SetBlockAck (h : WifiMacHeader) : WifiMacHeader :=
  { h with m_ctrlType := TYPE_CTL, m_ctrlSubtype := 9 }

/-- `WifiMacHeader::SetTypeData`. -/
def SetTypeData (h : WifiMacHeader) : WifiMacHeader :=
  { h with m_ctrlType := TYPE_DATA, m_ctrlSubtype := 0 }

/-- `WifiMacHeader::SetAction`. -/
def SetAction (h : WifiMacHeader) : WifiMacHeader :=
  { h with m_ctrlType := TYPE_MGT, m_ctrlSubtype := 0x0D }

/-- `WifiMacHeader::SetMultihopAction`. -/
def SetMultihopAction (h : WifiMacHeader) : WifiMacHeader :=
  { h with m_ctrlType := TYPE_MGT, m_ctrlSubtype := 0x0F }

/-- The `switch` of `WifiMacHeader::SetType`: the type and subtype that each
enumerator selects. -/
def typeAndSubtype : WifiMacType → Nat × Nat
  | .WIFI_MAC_CTL_CTLWRAPPER => (TYPE_CTL, SUBTYPE_CTL_CTLWRAPPER)
  | .WIFI_MAC_CTL_BACKREQ => (TYPE_CTL, SUBTYPE_CTL_BACKREQ)
  | .WIFI_MAC_CTL_BACKRESP => (TYPE_CTL, SUBTYPE_CTL_BACKRESP)
  | .WIFI_MAC_CTL_RTS => (TYPE_CTL, SUBTYPE_CTL_RTS)
  | .WIFI_MAC_CTL_CTS => (TYPE_CTL, SUBTYPE_CTL_CTS)
  | .WIFI_MAC_CTL_ACK => (TYPE_CTL, SUBTYPE_CTL_ACK)
  | .WIFI_MAC_MGT_ASSOCIATION_REQUEST => (TYPE_MGT, 0)
  | .WIFI_MAC_MGT_ASSOCIATION_RESPONSE => (TYPE_MGT, 1)
  | .WIFI_MAC_MGT_REASSOCIATION_REQUEST => (TYPE_MGT, 2)
  | .WIFI_MAC_MGT_REASSOCIATION_RESPONSE => (TYPE_MGT, 3)
  | .WIFI_MAC_MGT_PROBE_REQUEST => (TYPE_MGT, 4)
  | .WIFI_MAC_MGT_PROBE_RESPONSE => (TYPE_MGT, 5)
  | .WIFI_MAC_MGT_BEACON => (TYPE_MGT, 8)
  | .WIFI_MAC_MGT_DISASSOCIATION => (TYPE_MGT, 10)
  | .WIFI_MAC_MGT_AUTHENTICATION => (TYPE_MGT, 11)
  | .WIFI_MAC_MGT_DEAUTHENTICATION => (TYPE_MGT, 12)
  | .WIFI_MAC_MGT_ACTION => (TYPE_MGT, 13)
  | .WIFI_MAC_MGT_ACTION_NO_ACK => (TYPE_MGT, 14)
  | .WIFI_MAC_MGT_MULTIHOP_ACTION => (TYPE_MGT, 15)
  | .WIFI_MAC_DATA => (TYPE_DATA, 0)
  | .WIFI_MAC_DATA_CFACK => (TYPE_DATA, 1)
  | .WIFI_MAC_DATA_CFPOLL => (TYPE_DATA, 2)
  | .WIFI_MAC_DATA_CFACK_CFPOLL => (TYPE_DATA, 3)
  | .WIFI_MAC_DATA_NULL => (TYPE_DATA, 4)
  | .WIFI_MAC_DATA_NULL_CFACK => (TYPE_DATA, 5)
  | .WIFI_MAC_DATA_NULL_CFPOLL => (TYPE_DATA, 6)
  | .WIFI_MAC_DATA_NULL_CFACK_CFPOLL => (TYPE_DATA, 7)
  | .WIFI_MAC_QOSDATA => (TYPE_DATA, 8)
  | .WIFI_MAC_QOSDATA_CFACK => (TYPE_DATA, 9)
  | .WIFI_MAC_QOSDATA_CFPOLL => (TYPE_DATA, 10)
  | .WIFI_MAC_QOSDATA_CFACK_CFPOLL => (TYPE_DATA, 11)
  | .WIFI_MAC_QOSDATA_NULL => (TYPE_DATA, 12)
  | .WIFI_MAC_QOSDATA_NULL_CFPOLL => (TYPE_DATA, 14)
  | .WIFI_MAC_QOSDATA_NULL_CFACK_CFPOLL => (TYPE_DATA, 15)
  | .WIFI_MAC_CTL_HE_TRIGGER => (TYPE_CTL, SUBTYPE_CTL_TRIGGER)

/-- `WifiMacHeader::SetType`: the type and subtype of the enumerator are stored
and the two DS flags are cleared. -/
def SetType (h : WifiMacHeader) (type : WifiMacType) : WifiMacHeader :=
  { h with
    m_ctrlType := (typeAndSubtype type).1
    m_ctrlSubtype := (typeAndSubtype type).2
    m_ctrlToDs := 0
    m_ctrlFromDs := 0 }

/-- `WifiMacHeader::GetType`; `none` is the assertion after the `switch`, reached
when no case returns. -/
def GetType (h : WifiMacHeader) : Option WifiMacType :=
  if h.m_ctrlType = TYPE_MGT then
    match h.m_ctrlSubtype with
    | 0 => some .WIFI_MAC_MGT_ASSOCIATION_REQUEST
    | 1 => some .WIFI_MAC_MGT_ASSOCIATION_RESPONSE
    | 2 => some .WIFI_MAC_MGT_REASSOCIATION_REQUEST
    | 3 => some .WIFI_MAC_MGT_REASSOCIATION_RESPONSE
    | 4 => some .WIFI_MAC_MGT_PROBE_REQUEST
    | 5 => some .WIFI_MAC_MGT_PROBE_RESPONSE
    | 8 => some .WIFI_MAC_MGT_BEACON
    | 10 => some .WIFI_MAC_MGT_DISASSOCIATION
    | 11 => some .WIFI_MAC_MGT_AUTHENTICATION
    | 12 => some .WIFI_MAC_MGT_DEAUTHENTICATION
    | 13 => some .WIFI_MAC_MGT_ACTION
    | 14 => some .WIFI_MAC_MGT_ACTION_NO_ACK
    | 15 => some .WIFI_MAC_MGT_MULTIHOP_ACTION
    | _ => none
  else if h.m_ctrlType = TYPE_CTL then
    if h.m_ctrlSubtype = SUBTYPE_CTL_BACKREQ then some .WIFI_MAC_CTL_BACKREQ
    else if h.m_ctrlSubtype = SUBTYPE_CTL_BACKRESP then some .WIFI_MAC_CTL_BACKRESP
    else if h.m_ctrlSubtype = SUBTYPE_CTL_RTS then some .WIFI_MAC_CTL_RTS
    else if h.m_ctrlSubtype = SUBTYPE_CTL_CTS then some .WIFI_MAC_CTL_CTS
    else if h.m_ctrlSubtype = SUBTYPE_CTL_ACK then some .WIFI_MAC_CTL_ACK
    else if h.m_ctrlSubtype = SUBTYPE_CTL_TRIGGER then some .WIFI_MAC_CTL_HE_TRIGGER
    else none
  else if h.m_ctrlType = TYPE_DATA then
    match h.m_ctrlSubtype with
    | 0 => some .WIFI_MAC_DATA
    | 1 => some .WIFI_MAC_DATA_CFACK
    | 2 => some .WIFI_MAC_DATA_CFPOLL
    | 3 => some .WIFI_MAC_DATA_CFACK_CFPOLL
    | 4 => some .WIFI_MAC_DATA_NULL
    | 5 => some .WIFI_MAC_DATA_NULL_CFACK
    | 6 => some .WIFI_MAC_DATA_NULL_CFPOLL
    | 7 => some .WIFI_MAC_DATA_NULL_CFACK_CFPOLL
    | 8 => some .WIFI_MAC_QOSDATA
    | 9 => some .WIFI_MAC_QOSDATA_CFACK
    | 10 => some .WIFI_MAC_QOSDATA_CFPOLL
    | 11 => some .WIFI_MAC_QOSDATA_CFACK_CFPOLL
    | 12 => some .WIFI_MAC_QOSDATA_NULL
    | 14 => some .WIFI_MAC_QOSDATA_NULL_CFPOLL
    | 15 => some .WIFI_MAC_QOSDATA_NULL_CFACK_CFPOLL
    | _ => none
  else none

/-- `WifiMacHeader::SetNoMoreFragments`. -/
def SetNoMoreFragments (h : WifiMacHeader) : WifiMacHeader := { h with m_ctrlMoreFrag := 0 }

/-- `WifiMacHeader::SetMoreFragments`. -/
def SetMoreFragments (h : WifiMacHeader) : WifiMacHeader := { h with m_ctrlMoreFrag := 1 }

/-- `WifiMacHeader::SetOrder`. -/
def SetOrder (h : WifiMacHeader) : WifiMacHeader := { h with m_ctrlOrder := 1 }

/-- `WifiMacHeader::SetNoOrder`. -/
def SetNoOrder (h : WifiMacHeader) : WifiMacHeader := { h with m_ctrlOrder := 0 }

/-- `WifiMacHeader::SetRetry`. -/
def SetRetry (h : WifiMacHeader) : WifiMacHeader := { h with m_ctrlRetry := 1 }

/-- `WifiMacHeader::SetNoRetry`. -/
def SetNoRetry (h : WifiMacHeader) : WifiMacHeader := { h with m_ctrlRetry := 0 }

/-- `WifiMacHeader::SetQosTid`; the argument is a `uint8_t`. -/
def SetQosTid (h : WifiMacHeader) (tid : Nat) : WifiMacHeader := { h with m_qosTid := tid % 256 }

/-- `WifiMacHeader::SetQosEosp`. -/
def SetQosEosp (h : WifiMacHeader) : WifiMacHeader := { h with m_qosEosp := 1 }

/-- `WifiMacHeader::SetQosNoEosp`. -/
def SetQosNoEosp (h : WifiMacHeader) : WifiMacHeader := { h with m_qosEosp := 0 }

/-- `WifiMacHeader::SetQosAckPolicy`. -/
def SetQosAckPolicy (h : WifiMacHeader) (policy : QosAckPolicy) : WifiMacHeader :=
  match policy with
  | .NORMAL_ACK => { h with m_qosAckPolicy := 0 }
  | .NO_ACK => { h with m_qosAckPolicy := 1 }
  | .NO_EXPLICIT_ACK => { h with m_qosAckPolicy := 2 }
  | .BLOCK_ACK => { h with m_qosAckPolicy := 3 }

/-- `WifiMacHeader::SetQosAmsdu`. -/
def SetQosAmsdu (h : WifiMacHeader) : WifiMacHeader := { h with m_amsduPresent := 1 }

/-- `WifiMacHeader::SetQosNoAmsdu`. -/
def SetQosNoAmsdu (h : WifiMacHeader) : WifiMacHeader := { h with m_amsduPresent := 0 }

/-- `WifiMacHeader::SetQosTxopLimit`; the argument is a `uint8_t`. -/
def SetQosTxopLimit (h : WifiMacHeader) (txop : Nat) : WifiMacHeader :=
  { h with m_qosStuff := txop % 256 }

/-- `WifiMacHeader::GetAddr1`. -/
def GetAddr1 (h : WifiMacHeader) : Mac48Address := h.m_addr1

/-- `WifiMacHeader::GetAddr2`. -/
def GetAddr2 (h : WifiMacHeader) : Mac48Address := h.m_addr2

/-- `WifiMacHeader::GetAddr3`. -/
def GetAddr3 (h : WifiMacHeader) : Mac48Address := h.m_addr3

/-- `WifiMacHeader::GetAddr4`. -/
def GetAddr4 (h : WifiMacHeader) : Mac48Address := h.m_addr4

/-- `WifiMacHeader::IsFromDs`. -/
def IsFromDs (h : WifiMacHeader) : Bool := decide (h.m_ctrlFromDs = 1)

/-- `WifiMacHeader::IsToDs`. -/
def IsToDs (h : WifiMacHeader) : Bool := decide (h.m_ctrlToDs = 1)

/-- `WifiMacHeader::IsData`. -/
def IsData (h : WifiMacHeader) : Bool := decide (h.m_ctrlType = TYPE_DATA)

/-- `WifiMacHeader::IsQosData`. -/
def IsQosData (h : WifiMacHeader) : Bool :=
  decide (h.m_ctrlType = TYPE_DATA ∧ h.m_ctrlSubtype &&& 0x08 ≠ 0)

/-- `WifiMacHeader::IsCtl`. -/
def IsCtl (h : WifiMacHeader) : Bool := decide (h.m_ctrlType = TYPE_CTL)

/-- `WifiMacHeader::IsMgt`. -/
def IsMgt (h : WifiMacHeader) : Bool := decide (h.m_ctrlType = TYPE_MGT)

/-- `WifiMacHeader::IsSetOrder`. -/
def IsSetOrder (h : WifiMacHeader) : Bool := decide (h.m_ctrlOrder = 1)

/-- `WifiMacHeader::IsCtrlBsrHdr`. -/
def IsCtrlBsrHdr (h : WifiMacHeader) : Bool :=
  decide (h.m_htControlType = 3 ∧ h.m_htControlId = 3)

/-- `WifiMacHeader::IsCtrlBsrMtid`. -/
def IsCtrlBsrMtid (h : WifiMacHeader) : Bool :=
  decide (h.m_htControlType = 3 ∧ h.m_htControlId = 7)

/-- `WifiMacHeader::IsAssocReq`; `none` when `GetType` fails its assertion. -/
def IsAssocReq (h : WifiMacHeader) : Option Bool := do
  let t ← h.GetType
  pure (decide (t = .WIFI_MAC_MGT_ASSOCIATION_REQUEST))

/-- `WifiMacHeader::IsAssocResp`; `none` when `GetType` fails its assertion. -/
def IsAssocResp (h : WifiMacHeader) : Option Bool := do
  let t ← h.GetType
  pure (decide (t = .WIFI_MAC_MGT_ASSOCIATION_RESPONSE))

/-- `WifiMacHeader::IsProbeReq`; `none` when `GetType` fails its assertion. -/
def IsProbeReq (h : WifiMacHeader) : Option Bool := do
  let t ← h.GetType
  pure (decide (t = .WIFI_MAC_MGT_PROBE_REQUEST))

/-- `WifiMacHeader::IsDisassociation`; `none` when `GetType` fails its
assertion. -/
def IsDisassociation (h : WifiMacHeader) : Option Bool := do
  let t ← h.GetType
  pure (decide (t = .WIFI_MAC_MGT_DISASSOCIATION))

/-- `WifiMacHeader::IsAction`; `none` when `GetType` fails its assertion. -/
def IsAction (h : WifiMacHeader) : Option Bool := do
  let t ← h.GetType
  pure (decide (t = .WIFI_MAC_MGT_ACTION))

/-- `WifiMacHeader::IsQosAmsdu`; `none` is the assertion `IsQosData ()`. -/
def IsQosAmsdu (h : WifiMacHeader) : Option Bool :=
  if h.IsQosData then some (decide (h.m_amsduPresent = 1)) else none

/-- `WifiMacHeader::GetQosTid`; `none` is the assertion `IsQosData ()`. -/
def GetQosTid (h : WifiMacHeader) : Option Nat :=
  if h.IsQosData then some h.m_qosTid else none

end WifiMacHeader

end ns3

namespace ns3

/-! ## Collaborators of the access point

The access point (`ap-wifi-mac.cc`) works with classes that are declared outside
the sources.  They are modelled from the spec, each by the members that the
access point reads or sets. -/

/-- Modelled from the spec: the enumeration `WifiModulationClass` is declared
outside the sources; these are the enumerators that the sources name. -/
inductive WifiModulationClass
  | WIFI_MOD_CLASS_UNKNOWN
  | WIFI_MOD_CLASS_DSSS
  | WIFI_MOD_CLASS_HR_DSSS
  | WIFI_MOD_CLASS_ERP_OFDM
  | WIFI_MOD_CLASS_OFDM
  | WIFI_MOD_CLASS_HT
  | WIFI_MOD_CLASS_VHT
  | WIFI_MOD_CLASS_HE
  deriving DecidableEq, Repr, Inhabited

/-- Modelled from the spec: the enumeration `WifiCodeRate` is declared outside
the sources; these are the enumerators that the sources name. -/
inductive WifiCodeRate
  | WIFI_CODE_RATE_UNDEFINED
  | WIFI_CODE_RATE_3_4
  | WIFI_CODE_RATE_2_3
  | WIFI_CODE_RATE_1_2
  | WIFI_CODE_RATE_5_6
  deriving DecidableEq, Repr, Inhabited

/-- The members of `WifiModeFactory::WifiModeItem` that `wifi-mode.cc` reads,
without the name. -/
structure WifiModeItem where
  modClass : WifiModulationClass
  constellationSize : Nat
  codingRate : WifiCodeRate
  isMandatory : Bool
  mcsValue : Nat
  deriving DecidableEq, Repr, Inhabited

/-- A `WifiMode`: the handle `m_uid`, together with the item that
`WifiModeFactory::GetFactory ()->Get (m_uid)` returns for it. -/
structure WifiMode where
  m_uid : Nat
  item : WifiModeItem
  deriving DecidableEq, Repr, Inhabited

namespace WifiMode

/-- `WifiMode::GetUid`. -/
def GetUid (m : WifiMode) : Nat := m.m_uid

/-- `WifiMode::GetModulationClass`. -/
def GetModulationClass (m : WifiMode) : WifiModulationClass := m.item.modClass

/-- `WifiMode::IsMandatory`. -/
def IsMandatory (m : WifiMode) : Bool := m.item.isMandatory

/-- `WifiMode::GetMcsValue`; `none` is the assertion of the branch for a mode
that is not an HT, VHT or HE MCS. -/
def GetMcsValue (m : WifiMode) : Option Nat :=
  if m.item.modClass = .WIFI_MOD_CLASS_HT ∨ m.item.modClass = .WIFI_MOD_CLASS_VHT ∨
      m.item.modClass = .WIFI_MOD_CLASS_HE then
    some m.item.mcsValue
  else none

end WifiMode

/-- Modelled from the spec: the set of rates of a `SupportedRates` element, held
as the rates (in bit/s) it lists, those among them marked basic, and the BSS
membership selectors. -/
structure SupportedRates where
  m_rates : List Nat
  m_basicRates : List Nat
  m_selectors : List Nat
  deriving DecidableEq, Repr, Inhabited

namespace SupportedRates

/-- Modelled from the spec: `SupportedRates::IsSupportedRate`. -/
def IsSupportedRate (r : SupportedRates) (bs : Nat) : Bool := decide (bs ∈ r.m_rates)

/-- Modelled from the spec: `SupportedRates::AddSupportedRate`. -/
def AddSupportedRate (r : SupportedRates) (bs : Nat) : SupportedRates :=
  if bs ∈ r.m_rates then r else { r with m_rates := r.m_rates ++ [bs] }

/-- Modelled from the spec: `SupportedRates::SetBasicRate`. -/
def SetBasicRate (r : SupportedRates) (bs : Nat) : SupportedRates :=
  let r := r.AddSupportedRate bs
  if bs ∈ r.m_basicRates then r else { r with m_basicRates := r.m_basicRates ++ [bs] }

/-- Modelled from the spec: `SupportedRates::AddBssMembershipSelectorRate`. -/
def AddBssMembershipSelectorRate (r : SupportedRates) (bs : Nat) : SupportedRates :=
  if bs ∈ r.m_selectors then r else { r with m_selectors := r.m_selectors ++ [bs] }

end SupportedRates

/-- Modelled from the spec: the two flags of `CapabilityInformation` that the
access point sets and reads. -/
structure CapabilityInformation where
  shortPreamble : Bool
  shortSlotTime : Bool
  deriving DecidableEq, Repr, Inhabited

namespace CapabilityInformation

/-- Modelled from the spec: `CapabilityInformation::SetShortPreamble`. -/
def SetShortPreamble (c : CapabilityInformation) (b : Bool) : CapabilityInformation :=
  { c with shortPreamble := b }

/-- Modelled from the spec: `CapabilityInformation::SetShortSlotTime`. -/
def SetShortSlotTime (c : CapabilityInformation) (b : Bool) : CapabilityInformation :=
  { c with shortSlotTime := b }

/-- Modelled from the spec: `CapabilityInformation::IsShortPreamble`. -/
def IsShortPreamble (c : CapabilityInformation) : Bool := c.shortPreamble

/-- Modelled from the spec: `CapabilityInformation::IsShortSlotTime`. -/
def IsShortSlotTime (c : CapabilityInformation) : Bool := c.shortSlotTime

end CapabilityInformation

/-- Modelled from the spec: what the access point reads of an `HtCapabilities`
element, the capabilities-info word and the receive MCS set. -/
structure HtCapabilities where
  info : Nat
  supportedMcs : List Nat
  deriving DecidableEq, Repr, Inhabited

namespace HtCapabilities

/-- Modelled from the spec: `HtCapabilities::GetHtCapabilitiesInfo`. -/
def GetHtCapabilitiesInfo (c : HtCapabilities) : Nat := c.info

/-- Modelled from the spec: `HtCapabilities::IsSupportedMcs`. -/
def IsSupportedMcs (c : HtCapabilities) (mcs : Nat) : Bool := decide (mcs ∈ c.supportedMcs)

end HtCapabilities

/-- Modelled from the spec: what the access point reads of a `VhtCapabilities`
element, the capabilities-info word and the transmit MCS set. -/
structure VhtCapabilities where
  info : Nat
  supportedTxMcs : List Nat
  deriving DecidableEq, Repr, Inhabited

namespace VhtCapabilities

/-- Modelled from the spec: `VhtCapabilities::GetVhtCapabilitiesInfo`. -/
def GetVhtCapabilitiesInfo (c : VhtCapabilities) : Nat := c.info

/-- Modelled from the spec: `VhtCapabilities::IsSupportedTxMcs`. -/
def IsSupportedTxMcs (c : VhtCapabilities) (mcs : Nat) : Bool :=
  decide (mcs ∈ c.supportedTxMcs)

end VhtCapabilities

/-- Modelled from the spec: the members of an `ErpInformation` element that the
access point sets; a default-constructed element has them all zero. -/
structure ErpInformation where
  erpSupported : Nat
  nonErpPresent : Nat
  useProtection : Nat
  barkerPreambleMode : Nat
  deriving DecidableEq, Repr, Inhabited

/-- Modelled from the spec: the enumeration of HT protection modes; these are
the enumerators that the access point names. -/
inductive HtProtectionType
  | NO_PROTECTION
  | MIXED_MODE_PROTECTION
  deriving DecidableEq, Repr, Inhabited

/-- Modelled from the spec: the members of an `HtOperations` element that the
access point sets. -/
structure HtOperations where
  htSupported : Nat
  htProtection : HtProtectionType
  deriving DecidableEq, Repr, Inhabited

/-- Modelled from the spec: the members of a `DsssParameterSet` element that the
access point sets. -/
structure DsssParameterSet where
  dsssSupported : Nat
  currentChannel : Nat
  deriving DecidableEq, Repr, Inhabited

/-- Modelled from the spec: a `StatusCode`, 0 for success and 1 for failure. -/
structure StatusCode where
  m_code : Nat
  deriving DecidableEq, Repr, Inhabited

namespace StatusCode

/-- Modelled from the spec: `StatusCode::SetSuccess`. -/
def SetSuccess (_ : StatusCode) : StatusCode := ⟨0⟩

/-- Modelled from the spec: `StatusCode::SetFailure`. -/
def SetFailure (_ : StatusCode) : StatusCode := ⟨1⟩

/-- Modelled from the spec: `StatusCode::IsSuccess`. -/
def IsSuccess (c : StatusCode) : Bool := decide (c.m_code = 0)

end StatusCode

/-- Modelled from the spec: the members of an association request that the
access point reads. -/
structure MgtAssocRequestHeader where
  m_capability : CapabilityInformation
  m_rates : SupportedRates
  m_htCapability : HtCapabilities
  m_vhtCapability : VhtCapabilities
  deriving DecidableEq, Repr, Inhabited

/-- Modelled from the spec: the members of an association response that the
access point sets.  Of the EDCA parameter set and of the HT and VHT capabilities
the model keeps only whether the element was set, their content being built by
classes outside the sources. -/
structure MgtAssocResponseHeader where
  m_rates : SupportedRates
  m_capability : CapabilityInformation
  m_code : StatusCode
  m_aid : Nat
  m_color : Nat
  m_erpInformation : ErpInformation
  m_edcaParameterSet : Bool
  m_htCapability : Bool
  m_htOperations : HtOperations
  m_vhtCapability : Bool
  deriving DecidableEq, Repr, Inhabited

/-- Modelled from the spec: the members of a probe response that the access
point sets, as for the association response. -/
structure MgtProbeResponseHeader where
  m_ssid : List Nat
  m_rates : SupportedRates
  m_beaconInterval : Nat
  m_capability : CapabilityInformation
  m_dsssParameterSet : DsssParameterSet
  m_erpInformation : ErpInformation
  m_edcaParameterSet : Bool
  m_htCapability : Bool
  m_htOperations : HtOperations
  m_vhtCapability : Bool
  deriving DecidableEq, Repr, Inhabited

/-- Modelled from the spec: the categories of an action frame; the access point
names `BLOCK_ACK` only. -/
inductive CategoryValue
  | BLOCK_ACK
  | other (n : Nat)
  deriving DecidableEq, Repr, Inhabited

/-- Modelled from the spec: the actions of the Block Ack category. -/
inductive BlockAckActionValue
  | BLOCK_ACK_ADDBA_REQUEST
  | BLOCK_ACK_ADDBA_RESPONSE
  | BLOCK_ACK_DELBA
  deriving DecidableEq, Repr, Inhabited

/-- Modelled from the spec: a `WifiActionHeader`, its category and, read as a
Block Ack action, its action value. -/
structure WifiActionHeader where
  m_category : CategoryValue
  blockAck : BlockAckActionValue
  deriving DecidableEq, Repr, Inhabited

/-- Modelled from the spec: the members of an ADDBA request that the access
point reads. -/
structure MgtAddBaRequestHeader where
  m_amsduSupport : Bool
  m_immediateBlockAck : Bool
  m_tid : Nat
  m_bufferSize : Nat
  m_timeoutValue : Nat
  m_startingSeq : Nat
  deriving DecidableEq, Repr, Inhabited

/-- Modelled from the spec: the members of an ADDBA response that the access
point sets and reads. -/
structure MgtAddBaResponseHeader where
  m_code : StatusCode
  m_amsduSupport : Bool
  m_immediateBlockAck : Bool
  m_tid : Nat
  m_bufferSize : Nat
  m_timeoutValue : Nat
  deriving DecidableEq, Repr, Inhabited

/-- Modelled from the spec: the members of a DELBA frame that the access point
reads. -/
structure MgtDelBaHeader where
  m_byOriginator : Bool
  m_tid : Nat
  deriving DecidableEq, Repr, Inhabited

/-- Modelled from the spec: the header of an A-MSDU sub-frame. -/
structure AmsduSubframeHeader where
  m_da : Mac48Address
  m_sa : Mac48Address
  m_length : Nat
  deriving DecidableEq, Repr, Inhabited

namespace AmsduSubframeHeader

/-- Modelled from the spec: `AmsduSubframeHeader::GetDestinationAddr`. -/
def GetDestinationAddr (h : AmsduSubframeHeader) : Mac48Address := h.m_da

/-- Modelled from the spec: `AmsduSubframeHeader::GetSourceAddr`. -/
def GetSourceAddr (h : AmsduSubframeHeader) : Mac48Address := h.m_sa

end AmsduSubframeHeader

/-- Modelled from the spec: a header that `Packet::AddHeader` puts in front of a
packet and `Packet::RemoveHeader` takes off it. -/
inductive PacketHeader
  | assocRequest (h : MgtAssocRequestHeader)
  | assocResponse (h : MgtAssocResponseHeader)
  | probeResponse (h : MgtProbeResponseHeader)
  | action (h : WifiActionHeader)
  | addBaRequest (h : MgtAddBaRequestHeader)
  | addBaResponse (h : MgtAddBaResponseHeader)
  | delBa (h : MgtDelBaHeader)
  deriving DecidableEq, Repr, Inhabited

/-- Modelled from the spec: a packet, as the headers in front of it (the
outermost first) and its payload. -/
structure Packet where
  headers : List PacketHeader
  payload : Buffer
  deriving DecidableEq, Repr, Inhabited

namespace Packet

/-- Modelled from the spec: `Create<Packet> ()`, the empty packet. -/
def Create : Packet := ⟨[], []⟩

/-- Modelled from the spec: `Packet::Copy`. -/
def Copy (p : Packet) : Packet := p

/-- Modelled from the spec: `Packet::AddHeader`. -/
def AddHeader (p : Packet) (h : PacketHeader) : Packet := { p with headers := h :: p.headers }

/-- Modelled from the spec: `Packet::RemoveHeader`, the outermost header and the
packet without it; `none` when the packet has no header. -/
def RemoveHeader (p : Packet) : Option (PacketHeader × Packet) :=
  match p.headers with
  | [] => none
  | h :: rest => some (h, { p with headers := rest })

/-- Modelled from the spec: `Packet::PeekHeader`. -/
def PeekHeader (p : Packet) : Option PacketHeader := p.headers.head?

end Packet

/-- Modelled from the spec: the access categories, in the order of their
enumeration. -/
inductive AcIndex
  | AC_BE
  | AC_BK
  | AC_VI
  | AC_VO
  | AC_BE_NQOS
  | AC_UNDEF
  deriving DecidableEq, Repr, Inhabited

/-- The value of an access category, by which `it->second[ac]` indexes the
queues of a station. -/
def AcIndex.toNat : AcIndex → Nat
  | .AC_BE => 0
  | .AC_BK => 1
  | .AC_VI => 2
  | .AC_VO => 3
  | .AC_BE_NQOS => 4
  | .AC_UNDEF => 5

/-- Modelled from the spec: `QosUtilsMapTidToAc`, the standard mapping of the
eight TIDs to the four access categories. -/
def QosUtilsMapTidToAc (tid : Nat) : AcIndex :=
  match tid with
  | 0 => .AC_BE
  | 3 => .AC_BE
  | 1 => .AC_BK
  | 2 => .AC_BK
  | 4 => .AC_VI
  | 5 => .AC_VI
  | 6 => .AC_VO
  | 7 => .AC_VO
  | _ => .AC_UNDEF

/-- Modelled from the spec: an `EdcaTxopN`, by what `SetupStationEdcaQueue`
configures of the one it creates for a station: the station, its AID and the
access category. -/
structure EdcaTxopN where
  m_mac : Mac48Address
  m_aid : Nat
  m_ac : AcIndex
  deriving DecidableEq, Repr, Inhabited

/-- Modelled from the spec: `EdcaStaQueues`, the vector of the queues of a
station. -/
abbrev EdcaStaQueues := List EdcaTxopN

/-- The transmit queues of the access point. -/
inductive TxQueue
  | m_dca
  | m_beaconDca
  | m_edca (ac : AcIndex)
  | m_ofdmaMap (q : EdcaTxopN)
  deriving DecidableEq, Repr, Inhabited

/-- The calls that the access point makes on objects outside its own state, and
the entries of its own `ForwardDown` with a TID, in the order in which they are
made. -/
inductive Effect
  | ForwardUp (packet : Packet) (src dst : Mac48Address)
  | NotifyRxDrop (packet : Packet)
  | ForwardDown (packet : Packet) (src dst : Mac48Address) (tid : Nat)
  | Queue (q : TxQueue) (packet : Packet) (hdr : WifiMacHeader)
  | PushFront (q : TxQueue) (packet : Packet) (hdr : WifiMacHeader)
  | LogNoQueue
  | GotAddBaResponse (q : EdcaTxopN) (respHdr : MgtAddBaResponseHeader) (src : Mac48Address)
  | GotDelBaFrame (q : EdcaTxopN) (delBaHdr : MgtDelBaHeader) (src : Mac48Address)
  | DestroyBlockAckAgreement (src : Mac48Address) (tid : Nat)
  | CreateBlockAckAgreement (respHdr : MgtAddBaResponseHeader) (originator : Mac48Address)
      (startingSeq : Nat)
  | RegularWifiMacReceive (packet : Packet) (hdr : WifiMacHeader)
  | SetSlot (microSeconds : Nat)
  | ScheduleBeacon (delay : Nat)
  deriving DecidableEq, Repr, Inhabited

/-- The calls by which the access point changes the remote-station manager. -/
inductive StationManagerCall
  | AddSupportedPlcpPreamble (address : Mac48Address) (isShortPreambleSupported : Bool)
  | AddSupportedErpSlotTime (address : Mac48Address) (isShortSlotTimeSupported : Bool)
  | AddSupportedMode (address : Mac48Address) (mode : WifiMode)
  | AddSupportedMcs (address : Mac48Address) (mcs : WifiMode)
  | AddStationHtCapabilities (address : Mac48Address) (htCapabilities : HtCapabilities)
  | AddStationVhtCapabilities (address : Mac48Address) (vhtCapabilities : VhtCapabilities)
  | AddBasicMode (mode : WifiMode)
  | RecordWaitAssocTxOk (address : Mac48Address)
  | RecordGotAssocTxOk (address : Mac48Address)
  | RecordGotAssocTxFailed (address : Mac48Address)
  | RecordDisassociated (address : Mac48Address)
  | SetUseNonErpProtection (enable : Bool)
  | SetShortPreambleEnabled (enable : Bool)
  | SetShortSlotTimeEnabled (enable : Bool)
  deriving DecidableEq, Repr, Inhabited

/-- Modelled from the spec: the remote-station manager.  Its class is outside
the sources, so the model keeps the calls that were made on it (`calls`, in the
order in which they were made) and takes what it answers to a query as any
function of these calls. -/
structure WifiRemoteStationManager where
  calls : List StationManagerCall
  isAssociated : List StationManagerCall → Mac48Address → Bool
  isWaitAssocTxOk : List StationManagerCall → Mac48Address → Bool
  shortSlotTimeSupported : List StationManagerCall → Mac48Address → Bool
  shortPreambleSupported : List StationManagerCall → Mac48Address → Bool
  basicModes : List StationManagerCall → List WifiMode
  basicMcs : List StationManagerCall → List WifiMode

namespace WifiRemoteStationManager

/-- Modelled from the spec: a call that changes the manager is added to the
calls made. -/
def call (m : WifiRemoteStationManager) (c : StationManagerCall) : WifiRemoteStationManager :=
  { m with calls := m.calls ++ [c] }

/-- Modelled from the spec: `WifiRemoteStationManager::IsAssociated`. -/
def IsAssociated (m : WifiRemoteStationManager) (address : Mac48Address) : Bool :=
  m.isAssociated m.calls address

/-- Modelled from the spec: `WifiRemoteStationManager::IsWaitAssocTxOk`. -/
def IsWaitAssocTxOk (m : WifiRemoteStationManager) (address : Mac48Address) : Bool :=
  m.isWaitAssocTxOk m.calls address

/-- Modelled from the spec: `WifiRemoteStationManager::GetShortSlotTimeSupported`. -/
def GetShortSlotTimeSupported (m : WifiRemoteStationManager) (address : Mac48Address) : Bool :=
  m.shortSlotTimeSupported m.calls address

/-- Modelled from the spec: `WifiRemoteStationManager::GetShortPreambleSupported`. -/
def GetShortPreambleSupported (m : WifiRemoteStationManager) (address : Mac48Address) : Bool :=
  m.shortPreambleSupported m.calls address

/-- Modelled from the spec: the basic modes, `GetBasicMode (0)` to
`GetBasicMode (GetNBasicModes () - 1)`. -/
def GetBasicModes (m : WifiRemoteStationManager) : List WifiMode := m.basicModes m.calls

/-- Modelled from the spec: the basic MCSs, `GetBasicMcs (0)` to
`GetBasicMcs (GetNBasicMcs () - 1)`. -/
def GetBasicMcss (m : WifiRemoteStationManager) : List WifiMode := m.basicMcs m.calls

end WifiRemoteStationManager

/-- Modelled from the spec: what the access point reads of its PHY. -/
structure WifiPhy where
  shortPlcpPreambleSupported : Bool
  channelWidth : Nat
  channelNumber : Nat
  modes : List WifiMode
  mcsList : List WifiMode
  bssMembershipSelectors : List Nat
  deriving DecidableEq, Repr, Inhabited

namespace WifiPhy

/-- Modelled from the spec: `WifiPhy::GetShortPlcpPreambleSupported`. -/
def GetShortPlcpPreambleSupported (p : WifiPhy) : Bool := p.shortPlcpPreambleSupported

/-- Modelled from the spec: `WifiPhy::GetChannelWidth`. -/
def GetChannelWidth (p : WifiPhy) : Nat := p.channelWidth

/-- Modelled from the spec: `WifiPhy::GetChannelNumber`. -/
def GetChannelNumber (p : WifiPhy) : Nat := p.channelNumber

end WifiPhy

/-- Modelled from the spec: functions that the access point calls and that are
computed outside the modelled part of the sources, taken as they are given: the
data rate of a mode at a channel width, guard interval and number of streams
(`WifiMode::GetDataRate`, which works in floating point), the sub-frames of an
aggregate (`MsduAggregator::Deaggregate`), and the TID of the QoS tag of a packet
(`QosUtilsGetTidForPacket`). -/
structure Env where
  GetDataRate : WifiMode → Nat → Bool → Nat → Nat
  Deaggregate : Packet → List (Packet × AmsduSubframeHeader)
  QosUtilsGetTidForPacket : Packet → Nat

end ns3

namespace ns3

/-! ## The access point -/

/-- A `std::map`, held as the list of its entries; the access point only looks
keys up and inserts, so the order of the entries is of no consequence here. -/
abbrev StdMap (κ ν : Type) := List (κ × ν)

namespace StdMap

/-- `std::map::find`: the value stored under a key, if any. -/
def find {κ ν : Type} [DecidableEq κ] : StdMap κ ν → κ → Option ν
  | [], _ => none
  | e :: m, k => if e.1 = k then some e.2 else find m k

/-- `std::map::insert (std::make_pair (k, v))`: a key that is present keeps its
value, a new key is entered. -/
def insert {κ ν : Type} [DecidableEq κ] (m : StdMap κ ν) (k : κ) (v : ν) : StdMap κ ν :=
  match find m k with
  | some _ => m
  | none => m ++ [(k, v)]

end StdMap

/-- The state of an `ApWifiMac`: the members of the class and of its base class
`RegularWifiMac` that the functions below read or write, the counter `aid` that
is a static local of `AllocateAid`, and the calls made so far on the objects
outside (`effects`).  The parameters `from` and `to` of the source are `src` and
`dst` below. -/
structure ApWifiMac where
  m_address : Mac48Address
  m_qosSupported : Bool
  m_htSupported : Bool
  m_vhtSupported : Bool
  m_heSupported : Bool
  m_erpSupported : Bool
  m_dsssSupported : Bool
  m_shortSlotTimeSupported : Bool
  m_ssid : List Nat
  m_stationManager : WifiRemoteStationManager
  m_phy : WifiPhy
  m_beaconInterval : Nat
  m_enableNonErpProtection : Bool
  m_color : Nat
  m_staList : List Mac48Address
  m_nonErpStations : List Mac48Address
  m_nonHtStations : List Mac48Address
  m_aidMap : StdMap Mac48Address Nat
  m_ofdmaMap : StdMap Nat EdcaStaQueues
  aid : Nat
  effects : List Effect

namespace ApWifiMac

/-- A call on an object outside is added to the calls made. -/
def effect (s : ApWifiMac) (e : Effect) : ApWifiMac := { s with effects := s.effects ++ [e] }

/-- A call that changes the remote-station manager. -/
def stationManagerCall (s : ApWifiMac) (c : StationManagerCall) : ApWifiMac :=
  { s with m_stationManager := s.m_stationManager.call c }

/-- Modelled from the spec: `RegularWifiMac::GetAddress`. -/
def GetAddress (s : ApWifiMac) : Mac48Address := s.m_address

/-- Modelled from the spec: `RegularWifiMac::GetShortSlotTimeSupported`. -/
def GetShortSlotTimeSupported (s : ApWifiMac) : Bool := s.m_shortSlotTimeSupported

/-- Modelled from the spec: `RegularWifiMac::ForwardUp`, the delivery of a packet
to the layer above. -/
def ForwardUp (s : ApWifiMac) (packet : Packet) (src dst : Mac48Address) : ApWifiMac :=
  s.effect (.ForwardUp packet src dst)

/-- Modelled from the spec: `WifiMac::NotifyRxDrop`. -/
def NotifyRxDrop (s : ApWifiMac) (packet : Packet) : ApWifiMac :=
  s.effect (.NotifyRxDrop packet)

/-- `ApWifiMac::GetShortSlotTimeEnabled`. -/
def GetShortSlotTimeEnabled (s : ApWifiMac) : Bool :=
  if s.m_nonErpStations.length ≠ 0 then false
  else if s.m_erpSupported = true ∧ s.GetShortSlotTimeSupported = true then
    s.m_staList.all (fun i => s.m_stationManager.GetShortSlotTimeSupported i)
  else false

/-- `ApWifiMac::GetShortPreambleEnabled`. -/
def GetShortPreambleEnabled (s : ApWifiMac) : Bool :=
  if s.m_erpSupported ∨ s.m_phy.GetShortPlcpPreambleSupported then
    s.m_nonErpStations.all (fun i => s.m_stationManager.GetShortPreambleSupported i)
  else false

/-- `ApWifiMac::GetAid`. -/
def GetAid (s : ApWifiMac) (mac : Mac48Address) : Nat :=
  match s.m_aidMap.find mac with
  | some aid => aid
  | none => 0

/-- `ApWifiMac::SetupStationEdcaQueue`: the queue created for the station and
the access category. -/
def SetupStationEdcaQueue (aid : Nat) (mac : Mac48Address) (ac : AcIndex) : EdcaTxopN :=
  { m_mac := mac, m_aid := aid, m_ac := ac }

/-- `ApWifiMac::SetupStationQueue`. -/
def SetupStationQueue (s : ApWifiMac) (aid : Nat) (mac : Mac48Address) : ApWifiMac :=
  let edcaList : EdcaStaQueues := []
  let edcaList := edcaList ++ [SetupStationEdcaQueue aid mac .AC_BE]
  let edcaList := edcaList ++ [SetupStationEdcaQueue aid mac .AC_BK]
  let edcaList := edcaList ++ [SetupStationEdcaQueue aid mac .AC_VI]
  let edcaList := edcaList ++ [SetupStationEdcaQueue aid mac .AC_VO]
  { s with m_ofdmaMap := s.m_ofdmaMap.insert aid edcaList }

/-- `ApWifiMac::AllocateAid`: the AID returned and the state after the call.  The
static local `aid` is a `uint16_t`. -/
def AllocateAid (s : ApWifiMac) (mac : Mac48Address) : Nat × ApWifiMac :=
  match s.m_aidMap.find mac with
  | some a => (a, s)
  | none =>
    let s := { s with aid := (s.aid + 1) % 65536 }
    let s := { s with m_aidMap := s.m_aidMap.insert mac s.aid }
    let s := s.SetupStationQueue s.aid mac
    (s.aid, s)

/-- `ApWifiMac::ForwardDown` with a TID; `none` is the assertion `tid < 8` or an
index outside the queues of a station. -/
def ForwardDown (s : ApWifiMac) (packet : Packet) (src dst : Mac48Address) (tid : Nat)
    (mem : WifiMacHeader) : Option ApWifiMac :=
  let s := s.effect (.ForwardDown packet src dst tid)
  let hdr := WifiMacHeader.construct mem
  let hdr :=
    if s.m_qosSupported then
      let hdr := hdr.SetType .WIFI_MAC_QOSDATA
      let hdr := hdr.SetQosAckPolicy .NORMAL_ACK
      let hdr := hdr.SetQosNoEosp
      let hdr := hdr.SetQosNoAmsdu
      let hdr := hdr.SetQosTxopLimit 0
      hdr.SetQosTid tid
    else hdr.SetTypeData
  let hdr := if s.m_htSupported ∨ s.m_vhtSupported ∨ s.m_heSupported then hdr.SetNoOrder else hdr
  let hdr := hdr.SetAddr1 dst
  let hdr := hdr.SetAddr2 s.GetAddress
  let hdr := hdr.SetAddr3 src
  let hdr := hdr.SetDsFrom
  let hdr := hdr.SetDsNotTo
  if s.m_qosSupported then
    if ¬ tid < 8 then none
    else if s.m_heSupported then
      match s.m_ofdmaMap.find (s.GetAid dst) with
      | some queues =>
        match queues.get? (QosUtilsMapTidToAc tid).toNat with
        | some q => some (s.effect (.Queue (.m_ofdmaMap q) packet hdr))
        | none => none
      | none => some (s.effect .LogNoQueue)
    else some (s.effect (.Queue (.m_edca (QosUtilsMapTidToAc tid)) packet hdr))
  else some (s.effect (.Queue .m_dca packet hdr))

/-- `ApWifiMac::ForwardDown` without a TID: the TID is taken from the packet. -/
def ForwardDownPacketTid (env : Env) (s : ApWifiMac) (packet : Packet) (src dst : Mac48Address)
    (mem : WifiMacHeader) : Option ApWifiMac :=
  let tid := 0
  let tid :=
    if s.m_qosSupported then
      let tid := env.QosUtilsGetTidForPacket packet % 256
      if tid > 7 then 0 else tid
    else tid
  s.ForwardDown packet src dst tid mem

/-- `ApWifiMac::Enqueue` with a source address. -/
def Enqueue (env : Env) (s : ApWifiMac) (packet : Packet) (dst src : Mac48Address)
    (mem : WifiMacHeader) : Option ApWifiMac :=
  if dst.IsBroadcast ∨ s.m_stationManager.IsAssociated dst then
    s.ForwardDownPacketTid env packet src dst mem
  else some s

/-- `ApWifiMac::GetSupportedRates`: the rates and the state after the call, the
mandatory modes of the PHY having been added to the basic modes of the
remote-station manager. -/
def GetSupportedRates (env : Env) (s : ApWifiMac) : SupportedRates × ApWifiMac :=
  let rates : SupportedRates := default
  let rates :=
    if s.m_htSupported ∨ s.m_vhtSupported ∨ s.m_heSupported then
      s.m_phy.bssMembershipSelectors.foldl (fun rates sel => rates.AddBssMembershipSelectorRate sel)
        rates
    else rates
  let nss := 1
  let (rates, s) := s.m_phy.modes.foldl
    (fun (acc : SupportedRates × ApWifiMac) mode =>
      let modeDataRate := env.GetDataRate mode acc.2.m_phy.GetChannelWidth false nss
      let rates := acc.1.AddSupportedRate modeDataRate
      if mode.IsMandatory ∧ mode.GetModulationClass ≠ .WIFI_MOD_CLASS_HR_DSSS then
        (rates, acc.2.stationManagerCall (.AddBasicMode mode))
      else (rates, acc.2))
    (rates, s)
  let rates := s.m_stationManager.GetBasicModes.foldl
    (fun rates mode => rates.SetBasicRate (env.GetDataRate mode s.m_phy.GetChannelWidth false nss))
    rates
  (rates, s)

/-- `ApWifiMac::GetDsssParameterSet`. -/
def GetDsssParameterSet (s : ApWifiMac) : DsssParameterSet :=
  let dsssParameters : DsssParameterSet := default
  if s.m_dsssSupported then
    { dsssParameters with dsssSupported := 1, currentChannel := s.m_phy.GetChannelNumber }
  else dsssParameters

/-- `ApWifiMac::GetCapabilities`. -/
def GetCapabilities (s : ApWifiMac) : CapabilityInformation :=
  let capabilities : CapabilityInformation := default
  let capabilities := capabilities.SetShortPreamble s.GetShortPreambleEnabled
  capabilities.SetShortSlotTime s.GetShortSlotTimeEnabled

/-- `ApWifiMac::GetUseNonErpProtection`: the flag and the state after the call,
the flag having been handed to the remote-station manager. -/
def GetUseNonErpProtection (s : ApWifiMac) : Bool × ApWifiMac :=
  let useProtection := !s.m_nonErpStations.isEmpty && s.m_enableNonErpProtection
  (useProtection, s.stationManagerCall (.SetUseNonErpProtection useProtection))

/-- `ApWifiMac::GetErpInformation`: the element and the state after the call. -/
def GetErpInformation (s : ApWifiMac) : ErpInformation × ApWifiMac :=
  let information : ErpInformation := default
  let information := { information with erpSupported := 1 }
  if s.m_erpSupported then
    let information :=
      { information with nonErpPresent := if !s.m_nonErpStations.isEmpty then 1 else 0 }
    let (useProtection, s) := s.GetUseNonErpProtection
    let information := { information with useProtection := if useProtection then 1 else 0 }
    let information :=
      if s.GetShortPreambleEnabled then { information with barkerPreambleMode := 0 }
      else { information with barkerPreambleMode := 1 }
    (information, s)
  else (information, s)

/-- `ApWifiMac::GetHtOperations`. -/
def GetHtOperations (s : ApWifiMac) : HtOperations :=
  let operations : HtOperations := default
  let operations := { operations with htSupported := 1 }
  if s.m_htSupported then
    if !s.m_nonHtStations.isEmpty then
      { operations with htProtection := .MIXED_MODE_PROTECTION }
    else { operations with htProtection := .NO_PROTECTION }
  else operations

/-- `ApWifiMac::SendAssocResp`. -/
def SendAssocResp (env : Env) (s : ApWifiMac) (dst : Mac48Address) (success : Bool)
    (mem : WifiMacHeader) : ApWifiMac :=
  let hdr := WifiMacHeader.construct mem
  let hdr := hdr.SetAssocResp
  let hdr := hdr.SetAddr1 dst
  let hdr := hdr.SetAddr2 s.GetAddress
  let hdr := hdr.SetAddr3 s.GetAddress
  let hdr := hdr.SetDsNotFrom
  let hdr := hdr.SetDsNotTo
  let packet := Packet.Create
  let assoc : MgtAssocResponseHeader := default
  let code : StatusCode := default
  let (s, assoc, code) :=
    if success then
      let (aid, s) := s.AllocateAid dst
      let code := code.SetSuccess
      let s := { s with m_staList := s.m_staList ++ [dst] }
      let assoc := { assoc with m_aid := aid }
      let assoc := { assoc with m_color := s.m_color }
      (s, assoc, code)
    else (s, assoc, code.SetFailure)
  let (rates, s) := s.GetSupportedRates env
  let assoc := { assoc with m_rates := rates }
  let assoc := { assoc with m_code := code }
  let assoc := { assoc with m_capability := s.GetCapabilities }
  let (assoc, s) :=
    if s.m_erpSupported then
      let (information, s) := s.GetErpInformation
      ({ assoc with m_erpInformation := information }, s)
    else (assoc, s)
  let assoc := if s.m_qosSupported then { assoc with m_edcaParameterSet := true } else assoc
  let (assoc, hdr) :=
    if s.m_htSupported ∨ s.m_vhtSupported then
      ({ assoc with m_htCapability := true, m_htOperations := s.GetHtOperations }, hdr.SetNoOrder)
    else (assoc, hdr)
  let assoc := if s.m_vhtSupported then { assoc with m_vhtCapability := true } else assoc
  let packet := packet.AddHeader (.assocResponse assoc)
  s.effect (.Queue .m_dca packet hdr)

/-- `ApWifiMac::SendProbeResp`. -/
def SendProbeResp (env : Env) (s : ApWifiMac) (dst : Mac48Address) (mem : WifiMacHeader) :
    ApWifiMac :=
  let hdr := WifiMacHeader.construct mem
  let hdr := hdr.SetProbeResp
  let hdr := hdr.SetAddr1 dst
  let hdr := hdr.SetAddr2 s.GetAddress
  let hdr := hdr.SetAddr3 s.GetAddress
  let hdr := hdr.SetDsNotFrom
  let hdr := hdr.SetDsNotTo
  let packet := Packet.Create
  let probe : MgtProbeResponseHeader := default
  let probe := { probe with m_ssid := s.m_ssid }
  let (rates, s) := s.GetSupportedRates env
  let probe := { probe with m_rates := rates }
  let probe := { probe with m_beaconInterval := s.m_beaconInterval }
  let probe := { probe with m_capability := s.GetCapabilities }
  let s := s.stationManagerCall (.SetShortPreambleEnabled s.GetShortPreambleEnabled)
  let s := s.stationManagerCall (.SetShortSlotTimeEnabled s.GetShortSlotTimeEnabled)
  let probe :=
    if s.m_dsssSupported then { probe with m_dsssParameterSet := s.GetDsssParameterSet }
    else probe
  let (probe, s) :=
    if s.m_erpSupported then
      let (information, s) := s.GetErpInformation
      ({ probe with m_erpInformation := information }, s)
    else (probe, s)
  let probe := if s.m_qosSupported then { probe with m_edcaParameterSet := true } else probe
  let (probe, hdr) :=
    if s.m_htSupported ∨ s.m_vhtSupported ∨ s.m_heSupported then
      ({ probe with m_htCapability := true, m_htOperations := s.GetHtOperations }, hdr.SetNoOrder)
    else (probe, hdr)
  let probe := if s.m_vhtSupported then { probe with m_vhtCapability := true } else probe
  let packet := packet.AddHeader (.probeResponse probe)
  s.effect (.Queue .m_dca packet hdr)

/-- `ApWifiMac::DeaggregateAmsduAndForward`, the loop over the sub-frames still
to visit. -/
def DeaggregateLoop (hdr : WifiMacHeader) (mem : WifiMacHeader) :
    List (Packet × AmsduSubframeHeader) → ApWifiMac → Option ApWifiMac
  | [], s => some s
  | i :: rest, s =>
    if i.2.GetDestinationAddr = s.GetAddress then
      DeaggregateLoop hdr mem rest (s.ForwardUp i.1 i.2.GetSourceAddr i.2.GetDestinationAddr)
    else do
      let src := i.2.GetSourceAddr
      let dst := i.2.GetDestinationAddr
      let tid ← hdr.GetQosTid
      let s ← s.ForwardDown i.1 src dst tid mem
      DeaggregateLoop hdr mem rest s

/-- `ApWifiMac::DeaggregateAmsduAndForward`. -/
def DeaggregateAmsduAndForward (env : Env) (s : ApWifiMac) (aggregatedPacket : Packet)
    (hdr : WifiMacHeader) (mem : WifiMacHeader) : Option ApWifiMac :=
  let packets := env.Deaggregate aggregatedPacket
  DeaggregateLoop hdr mem packets s

end ApWifiMac

end ns3

namespace ns3

namespace ApWifiMac

/-- The five flags that the association branch of `Receive` keeps while it
checks a request. -/
structure AssocCheck where
  problem : Bool
  isHtStation : Bool
  isOfdmStation : Bool
  isErpStation : Bool
  isDsssStation : Bool
  deriving DecidableEq, Repr, Inhabited

/-- The loop of `Receive` over the basic modes still to visit: a basic mode whose
rate the request does not list clears the flag of its family, and is a problem,
which ends the loop, when no flag is set then; a basic mode whose rate the
request lists sets the flag of its family. -/
def basicModesLoop (env : Env) (channelWidth : Nat) (rates : SupportedRates) :
    List WifiMode → AssocCheck → AssocCheck
  | [], c => c
  | mode :: rest, c =>
    let nss := 1
    if ¬ rates.IsSupportedRate (env.GetDataRate mode channelWidth false nss) then
      let c :=
        if mode.GetModulationClass = .WIFI_MOD_CLASS_DSSS ∨
            mode.GetModulationClass = .WIFI_MOD_CLASS_HR_DSSS then
          { c with isDsssStation := false }
        else if mode.GetModulationClass = .WIFI_MOD_CLASS_ERP_OFDM then
          { c with isErpStation := false }
        else if mode.GetModulationClass = .WIFI_MOD_CLASS_OFDM then
          { c with isOfdmStation := false }
        else c
      if c.isDsssStation = false ∧ c.isErpStation = false ∧ c.isOfdmStation = false then
        { c with problem := true }
      else basicModesLoop env channelWidth rates rest c
    else
      let c :=
        if mode.GetModulationClass = .WIFI_MOD_CLASS_DSSS ∨
            mode.GetModulationClass = .WIFI_MOD_CLASS_HR_DSSS then
          { c with isDsssStation := true }
        else if mode.GetModulationClass = .WIFI_MOD_CLASS_ERP_OFDM then
          { c with isErpStation := true }
        else if mode.GetModulationClass = .WIFI_MOD_CLASS_OFDM then
          { c with isOfdmStation := true }
        else c
      basicModesLoop env channelWidth rates rest c

/-- The loops of `Receive` over the basic MCSs still to visit: whether one of
them is not supported (which ends the loop); `none` when `GetMcsValue` fails its
assertion. -/
def basicMcsLoop (isSupported : Nat → Bool) : List WifiMode → Option Bool
  | [] => some false
  | mcs :: rest => do
    let v ← mcs.GetMcsValue
    if ¬ isSupported v then pure true else basicMcsLoop isSupported rest

/-- The check of an association request in `Receive`: the flags after the loop
over the basic modes and the HT and VHT checks, and the state after the two calls
on the remote-station manager that the check makes. -/
def checkAssocRequest (env : Env) (s : ApWifiMac) (src : Mac48Address)
    (assocReq : MgtAssocRequestHeader) : Option (AssocCheck × ApWifiMac) := do
  let capabilities := assocReq.m_capability
  let s := s.stationManagerCall (.AddSupportedPlcpPreamble src capabilities.IsShortPreamble)
  let rates := assocReq.m_rates
  let c : AssocCheck :=
    { problem := false, isHtStation := false, isOfdmStation := false, isErpStation := false,
      isDsssStation := false }
  let c := basicModesLoop env s.m_phy.GetChannelWidth rates s.m_stationManager.GetBasicModes c
  let s := s.stationManagerCall
    (.AddSupportedErpSlotTime src (capabilities.IsShortSlotTime && c.isErpStation))
  let c ←
    if s.m_htSupported then
      let htcapabilities := assocReq.m_htCapability
      if htcapabilities.GetHtCapabilitiesInfo ≠ 0 then do
        let c := { c with isHtStation := true }
        let p ← basicMcsLoop htcapabilities.IsSupportedMcs s.m_stationManager.GetBasicMcss
        pure (if p then { c with problem := true } else c)
      else pure c
    else pure c
  let c ←
    if s.m_vhtSupported then
      let vhtcapabilities := assocReq.m_vhtCapability
      if vhtcapabilities.GetVhtCapabilitiesInfo ≠ 0 then do
        let p ← basicMcsLoop vhtcapabilities.IsSupportedTxMcs s.m_stationManager.GetBasicMcss
        pure (if p then { c with problem := true } else c)
      else pure c
    else pure c
  pure (c, s)

/-- The loop of `Receive` over the MCSs of the PHY still to visit, recording
with the remote-station manager those of the class `modClass` that the station
supports. -/
def supportedMcsLoop (modClass : WifiModulationClass) (isSupported : Nat → Bool)
    (address : Mac48Address) : List WifiMode → ApWifiMac → Option ApWifiMac
  | [], s => some s
  | mcs :: rest, s =>
    if mcs.GetModulationClass = modClass then do
      let v ← mcs.GetMcsValue
      if isSupported v then
        supportedMcsLoop modClass isSupported address rest
          (s.stationManagerCall (.AddSupportedMcs address mcs))
      else supportedMcsLoop modClass isSupported address rest s
    else supportedMcsLoop modClass isSupported address rest s

/-- The association branch of `Receive` for a request that passed the check:
the modes and MCSs of the station are recorded with the remote-station manager,
the station is entered in the non-HT and non-ERP lists as its flags say, and the
response is sent. -/
def commitAssociation (env : Env) (s : ApWifiMac) (hdr : WifiMacHeader)
    (assocReq : MgtAssocRequestHeader) (c : AssocCheck) (mem : WifiMacHeader) :
    Option ApWifiMac := do
  let src := hdr.GetAddr2
  let rates := assocReq.m_rates
  let nss := 1
  let s := s.m_phy.modes.foldl
    (fun (s : ApWifiMac) mode =>
      if rates.IsSupportedRate (env.GetDataRate mode s.m_phy.GetChannelWidth false nss) then
        s.stationManagerCall (.AddSupportedMode src mode)
      else s)
    s
  let s ←
    if s.m_htSupported then
      let htcapabilities := assocReq.m_htCapability
      let s := s.stationManagerCall (.AddStationHtCapabilities src htcapabilities)
      supportedMcsLoop .WIFI_MOD_CLASS_HT htcapabilities.IsSupportedMcs src s.m_phy.mcsList s
    else pure s
  let s ←
    if s.m_vhtSupported then
      let vhtCapabilities := assocReq.m_vhtCapability
      let s := s.stationManagerCall (.AddStationVhtCapabilities src vhtCapabilities)
      supportedMcsLoop .WIFI_MOD_CLASS_VHT vhtCapabilities.IsSupportedTxMcs hdr.GetAddr2
        s.m_phy.mcsList s
    else pure s
  let s := s.stationManagerCall (.RecordWaitAssocTxOk src)
  let s :=
    if ¬ c.isHtStation then { s with m_nonHtStations := s.m_nonHtStations ++ [hdr.GetAddr2] }
    else s
  let s :=
    if ¬ c.isErpStation ∧ c.isDsssStation then
      { s with m_nonErpStations := s.m_nonErpStations ++ [hdr.GetAddr2] }
    else s
  pure (s.SendAssocResp env hdr.GetAddr2 true mem)

/-- The disassociation branch of `Receive`: each of the three loops erases the
first entry of its list that is the station, if there is one. -/
def disassociate (s : ApWifiMac) (src : Mac48Address) : ApWifiMac :=
  let s := s.stationManagerCall (.RecordDisassociated src)
  let s := { s with m_staList := s.m_staList.erase src }
  let s := { s with m_nonErpStations := s.m_nonErpStations.erase src }
  let s := { s with m_nonHtStations := s.m_nonHtStations.erase src }
  s

/-- The action branch of `Receive`: `some (s, none)` when the frame is dealt with
(the function returns), `some (s, some packet)` when `Receive` goes on to hand the
packet to the base class, and `none` when an assertion fails, the packet does not
hold the headers that are removed from it, or an index is outside the queues of a
station. -/
def receiveAction (s : ApWifiMac) (packet : Packet) (hdr : WifiMacHeader) :
    Option (ApWifiMac × Option Packet) := do
  let src := hdr.GetAddr2
  if ¬ s.m_qosSupported then none
  else
    let top ← packet.PeekHeader
    match top with
    | .action actionHdr =>
      if actionHdr.m_category = .BLOCK_ACK then
        if actionHdr.blockAck = .BLOCK_ACK_ADDBA_RESPONSE then do
          let (_, packet) ← packet.RemoveHeader
          let (h2, packet) ← packet.RemoveHeader
          match h2 with
          | .addBaResponse respHdr =>
            let ac := QosUtilsMapTidToAc respHdr.m_tid
            match s.m_ofdmaMap.find (s.GetAid hdr.GetAddr2) with
            | some queues => do
              let q ← queues.get? ac.toNat
              pure (s.effect (.GotAddBaResponse q respHdr src), none)
            | none =>
              let packet := packet.AddHeader (.addBaResponse respHdr)
              let packet := packet.AddHeader (.action actionHdr)
              pure (s, some packet)
          | _ => none
        else if actionHdr.blockAck = .BLOCK_ACK_DELBA then do
          let (_, packet) ← packet.RemoveHeader
          let (h2, packet) ← packet.RemoveHeader
          match h2 with
          | .delBa delBaHdr =>
            if delBaHdr.m_byOriginator then
              let s := s.effect (.DestroyBlockAckAgreement src delBaHdr.m_tid)
              let packet := packet.AddHeader (.delBa delBaHdr)
              let packet := packet.AddHeader (.action actionHdr)
              pure (s, some packet)
            else
              let ac := QosUtilsMapTidToAc delBaHdr.m_tid
              match s.m_ofdmaMap.find (s.GetAid hdr.GetAddr2) with
              | some queues => do
                let q ← queues.get? ac.toNat
                pure (s.effect (.GotDelBaFrame q delBaHdr src), none)
              | none =>
                let packet := packet.AddHeader (.delBa delBaHdr)
                let packet := packet.AddHeader (.action actionHdr)
                pure (s, some packet)
          | _ => none
        else pure (s, some packet)
      else pure (s, some packet)
    | _ => none

/-- Modelled from the spec: `RegularWifiMac::Receive`, the handler of the base
class, to which `Receive` hands the frames it does not deal with itself. -/
def RegularWifiMacReceive (s : ApWifiMac) (packet : Packet) (hdr : WifiMacHeader) : ApWifiMac :=
  s.effect (.RegularWifiMacReceive packet hdr)

/-- `ApWifiMac::Receive`; `none` when an assertion fails or when the packet does
not hold the headers that are removed from it. -/
def Receive (env : Env) (s : ApWifiMac) (packet : Packet) (hdr : WifiMacHeader)
    (mem : WifiMacHeader) : Option ApWifiMac := do
  let src := hdr.GetAddr2
  if hdr.IsData then
    let bssid := hdr.GetAddr1
    if ¬ hdr.IsFromDs ∧ hdr.IsToDs ∧ bssid = s.GetAddress ∧
        s.m_stationManager.IsAssociated src then
      let dst := hdr.GetAddr3
      if dst = s.GetAddress then
        if hdr.IsQosData then do
          let amsdu ← hdr.IsQosAmsdu
          if amsdu then s.DeaggregateAmsduAndForward env packet hdr mem
          else pure (s.ForwardUp packet src bssid)
        else pure (s.ForwardUp packet src bssid)
      else if dst.IsGroup ∨ s.m_stationManager.IsAssociated dst then do
        let copy := packet.Copy
        let s ←
          if hdr.IsQosData then do
            let tid ← hdr.GetQosTid
            s.ForwardDown packet src dst tid mem
          else s.ForwardDownPacketTid env packet src dst mem
        pure (s.ForwardUp copy src dst)
      else pure (s.ForwardUp packet src dst)
    else if hdr.IsFromDs ∧ hdr.IsToDs then pure (s.NotifyRxDrop packet)
    else pure (s.NotifyRxDrop packet)
  else if hdr.IsMgt then do
    let isProbeReq ← hdr.IsProbeReq
    if isProbeReq then
      if ¬ hdr.GetAddr1.IsBroadcast then none
      else pure (s.SendProbeResp env src mem)
    else if hdr.GetAddr1 = s.GetAddress then do
      let isAssocReq ← hdr.IsAssocReq
      if isAssocReq then do
        let (top, _) ← packet.RemoveHeader
        match top with
        | .assocRequest assocReq =>
          let (c, s) ← s.checkAssocRequest env src assocReq
          if c.problem then pure (s.SendAssocResp env hdr.GetAddr2 false mem)
          else s.commitAssociation env hdr assocReq c mem
        | _ => none
      else do
        let isDisassociation ← hdr.IsDisassociation
        if isDisassociation then pure (s.disassociate src)
        else do
          let isAction ← hdr.IsAction
          if isAction then do
            let (s, packet) ← s.receiveAction packet hdr
            match packet with
            | none => pure s
            | some packet => pure (s.RegularWifiMacReceive packet hdr)
          else pure (s.RegularWifiMacReceive packet hdr)
    else pure (s.RegularWifiMacReceive packet hdr)
  else pure (s.RegularWifiMacReceive packet hdr)

end ApWifiMac

end ns3

namespace ns3

/-! ## Notions for the statements about the access point -/

/-- The station registry of the access point: the associated-station list, the
non-ERP and the non-HT station lists, the AID map, the per-AID queue map and the
counter from which AIDs are allocated. -/
structure Registry where
  m_staList : List Mac48Address
  m_nonErpStations : List Mac48Address
  m_nonHtStations : List Mac48Address
  m_aidMap : StdMap Mac48Address Nat
  m_ofdmaMap : StdMap Nat EdcaStaQueues
  aid : Nat
  deriving DecidableEq, Repr, Inhabited

/-- The station registry in a state of the access point. -/
def ApWifiMac.registry (s : ApWifiMac) : Registry :=
  { m_staList := s.m_staList
    m_nonErpStations := s.m_nonErpStations
    m_nonHtStations := s.m_nonHtStations
    m_aidMap := s.m_aidMap
    m_ofdmaMap := s.m_ofdmaMap
    aid := s.aid }

/-- Every queue set of the per-AID queue map holds the four queues that
`SetupStationQueue` provisions. -/
def ApWifiMac.QueuesProvisioned (s : ApWifiMac) : Prop :=
  ∀ e ∈ s.m_ofdmaMap, e.2.length = 4

instance (s : ApWifiMac) : Decidable s.QueuesProvisioned := by
  unfold ApWifiMac.QueuesProvisioned; infer_instance

/-- The state `t` differs from the state `s` in the remote-station manager at
most. -/
def ApWifiMac.SameButManager (s t : ApWifiMac) : Prop :=
  t = { s with m_stationManager := t.m_stationManager }

/-- The call is an upward delivery. -/
def Effect.isForwardUp : Effect → Bool
  | .ForwardUp _ _ _ => true
  | _ => false

/-- The call is an entry of `ForwardDown`. -/
def Effect.isForwardDown : Effect → Bool
  | .ForwardDown _ _ _ _ => true
  | _ => false

/-- The packet that `SendAssocResp` queues: the empty packet with the response
in front. -/
def assocResponsePacket (assoc : MgtAssocResponseHeader) : Packet :=
  Packet.Create.AddHeader (.assocResponse assoc)

/-! ## Samples -/

/-- The address of the sample access point. -/
def sampleApAddress : Mac48Address := ⟨0, 0, 0, 0, 0, 1⟩

/-- The address of the first sample station. -/
def sampleSta : Mac48Address := ⟨0, 0, 0, 0, 0, 2⟩

/-- The address of the second sample station. -/
def sampleSta2 : Mac48Address := ⟨0, 0, 0, 0, 0, 3⟩

/-- The DSSS mode of 1 Mbit/s (`DsssRate1Mbps`: mandatory, constellation size
2). -/
def sampleDsssRate1Mbps : WifiMode :=
  { m_uid := 1
    item := { modClass := .WIFI_MOD_CLASS_DSSS, constellationSize := 2,
              codingRate := .WIFI_CODE_RATE_UNDEFINED, isMandatory := true, mcsValue := 0 } }

/-- Two sub-frames, the first for the sample access point and the second for the
second sample station, both from the first sample station. -/
def sampleMsdus : List (Packet × AmsduSubframeHeader) :=
  [(⟨[], [1]⟩, ⟨sampleApAddress, sampleSta, 1⟩), (⟨[], [2]⟩, ⟨sampleSta2, sampleSta, 1⟩)]

/-- Sample values of the functions computed outside: the rate of a DSSS mode of
constellation size 2 is 1 Mbit/s per stream, as `WifiMode::GetDataRate` has it
(the samples use no other mode); every aggregate holds the two sample sub-frames;
no packet has a QoS tag (the TID 8 stands for none). -/
def sampleEnv : Env :=
  { GetDataRate := fun mode _ _ nss =>
      if mode.item.modClass = .WIFI_MOD_CLASS_DSSS ∧ mode.item.constellationSize = 2 then
        1000000 * nss
      else 0
    Deaggregate := fun _ => sampleMsdus
    QosUtilsGetTidForPacket := fun _ => 8 }

/-- A sample remote-station manager: the first sample station is associated and
supports the short slot time and the short preamble, the basic modes are the DSSS
mode of 1 Mbit/s, and there is no basic MCS. -/
def sampleStationManager : WifiRemoteStationManager :=
  { calls := []
    isAssociated := fun _ a => decide (a = sampleSta)
    isWaitAssocTxOk := fun _ _ => false
    shortSlotTimeSupported := fun _ a => decide (a = sampleSta)
    shortPreambleSupported := fun _ a => decide (a = sampleSta)
    basicModes := fun _ => [sampleDsssRate1Mbps]
    basicMcs := fun _ => [] }

/-- A sample access point without QoS, HT, VHT, HE and ERP, with no station in
its registry. -/
def sampleAp : ApWifiMac :=
  { m_address := sampleApAddress
    m_qosSupported := false
    m_htSupported := false
    m_vhtSupported := false
    m_heSupported := false
    m_erpSupported := false
    m_dsssSupported := true
    m_shortSlotTimeSupported := false
    m_ssid := []
    m_stationManager := sampleStationManager
    m_phy := { shortPlcpPreambleSupported := false, channelWidth := 20, channelNumber := 1,
               modes := [sampleDsssRate1Mbps], mcsList := [], bssMembershipSelectors := [] }
    m_beaconInterval := 102400
    m_enableNonErpProtection := true
    m_color := 0
    m_staList := []
    m_nonErpStations := []
    m_nonHtStations := []
    m_aidMap := []
    m_ofdmaMap := []
    aid := 0
    effects := [] }

/-- The sample access point with QoS. -/
def sampleQosAp : ApWifiMac := { sampleAp with m_qosSupported := true }

/-- The header of an association request of the first sample station to the
sample access point. -/
def sampleAssocReqHdr : WifiMacHeader :=
  (((default : WifiMacHeader).SetAssocReq.SetAddr1 sampleApAddress).SetAddr2 sampleSta).SetAddr3
    sampleApAddress

/-- An association request that lists the rate of 1 Mbit/s. -/
def sampleAssocReq : MgtAssocRequestHeader :=
  { m_capability := default, m_rates := ⟨[1000000], [], []⟩, m_htCapability := default,
    m_vhtCapability := default }

/-- An association request that lists no rate. -/
def sampleAssocReqNoRate : MgtAssocRequestHeader :=
  { m_capability := default, m_rates := default, m_htCapability := default,
    m_vhtCapability := default }

/-- The header of a disassociation frame of the first sample station to the
sample access point. -/
def sampleDisassocHdr : WifiMacHeader :=
  ((((default : WifiMacHeader).SetType .WIFI_MAC_MGT_DISASSOCIATION).SetAddr1
    sampleApAddress).SetAddr2 sampleSta).SetAddr3 sampleApAddress

/-- The header of a QoS data frame with the TID `tid` that the first sample
station sends through the sample access point to the address `dst`. -/
def sampleQosDataHdr (tid : Nat) (dst : Mac48Address) : WifiMacHeader :=
  (((((default : WifiMacHeader).SetType .WIFI_MAC_QOSDATA).SetDsTo.SetAddr1
    sampleApAddress).SetAddr2 sampleSta).SetAddr3 dst).SetQosTid tid

end ns3

namespace ns3

namespace ApWifiMac

/-- Modelled from the spec: `RegularWifiMac::m_edca`, the shared queues, which
the base class sets up for the four access categories; `none` is the null
pointer that `m_edca[ac]` holds for any other key. -/
def m_edca (ac : AcIndex) : Option TxQueue :=
  match ac with
  | .AC_BE => some (.m_edca .AC_BE)
  | .AC_BK => some (.m_edca .AC_BK)
  | .AC_VI => some (.m_edca .AC_VI)
  | .AC_VO => some (.m_edca .AC_VO)
  | _ => none

/-- `ApWifiMac::SetWifiRemoteStationManager`: the base class keeps the manager,
and with HE the queue set of the broadcast address is set up under the AID 0.
Handing the manager to the queues, and the DCF manager to the manager, changes
nothing that the state holds. -/
def SetWifiRemoteStationManager (s : ApWifiMac) (stationManager : WifiRemoteStationManager) :
    ApWifiMac :=
  let s := { s with m_stationManager := stationManager }
  if s.m_heSupported then s.SetupStationQueue 0 Mac48Address.GetBroadcast else s

/-- `ApWifiMac::SendAddBaResponse`, the statements that build the response
`respHdr` from the request.  The getters of the request and the setters of the
response have the same types, so a value is handed over as it is. -/
def addBaResponseHeader (reqHdr : MgtAddBaRequestHeader) : MgtAddBaResponseHeader :=
  let respHdr : MgtAddBaResponseHeader := default
  let code : StatusCode := default
  let code := code.SetSuccess
  let respHdr := { respHdr with m_code := code }
  let respHdr := { respHdr with m_amsduSupport := reqHdr.m_amsduSupport }
  let respHdr :=
    if reqHdr.m_immediateBlockAck then { respHdr with m_immediateBlockAck := true }
    else { respHdr with m_immediateBlockAck := false }
  let respHdr := { respHdr with m_tid := reqHdr.m_tid }
  let respHdr := { respHdr with m_bufferSize := 1023 }
  { respHdr with m_timeoutValue := reqHdr.m_timeoutValue }

/-- `ApWifiMac::SendAddBaResponse`; `none` is an index outside the queues of a
station, or the null pointer of `m_edca`. -/
def SendAddBaResponse (s : ApWifiMac) (reqHdr : MgtAddBaRequestHeader)
    (originator : Mac48Address) (mem : WifiMacHeader) : Option ApWifiMac :=
  let hdr := WifiMacHeader.construct mem
  let hdr := hdr.SetAction
  let hdr := hdr.SetAddr1 originator
  let hdr := hdr.SetAddr2 s.GetAddress
  let hdr := hdr.SetAddr3 s.GetAddress
  let hdr := hdr.SetDsNotFrom
  let hdr := hdr.SetDsNotTo
  let respHdr := addBaResponseHeader reqHdr
  let actionHdr : WifiActionHeader :=
    { m_category := .BLOCK_ACK, blockAck := .BLOCK_ACK_ADDBA_RESPONSE }
  let packet := Packet.Create
  let packet := packet.AddHeader (.addBaResponse respHdr)
  let packet := packet.AddHeader (.action actionHdr)
  let s := s.effect (.CreateBlockAckAgreement respHdr originator reqHdr.m_startingSeq)
  let ac := QosUtilsMapTidToAc respHdr.m_tid
  match s.m_ofdmaMap.find (s.GetAid originator) with
  | some queues =>
    match queues.get? ac.toNat with
    | some q => some (s.effect (.PushFront (.m_ofdmaMap q) packet hdr))
    | none => none
  | none =>
    match m_edca ac with
    | some q => some (s.effect (.PushFront q packet hdr))
    | none => none

end ApWifiMac

/-! ## Notions and samples for the block-ack and association statements -/

/-- The header that `SendAddBaResponse` builds for the frame that carries the
response. -/
def addBaResponseMacHeader (s : ApWifiMac) (originator : Mac48Address) (mem : WifiMacHeader) :
    WifiMacHeader :=
  ((((((WifiMacHeader.construct mem).SetAction).SetAddr1 originator).SetAddr2
    s.GetAddress).SetAddr3 s.GetAddress).SetDsNotFrom).SetDsNotTo

/-- The packet that `SendAddBaResponse` pushes: the empty packet with the
response and, in front of it, the action header of an ADDBA response. -/
def addBaResponsePacket (respHdr : MgtAddBaResponseHeader) : Packet :=
  (Packet.Create.AddHeader (.addBaResponse respHdr)).AddHeader
    (.action { m_category := .BLOCK_ACK, blockAck := .BLOCK_ACK_ADDBA_RESPONSE })

/-- The remote-station manager as the MCS checks of an association request find
it in `Receive`: after the two calls that the rate check makes on it, the second
of which hands over the flag `isErpStation` that the loop over the basic modes
leaves. -/
def ApWifiMac.managerAtMcsCheck (env : Env) (s : ApWifiMac) (src : Mac48Address)
    (assocReq : MgtAssocRequestHeader) : WifiRemoteStationManager :=
  let s := s.stationManagerCall
    (.AddSupportedPlcpPreamble src assocReq.m_capability.IsShortPreamble)
  let c := ApWifiMac.basicModesLoop env s.m_phy.GetChannelWidth assocReq.m_rates
    s.m_stationManager.GetBasicModes
    { problem := false, isHtStation := false, isOfdmStation := false, isErpStation := false,
      isDsssStation := false }
  (s.stationManagerCall
    (.AddSupportedErpSlotTime src (assocReq.m_capability.IsShortSlotTime && c.isErpStation))
    ).m_stationManager

/-- The call hands a frame to a queue, at its end or at its front. -/
def Effect.isEnqueue : Effect → Bool
  | .Queue _ _ _ => true
  | .PushFront _ _ _ => true
  | _ => false

/-- The ERP-OFDM mode of 6 Mbit/s (`ErpOfdmRate6Mbps`: mandatory, coding rate
1/2, constellation size 2). -/
def sampleErpOfdmRate6Mbps : WifiMode :=
  { m_uid := 2
    item := { modClass := .WIFI_MOD_CLASS_ERP_OFDM, constellationSize := 2,
              codingRate := .WIFI_CODE_RATE_1_2, isMandatory := true, mcsValue := 0 } }

/-- The OFDM mode of 6 Mbit/s (`OfdmRate6Mbps`: mandatory, coding rate 1/2,
constellation size 2). -/
def sampleOfdmRate6Mbps : WifiMode :=
  { m_uid := 3
    item := { modClass := .WIFI_MOD_CLASS_OFDM, constellationSize := 2,
              codingRate := .WIFI_CODE_RATE_1_2, isMandatory := true, mcsValue := 0 } }

/-- The HT MCS 0 (`HtMcs0`), as `WifiModeFactory::CreateWifiMcs` fills its
item. -/
def sampleHtMcs0 : WifiMode :=
  { m_uid := 4
    item := { modClass := .WIFI_MOD_CLASS_HT, constellationSize := 0,
              codingRate := .WIFI_CODE_RATE_UNDEFINED, isMandatory := false, mcsValue := 0 } }

/-- Sample values of the functions computed outside, as `sampleEnv`, with the
rate of 6 Mbit/s per stream for an OFDM or ERP-OFDM mode of coding rate 1/2 and
constellation size 2, as `WifiMode::GetDataRate` has it at 20 MHz. -/
def sampleEnvOfdm : Env :=
  { sampleEnv with
    GetDataRate := fun mode _ _ nss =>
      if mode.item.modClass = .WIFI_MOD_CLASS_DSSS ∧ mode.item.constellationSize = 2 then
        1000000 * nss
      else if (mode.item.modClass = .WIFI_MOD_CLASS_ERP_OFDM ∨
            mode.item.modClass = .WIFI_MOD_CLASS_OFDM) ∧
          mode.item.constellationSize = 2 ∧ mode.item.codingRate = .WIFI_CODE_RATE_1_2 then
        6000000 * nss
      else 0 }

/-- The sample access point with the given modes as the modes of its PHY and as
its basic modes, in the given order. -/
def sampleApWithBasicModes (modes : List WifiMode) : ApWifiMac :=
  { sampleAp with
    m_stationManager := { sampleStationManager with basicModes := fun _ => modes }
    m_phy := { sampleAp.m_phy with modes := modes } }

/-- The sample access point with HT, whose only MCS, the HT MCS 0, is a basic
MCS. -/
def sampleHtAp : ApWifiMac :=
  { sampleAp with
    m_htSupported := true
    m_stationManager := { sampleStationManager with basicMcs := fun _ => [sampleHtMcs0] }
    m_phy := { sampleAp.m_phy with mcsList := [sampleHtMcs0] } }

/-- The sample access point with ERP, with the first sample station in its
non-ERP list. -/
def sampleErpAp : ApWifiMac :=
  { sampleAp with m_erpSupported := true, m_nonErpStations := [sampleSta] }

/-- An association request that lists the rate of 6 Mbit/s. -/
def sampleAssocReq6Mbps : MgtAssocRequestHeader :=
  { m_capability := default, m_rates := ⟨[6000000], [], []⟩, m_htCapability := default,
    m_vhtCapability := default }

/-- An association request that lists the rates of 1 Mbit/s and of 6 Mbit/s. -/
def sampleAssocReqBoth : MgtAssocRequestHeader :=
  { m_capability := default, m_rates := ⟨[1000000, 6000000], [], []⟩, m_htCapability := default,
    m_vhtCapability := default }

/-- An association request that lists the rate of 1 Mbit/s and carries HT
capabilities whose MCS set is empty. -/
def sampleAssocReqHtNoMcs : MgtAssocRequestHeader :=
  { m_capability := default, m_rates := ⟨[1000000], [], []⟩,
    m_htCapability := { info := 1, supportedMcs := [] }, m_vhtCapability := default }

/-- The header of a data frame that is not a QoS data frame, which the first
sample station sends through the sample access point to the address `dst`. -/
def sampleDataHdr (dst : Mac48Address) : WifiMacHeader :=
  ((((default : WifiMacHeader).SetTypeData.SetDsTo.SetAddr1 sampleApAddress).SetAddr2
    sampleSta).SetAddr3 dst)

end ns3

namespace ns3

/-! ## Further accessors of the MAC header -/

namespace WifiMacHeader

/-- `WifiMacHeader::IsQosAck`; `none` is the assertion `IsQosData ()`. -/
def IsQosAck (h : WifiMacHeader) : Option Bool :=
  if h.IsQosData then some (decide (h.m_qosAckPolicy = 0)) else none

/-- `WifiMacHeader::IsQosEosp`; `none` is the assertion `IsQosData ()`. -/
def IsQosEosp (h : WifiMacHeader) : Option Bool :=
  if h.IsQosData then some (decide (h.m_qosEosp = 1)) else none

/-- `WifiMacHeader::GetQosAckPolicy`; `none` is the assertion after the
`switch`. -/
def GetQosAckPolicy (h : WifiMacHeader) : Option QosAckPolicy :=
  match h.m_qosAckPolicy with
  | 0 => some .NORMAL_ACK
  | 1 => some .NO_ACK
  | 2 => some .NO_EXPLICIT_ACK
  | 3 => some .BLOCK_ACK
  | _ => none

/-- `WifiMacHeader::SetVOSize`; the argument is a `uint8_t`. -/
def SetVOSize (h : WifiMacHeader) (qsize : Nat) : WifiMacHeader :=
  { h with m_htControlType := 3, m_htControlId := 7, m_qsize_vo := qsize % 256 }

/-- `WifiMacHeader::SetVISize`; the argument is a `uint8_t`. -/
def SetVISize (h : WifiMacHeader) (qsize : Nat) : WifiMacHeader :=
  { h with m_htControlType := 3, m_htControlId := 7, m_qsize_vi := qsize % 256 }

/-- `WifiMacHeader::SetBESize`; the argument is a `uint8_t`. -/
def SetBESize (h : WifiMacHeader) (qsize : Nat) : WifiMacHeader :=
  { h with m_htControlType := 3, m_htControlId := 7, m_qsize_be := qsize % 256 }

/-- `WifiMacHeader::SetBKSize`; the argument is a `uint8_t`. -/
def SetBKSize (h : WifiMacHeader) (qsize : Nat) : WifiMacHeader :=
  { h with m_htControlType := 3, m_htControlId := 7, m_qsize_bk := qsize % 256 }

/-- `WifiMacHeader::GetVOSize`. -/
def GetVOSize (h : WifiMacHeader) : Nat := h.m_qsize_vo

/-- `WifiMacHeader::GetVISize`. -/
def GetVISize (h : WifiMacHeader) : Nat := h.m_qsize_vi

/-- `WifiMacHeader::GetBESize`. -/
def GetBESize (h : WifiMacHeader) : Nat := h.m_qsize_be

/-- `WifiMacHeader::GetBKSize`. -/
def GetBKSize (h : WifiMacHeader) : Nat := h.m_qsize_bk

end WifiMacHeader

/-- The addresses of a data frame by their roles: destination, source, and
either the BSSID or the receiver and the transmitter. -/
structure AddressRoles where
  DA : Mac48Address
  SA : Mac48Address
  BSSID : Option Mac48Address
  RA : Option Mac48Address
  TA : Option Mac48Address
  deriving DecidableEq, Repr, Inhabited

/-- `WifiMacHeader::Print`, the case `WIFI_MAC_DATA`: the roles under which the
addresses are printed, by the ToDS and FromDS flags (a flag counts as set when
it is not 0). -/
def WifiMacHeader.printedAddressRoles (h : WifiMacHeader) : AddressRoles :=
  if h.m_ctrlToDs = 0 ∧ h.m_ctrlFromDs = 0 then
    { DA := h.m_addr1, SA := h.m_addr2, BSSID := some h.m_addr3, RA := none, TA := none }
  else if h.m_ctrlToDs = 0 ∧ h.m_ctrlFromDs ≠ 0 then
    { DA := h.m_addr1, SA := h.m_addr3, BSSID := some h.m_addr2, RA := none, TA := none }
  else if h.m_ctrlToDs ≠ 0 ∧ h.m_ctrlFromDs = 0 then
    { DA := h.m_addr3, SA := h.m_addr2, BSSID := some h.m_addr1, RA := none, TA := none }
  else
    { DA := h.m_addr3, SA := h.m_addr4, BSSID := none, RA := some h.m_addr1,
      TA := some h.m_addr2 }

/-- The header that `ForwardDown` builds for the frame it hands to a queue. -/
def forwardDownHeader (s : ApWifiMac) (src dst : Mac48Address) (tid : Nat)
    (mem : WifiMacHeader) : WifiMacHeader :=
  let hdr := WifiMacHeader.construct mem
  let hdr :=
    if s.m_qosSupported then
      (((((hdr.SetType .WIFI_MAC_QOSDATA).SetQosAckPolicy .NORMAL_ACK).SetQosNoEosp).SetQosNoAmsdu
        ).SetQosTxopLimit 0).SetQosTid tid
    else hdr.SetTypeData
  let hdr := if s.m_htSupported ∨ s.m_vhtSupported ∨ s.m_heSupported then hdr.SetNoOrder else hdr
  ((((hdr.SetAddr1 dst).SetAddr2 s.GetAddress).SetAddr3 src).SetDsFrom).SetDsNotTo

/-! ## The beacon -/

/-- Modelled from the spec: `MgtBeaconHeader`, which derives from
`MgtProbeResponseHeader` and has the same members. -/
abbrev MgtBeaconHeader := MgtProbeResponseHeader

namespace ApWifiMac

/-- Modelled from the spec: `RegularWifiMac::SetSlot`, which hands the slot
time on to the DCF manager and the MAC low. -/
def SetSlot (s : ApWifiMac) (microSeconds : Nat) : ApWifiMac :=
  s.effect (.SetSlot microSeconds)

/-- `ApWifiMac::SendOneBeacon`. -/
def SendOneBeacon (env : Env) (s : ApWifiMac) (mem : WifiMacHeader) : ApWifiMac :=
  let hdr := WifiMacHeader.construct mem
  let hdr := hdr.SetBeacon
  let hdr := hdr.SetAddr1 Mac48Address.GetBroadcast
  let hdr := hdr.SetAddr2 s.GetAddress
  let hdr := hdr.SetAddr3 s.GetAddress
  let hdr := hdr.SetDsNotFrom
  let hdr := hdr.SetDsNotTo
  let packet := Packet.Create
  let beacon : MgtBeaconHeader := default
  let beacon := { beacon with m_ssid := s.m_ssid }
  let (rates, s) := s.GetSupportedRates env
  let beacon := { beacon with m_rates := rates }
  let beacon := { beacon with m_beaconInterval := s.m_beaconInterval }
  let beacon := { beacon with m_capability := s.GetCapabilities }
  let s := s.stationManagerCall (.SetShortPreambleEnabled s.GetShortPreambleEnabled)
  let s := s.stationManagerCall (.SetShortSlotTimeEnabled s.GetShortSlotTimeEnabled)
  let beacon :=
    if s.m_dsssSupported then { beacon with m_dsssParameterSet := s.GetDsssParameterSet }
    else beacon
  let (beacon, s) :=
    if s.m_erpSupported then
      let (information, s) := s.GetErpInformation
      ({ beacon with m_erpInformation := information }, s)
    else (beacon, s)
  let beacon := if s.m_qosSupported then { beacon with m_edcaParameterSet := true } else beacon
  let (beacon, hdr) :=
    if s.m_htSupported ∨ s.m_vhtSupported then
      ({ beacon with m_htCapability := true, m_htOperations := s.GetHtOperations },
        hdr.SetNoOrder)
    else (beacon, hdr)
  let beacon := if s.m_vhtSupported then { beacon with m_vhtCapability := true } else beacon
  let packet := packet.AddHeader (.probeResponse beacon)
  let s := s.effect (.Queue .m_beaconDca packet hdr)
  let s := s.effect (.ScheduleBeacon s.m_beaconInterval)
  if s.m_erpSupported then
    if s.GetShortSlotTimeEnabled = true then s.SetSlot 9
    else s.SetSlot 20
  else s

end ApWifiMac

/-! ## Rates of a mode (`wifi-mode.cc`) -/

/-- Modelled from the spec: `HeDataRate_t`, the entry of an HE rate table, by
the member that the sources set and read. -/
structure HeDataRate_t where
  dataRate : Nat
  deriving DecidableEq, Repr, Inhabited

/-- The seven static HE rate tables of `WifiMode`, each a map from the MCS value
to its entry. -/
structure HeRateTables where
  heDataRate : StdMap Nat HeDataRate_t
  m_he52DataRate : StdMap Nat HeDataRate_t
  m_he106DataRate : StdMap Nat HeDataRate_t
  m_he242DataRate : StdMap Nat HeDataRate_t
  m_he484DataRate : StdMap Nat HeDataRate_t
  m_he996DataRate : StdMap Nat HeDataRate_t
  m_he996x2DataRate : StdMap Nat HeDataRate_t
  deriving DecidableEq, Repr, Inhabited

namespace WifiMode

/-- `WifiMode::CreateHeRateTable`: the statements of the function in their
order, on the tables `t`; the local `rateValue` starts with what its storage
`mem` held. -/
def CreateHeRateTable (t : HeRateTables) (mem : HeDataRate_t) : HeRateTables :=
  let rateValue : HeDataRate_t := mem
  let rateValue : HeDataRate_t := { rateValue with dataRate := 900000 }
  let t : HeRateTables := { t with heDataRate := t.heDataRate.insert 0 rateValue }
  let rateValue : HeDataRate_t := { rateValue with dataRate := 1800000 }
  let t : HeRateTables := { t with heDataRate := t.heDataRate.insert 1 rateValue }
  let t : HeRateTables := { t with m_he52DataRate := t.m_he52DataRate.insert 0 rateValue }
  let rateValue : HeDataRate_t := { rateValue with dataRate := 2600000 }
  let t : HeRateTables := { t with heDataRate := t.heDataRate.insert 2 rateValue }
  let rateValue : HeDataRate_t := { rateValue with dataRate := 3500000 }
  let t : HeRateTables := { t with heDataRate := t.heDataRate.insert 3 rateValue }
  let t : HeRateTables := { t with m_he52DataRate := t.m_he52DataRate.insert 1 rateValue }
  let rateValue : HeDataRate_t := { rateValue with dataRate := 3800000 }
  let t : HeRateTables := { t with m_he106DataRate := t.m_he106DataRate.insert 0 rateValue }
  let rateValue : HeDataRate_t := { rateValue with dataRate := 5300000 }
  let t : HeRateTables := { t with heDataRate := t.heDataRate.insert 4 rateValue }
  let t : HeRateTables := { t with m_he52DataRate := t.m_he52DataRate.insert 2 rateValue }
  let rateValue : HeDataRate_t := { rateValue with dataRate := 7100000 }
  let t : HeRateTables := { t with heDataRate := t.heDataRate.insert 5 rateValue }
  let t : HeRateTables := { t with m_he52DataRate := t.m_he52DataRate.insert 3 rateValue }
  let rateValue : HeDataRate_t := { rateValue with dataRate := 7500000 }
  let t : HeRateTables := { t with m_he106DataRate := t.m_he106DataRate.insert 1 rateValue }
  let rateValue : HeDataRate_t := { rateValue with dataRate := 7900000 }
  let t : HeRateTables := { t with heDataRate := t.heDataRate.insert 6 rateValue }
  let rateValue : HeDataRate_t := { rateValue with dataRate := 8600000 }
  let t : HeRateTables := { t with m_he242DataRate := t.m_he242DataRate.insert 0 rateValue }
  let rateValue : HeDataRate_t := { rateValue with dataRate := 8800000 }
  let t : HeRateTables := { t with heDataRate := t.heDataRate.insert 7 rateValue }
  let rateValue : HeDataRate_t := { rateValue with dataRate := 10600000 }
  let t : HeRateTables := { t with heDataRate := t.heDataRate.insert 8 rateValue }
  let t : HeRateTables := { t with m_he52DataRate := t.m_he52DataRate.insert 4 rateValue }
  let rateValue : HeDataRate_t := { rateValue with dataRate := 11300000 }
  let t : HeRateTables := { t with m_he106DataRate := t.m_he106DataRate.insert 2 rateValue }
  let rateValue : HeDataRate_t := { rateValue with dataRate := 11800000 }
  let t : HeRateTables := { t with heDataRate := t.heDataRate.insert 9 rateValue }
  let rateValue : HeDataRate_t := { rateValue with dataRate := 14100000 }
  let t : HeRateTables := { t with m_he52DataRate := t.m_he52DataRate.insert 5 rateValue }
  let rateValue : HeDataRate_t := { rateValue with dataRate := 15000000 }
  let t : HeRateTables := { t with m_he106DataRate := t.m_he106DataRate.insert 3 rateValue }
  let rateValue : HeDataRate_t := { rateValue with dataRate := 15900000 }
  let t : HeRateTables := { t with m_he52DataRate := t.m_he52DataRate.insert 6 rateValue }
  let rateValue : HeDataRate_t := { rateValue with dataRate := 17200000 }
  let t : HeRateTables := { t with m_he242DataRate := t.m_he242DataRate.insert 1 rateValue }
  let t : HeRateTables := { t with m_he484DataRate := t.m_he484DataRate.insert 0 rateValue }
  let rateValue : HeDataRate_t := { rateValue with dataRate := 17600000 }
  let t : HeRateTables := { t with m_he52DataRate := t.m_he52DataRate.insert 7 rateValue }
  let rateValue : HeDataRate_t := { rateValue with dataRate := 21200000 }
  let t : HeRateTables := { t with m_he52DataRate := t.m_he52DataRate.insert 8 rateValue }
  let rateValue : HeDataRate_t := { rateValue with dataRate := 22500000 }
  let t : HeRateTables := { t with m_he106DataRate := t.m_he106DataRate.insert 4 rateValue }
  let rateValue : HeDataRate_t := { rateValue with dataRate := 23500000 }
  let t : HeRateTables := { t with m_he52DataRate := t.m_he52DataRate.insert 9 rateValue }
  let rateValue : HeDataRate_t := { rateValue with dataRate := 25800000 }
  let t : HeRateTables := { t with m_he242DataRate := t.m_he242DataRate.insert 2 rateValue }
  let rateValue : HeDataRate_t := { rateValue with dataRate := 30000000 }
  let t : HeRateTables := { t with m_he106DataRate := t.m_he106DataRate.insert 5 rateValue }
  let rateValue : HeDataRate_t := { rateValue with dataRate := 33800000 }
  let t : HeRateTables := { t with m_he106DataRate := t.m_he106DataRate.insert 6 rateValue }
  let rateValue : HeDataRate_t := { rateValue with dataRate := 34400000 }
  let t : HeRateTables := { t with m_he242DataRate := t.m_he242DataRate.insert 3 rateValue }
  let t : HeRateTables := { t with m_he484DataRate := t.m_he484DataRate.insert 1 rateValue }
  let rateValue : HeDataRate_t := { rateValue with dataRate := 36000000 }
  let t : HeRateTables := { t with m_he996DataRate := t.m_he996DataRate.insert 0 rateValue }
  let rateValue : HeDataRate_t := { rateValue with dataRate := 37500000 }
  let t : HeRateTables := { t with m_he106DataRate := t.m_he106DataRate.insert 7 rateValue }
  let rateValue : HeDataRate_t := { rateValue with dataRate := 45000000 }
  let t : HeRateTables := { t with m_he106DataRate := t.m_he106DataRate.insert 8 rateValue }
  let rateValue : HeDataRate_t := { rateValue with dataRate := 50000000 }
  let t : HeRateTables := { t with m_he106DataRate := t.m_he106DataRate.insert 9 rateValue }
  let rateValue : HeDataRate_t := { rateValue with dataRate := 51600000 }
  let t : HeRateTables := { t with m_he242DataRate := t.m_he242DataRate.insert 4 rateValue }
  let t : HeRateTables := { t with m_he484DataRate := t.m_he484DataRate.insert 2 rateValue }
  let rateValue : HeDataRate_t := { rateValue with dataRate := 68800000 }
  let t : HeRateTables := { t with m_he242DataRate := t.m_he242DataRate.insert 5 rateValue }
  let t : HeRateTables := { t with m_he484DataRate := t.m_he484DataRate.insert 3 rateValue }
  let rateValue : HeDataRate_t := { rateValue with dataRate := 72100000 }
  let t : HeRateTables := { t with m_he996DataRate := t.m_he996DataRate.insert 1 rateValue }
  let t : HeRateTables := { t with m_he996x2DataRate := t.m_he996x2DataRate.insert 0 rateValue }
  let rateValue : HeDataRate_t := { rateValue with dataRate := 77400000 }
  let t : HeRateTables := { t with m_he242DataRate := t.m_he242DataRate.insert 6 rateValue }
  let rateValue : HeDataRate_t := { rateValue with dataRate := 86000000 }
  let t : HeRateTables := { t with m_he242DataRate := t.m_he242DataRate.insert 7 rateValue }
  let rateValue : HeDataRate_t := { rateValue with dataRate := 103200000 }
  let t : HeRateTables := { t with m_he242DataRate := t.m_he242DataRate.insert 8 rateValue }
  let t : HeRateTables := { t with m_he484DataRate := t.m_he484DataRate.insert 4 rateValue }
  let rateValue : HeDataRate_t := { rateValue with dataRate := 108100000 }
  let t : HeRateTables := { t with m_he996DataRate := t.m_he996DataRate.insert 2 rateValue }
  let rateValue : HeDataRate_t := { rateValue with dataRate := 114700000 }
  let t : HeRateTables := { t with m_he242DataRate := t.m_he242DataRate.insert 9 rateValue }
  let rateValue : HeDataRate_t := { rateValue with dataRate := 129000000 }
  let t : HeRateTables := { t with m_he242DataRate := t.m_he242DataRate.insert 10 rateValue }
  let rateValue : HeDataRate_t := { rateValue with dataRate := 137600000 }
  let t : HeRateTables := { t with m_he484DataRate := t.m_he484DataRate.insert 5 rateValue }
  let rateValue : HeDataRate_t := { rateValue with dataRate := 143400000 }
  let t : HeRateTables := { t with m_he242DataRate := t.m_he242DataRate.insert 11 rateValue }
  let rateValue : HeDataRate_t := { rateValue with dataRate := 144100000 }
  let t : HeRateTables := { t with m_he996DataRate := t.m_he996DataRate.insert 3 rateValue }
  let t : HeRateTables := { t with m_he996x2DataRate := t.m_he996x2DataRate.insert 1 rateValue }
  let rateValue : HeDataRate_t := { rateValue with dataRate := 154900000 }
  let t : HeRateTables := { t with m_he484DataRate := t.m_he484DataRate.insert 6 rateValue }
  let rateValue : HeDataRate_t := { rateValue with dataRate := 172100000 }
  let t : HeRateTables := { t with m_he484DataRate := t.m_he484DataRate.insert 7 rateValue }
  let rateValue : HeDataRate_t := { rateValue with dataRate := 206500000 }
  let t : HeRateTables := { t with m_he484DataRate := t.m_he484DataRate.insert 8 rateValue }
  let rateValue : HeDataRate_t := { rateValue with dataRate := 216200000 }
  let t : HeRateTables := { t with m_he996DataRate := t.m_he996DataRate.insert 4 rateValue }
  let t : HeRateTables := { t with m_he996x2DataRate := t.m_he996x2DataRate.insert 2 rateValue }
  let rateValue : HeDataRate_t := { rateValue with dataRate := 229400000 }
  let t : HeRateTables := { t with m_he484DataRate := t.m_he484DataRate.insert 9 rateValue }
  let rateValue : HeDataRate_t := { rateValue with dataRate := 258100000 }
  let t : HeRateTables := { t with m_he484DataRate := t.m_he484DataRate.insert 10 rateValue }
  let rateValue : HeDataRate_t := { rateValue with dataRate := 286800000 }
  let t : HeRateTables := { t with m_he484DataRate := t.m_he484DataRate.insert 11 rateValue }
  let rateValue : HeDataRate_t := { rateValue with dataRate := 288200000 }
  let t : HeRateTables := { t with m_he996DataRate := t.m_he996DataRate.insert 5 rateValue }
  let t : HeRateTables := { t with m_he996x2DataRate := t.m_he996x2DataRate.insert 3 rateValue }
  let rateValue : HeDataRate_t := { rateValue with dataRate := 324300000 }
  let t : HeRateTables := { t with m_he996DataRate := t.m_he996DataRate.insert 6 rateValue }
  let rateValue : HeDataRate_t := { rateValue with dataRate := 360300000 }
  let t : HeRateTables := { t with m_he996DataRate := t.m_he996DataRate.insert 7 rateValue }
  let rateValue : HeDataRate_t := { rateValue with dataRate := 432400000 }
  let t : HeRateTables := { t with m_he996DataRate := t.m_he996DataRate.insert 8 rateValue }
  let t : HeRateTables := { t with m_he996x2DataRate := t.m_he996x2DataRate.insert 4 rateValue }
  let rateValue : HeDataRate_t := { rateValue with dataRate := 480400000 }
  let t : HeRateTables := { t with m_he996DataRate := t.m_he996DataRate.insert 9 rateValue }
  let rateValue : HeDataRate_t := { rateValue with dataRate := 540400000 }
  let t : HeRateTables := { t with m_he996DataRate := t.m_he996DataRate.insert 10 rateValue }
  let rateValue : HeDataRate_t := { rateValue with dataRate := 576500000 }
  let t : HeRateTables := { t with m_he996x2DataRate := t.m_he996x2DataRate.insert 5 rateValue }
  let rateValue : HeDataRate_t := { rateValue with dataRate := 600400000 }
  let t : HeRateTables := { t with m_he996DataRate := t.m_he996DataRate.insert 11 rateValue }
  let rateValue : HeDataRate_t := { rateValue with dataRate := 648500000 }
  let t : HeRateTables := { t with m_he996x2DataRate := t.m_he996x2DataRate.insert 6 rateValue }
  let rateValue : HeDataRate_t := { rateValue with dataRate := 720600000 }
  let t : HeRateTables := { t with m_he996x2DataRate := t.m_he996x2DataRate.insert 7 rateValue }
  let rateValue : HeDataRate_t := { rateValue with dataRate := 864700000 }
  let t : HeRateTables := { t with m_he996x2DataRate := t.m_he996x2DataRate.insert 8 rateValue }
  let rateValue : HeDataRate_t := { rateValue with dataRate := 960700000 }
  let t : HeRateTables := { t with m_he996x2DataRate := t.m_he996x2DataRate.insert 9 rateValue }
  let rateValue : HeDataRate_t := { rateValue with dataRate := 1080900000 }
  let t : HeRateTables := { t with m_he996x2DataRate := t.m_he996x2DataRate.insert 10 rateValue }
  let rateValue : HeDataRate_t := { rateValue with dataRate := 1201000000 }
  let t : HeRateTables := { t with m_he996x2DataRate := t.m_he996x2DataRate.insert 11 rateValue }
  t

/-- `WifiMode::GetCodeRate`. -/
def GetCodeRate (m : WifiMode) : WifiCodeRate :=
  if m.item.modClass = .WIFI_MOD_CLASS_HT then
    match m.item.mcsValue % 8 with
    | 0 => .WIFI_CODE_RATE_1_2
    | 1 => .WIFI_CODE_RATE_1_2
    | 3 => .WIFI_CODE_RATE_1_2
    | 2 => .WIFI_CODE_RATE_3_4
    | 4 => .WIFI_CODE_RATE_3_4
    | 6 => .WIFI_CODE_RATE_3_4
    | 5 => .WIFI_CODE_RATE_2_3
    | 7 => .WIFI_CODE_RATE_5_6
    | _ => .WIFI_CODE_RATE_UNDEFINED
  else if m.item.modClass = .WIFI_MOD_CLASS_VHT ∨ m.item.modClass = .WIFI_MOD_CLASS_HE then
    match m.item.mcsValue with
    | 0 => .WIFI_CODE_RATE_1_2
    | 1 => .WIFI_CODE_RATE_1_2
    | 3 => .WIFI_CODE_RATE_1_2
    | 2 => .WIFI_CODE_RATE_3_4
    | 4 => .WIFI_CODE_RATE_3_4
    | 6 => .WIFI_CODE_RATE_3_4
    | 8 => .WIFI_CODE_RATE_3_4
    | 5 => .WIFI_CODE_RATE_2_3
    | 7 => .WIFI_CODE_RATE_5_6
    | 9 => .WIFI_CODE_RATE_5_6
    | _ => .WIFI_CODE_RATE_UNDEFINED
  else m.item.codingRate

/-- `WifiMode::GetConstellationSize`. -/
def GetConstellationSize (m : WifiMode) : Nat :=
  if m.item.modClass = .WIFI_MOD_CLASS_HT then
    match m.item.mcsValue % 8 with
    | 0 => 2
    | 1 => 4
    | 2 => 4
    | 3 => 16
    | 4 => 16
    | 5 => 64
    | 6 => 64
    | 7 => 64
    | _ => 0
  else if m.item.modClass = .WIFI_MOD_CLASS_VHT then
    match m.item.mcsValue with
    | 0 => 2
    | 1 => 4
    | 2 => 4
    | 3 => 16
    | 4 => 16
    | 5 => 64
    | 6 => 64
    | 7 => 64
    | 8 => 256
    | 9 => 256
    | _ => 0
  else if m.item.modClass = .WIFI_MOD_CLASS_HE then
    match m.item.mcsValue with
    | 0 => 2
    | 1 => 4
    | 2 => 4
    | 3 => 16
    | 4 => 16
    | 5 => 64
    | 6 => 64
    | 7 => 64
    | 8 => 256
    | 9 => 256
    | 10 => 1024
    | 11 => 1024
    | _ => 0
  else m.item.constellationSize

/-- `WifiMode::GetDataRate`, the HE branch: the entry that `find` gives in the
table of the channel width; `none` is the end iterator of the table, or the
iterator that no branch has set. -/
def heMapValue (t : HeRateTables) (channelWidth mcs : Nat) : Option HeDataRate_t :=
  if channelWidth = 2 then t.heDataRate.find mcs
  else if channelWidth = 4 then t.m_he52DataRate.find mcs
  else if channelWidth = 8 then t.m_he106DataRate.find mcs
  else if channelWidth = 20 then t.m_he242DataRate.find mcs
  else if channelWidth = 40 then t.m_he484DataRate.find mcs
  else if channelWidth = 80 then t.m_he996DataRate.find mcs
  else if channelWidth = 160 then t.m_he996x2DataRate.find mcs
  else none

/-- `WifiMode::GetDataRate` with a channel width, returned as a `uint64_t`.
`none` is the assertion `nss <= 4`, the conversion of the logarithm of a
constellation size 0, the assertion of `GetMcsValue`, or, in the HE branch, the
dereference of an iterator that points to no entry.  The branches for OFDM,
ERP-OFDM, HT and VHT work in floating point; the rate of one stream that they
compute is taken as given (`floatRate`).  For any other modulation class the
rate stays 0, the assertion there being on a string literal. -/
def GetDataRate (floatRate : WifiMode → Nat → Bool → Nat) (t : HeRateTables) (m : WifiMode)
    (channelWidth : Nat) (isShortGuardInterval : Bool) (nss : Nat) : Option Nat :=
  if ¬ nss ≤ 4 then none
  else if m.GetConstellationSize = 0 then none
  else do
    let numberOfBitsPerSubcarrier := Nat.log2 m.GetConstellationSize
    let dataRate ←
      if m.item.modClass = .WIFI_MOD_CLASS_DSSS then
        some ((11000000 / 11) * numberOfBitsPerSubcarrier)
      else if m.item.modClass = .WIFI_MOD_CLASS_HR_DSSS then
        some ((11000000 / 8) * numberOfBitsPerSubcarrier)
      else if m.item.modClass = .WIFI_MOD_CLASS_OFDM ∨
          m.item.modClass = .WIFI_MOD_CLASS_ERP_OFDM then
        some (floatRate m channelWidth isShortGuardInterval % 18446744073709551616)
      else if m.item.modClass = .WIFI_MOD_CLASS_HT ∨ m.item.modClass = .WIFI_MOD_CLASS_VHT then
        some (floatRate m channelWidth isShortGuardInterval % 18446744073709551616)
      else if m.item.modClass = .WIFI_MOD_CLASS_HE then do
        let mcs ← m.GetMcsValue
        let mapValue ← heMapValue t channelWidth mcs
        some mapValue.dataRate
      else some 0
    some (dataRate * nss % 18446744073709551616)

/-- `WifiMode::GetPhyRate` with a channel width; the locals `dataRate` and
`phyRate` are `uint32_t`.  `none` is the assertion `nss <= 4` or a failure of
`GetDataRate`. -/
def GetPhyRate (floatRate : WifiMode → Nat → Bool → Nat) (t : HeRateTables) (m : WifiMode)
    (channelWidth : Nat) (isShortGuardInterval : Bool) (nss : Nat) : Option Nat :=
  if ¬ nss ≤ 4 then none
  else do
    let d ← m.GetDataRate floatRate t channelWidth isShortGuardInterval nss
    let dataRate := d % 4294967296
    let phyRate :=
      match m.GetCodeRate with
      | .WIFI_CODE_RATE_5_6 => dataRate * 6 % 4294967296 / 5
      | .WIFI_CODE_RATE_3_4 => dataRate * 4 % 4294967296 / 3
      | .WIFI_CODE_RATE_2_3 => dataRate * 3 % 4294967296 / 2
      | .WIFI_CODE_RATE_1_2 => dataRate * 2 % 4294967296 / 1
      | .WIFI_CODE_RATE_UNDEFINED => dataRate
    some phyRate

end WifiMode

/-! ## Notions for the statements of this part -/

/-- The HE rate tables after `CreateHeRateTable` has filled the empty static
tables. -/
def heRateTables : HeRateTables :=
  WifiMode.CreateHeRateTable ⟨[], [], [], [], [], [], []⟩ default

/-- The data rate divided by the code rate, in exact integer arithmetic. -/
def exactPhyRate (d : Nat) : WifiCodeRate → Nat
  | .WIFI_CODE_RATE_5_6 => d * 6 / 5
  | .WIFI_CODE_RATE_3_4 => d * 4 / 3
  | .WIFI_CODE_RATE_2_3 => d * 3 / 2
  | .WIFI_CODE_RATE_1_2 => d * 2
  | .WIFI_CODE_RATE_UNDEFINED => d

/-- An HE MCS, as `WifiModeFactory::CreateWifiMcs` fills its item. -/
def sampleHeMcs (mcsValue : Nat) : WifiMode :=
  { m_uid := 100 + mcsValue
    item := { modClass := .WIFI_MOD_CLASS_HE, constellationSize := 0,
              codingRate := .WIFI_CODE_RATE_UNDEFINED, isMandatory := false,
              mcsValue := mcsValue } }

/-- The call sets the slot time. -/
def Effect.isSetSlot : Effect → Bool
  | .SetSlot _ => true
  | _ => false

/-- The calls that `SendOneBeacon` makes on the remote-station manager, itself
or through `GetSupportedRates` and `GetErpInformation`. -/
def StationManagerCall.isBeaconCall : StationManagerCall → Bool
  | .AddBasicMode _ => true
  | .SetUseNonErpProtection _ => true
  | .SetShortPreambleEnabled _ => true
  | .SetShortSlotTimeEnabled _ => true
  | _ => false

/-- The state `t` is the state `s` after calls on the remote-station manager
that are all of the kind that `SendOneBeacon` makes. -/
def ApWifiMac.AfterBeaconCalls (s t : ApWifiMac) : Prop :=
  ∃ cs : List StationManagerCall, (∀ c ∈ cs, c.isBeaconCall = true) ∧
    t = { s with
      m_stationManager :=
        { s.m_stationManager with calls := s.m_stationManager.calls ++ cs } }

/-- The remote-station manager answers the question whether a station of the
associated-station list supports the short slot time as before, whatever calls
of the kind that `SendOneBeacon` makes are added to the calls made on it. -/
def ApWifiMac.SlotSupportStable (s : ApWifiMac) : Prop :=
  ∀ cs : List StationManagerCall, (∀ c ∈ cs, c.isBeaconCall = true) →
    ∀ i ∈ s.m_staList,
      s.m_stationManager.shortSlotTimeSupported (s.m_stationManager.calls ++ cs) i =
        s.m_stationManager.shortSlotTimeSupported s.m_stationManager.calls i

/-- A call that bears on the AID map: `AllocateAid` for an address,
`SetWifiRemoteStationManager`, or a first-time allocation by another access
point of the program, which advances the counter of `AllocateAid`, a static
local that all access points share. -/
inductive RegistryCall
  | AllocateAid (mac : Mac48Address)
  | SetWifiRemoteStationManager (stationManager : WifiRemoteStationManager)
  | AllocateAidElsewhere

/-- The state after the call. -/
def RegistryCall.run (s : ApWifiMac) : RegistryCall → ApWifiMac
  | .AllocateAid mac => (s.AllocateAid mac).2
  | .SetWifiRemoteStationManager stationManager => s.SetWifiRemoteStationManager stationManager
  | .AllocateAidElsewhere => { s with aid := (s.aid + 1) % 65536 }

/-- The call is a first-time allocation: it advances the counter. -/
def RegistryCall.isFirstTime (s : ApWifiMac) : RegistryCall → Bool
  | .AllocateAid mac => (StdMap.find s.m_aidMap mac).isNone
  | .SetWifiRemoteStationManager _ => false
  | .AllocateAidElsewhere => true

/-- The number of first-time allocations so far and the state, after the calls
of the list in their order. -/
def runRegistryCalls : List RegistryCall → Nat × ApWifiMac → Nat × ApWifiMac
  | [], r => r
  | c :: cs, r => runRegistryCalls cs (if c.isFirstTime r.2 then r.1 + 1 else r.1, c.run r.2)

/-- The sample access point with ERP and the short slot time, with the first
sample station, which supports the short slot time, in its associated-station
list. -/
def sampleErpShortSlotAp : ApWifiMac :=
  { sampleAp with
    m_erpSupported := true
    m_shortSlotTimeSupported := true
    m_staList := [sampleSta] }

/-- The header of an association request of the second sample station to the
sample access point. -/
def sampleAssocReqHdr2 : WifiMacHeader :=
  (((default : WifiMacHeader).SetAssocReq.SetAddr1 sampleApAddress).SetAddr2 sampleSta2).SetAddr3
    sampleApAddress

end ns3

namespace ns3

/-! ## Bit-level arithmetic -/

theorem and_mask1 (x : Nat) : x &&& 1 = x % 2 := Nat.and_pow_two_sub_one_eq_mod x 1

theorem and_mask3 (x : Nat) : x &&& 3 = x % 4 := Nat.and_pow_two_sub_one_eq_mod x 2

theorem and_mask7 (x : Nat) : x &&& 7 = x % 8 := Nat.and_pow_two_sub_one_eq_mod x 3

theorem and_mask15 (x : Nat) : x &&& 15 = x % 16 := Nat.and_pow_two_sub_one_eq_mod x 4

theorem and_mask63 (x : Nat) : x &&& 63 = x % 64 := Nat.and_pow_two_sub_one_eq_mod x 6

theorem and_mask255 (x : Nat) : x &&& 255 = x % 256 := Nat.and_pow_two_sub_one_eq_mod x 8

theorem and_mask4095 (x : Nat) : x &&& 4095 = x % 4096 :=
  Nat.and_pow_two_sub_one_eq_mod x 12

/-- Masking after a shift is shifting after masking. -/
theorem shiftLeft_and_shiftLeft (x m k : Nat) :
    (x <<< k) &&& (m <<< k) = (x &&& m) <<< k := by
  apply Nat.eq_of_testBit_eq
  intro i
  simp only [Nat.testBit_and, Nat.testBit_shiftLeft]
  cases decide (i ≥ k) <;> simp

/-- A value below `2 ^ k` and a multiple of `2 ^ k` have no common bit. -/
theorem or_shiftLeft_eq_add (a b k : Nat) (h : a < 2 ^ k) :
    a ||| (b <<< k) = a + b * 2 ^ k := by
  rw [Nat.shiftLeft_eq, Nat.or_comm, Nat.mul_comm b, ← Nat.mul_add_lt_is_or h b, Nat.add_comm]

/-! ## Sequence control, QoS control and the size rule -/

open WifiMacHeader

/-- C3: `GetSize` follows the layout rule: 24 octets for every management frame
whatever its subtype and flags; 16 for control RTS, Trigger, BlockAckReq and
BlockAck; 10 for control CTS and ACK; and for every data frame 24, plus 6 when
ToDS and FromDS are both set, plus 2 when subtype bit 0x08 is set, plus 4 when
subtype bit 0x08 and the order bit are both set, so that the order bit adds
nothing to a data frame without subtype bit 0x08. -/
theorem GetSize_layout_rule (h : WifiMacHeader) :
    (h.m_ctrlType = TYPE_MGT → h.GetSize = 24) ∧
    (h.m_ctrlType = TYPE_CTL →
      (h.m_ctrlSubtype = SUBTYPE_CTL_RTS ∨ h.m_ctrlSubtype = SUBTYPE_CTL_TRIGGER ∨
        h.m_ctrlSubtype = SUBTYPE_CTL_BACKREQ ∨ h.m_ctrlSubtype = SUBTYPE_CTL_BACKRESP) →
      h.GetSize = 16) ∧
    (h.m_ctrlType = TYPE_CTL →
      (h.m_ctrlSubtype = SUBTYPE_CTL_CTS ∨ h.m_ctrlSubtype = SUBTYPE_CTL_ACK) →
      h.GetSize = 10) ∧
    (h.m_ctrlType = TYPE_DATA →
      h.GetSize = 24 + (if h.m_ctrlToDs ≠ 0 ∧ h.m_ctrlFromDs ≠ 0 then 6 else 0)
        + (if h.m_ctrlSubtype &&& 0x08 ≠ 0 then 2 else 0)
        + (if h.m_ctrlSubtype &&& 0x08 ≠ 0 ∧ h.m_ctrlOrder ≠ 0 then 4 else 0)) ∧
    (h.m_ctrlType = TYPE_DATA → h.m_ctrlSubtype &&& 0x08 = 0 →
      h.GetSize = 24 + (if h.m_ctrlToDs ≠ 0 ∧ h.m_ctrlFromDs ≠ 0 then 6 else 0)) := by
  refine ⟨?_, ?_, ?_, ?_, ?_⟩
  · intro ht
    simp [GetSize, ht]
  · intro ht hs
    rcases hs with hs | hs | hs | hs <;>
      simp [GetSize, ht, hs, TYPE_MGT, TYPE_CTL, SUBTYPE_CTL_RTS, SUBTYPE_CTL_TRIGGER,
        SUBTYPE_CTL_BACKREQ, SUBTYPE_CTL_BACKRESP, SUBTYPE_CTL_CTS, SUBTYPE_CTL_ACK]
  · intro ht hs
    rcases hs with hs | hs <;>
      simp [GetSize, ht, hs, TYPE_MGT, TYPE_CTL, SUBTYPE_CTL_RTS, SUBTYPE_CTL_TRIGGER,
        SUBTYPE_CTL_CTS, SUBTYPE_CTL_ACK]
  · intro ht
    simp only [GetSize, ht, TYPE_MGT, TYPE_CTL, TYPE_DATA]
    by_cases h1 : h.m_ctrlToDs ≠ 0 ∧ h.m_ctrlFromDs ≠ 0 <;>
      by_cases h2 : h.m_ctrlSubtype &&& 0x08 ≠ 0 <;>
      by_cases h3 : h.m_ctrlOrder ≠ 0 <;> simp [h1, h2, h3]
  · intro ht hs
    simp only [GetSize, ht, TYPE_MGT, TYPE_CTL, TYPE_DATA]
    by_cases h1 : h.m_ctrlToDs ≠ 0 ∧ h.m_ctrlFromDs ≠ 0 <;> simp [h1, hs]

/-- Witness for C3 on a QoS data frame with four addresses and the order bit. -/
theorem GetSize_layout_rule_witness :
    ({ (default : WifiMacHeader) with
        m_ctrlType := 2, m_ctrlSubtype := 8, m_ctrlToDs := 1, m_ctrlFromDs := 1,
        m_ctrlOrder := 1 } : WifiMacHeader).GetSize = 36 := by
  have h := (GetSize_layout_rule { (default : WifiMacHeader) with
        m_ctrlType := 2, m_ctrlSubtype := 8, m_ctrlToDs := 1, m_ctrlFromDs := 1,
        m_ctrlOrder := 1 }).2.2.2.1 rfl
  simpa using h

/-- C5: sequence control is packed as `(seq << 4) | frag`: for every 16-bit word
`w`, after `SetSequenceControl (w)` the fragment number is `w & 0xf`, the
sequence number is `w >> 4`, and `GetSequenceControl` returns `w`. -/
theorem SequenceControl_packing (h : WifiMacHeader) (w : Nat) (hw : w < 65536) :
    (h.SetSequenceControl w).m_seqFrag = w &&& 0xf ∧
    (h.SetSequenceControl w).m_seqSeq = w >>> 4 ∧
    (h.SetSequenceControl w).GetSequenceControl = w := by
  simp only [SetSequenceControl, GetSequenceControl, and_mask15, and_mask4095]
  refine ⟨trivial, by omega, ?_⟩
  rw [Nat.or_comm, or_shiftLeft_eq_add _ _ 4 (by omega)]
  omega

/-- Witness for C5 at the word 0xabcd. -/
theorem SequenceControl_packing_witness :
    ((default : WifiMacHeader).SetSequenceControl 0xabcd).m_seqFrag = 0xd ∧
    ((default : WifiMacHeader).SetSequenceControl 0xabcd).m_seqSeq = 0xabc ∧
    ((default : WifiMacHeader).SetSequenceControl 0xabcd).GetSequenceControl = 0xabcd :=
  SequenceControl_packing default 0xabcd (by decide)

/-- C6: QoS control is packed as TID in bits 0-3, EOSP in bit 4, ack policy in
bits 5-6, A-MSDU-present in bit 7 and the TXOP / queue-size octet in bits 8-15:
for every 16-bit word `w`, `SetQosControl (w)` sets exactly those five members
from those bit ranges and leaves every other member as it was, and
`GetQosControl` then returns `w`. -/
theorem QosControl_packing (h : WifiMacHeader) (w : Nat) (hw : w < 65536) :
    h.SetQosControl w =
      { h with
        m_qosTid := w % 16
        m_qosEosp := w / 16 % 2
        m_qosAckPolicy := w / 32 % 4
        m_amsduPresent := w / 128 % 2
        m_qosStuff := w / 256 } ∧
    (h.SetQosControl w).GetQosControl = w := by
  simp only [SetQosControl, GetQosControl, and_mask15, and_mask1, and_mask3, and_mask255,
    Nat.zero_or]
  simp (disch := omega) only [or_shiftLeft_eq_add _ _ 4, or_shiftLeft_eq_add _ _ 5,
    or_shiftLeft_eq_add _ _ 7, or_shiftLeft_eq_add _ _ 8]
  constructor
  · congr 1 <;> omega
  · omega

/-- Witness for C6 at the word 0xabcd. -/
theorem QosControl_packing_witness :
    (default : WifiMacHeader).SetQosControl 0xabcd =
      { (default : WifiMacHeader) with
        m_qosTid := 0xabcd % 16
        m_qosEosp := 0xabcd / 16 % 2
        m_qosAckPolicy := 0xabcd / 32 % 4
        m_amsduPresent := 0xabcd / 128 % 2
        m_qosStuff := 0xabcd / 256 } ∧
    ((default : WifiMacHeader).SetQosControl 0xabcd).GetQosControl = 0xabcd :=
  QosControl_packing default 0xabcd (by decide)

end ns3

namespace ns3

/-! ## Reading back what was written -/

theorem ReadU8_WriteU8 (v : Nat) (rest : Buffer) :
    ReadU8 (WriteU8 v ++ rest) = some (v % 256, rest) := by
  simp [ReadU8, WriteU8]

theorem ReadLsbtohU16_WriteHtolsbU16 (v : Nat) (rest : Buffer) :
    ReadLsbtohU16 (WriteHtolsbU16 v ++ rest) = some (v % 65536, rest) := by
  simp only [ReadLsbtohU16, WriteHtolsbU16, ReadU8, List.cons_append, List.nil_append,
    Option.bind_eq_bind, Option.some_bind, Option.pure_def, Option.some.injEq, Prod.mk.injEq,
    and_true]
  omega

theorem ReadLsbtohU32_WriteHtolsbU32 (v : Nat) (rest : Buffer) :
    ReadLsbtohU32 (WriteHtolsbU32 v ++ rest) = some (v % 4294967296, rest) := by
  simp only [ReadLsbtohU32, WriteHtolsbU32, ReadU8, List.cons_append, List.nil_append,
    Option.bind_eq_bind, Option.some_bind, Option.pure_def, Option.some.injEq, Prod.mk.injEq,
    and_true]
  omega

theorem ReadFrom_WriteTo (ad : Mac48Address) (rest : Buffer) (had : ad.IsOctets) :
    ReadFrom (WriteTo ad ++ rest) = some (ad, rest) := by
  obtain ⟨h0, h1, h2, h3, h4, h5⟩ := had
  cases ad
  simp only [ReadFrom, WriteTo, WriteU8, ReadU8, List.cons_append, List.nil_append,
    Option.bind_eq_bind, Option.some_bind, Option.pure_def, Option.some.injEq, Prod.mk.injEq,
    and_true, Mac48Address.mk.injEq, Nat.mod_mod] at *
  refine ⟨?_, ?_, ?_, ?_, ?_, ?_⟩ <;> omega

theorem length_WriteTo (ad : Mac48Address) : (WriteTo ad).length = 6 := rfl

theorem length_WriteHtolsbU16 (v : Nat) : (WriteHtolsbU16 v).length = 2 := rfl

theorem length_WriteHtolsbU32 (v : Nat) : (WriteHtolsbU32 v).length = 4 := rfl

theorem length_WriteU8 (v : Nat) : (WriteU8 v).length = 1 := rfl

open WifiMacHeader

/-- Decoding the frame control of a header recovers its nine flags. -/
theorem SetFrameControl_GetFrameControl (h h0 : WifiMacHeader) (hw : h.FrameControlValid) :
    h0.SetFrameControl (h.GetFrameControl % 65536) =
      { h0 with
        m_ctrlType := h.m_ctrlType
        m_ctrlSubtype := h.m_ctrlSubtype
        m_ctrlToDs := h.m_ctrlToDs
        m_ctrlFromDs := h.m_ctrlFromDs
        m_ctrlMoreFrag := h.m_ctrlMoreFrag
        m_ctrlRetry := h.m_ctrlRetry
        m_ctrlMoreData := h.m_ctrlMoreData
        m_ctrlWep := h.m_ctrlWep
        m_ctrlOrder := h.m_ctrlOrder } := by
  obtain ⟨h1, h2, h3, h4, h5, h6, h7, h8, h9⟩ := hw
  simp only [SetFrameControl, GetFrameControl, shiftLeft_and_shiftLeft, and_mask1, and_mask3,
    and_mask15, Nat.zero_or]
  simp (disch := omega) only [or_shiftLeft_eq_add _ _ 4, or_shiftLeft_eq_add _ _ 8,
    or_shiftLeft_eq_add _ _ 9, or_shiftLeft_eq_add _ _ 10, or_shiftLeft_eq_add _ _ 11,
    or_shiftLeft_eq_add _ _ 13, or_shiftLeft_eq_add _ _ 14, or_shiftLeft_eq_add _ _ 15]
  congr 1 <;> omega

/-- Decoding the sequence control of a header recovers its two numbers. -/
theorem SetSequenceControl_GetSequenceControl (h h0 : WifiMacHeader) (hw : h.WireValid) :
    h0.SetSequenceControl (h.GetSequenceControl % 65536) =
      { h0 with m_seqFrag := h.m_seqFrag, m_seqSeq := h.m_seqSeq } := by
  obtain ⟨-, -, -, ⟨h1, h2⟩, -⟩ := hw
  simp only [SetSequenceControl, GetSequenceControl, and_mask15, and_mask4095]
  rw [Nat.or_comm, or_shiftLeft_eq_add _ _ 4 (by omega)]
  congr 1 <;> omega

/-- Decoding the QoS control of a header recovers its five members. -/
theorem SetQosControl_GetQosControl (h h0 : WifiMacHeader) (hw : h.WireValid) :
    h0.SetQosControl (h.GetQosControl % 65536) =
      { h0 with
        m_qosTid := h.m_qosTid
        m_qosEosp := h.m_qosEosp
        m_qosAckPolicy := h.m_qosAckPolicy
        m_amsduPresent := h.m_amsduPresent
        m_qosStuff := h.m_qosStuff } := by
  obtain ⟨-, -, -, -, ⟨h1, h2, h3, h4, h5⟩, -⟩ := hw
  simp only [SetQosControl, GetQosControl, and_mask15, and_mask1, and_mask3, and_mask255,
    Nat.zero_or]
  simp (disch := omega) only [or_shiftLeft_eq_add _ _ 4, or_shiftLeft_eq_add _ _ 5,
    or_shiftLeft_eq_add _ _ 7, or_shiftLeft_eq_add _ _ 8]
  congr 1 <;> omega

end ns3

namespace ns3

open WifiMacHeader

/-- The HT / HE control word of a buffer-status report (control id 3), under the
wire widths, as a sum of its shifted members. -/
theorem GetControlHeader_bsr (h : WifiMacHeader) (hw : h.WireValid)
    (hid : h.m_htControlId = 3) :
    h.GetControlHeader = h.m_htControlType + 3 * 4 + h.m_htControlAcibitmap * 64 +
      h.m_htControlDeltatid * 1024 + h.m_htControlAcihigh * 4096 + h.m_htControlSf * 16384 +
      h.m_htControlQueueHigh * 65536 + h.m_htControlQueueAll * 16777216 := by
  obtain ⟨-, -, -, -, -, ⟨h1, h2, h3, h4, h5, h6, h7, h8⟩, -⟩ := hw
  simp only [GetControlHeader, hid, if_true, Nat.zero_or]
  simp (disch := omega) only [or_shiftLeft_eq_add _ _ 2, or_shiftLeft_eq_add _ _ 6,
    or_shiftLeft_eq_add _ _ 10, or_shiftLeft_eq_add _ _ 12, or_shiftLeft_eq_add _ _ 14,
    or_shiftLeft_eq_add _ _ 16, or_shiftLeft_eq_add _ _ 24]
  omega

/-- The HT / HE control word of a multi-TID report (control id 7). -/
theorem GetControlHeader_mtid (h : WifiMacHeader) (hw : h.WireValid)
    (hid : h.m_htControlId = 7) :
    h.GetControlHeader = h.m_htControlType + 7 * 4 + h.m_qsize_be * 64 +
      h.m_qsize_bk * 4096 + h.m_qsize_vi * 262144 + h.m_qsize_vo * 16777216 := by
  obtain ⟨-, -, -, -, -, ⟨h1, h2, h3, h4, h5, h6, h7, h8⟩, ⟨q1, q2, q3, q4⟩⟩ := hw
  simp only [GetControlHeader, hid, if_true, Nat.zero_or,
    show (7 : Nat) = 3 ↔ False by decide, if_false]
  simp (disch := omega) only [or_shiftLeft_eq_add _ _ 2, or_shiftLeft_eq_add _ _ 6,
    or_shiftLeft_eq_add _ _ 12, or_shiftLeft_eq_add _ _ 18, or_shiftLeft_eq_add _ _ 24]
  omega

/-- The HT / HE control word for any other control id. -/
theorem GetControlHeader_other (h : WifiMacHeader) (hw : h.WireValid)
    (hid3 : h.m_htControlId ≠ 3) (hid7 : h.m_htControlId ≠ 7) :
    h.GetControlHeader = h.m_htControlType + h.m_htControlId * 4 := by
  obtain ⟨-, -, -, -, -, ⟨h1, h2, h3, h4, h5, h6, h7, h8⟩, -⟩ := hw
  simp only [GetControlHeader, hid3, hid7, if_false, Nat.zero_or]
  simp (disch := omega) only [or_shiftLeft_eq_add _ _ 2]
  omega

end ns3

namespace ns3

open WifiMacHeader

/-- Decoding the HT / HE control word of a header recovers the control type, the
control id and the members that the id selects. -/
theorem SetControlHeader_GetControlHeader (h h0 : WifiMacHeader) (hw : h.WireValid) :
    h0.SetControlHeader (h.GetControlHeader % 4294967296) =
      if h.m_htControlId = 3 then
        { h0 with
          m_htControlType := h.m_htControlType
          m_htControlId := h.m_htControlId
          m_htControlAcibitmap := h.m_htControlAcibitmap
          m_htControlDeltatid := h.m_htControlDeltatid
          m_htControlAcihigh := h.m_htControlAcihigh
          m_htControlSf := h.m_htControlSf
          m_htControlQueueHigh := h.m_htControlQueueHigh
          m_htControlQueueAll := h.m_htControlQueueAll }
      else if h.m_htControlId = 7 then
        { h0 with
          m_htControlType := h.m_htControlType
          m_htControlId := h.m_htControlId
          m_qsize_be := h.m_qsize_be
          m_qsize_bk := h.m_qsize_bk
          m_qsize_vi := h.m_qsize_vi
          m_qsize_vo := h.m_qsize_vo }
      else
        { h0 with
          m_htControlType := h.m_htControlType
          m_htControlId := h.m_htControlId } := by
  have hw2 := hw
  obtain ⟨-, -, -, -, -, ⟨h1, h2, h3, h4, h5, h6, h7, h8⟩, ⟨q1, q2, q3, q4⟩⟩ := hw2
  by_cases hid3 : h.m_htControlId = 3
  · rw [GetControlHeader_bsr h hw hid3, if_pos hid3, hid3]
    generalize hv : h.m_htControlType + 3 * 4 + h.m_htControlAcibitmap * 64 +
      h.m_htControlDeltatid * 1024 + h.m_htControlAcihigh * 4096 + h.m_htControlSf * 16384 +
      h.m_htControlQueueHigh * 65536 + h.m_htControlQueueAll * 16777216 = v
    have e1 : ((v % 4294967296) >>> 2) % 16 = 3 := by omega
    cases h0
    simp only [SetControlHeader, e1, if_true, and_mask15, and_mask3, and_mask255,
      WifiMacHeader.mk.injEq, true_and, and_true]
    omega
  · by_cases hid7 : h.m_htControlId = 7
    · rw [GetControlHeader_mtid h hw hid7, if_neg hid3, if_pos hid7, hid7]
      generalize hv : h.m_htControlType + 7 * 4 + h.m_qsize_be * 64 +
        h.m_qsize_bk * 4096 + h.m_qsize_vi * 262144 + h.m_qsize_vo * 16777216 = v
      have e1 : ((v % 4294967296) >>> 2) % 16 = 7 := by omega
      cases h0
      simp only [SetControlHeader, e1, if_true, and_mask15, and_mask3, and_mask63,
        show (7 : Nat) = 3 ↔ False by decide, if_false,
        WifiMacHeader.mk.injEq, true_and, and_true]
      omega
    · rw [GetControlHeader_other h hw hid3 hid7, if_neg hid3, if_neg hid7]
      generalize hv : h.m_htControlType + h.m_htControlId * 4 = v
      have e1 : ((v % 4294967296) >>> 2) % 16 = h.m_htControlId := by omega
      cases h0
      simp only [SetControlHeader, e1, if_neg hid3, if_neg hid7, and_mask15, and_mask3,
        WifiMacHeader.mk.injEq, true_and, and_true]
      omega

end ns3

namespace ns3

open WifiMacHeader

/-- The fixed start of `Deserialize`: frame control, duration and first address. -/
theorem Deserialize_start (h0 : WifiMacHeader) (fc dur : Nat) (a1 : Mac48Address)
    (ha1 : a1.IsOctets) (tail : Buffer) :
    h0.Deserialize (WriteHtolsbU16 fc ++ (WriteHtolsbU16 dur ++ (WriteTo a1 ++ tail))) =
      (DeserializeBody
        { h0.SetFrameControl (fc % 65536) with m_duration := dur % 65536, m_addr1 := a1 }
        tail).map (fun r => (r.1, 10 + tail.length - r.2.length)) := by
  simp only [Deserialize, ReadLsbtohU16_WriteHtolsbU16, ReadFrom_WriteTo _ _ ha1,
    Option.bind_eq_bind, Option.some_bind, Option.pure_def, GetDistanceFrom, List.length_append,
    length_WriteHtolsbU16, length_WriteTo]
  cases DeserializeBody _ tail with
  | none => rfl
  | some r =>
    simp only [Option.some_bind, Option.map_some', Option.some.injEq, Prod.mk.injEq, true_and]
    omega

end ns3

namespace ns3

open WifiMacHeader

/-- Round trip of a management header. -/
theorem roundTrip_mgt (h h0 : WifiMacHeader) (rest : Buffer) (hw : h.WireValid)
    (ht : h.m_ctrlType = TYPE_MGT) :
    ∃ bytes, h.Serialize = some bytes ∧ bytes.length = h.GetSize ∧
    ∃ d, h0.Deserialize (bytes ++ rest) = some (d, h.GetSize) ∧ AgreeOnLayout h d := by
  have hw2 := hw
  obtain ⟨-, hd, ⟨ha1, ha2, ha3, ha4⟩, -⟩ := hw2
  simp only [Serialize, ht, if_true, Option.some.injEq, exists_eq_left', List.append_assoc]
  refine ⟨by simp [GetSize, ht, length_WriteTo, length_WriteHtolsbU16], ?_⟩
  rw [Deserialize_start _ _ _ _ ha1, SetFrameControl_GetFrameControl h h0 hw.1]
  simp only [DeserializeBody, ht, if_true, ReadFrom_WriteTo _ _ ha2, ReadFrom_WriteTo _ _ ha3,
    ReadLsbtohU16_WriteHtolsbU16, Option.bind_eq_bind, Option.some_bind, Option.pure_def,
    Option.map_some', SetSequenceControl_GetSequenceControl h _ hw]
  simp only [Option.some.injEq, Prod.mk.injEq]
  refine ⟨_, ⟨rfl, ?_⟩, ?_⟩
  · simp [GetSize, ht, length_WriteTo, length_WriteHtolsbU16]
    omega
  · simp [AgreeOnLayout, ht, Nat.mod_eq_of_lt hd, TYPE_MGT, TYPE_CTL, TYPE_DATA]

/-- Round trip of a control header that carries two addresses. -/
theorem roundTrip_ctl_two (h h0 : WifiMacHeader) (rest : Buffer) (hw : h.WireValid)
    (ht : h.m_ctrlType = TYPE_CTL)
    (hs : h.m_ctrlSubtype = SUBTYPE_CTL_RTS ∨ h.m_ctrlSubtype = SUBTYPE_CTL_BACKREQ ∨
      h.m_ctrlSubtype = SUBTYPE_CTL_BACKRESP ∨ h.m_ctrlSubtype = SUBTYPE_CTL_TRIGGER) :
    ∃ bytes, h.Serialize = some bytes ∧ bytes.length = h.GetSize ∧
    ∃ d, h0.Deserialize (bytes ++ rest) = some (d, h.GetSize) ∧ AgreeOnLayout h d := by
  have hw2 := hw
  obtain ⟨-, hd, ⟨ha1, ha2, ha3, ha4⟩, -⟩ := hw2
  have hser : h.Serialize = some (WriteHtolsbU16 h.GetFrameControl ++
      (WriteHtolsbU16 h.m_duration ++ (WriteTo h.m_addr1 ++ WriteTo h.m_addr2))) := by
    rcases hs with hs | hs | hs | hs <;>
      simp [Serialize, ht, hs, TYPE_MGT, TYPE_CTL, SUBTYPE_CTL_RTS, SUBTYPE_CTL_CTS,
        SUBTYPE_CTL_ACK, SUBTYPE_CTL_BACKREQ, SUBTYPE_CTL_BACKRESP, SUBTYPE_CTL_TRIGGER]
  have hsz : h.GetSize = 16 := by
    rcases hs with hs | hs | hs | hs <;>
      simp [GetSize, ht, hs, TYPE_MGT, TYPE_CTL, SUBTYPE_CTL_RTS, SUBTYPE_CTL_CTS,
        SUBTYPE_CTL_ACK, SUBTYPE_CTL_BACKREQ, SUBTYPE_CTL_BACKRESP, SUBTYPE_CTL_TRIGGER]
  have hbody : ∀ x : WifiMacHeader, x.m_ctrlType = h.m_ctrlType →
      x.m_ctrlSubtype = h.m_ctrlSubtype →
      DeserializeBody x (WriteTo h.m_addr2 ++ rest) = some ({ x with m_addr2 := h.m_addr2 }, rest) := by
    intro x hx1 hx2
    rcases hs with hs | hs | hs | hs <;>
      simp [DeserializeBody, hx1, hx2, ht, hs, ReadFrom_WriteTo _ _ ha2, TYPE_MGT, TYPE_CTL,
        SUBTYPE_CTL_RTS, SUBTYPE_CTL_CTS, SUBTYPE_CTL_ACK, SUBTYPE_CTL_BACKREQ,
        SUBTYPE_CTL_BACKRESP, SUBTYPE_CTL_TRIGGER]
  refine ⟨_, hser, by simp [hsz, length_WriteTo, length_WriteHtolsbU16], ?_⟩
  simp only [List.append_assoc]
  rw [Deserialize_start _ _ _ _ ha1, SetFrameControl_GetFrameControl h h0 hw.1,
    hbody _ (by rfl) (by rfl)]
  simp only [Option.map_some', Option.some.injEq, Prod.mk.injEq]
  refine ⟨_, ⟨rfl, ?_⟩, ?_⟩
  · simp [hsz, length_WriteTo]
    omega
  · simp [AgreeOnLayout, ht, Nat.mod_eq_of_lt hd, TYPE_MGT, TYPE_CTL, TYPE_DATA]

/-- Round trip of a control header that carries one address (CTS, ACK). -/
theorem roundTrip_ctl_one (h h0 : WifiMacHeader) (rest : Buffer) (hw : h.WireValid)
    (ht : h.m_ctrlType = TYPE_CTL)
    (hs : h.m_ctrlSubtype = SUBTYPE_CTL_CTS ∨ h.m_ctrlSubtype = SUBTYPE_CTL_ACK) :
    ∃ bytes, h.Serialize = some bytes ∧ bytes.length = h.GetSize ∧
    ∃ d, h0.Deserialize (bytes ++ rest) = some (d, h.GetSize) ∧ AgreeOnLayout h d := by
  have hw2 := hw
  obtain ⟨-, hd, ⟨ha1, ha2, ha3, ha4⟩, -⟩ := hw2
  have hser : h.Serialize = some (WriteHtolsbU16 h.GetFrameControl ++
      (WriteHtolsbU16 h.m_duration ++ WriteTo h.m_addr1)) := by
    rcases hs with hs | hs <;>
      simp [Serialize, ht, hs, TYPE_MGT, TYPE_CTL, SUBTYPE_CTL_RTS, SUBTYPE_CTL_CTS,
        SUBTYPE_CTL_ACK, SUBTYPE_CTL_BACKREQ, SUBTYPE_CTL_BACKRESP, SUBTYPE_CTL_TRIGGER]
  have hsz : h.GetSize = 10 := by
    rcases hs with hs | hs <;>
      simp [GetSize, ht, hs, TYPE_MGT, TYPE_CTL, SUBTYPE_CTL_RTS, SUBTYPE_CTL_CTS,
        SUBTYPE_CTL_ACK, SUBTYPE_CTL_BACKREQ, SUBTYPE_CTL_BACKRESP, SUBTYPE_CTL_TRIGGER]
  have hbody : ∀ x : WifiMacHeader, x.m_ctrlType = h.m_ctrlType →
      x.m_ctrlSubtype = h.m_ctrlSubtype → DeserializeBody x rest = some (x, rest) := by
    intro x hx1 hx2
    rcases hs with hs | hs <;>
      simp [DeserializeBody, hx1, hx2, ht, hs, TYPE_MGT, TYPE_CTL,
        SUBTYPE_CTL_RTS, SUBTYPE_CTL_CTS, SUBTYPE_CTL_ACK, SUBTYPE_CTL_BACKREQ,
        SUBTYPE_CTL_BACKRESP, SUBTYPE_CTL_TRIGGER]
  refine ⟨_, hser, by simp [hsz, length_WriteTo, length_WriteHtolsbU16], ?_⟩
  simp only [List.append_assoc]
  rw [Deserialize_start _ _ _ _ ha1, SetFrameControl_GetFrameControl h h0 hw.1,
    hbody _ (by rfl) (by rfl)]
  simp only [Option.map_some', Option.some.injEq, Prod.mk.injEq]
  refine ⟨_, ⟨rfl, ?_⟩, ?_⟩
  · simp [hsz]
  · simp [AgreeOnLayout, ht, hs, Nat.mod_eq_of_lt hd, TYPE_MGT, TYPE_CTL, TYPE_DATA]


set_option maxHeartbeats 4000000 in
/-- Round trip of a data header. -/
theorem roundTrip_data (h h0 : WifiMacHeader) (rest : Buffer) (hw : h.WireValid)
    (ht : h.m_ctrlType = TYPE_DATA) :
    ∃ bytes, h.Serialize = some bytes ∧ bytes.length = h.GetSize ∧
    ∃ d, h0.Deserialize (bytes ++ rest) = some (d, h.GetSize) ∧ AgreeOnLayout h d := by
  have hw2 := hw
  obtain ⟨-, hd, ⟨ha1, ha2, ha3, ha4⟩, -⟩ := hw2
  have n1 : ¬ TYPE_DATA = TYPE_MGT := by decide
  have n2 : ¬ TYPE_DATA = TYPE_CTL := by decide
  have n73 : ¬ (7 : Nat) = 3 := by decide
  by_cases t0 : h.m_ctrlToDs = 0 <;>
  by_cases f0 : h.m_ctrlFromDs = 0 <;>
  by_cases c2 : h.m_ctrlSubtype &&& 0x08 = 0 <;>
  by_cases c3 : h.m_ctrlOrder = 0
  all_goals
    simp only [Serialize, ht, n1, n2, t0, f0, c2, c3, ne_eq, not_true_eq_false,
      not_false_eq_true, and_self, and_true, and_false, false_and, true_and,
      if_true, if_false, Option.some.injEq, exists_eq_left', List.append_assoc]
    refine ⟨by simp [GetSize, ht, n1, n2, t0, f0, c2, c3, length_WriteTo,
      length_WriteHtolsbU16, length_WriteHtolsbU32], ?_⟩
    rw [Deserialize_start _ _ _ _ ha1, SetFrameControl_GetFrameControl h h0 hw.1]
    simp only [DeserializeBody, ht, n1, n2, t0, f0, c2, c3, ne_eq, not_true_eq_false,
      not_false_eq_true, and_self, and_true, and_false, false_and, true_and,
      if_true, if_false,
      ReadFrom_WriteTo _ _ ha2, ReadFrom_WriteTo _ _ ha3, ReadFrom_WriteTo _ _ ha4,
      ReadLsbtohU16_WriteHtolsbU16, ReadLsbtohU32_WriteHtolsbU32,
      Option.bind_eq_bind, Option.some_bind, Option.pure_def,
      Option.map_some', SetSequenceControl_GetSequenceControl h _ hw,
      SetQosControl_GetQosControl h _ hw, SetControlHeader_GetControlHeader h _ hw]
    simp only [Option.some.injEq, Prod.mk.injEq]
    refine ⟨_, ⟨rfl, ?_⟩, ?_⟩
    · simp [GetSize, ht, n1, n2, t0, f0, c2, c3, length_WriteTo, length_WriteHtolsbU16,
        length_WriteHtolsbU32]
      try omega
    · by_cases i3 : h.m_htControlId = 3 <;> by_cases i7 : h.m_htControlId = 7
      all_goals
        first
        | omega
        | (try simp only [i3, i7, n73, if_true, if_false])
          simp only [AgreeOnLayout, GetControlHeader, i3, i7, n73, if_true, if_false,
            Nat.mod_eq_of_lt hd, and_self, implies_true, true_and, and_true, false_implies]
          try simp [ht, t0, f0, c2, c3]

end ns3

namespace ns3

open WifiMacHeader

/-- Round trip of every supported, wire-valid header, into any object `h0` and
with any octets `rest` following the header in the buffer. -/
theorem roundTrip_supported (h h0 : WifiMacHeader) (rest : Buffer)
    (hk : h.IsSupportedKind) (hw : h.WireValid) :
    ∃ bytes, h.Serialize = some bytes ∧ bytes.length = h.GetSize ∧
    ∃ d, h0.Deserialize (bytes ++ rest) = some (d, h.GetSize) ∧ AgreeOnLayout h d := by
  rcases hk with ht | ⟨ht, hs⟩ | ht
  · exact roundTrip_mgt h h0 rest hw ht
  · rcases hs with hs | hs | hs | hs | hs | hs
    · exact roundTrip_ctl_two h h0 rest hw ht (Or.inl hs)
    · exact roundTrip_ctl_one h h0 rest hw ht (Or.inl hs)
    · exact roundTrip_ctl_one h h0 rest hw ht (Or.inr hs)
    · exact roundTrip_ctl_two h h0 rest hw ht (Or.inr (Or.inl hs))
    · exact roundTrip_ctl_two h h0 rest hw ht (Or.inr (Or.inr (Or.inl hs)))
    · exact roundTrip_ctl_two h h0 rest hw ht (Or.inr (Or.inr (Or.inr hs)))
  · exact roundTrip_data h h0 rest hw ht

/-- C1: for every header `h` of a supported kind (any management subtype;
control RTS, CTS, ACK, BlockAckReq, BlockAck or Trigger; any data subtype), with
any ToDS / FromDS combination and every member within its wire width,
`Serialize` succeeds and `Deserialize` of its octets (into any object `h0`,
whatever follows the header in the buffer) yields an object equal to `h` on
every member the layout carries: the nine frame-control flags, the duration, the
first address, the second address unless the frame is a CTS or ACK, the third
address and the sequence and fragment number of management and data frames, the
fourth address of a data frame with ToDS and FromDS set, the QoS control of a
data frame with subtype bit 0x08, and the HT / HE control of such a frame with
the order bit. -/
theorem Deserialize_Serialize_roundtrip (h h0 : WifiMacHeader) (rest : Buffer)
    (hk : h.IsSupportedKind) (hw : h.WireValid) :
    ∃ bytes d n, h.Serialize = some bytes ∧ h0.Deserialize (bytes ++ rest) = some (d, n) ∧
      (d.m_ctrlType = h.m_ctrlType ∧ d.m_ctrlSubtype = h.m_ctrlSubtype ∧
        d.m_ctrlToDs = h.m_ctrlToDs ∧ d.m_ctrlFromDs = h.m_ctrlFromDs ∧
        d.m_ctrlMoreFrag = h.m_ctrlMoreFrag ∧ d.m_ctrlRetry = h.m_ctrlRetry ∧
        d.m_ctrlMoreData = h.m_ctrlMoreData ∧ d.m_ctrlWep = h.m_ctrlWep ∧
        d.m_ctrlOrder = h.m_ctrlOrder) ∧
      d.m_duration = h.m_duration ∧
      d.m_addr1 = h.m_addr1 ∧
      (¬(h.m_ctrlType = TYPE_CTL ∧
          (h.m_ctrlSubtype = SUBTYPE_CTL_CTS ∨ h.m_ctrlSubtype = SUBTYPE_CTL_ACK)) →
        d.m_addr2 = h.m_addr2) ∧
      (h.m_ctrlType = TYPE_MGT ∨ h.m_ctrlType = TYPE_DATA →
        d.m_addr3 = h.m_addr3 ∧ d.m_seqSeq = h.m_seqSeq ∧ d.m_seqFrag = h.m_seqFrag) ∧
      (h.m_ctrlType = TYPE_DATA → h.m_ctrlToDs ≠ 0 ∧ h.m_ctrlFromDs ≠ 0 →
        d.m_addr4 = h.m_addr4) ∧
      (h.m_ctrlType = TYPE_DATA → h.m_ctrlSubtype &&& 0x08 ≠ 0 →
        d.m_qosTid = h.m_qosTid ∧ d.m_qosEosp = h.m_qosEosp ∧
        d.m_qosAckPolicy = h.m_qosAckPolicy ∧ d.m_amsduPresent = h.m_amsduPresent ∧
        d.m_qosStuff = h.m_qosStuff) ∧
      (h.m_ctrlType = TYPE_DATA → h.m_ctrlSubtype &&& 0x08 ≠ 0 → h.m_ctrlOrder ≠ 0 →
        d.m_htControlType = h.m_htControlType ∧ d.m_htControlId = h.m_htControlId ∧
        (h.m_htControlId = 3 →
          d.m_htControlAcibitmap = h.m_htControlAcibitmap ∧
          d.m_htControlDeltatid = h.m_htControlDeltatid ∧
          d.m_htControlAcihigh = h.m_htControlAcihigh ∧
          d.m_htControlSf = h.m_htControlSf ∧
          d.m_htControlQueueHigh = h.m_htControlQueueHigh ∧
          d.m_htControlQueueAll = h.m_htControlQueueAll) ∧
        (h.m_htControlId = 7 →
          d.m_qsize_be = h.m_qsize_be ∧ d.m_qsize_bk = h.m_qsize_bk ∧
          d.m_qsize_vi = h.m_qsize_vi ∧ d.m_qsize_vo = h.m_qsize_vo) ∧
        d.GetControlHeader = h.GetControlHeader) := by
  obtain ⟨bytes, hser, -, d, hdes, hf⟩ := roundTrip_supported h h0 rest hk hw
  exact ⟨bytes, d, h.GetSize, hser, hdes, hf⟩

/-- Witness for C1: the sample QoS data frame, decoded into a default object. -/
theorem Deserialize_Serialize_roundtrip_witness :
    sampleQosData.IsSupportedKind ∧ sampleQosData.WireValid ∧
    ∃ bytes d n, sampleQosData.Serialize = some bytes ∧
      (default : WifiMacHeader).Deserialize (bytes ++ []) = some (d, n) ∧
      d.m_ctrlSubtype = 8 ∧ d.m_addr4 = ⟨0, 0, 0, 0, 0, 4⟩ ∧ d.m_qosTid = 5 ∧
      d.m_htControlQueueAll = 250 := by
  refine ⟨by decide, by decide, ?_⟩
  obtain ⟨bytes, d, n, hser, hdes, hfc, -, -, -, -, h4, hq, hc⟩ :=
    Deserialize_Serialize_roundtrip sampleQosData default [] (by decide) (by decide)
  exact ⟨bytes, d, n, hser, hdes, hfc.2.1, h4 rfl (by decide), (hq rfl (by decide)).1,
    ((hc rfl (by decide) (by decide)).2.2.1 rfl).2.2.2.2.2⟩

end ns3

namespace ns3

open WifiMacHeader

/-! ## Reading from any buffer that is long enough -/

theorem ReadU8_of_length (j : Buffer) (h : 1 ≤ j.length) :
    ReadU8 j = some (j.getD 0 0 % 256, j.drop 1) := by
  rcases j with _ | ⟨b0, t⟩
  · simp at h
  · rfl

theorem ReadLsbtohU16_of_length (j : Buffer) (h : 2 ≤ j.length) :
    ReadLsbtohU16 j = some (j.getD 0 0 % 256 + 256 * (j.getD 1 0 % 256), j.drop 2) := by
  rcases j with _ | ⟨b0, _ | ⟨b1, t⟩⟩
  · simp at h
  · simp at h
  · rfl

theorem ReadLsbtohU32_of_length (j : Buffer) (h : 4 ≤ j.length) :
    ReadLsbtohU32 j = some (j.getD 0 0 % 256 + 256 * (j.getD 1 0 % 256) +
      65536 * (j.getD 2 0 % 256) + 16777216 * (j.getD 3 0 % 256), j.drop 4) := by
  rcases j with _ | ⟨b0, _ | ⟨b1, _ | ⟨b2, _ | ⟨b3, t⟩⟩⟩⟩
  · simp at h
  · simp at h
  · simp at h
  · simp at h
  · rfl

theorem ReadFrom_of_length (j : Buffer) (h : 6 ≤ j.length) :
    ReadFrom j = some (⟨j.getD 0 0 % 256, j.getD 1 0 % 256, j.getD 2 0 % 256,
      j.getD 3 0 % 256, j.getD 4 0 % 256, j.getD 5 0 % 256⟩, j.drop 6) := by
  rcases j with _ | ⟨b0, _ | ⟨b1, _ | ⟨b2, _ | ⟨b3, _ | ⟨b4, _ | ⟨b5, t⟩⟩⟩⟩⟩⟩
  · simp at h
  · simp at h
  · simp at h
  · simp at h
  · simp at h
  · simp at h
  · rfl

end ns3

namespace ns3

theorem ReadU8_drop (i : Buffer) (k : Nat) (h : k + 1 ≤ i.length) :
    ReadU8 (i.drop k) = some ((i.drop k).getD 0 0 % 256, i.drop (k + 1)) := by
  rw [ReadU8_of_length _ (by simp only [List.length_drop]; omega), List.drop_drop,
    Nat.add_comm]

theorem ReadLsbtohU16_drop (i : Buffer) (k : Nat) (h : k + 2 ≤ i.length) :
    ReadLsbtohU16 (i.drop k) =
      some ((i.drop k).getD 0 0 % 256 + 256 * ((i.drop k).getD 1 0 % 256), i.drop (k + 2)) := by
  rw [ReadLsbtohU16_of_length _ (by simp only [List.length_drop]; omega), List.drop_drop,
    Nat.add_comm]

theorem ReadLsbtohU32_drop (i : Buffer) (k : Nat) (h : k + 4 ≤ i.length) :
    ReadLsbtohU32 (i.drop k) =
      some ((i.drop k).getD 0 0 % 256 + 256 * ((i.drop k).getD 1 0 % 256) +
        65536 * ((i.drop k).getD 2 0 % 256) + 16777216 * ((i.drop k).getD 3 0 % 256),
        i.drop (k + 4)) := by
  rw [ReadLsbtohU32_of_length _ (by simp only [List.length_drop]; omega), List.drop_drop,
    Nat.add_comm]

theorem ReadFrom_drop (i : Buffer) (k : Nat) (h : k + 6 ≤ i.length) :
    ReadFrom (i.drop k) =
      some (⟨(i.drop k).getD 0 0 % 256, (i.drop k).getD 1 0 % 256, (i.drop k).getD 2 0 % 256,
        (i.drop k).getD 3 0 % 256, (i.drop k).getD 4 0 % 256, (i.drop k).getD 5 0 % 256⟩,
        i.drop (k + 6)) := by
  rw [ReadFrom_of_length _ (by simp only [List.length_drop]; omega), List.drop_drop,
    Nat.add_comm]

end ns3

namespace ns3

open WifiMacHeader

set_option maxHeartbeats 4000000 in
/-- The data branch of the type-dependent part of `Deserialize`. -/
theorem DeserializeBody_consumes_data (x : WifiMacHeader) (i : Buffer)
    (ht2 : x.m_ctrlType = TYPE_DATA) (hlen : bodyOctets x ≤ i.length) :
    ∃ d, DeserializeBody x i = some (d, i.drop (bodyOctets x)) ∧
      d.m_ctrlType = x.m_ctrlType ∧ d.m_ctrlSubtype = x.m_ctrlSubtype := by
  have n1 : ¬ TYPE_DATA = TYPE_MGT := by decide
  have n2 : ¬ TYPE_DATA = TYPE_CTL := by decide
  by_cases t0 : x.m_ctrlToDs = 0 <;>
  by_cases f0 : x.m_ctrlFromDs = 0 <;>
  by_cases c2 : x.m_ctrlSubtype &&& 0x08 = 0 <;>
  by_cases c3 : x.m_ctrlOrder = 0
  all_goals
    simp only [bodyOctets, ht2, n1, n2, t0, f0, c2, c3, ne_eq, not_true_eq_false,
      not_false_eq_true, and_self, and_true, and_false, false_and, true_and,
      if_true, if_false, Nat.reduceAdd, Nat.add_zero] at hlen ⊢
    simp only [DeserializeBody, ht2, n1, n2, if_true, if_false]
    simp (disch := omega) only [ReadFrom_of_length]
    simp (disch := omega) only [ReadFrom_drop, ReadLsbtohU16_drop, ReadLsbtohU32_drop,
      Option.bind_eq_bind, Option.some_bind, Option.pure_def, Nat.reduceAdd,
      SetSequenceControl, SetQosControl, t0, f0, c2, c3, ne_eq, not_true_eq_false,
      not_false_eq_true, and_self, and_true, and_false, false_and, true_and,
      if_true, if_false]
    first
    | exact ⟨_, rfl, rfl, rfl⟩
    | (refine ⟨_, rfl, ?_, ?_⟩ <;> simp [SetControlHeader] <;> split_ifs <;> rfl)

/-- The type-dependent part of `Deserialize` succeeds on every buffer that holds
the octets it reads, consumes exactly `bodyOctets`, and leaves the type and
subtype of the object as they are. -/
theorem DeserializeBody_consumes (x : WifiMacHeader) (i : Buffer)
    (hlen : bodyOctets x ≤ i.length) :
    ∃ d, DeserializeBody x i = some (d, i.drop (bodyOctets x)) ∧
      d.m_ctrlType = x.m_ctrlType ∧ d.m_ctrlSubtype = x.m_ctrlSubtype := by
  by_cases ht0 : x.m_ctrlType = TYPE_MGT
  · simp only [bodyOctets, ht0, if_true] at hlen ⊢
    simp only [DeserializeBody, ht0, if_true]
    simp (disch := omega) only [ReadFrom_of_length]
    simp (disch := omega) only [ReadFrom_drop, ReadLsbtohU16_drop, Option.bind_eq_bind,
      Option.some_bind, Option.pure_def, Nat.reduceAdd, SetSequenceControl]
    exact ⟨_, rfl, rfl, rfl⟩
  by_cases ht1 : x.m_ctrlType = TYPE_CTL
  · by_cases hs2 : x.m_ctrlSubtype = SUBTYPE_CTL_RTS ∨ x.m_ctrlSubtype = SUBTYPE_CTL_TRIGGER ∨
        x.m_ctrlSubtype = SUBTYPE_CTL_BACKREQ ∨ x.m_ctrlSubtype = SUBTYPE_CTL_BACKRESP
    · have n10 : ¬ TYPE_CTL = TYPE_MGT := by decide
      simp only [bodyOctets, ht1, n10, hs2, if_true, if_false] at hlen ⊢
      have r := ReadFrom_of_length i hlen
      rcases hs2 with hs | hs | hs | hs <;>
        simp [DeserializeBody, ht1, hs, r, TYPE_MGT, TYPE_CTL, SUBTYPE_CTL_RTS, SUBTYPE_CTL_CTS,
          SUBTYPE_CTL_ACK, SUBTYPE_CTL_BACKREQ, SUBTYPE_CTL_BACKRESP, SUBTYPE_CTL_TRIGGER]
    · have n10 : ¬ TYPE_CTL = TYPE_MGT := by decide
      simp only [bodyOctets, ht1, n10, hs2, if_true, if_false, List.drop_zero]
      simp only [not_or] at hs2
      obtain ⟨a1, a2, a3, a4⟩ := hs2
      simp [DeserializeBody, ht1, a1, a2, a3, a4, TYPE_MGT, TYPE_CTL]
  by_cases ht2 : x.m_ctrlType = TYPE_DATA
  · exact DeserializeBody_consumes_data x i ht2 hlen
  · simp [bodyOctets, DeserializeBody, ht0, ht1, ht2]

end ns3

namespace ns3

open WifiMacHeader

/-- `Deserialize` succeeds on every buffer that holds the octets it reads: ten
for the frame control, the duration and the first address, then `bodyOctets` of
the object after the frame control `fc` (the first two octets) has been
decoded.  It returns their number and an object with the type and subtype of
`fc`. -/
theorem Deserialize_consumes (h0 : WifiMacHeader) (buf : Buffer) (fc : Nat)
    (hfc : fc = buf.getD 0 0 % 256 + 256 * (buf.getD 1 0 % 256))
    (hlen : 10 + bodyOctets (h0.SetFrameControl fc) ≤ buf.length) :
    ∃ d, h0.Deserialize buf = some (d, 10 + bodyOctets (h0.SetFrameControl fc)) ∧
      d.m_ctrlType = (fc >>> 2) &&& 0x03 ∧ d.m_ctrlSubtype = (fc >>> 4) &&& 0x0f := by
  generalize hx : h0.SetFrameControl fc = x at hlen ⊢
  have e1 : x.m_ctrlType = (fc >>> 2) &&& 0x03 ∧ x.m_ctrlSubtype = (fc >>> 4) &&& 0x0f := by
    rw [← hx]; exact ⟨rfl, rfl⟩
  simp only [Deserialize]
  simp (disch := omega) only [ReadLsbtohU16_of_length]
  simp (disch := omega) only [ReadLsbtohU16_drop, ReadFrom_drop, Option.bind_eq_bind,
    Option.some_bind, Option.pure_def, Nat.reduceAdd, ← hfc, hx]
  obtain ⟨d, hd, hd1, hd2⟩ := DeserializeBody_consumes
    { x with
      m_duration := (List.drop 2 buf).getD 0 0 % 256 + 256 * ((List.drop 2 buf).getD 1 0 % 256)
      m_addr1 := ⟨(List.drop 4 buf).getD 0 0 % 256, (List.drop 4 buf).getD 1 0 % 256,
        (List.drop 4 buf).getD 2 0 % 256, (List.drop 4 buf).getD 3 0 % 256,
        (List.drop 4 buf).getD 4 0 % 256, (List.drop 4 buf).getD 5 0 % 256⟩ }
    (buf.drop 10) (by
      have : bodyOctets { x with
        m_duration := (List.drop 2 buf).getD 0 0 % 256 + 256 * ((List.drop 2 buf).getD 1 0 % 256)
        m_addr1 := ⟨(List.drop 4 buf).getD 0 0 % 256, (List.drop 4 buf).getD 1 0 % 256,
          (List.drop 4 buf).getD 2 0 % 256, (List.drop 4 buf).getD 3 0 % 256,
          (List.drop 4 buf).getD 4 0 % 256, (List.drop 4 buf).getD 5 0 % 256⟩ } = bodyOctets x := rfl
      rw [this, List.length_drop]; omega)
  have hb : bodyOctets { x with
        m_duration := (List.drop 2 buf).getD 0 0 % 256 + 256 * ((List.drop 2 buf).getD 1 0 % 256)
        m_addr1 := ⟨(List.drop 4 buf).getD 0 0 % 256, (List.drop 4 buf).getD 1 0 % 256,
          (List.drop 4 buf).getD 2 0 % 256, (List.drop 4 buf).getD 3 0 % 256,
          (List.drop 4 buf).getD 4 0 % 256, (List.drop 4 buf).getD 5 0 % 256⟩ } = bodyOctets x := rfl
  rw [hb] at hd
  refine ⟨d, ?_, ?_, ?_⟩
  · rw [hd]
    simp only [Option.some_bind, GetDistanceFrom, List.length_drop, Option.some.injEq,
      Prod.mk.injEq, true_and]
    omega
  · rw [hd1]; exact e1.1
  · rw [hd2]; exact e1.2

end ns3

namespace ns3

open WifiMacHeader

/-- The octets of a supported header start with its frame control, and there are
`GetSize` of them. -/
theorem Serialize_shape (h : WifiMacHeader) (hk : h.IsSupportedKind) :
    ∃ tail, h.Serialize = some (WriteHtolsbU16 h.GetFrameControl ++ tail) ∧
      2 + tail.length = h.GetSize := by
  rcases hk with ht | ⟨ht, hs⟩ | ht
  · simp only [Serialize, GetSize, ht, if_true, List.append_assoc]
    exact ⟨_, rfl, by simp [length_WriteTo, length_WriteHtolsbU16]⟩
  · rcases hs with hs | hs | hs | hs | hs | hs <;>
      simp [Serialize, GetSize, ht, hs, TYPE_MGT, TYPE_CTL, SUBTYPE_CTL_RTS, SUBTYPE_CTL_CTS,
        SUBTYPE_CTL_ACK, SUBTYPE_CTL_BACKREQ, SUBTYPE_CTL_BACKRESP, SUBTYPE_CTL_TRIGGER,
        length_WriteTo, length_WriteHtolsbU16]
  · have n1 : ¬ TYPE_DATA = TYPE_MGT := by decide
    have n2 : ¬ TYPE_DATA = TYPE_CTL := by decide
    simp only [Serialize, GetSize, ht, n1, n2, if_true, if_false]
    split_ifs <;> simp only [List.append_assoc] <;>
      exact ⟨_, rfl, by simp [length_WriteTo, length_WriteHtolsbU16, length_WriteHtolsbU32]⟩

/-- For a supported header `GetSize` is the number of octets `Deserialize`
consumes. -/
theorem GetSize_eq_bodyOctets (h : WifiMacHeader) (hk : h.IsSupportedKind) :
    h.GetSize = 10 + bodyOctets h := by
  rcases hk with ht | ⟨ht, hs⟩ | ht
  · simp [GetSize, bodyOctets, ht]
  · rcases hs with hs | hs | hs | hs | hs | hs <;>
      simp [GetSize, bodyOctets, ht, hs, TYPE_MGT, TYPE_CTL, SUBTYPE_CTL_RTS, SUBTYPE_CTL_CTS,
        SUBTYPE_CTL_ACK, SUBTYPE_CTL_BACKREQ, SUBTYPE_CTL_BACKRESP, SUBTYPE_CTL_TRIGGER]
  · have n1 : ¬ TYPE_DATA = TYPE_MGT := by decide
    have n2 : ¬ TYPE_DATA = TYPE_CTL := by decide
    simp only [GetSize, bodyOctets, ht, n1, n2, if_true, if_false]
    split_ifs <;> rfl

/-- C2: for every header `h` of a supported (type, subtype, ToDS, FromDS)
combination (its frame-control members being within their one-, two- and
four-bit fields), `Serialize` writes exactly `GetSize (h)` octets, and
`Deserialize` of those octets, whatever follows them in the buffer, reports that
same number as octets consumed. -/
theorem Serialize_length_eq_GetSize (h h0 : WifiMacHeader) (rest : Buffer)
    (hk : h.IsSupportedKind) (hf : h.FrameControlValid) :
    ∃ bytes, h.Serialize = some bytes ∧ bytes.length = h.GetSize ∧
      ∃ d, h0.Deserialize (bytes ++ rest) = some (d, h.GetSize) := by
  obtain ⟨tail, hser, hlen⟩ := Serialize_shape h hk
  refine ⟨_, hser, ?_, ?_⟩
  · simp only [List.length_append, length_WriteHtolsbU16]; exact hlen
  · have hsz := GetSize_eq_bodyOctets h hk
    have hx := SetFrameControl_GetFrameControl h h0 hf
    have hb : bodyOctets (h0.SetFrameControl (h.GetFrameControl % 65536)) = bodyOctets h := by
      rw [hx]; rfl
    obtain ⟨d, hd, -⟩ := Deserialize_consumes h0 (WriteHtolsbU16 h.GetFrameControl ++ tail ++ rest)
      (h.GetFrameControl % 65536)
      (by simp only [WriteHtolsbU16, List.cons_append, List.nil_append, List.getD_cons_zero,
            List.getD_cons_succ, Nat.mod_mod]; omega)
      (by rw [hb]; simp only [List.length_append, length_WriteHtolsbU16]; omega)
    rw [hb, ← hsz] at hd
    exact ⟨d, hd⟩

/-- Witness for C2: the sample QoS data frame occupies 36 octets. -/
theorem Serialize_length_eq_GetSize_witness :
    sampleQosData.IsSupportedKind ∧ sampleQosData.FrameControlValid ∧
    sampleQosData.GetSize = 36 ∧
    ∃ bytes, sampleQosData.Serialize = some bytes ∧ bytes.length = sampleQosData.GetSize ∧
      ∃ d, (default : WifiMacHeader).Deserialize (bytes ++ []) =
        some (d, sampleQosData.GetSize) :=
  ⟨by decide, by decide, by decide,
    Serialize_length_eq_GetSize sampleQosData default [] (by decide) (by decide)⟩

end ns3

namespace ns3

open WifiMacHeader

/-- The type-dependent part of `Deserialize` never reads more than 26 octets. -/
theorem bodyOctets_le (x : WifiMacHeader) : bodyOctets x ≤ 26 := by
  unfold bodyOctets
  split_ifs <;> omega

/-- Counterexample to C4 as stated: a ten-octet buffer whose frame control
carries type Control and the reserved subtype 0; `Deserialize` does not fail but
returns a header with that type and subtype and the byte count 10. -/
theorem Deserialize_unknown_subtype_counterexample :
    ∃ d, (default : WifiMacHeader).Deserialize [0x04, 0, 0, 0, 1, 2, 3, 4, 5, 6] = some (d, 10) ∧
      d.m_ctrlType = TYPE_CTL ∧ d.m_ctrlSubtype = 0 :=
  ⟨_, rfl, rfl, rfl⟩

/-- C4 (amended): `Deserialize` has no failure for an unrecognized subtype.  On
every buffer of at least 36 octets it returns a header and a byte count whatever
the frame control is; and on every buffer of at least 10 octets whose frame
control carries type Control with a subtype other than RTS, CTS, ACK,
BlockAckReq, BlockAck and Trigger it returns a header with that type and
subtype and the byte count 10 (frame control, duration and first address). -/
theorem Deserialize_unrecognized_subtype (h0 : WifiMacHeader) (buf : Buffer) :
    (36 ≤ buf.length → ∃ d n, h0.Deserialize buf = some (d, n)) ∧
    (10 ≤ buf.length →
      (frameControlOf buf >>> 2) &&& 0x03 = TYPE_CTL →
      (frameControlOf buf >>> 4) &&& 0x0f ≠ SUBTYPE_CTL_RTS →
      (frameControlOf buf >>> 4) &&& 0x0f ≠ SUBTYPE_CTL_CTS →
      (frameControlOf buf >>> 4) &&& 0x0f ≠ SUBTYPE_CTL_ACK →
      (frameControlOf buf >>> 4) &&& 0x0f ≠ SUBTYPE_CTL_BACKREQ →
      (frameControlOf buf >>> 4) &&& 0x0f ≠ SUBTYPE_CTL_BACKRESP →
      (frameControlOf buf >>> 4) &&& 0x0f ≠ SUBTYPE_CTL_TRIGGER →
      ∃ d, h0.Deserialize buf = some (d, 10) ∧ d.m_ctrlType = TYPE_CTL ∧
        d.m_ctrlSubtype = (frameControlOf buf >>> 4) &&& 0x0f) := by
  constructor
  · intro hlen
    have hb := bodyOctets_le (h0.SetFrameControl (frameControlOf buf))
    obtain ⟨d, hd, -⟩ := Deserialize_consumes h0 buf (frameControlOf buf) rfl (by omega)
    exact ⟨d, _, hd⟩
  · intro hlen ht h1 h2 h3 h4 h5 h6
    have hb : bodyOctets (h0.SetFrameControl (frameControlOf buf)) = 0 := by
      have n10 : ¬ TYPE_CTL = TYPE_MGT := by decide
      have e1 : (h0.SetFrameControl (frameControlOf buf)).m_ctrlType = TYPE_CTL := ht
      have e2 : (h0.SetFrameControl (frameControlOf buf)).m_ctrlSubtype =
        (frameControlOf buf >>> 4) &&& 0x0f := rfl
      simp only [bodyOctets, e1, e2, n10, if_true, if_false, h1, h4, h5, h6, or_self]
    obtain ⟨d, hd, hd1, hd2⟩ := Deserialize_consumes h0 buf (frameControlOf buf) rfl
      (by rw [hb]; omega)
    rw [hb] at hd
    exact ⟨d, hd, hd1.trans ht, hd2⟩

/-- Witness for C4 (amended): the ten octets of the counterexample. -/
theorem Deserialize_unrecognized_subtype_witness :
    ∃ d, (default : WifiMacHeader).Deserialize [0x04, 0, 0, 0, 1, 2, 3, 4, 5, 6] = some (d, 10) ∧
      d.m_ctrlType = TYPE_CTL ∧
      d.m_ctrlSubtype = (frameControlOf [0x04, 0, 0, 0, 1, 2, 3, 4, 5, 6] >>> 4) &&& 0x0f :=
  (Deserialize_unrecognized_subtype default [0x04, 0, 0, 0, 1, 2, 3, 4, 5, 6]).2
    (by decide) (by decide) (by decide) (by decide) (by decide) (by decide) (by decide)
    (by decide)

end ns3

namespace ns3

/-! ## The AID-keyed map -/

/-- A strictly ascending list of numbers below `N` starting at `a` has at most
`N - a` members. -/
theorem length_le_of_ascending (N : Nat) :
    ∀ (l : List Nat) (a : Nat), (a :: l).Pairwise (· < ·) → (∀ x ∈ a :: l, x < N) →
      a + (a :: l).length ≤ N := by
  intro l
  induction l with
  | nil =>
    intro a _ hb
    have := hb a (List.mem_cons_self a [])
    simp only [List.length_singleton]
    omega
  | cons b l ih =>
    intro a hp hb
    have hab : a < b := (List.pairwise_cons.1 hp).1 b (List.mem_cons_self b l)
    have := ih b (List.pairwise_cons.1 hp).2 (fun x hx => hb x (List.mem_cons_of_mem a hx))
    simp only [List.length_cons] at this ⊢
    omega

/-- A well-formed map has at most 65536 entries. -/
theorem staRuMap_size_le (m : staRuMap) (hm : m.WellFormed) : m.size ≤ 65536 := by
  obtain ⟨ho, hb⟩ := hm
  cases m with
  | nil => simp [staRuMap.size]
  | cons e m =>
    have h := length_le_of_ascending 65536 (m.map Prod.fst) e.1
      (by simpa [staRuMap.Ordered] using ho)
      (by
        intro x hx
        rcases List.mem_cons.1 hx with rfl | hx
        · exact hb e (List.mem_cons_self e m)
        · obtain ⟨y, hy, rfl⟩ := List.mem_map.1 hx
          exact hb y (List.mem_cons_of_mem e hy))
    simp only [List.length_cons, List.length_map] at h
    simp only [staRuMap.size, List.length_cons]
    omega

theorem length_MuRts_SerializeLoop (m : staRuMap) :
    (WifiHeMuRtsHeader.SerializeLoop m).length = 5 * m.length := by
  induction m with
  | nil => rfl
  | cons e m ih =>
    simp only [WifiHeMuRtsHeader.SerializeLoop, List.length_append, length_WriteHtolsbU32,
      length_WriteU8, ih, List.length_cons]
    omega

theorem length_Bsrp_SerializeLoop (m : staRuMap) :
    (WifiHEBsrpMacHeader.SerializeLoop m).length = 5 * m.length := by
  induction m with
  | nil => rfl
  | cons e m ih =>
    simp only [WifiHEBsrpMacHeader.SerializeLoop, List.length_append, length_WriteHtolsbU32,
      length_WriteU8, ih, List.length_cons]
    omega

theorem length_BasicTrigger_SerializeLoop (m : staRuMap) :
    ∀ td, (WifiHEBasicTriggerMacHeader.SerializeLoop td m).length = 6 * m.length := by
  induction m with
  | nil => intro td; rfl
  | cons e m ih =>
    intro td
    simp only [WifiHEBasicTriggerMacHeader.SerializeLoop, List.length_append,
      length_WriteHtolsbU32, length_WriteU8, ih, List.length_cons]
    omega

theorem length_MuBar_SerializeLoop (m : staRuMap) :
    ∀ bc, (WifiHEMuBarTriggerMacHeader.SerializeLoop bc m).length = 7 * m.length := by
  induction m with
  | nil => intro bc; rfl
  | cons e m ih =>
    intro bc
    simp only [WifiHEMuBarTriggerMacHeader.SerializeLoop, List.length_append,
      length_WriteHtolsbU32, length_WriteU8, length_WriteHtolsbU16, ih, List.length_cons]
    omega

/-- C7: for every user-info map with `n` records, `GetSize` is `5 n` for the
MU-RTS and the BSRP header, `6 n` for the Basic Trigger header and `7 n` for the
MU-BAR header, and `Serialize` of that header writes exactly that many octets. -/
theorem userInfo_GetSize_and_Serialize_length :
    (∀ h : WifiHeMuRtsHeader, h.staRuMapInfo.WellFormed →
      h.GetSize = 5 * h.staRuMapInfo.size ∧ h.Serialize.length = 5 * h.staRuMapInfo.size) ∧
    (∀ h : WifiHEBsrpMacHeader, h.staRuMapInfo.WellFormed →
      h.GetSize = 5 * h.staRuMapInfo.size ∧ h.Serialize.length = 5 * h.staRuMapInfo.size) ∧
    (∀ h : WifiHEBasicTriggerMacHeader, h.staRuMapInfo.WellFormed →
      h.GetSize = 6 * h.staRuMapInfo.size ∧ h.Serialize.length = 6 * h.staRuMapInfo.size) ∧
    (∀ h : WifiHEMuBarTriggerMacHeader, h.staRuMapInfo.WellFormed →
      h.GetSize = 7 * h.staRuMapInfo.size ∧ h.Serialize.length = 7 * h.staRuMapInfo.size) := by
  refine ⟨?_, ?_, ?_, ?_⟩
  · intro h hm
    have := staRuMap_size_le _ hm
    refine ⟨?_, length_MuRts_SerializeLoop _⟩
    simp only [WifiHeMuRtsHeader.GetSize]; omega
  · intro h hm
    have := staRuMap_size_le _ hm
    refine ⟨?_, length_Bsrp_SerializeLoop _⟩
    simp only [WifiHEBsrpMacHeader.GetSize]; omega
  · intro h hm
    have := staRuMap_size_le _ hm
    refine ⟨?_, length_BasicTrigger_SerializeLoop _ _⟩
    simp only [WifiHEBasicTriggerMacHeader.GetSize]; omega
  · intro h hm
    have := staRuMap_size_le _ hm
    refine ⟨?_, length_MuBar_SerializeLoop _ _⟩
    simp only [WifiHEMuBarTriggerMacHeader.GetSize]; omega

end ns3

namespace ns3

/-! ## Insertion into the AID-keyed map -/

theorem staRuMap_mem_keys_insert (m : staRuMap) (k : Nat) (v : RuInfo) (x : Nat) :
    x ∈ (m.insert k v).keys ↔ x = k ∨ x ∈ m.keys := by
  induction m with
  | nil => simp [staRuMap.insert, staRuMap.keys]
  | cons e m ih =>
    simp only [staRuMap.insert]
    split_ifs with h1 h2
    · simp [staRuMap.keys]
    · simp only [staRuMap.keys, List.map_cons, List.mem_cons]
      constructor
      · intro h; exact Or.inr h
      · rintro (h | h)
        · exact Or.inl (h.trans h2)
        · exact h
    · simp only [staRuMap.keys, List.map_cons, List.mem_cons] at ih ⊢
      rw [ih]
      tauto

theorem staRuMap_insert_ordered (m : staRuMap) (k : Nat) (v : RuInfo) (hm : m.Ordered) :
    (m.insert k v).Ordered := by
  induction m with
  | nil => simp [staRuMap.insert, staRuMap.Ordered]
  | cons e m ih =>
    simp only [staRuMap.Ordered, List.map_cons, List.pairwise_cons] at hm
    obtain ⟨he, hm⟩ := hm
    simp only [staRuMap.insert]
    split_ifs with h1 h2
    · simp only [staRuMap.Ordered, List.map_cons, List.pairwise_cons, List.mem_cons]
      refine ⟨?_, he, hm⟩
      rintro a (rfl | ha)
      · exact h1
      · exact Nat.lt_trans h1 (he a ha)
    · simp only [staRuMap.Ordered, List.map_cons, List.pairwise_cons]
      exact ⟨he, hm⟩
    · have hlt : e.1 < k := by omega
      simp only [staRuMap.Ordered, List.map_cons, List.pairwise_cons]
      refine ⟨?_, ih hm⟩
      intro a ha
      rcases (staRuMap_mem_keys_insert m k v a).1 ha with rfl | ha
      · exact hlt
      · exact he a ha

theorem staRuMap_keys_nodup (m : staRuMap) (hm : m.Ordered) : m.keys.Nodup :=
  List.Pairwise.imp (fun h => Nat.ne_of_lt h) hm

theorem staRuMap_size_eq_card (m : staRuMap) (hm : m.Ordered) :
    m.size = m.keys.toFinset.card := by
  rw [List.toFinset_card_of_nodup (staRuMap_keys_nodup m hm)]
  simp [staRuMap.size, staRuMap.keys]

theorem staRuMap_keys_insert_toFinset (m : staRuMap) (k : Nat) (v : RuInfo) :
    (m.insert k v).keys.toFinset = insert k m.keys.toFinset := by
  ext x
  simp only [List.mem_toFinset, Finset.mem_insert]
  exact staRuMap_mem_keys_insert m k v x

/-- The loop of the four `Deserialize` functions, for a body that reads records
of `stride` octets and leaves the AID of the record in the local `ruInfo`: on a
buffer that holds `n` records it consumes them all, and the keys it adds to the
map are the AIDs of the records. -/
theorem userInfoLoop_spec (body : RuInfo → Buffer → Option (RuInfo × Buffer)) (stride : Nat)
    (hbody : ∀ ru i, stride ≤ i.length → ∃ r, body ru i = some (r, i.drop stride) ∧
      r.m_aid = (i.getD 0 0 % 256 + 256 * (i.getD 1 0 % 256)) % 4096) :
    ∀ (n : Nat) (i : Buffer) (ru : RuInfo) (m : staRuMap), stride * n ≤ i.length →
      m.Ordered →
      ∃ m2, userInfoLoop body n i ru m = some (i.drop (stride * n), m2) ∧ m2.Ordered ∧
        m2.keys.toFinset = m.keys.toFinset ∪ (recordAids stride n i).toFinset := by
  intro n
  induction n with
  | zero =>
    intro i ru m _ hm
    exact ⟨m, by simp [userInfoLoop], hm, by simp [recordAids]⟩
  | succ n ih =>
    intro i ru m hlen hm
    have h1 : stride ≤ i.length := by
      have : stride * (n + 1) = stride * n + stride := Nat.mul_succ stride n
      omega
    obtain ⟨r, hr, haid⟩ := hbody ru i h1
    have h2 : stride * n ≤ (i.drop stride).length := by
      have : stride * (n + 1) = stride * n + stride := Nat.mul_succ stride n
      rw [List.length_drop]; omega
    obtain ⟨m2, hl, ho, hk⟩ := ih (i.drop stride) r (m.insert r.m_aid r) h2
      (staRuMap_insert_ordered m _ _ hm)
    refine ⟨m2, ?_, ho, ?_⟩
    · simp only [userInfoLoop, hr, hl, List.drop_drop, Nat.mul_succ]
      rw [Nat.add_comm]
    · rw [hk, staRuMap_keys_insert_toFinset, haid]
      simp only [recordAids, List.toFinset_cons]
      ext x
      simp only [Finset.mem_union, Finset.mem_insert]
      tauto

end ns3

namespace ns3

theorem length_recordAids (stride : Nat) :
    ∀ (n : Nat) (buf : Buffer), (recordAids stride n buf).length = n := by
  intro n
  induction n with
  | zero => intro buf; rfl
  | succ n ih => intro buf; simp [recordAids, ih]

/-- The loop of the four `Deserialize` functions run from the cleared map. -/
theorem userInfoLoop_from_empty (body : RuInfo → Buffer → Option (RuInfo × Buffer))
    (stride : Nat)
    (hbody : ∀ ru i, stride ≤ i.length → ∃ r, body ru i = some (r, i.drop stride) ∧
      r.m_aid = (i.getD 0 0 % 256 + 256 * (i.getD 1 0 % 256)) % 4096)
    (n : Nat) (buf : Buffer) (ru : RuInfo) (hlen : stride * n ≤ buf.length) :
    ∃ m2, userInfoLoop body n buf ru [] = some (buf.drop (stride * n), m2) ∧
      GetDistanceFrom (buf.drop (stride * n)) buf = stride * n ∧
      m2.size = (recordAids stride n buf).toFinset.card ∧ m2.size ≤ n ∧
      ((recordAids stride n buf).Nodup → m2.size = n) := by
  obtain ⟨m2, hl, ho, hk⟩ := userInfoLoop_spec body stride hbody n buf ru [] hlen
    (by simp [staRuMap.Ordered])
  have hsz : m2.size = (recordAids stride n buf).toFinset.card := by
    rw [staRuMap_size_eq_card m2 ho, hk]
    simp [staRuMap.keys]
  refine ⟨m2, hl, ?_, hsz, ?_, ?_⟩
  · simp only [GetDistanceFrom, List.length_drop]; omega
  · rw [hsz]
    exact (List.toFinset_card_le _).trans (le_of_eq (length_recordAids stride n buf))
  · intro hnd
    rw [hsz, List.toFinset_card_of_nodup hnd, length_recordAids]

theorem MuRts_DeserializeBody_spec (ru : RuInfo) (i : Buffer) (h : 5 ≤ i.length) :
    ∃ r, WifiHeMuRtsHeader.DeserializeBody ru i = some (r, i.drop 5) ∧
      r.m_aid = (i.getD 0 0 % 256 + 256 * (i.getD 1 0 % 256)) % 4096 := by
  simp only [WifiHeMuRtsHeader.DeserializeBody]
  simp (disch := omega) only [ReadLsbtohU32_of_length]
  simp (disch := omega) only [ReadU8_drop, Option.bind_eq_bind, Option.some_bind,
    Option.pure_def, Nat.reduceAdd]
  refine ⟨_, rfl, ?_⟩
  simp only [and_mask4095]
  omega

theorem Bsrp_DeserializeBody_spec (ru : RuInfo) (i : Buffer) (h : 5 ≤ i.length) :
    ∃ r, WifiHEBsrpMacHeader.DeserializeBody ru i = some (r, i.drop 5) ∧
      r.m_aid = (i.getD 0 0 % 256 + 256 * (i.getD 1 0 % 256)) % 4096 := by
  simp only [WifiHEBsrpMacHeader.DeserializeBody]
  simp (disch := omega) only [ReadLsbtohU32_of_length]
  simp (disch := omega) only [ReadU8_drop, Option.bind_eq_bind, Option.some_bind,
    Option.pure_def, Nat.reduceAdd]
  refine ⟨_, rfl, ?_⟩
  simp only [setUserInfo, and_mask4095]
  omega

theorem BasicTrigger_DeserializeBody_spec (ru : RuInfo) (i : Buffer) (h : 6 ≤ i.length) :
    ∃ r, WifiHEBasicTriggerMacHeader.DeserializeBody ru i = some (r, i.drop 6) ∧
      r.m_aid = (i.getD 0 0 % 256 + 256 * (i.getD 1 0 % 256)) % 4096 := by
  simp only [WifiHEBasicTriggerMacHeader.DeserializeBody]
  simp (disch := omega) only [ReadLsbtohU32_of_length]
  simp (disch := omega) only [ReadU8_drop, Option.bind_eq_bind, Option.some_bind,
    Option.pure_def, Nat.reduceAdd]
  refine ⟨_, rfl, ?_⟩
  simp only [setUserInfo, and_mask4095]
  omega

theorem MuBar_DeserializeBody_spec (ru : RuInfo) (i : Buffer) (h : 7 ≤ i.length) :
    ∃ r, WifiHEMuBarTriggerMacHeader.DeserializeBody ru i = some (r, i.drop 7) ∧
      r.m_aid = (i.getD 0 0 % 256 + 256 * (i.getD 1 0 % 256)) % 4096 := by
  simp only [WifiHEMuBarTriggerMacHeader.DeserializeBody, ReadU16]
  simp (disch := omega) only [ReadLsbtohU32_of_length]
  simp (disch := omega) only [ReadU8_drop, ReadLsbtohU16_drop, Option.bind_eq_bind,
    Option.some_bind, Option.pure_def, Nat.reduceAdd]
  refine ⟨_, rfl, ?_⟩
  simp only [setUserInfo, and_mask4095]
  omega

/-- Counterexample to C8 as stated: with two users declared and a buffer holding
two MU-RTS records that carry the same AID (ten zero octets), the decoded map
has one entry, not two. -/
theorem Deserialize_duplicate_aid_counterexample :
    ∃ d, WifiHeMuRtsHeader.Deserialize ⟨2, []⟩ default [0, 0, 0, 0, 0, 0, 0, 0, 0, 0] =
        some (d, 10) ∧ d.staRuMapInfo.size = 1 :=
  ⟨_, rfl, rfl⟩

/-- C8 (amended): after `Deserialize` of a trigger user-info header (MU-RTS,
BSRP, Basic Trigger or MU-BAR) whose declared number of users is `n`, from any
buffer holding `n` records, the decoded user-info map has as many entries as
there are distinct AIDs among the `n` records: at most `n`, and exactly `n` when
the AIDs of the records are pairwise different. -/
theorem userInfo_Deserialize_map_size :
    (∀ (h : WifiHeMuRtsHeader) (ru : RuInfo) (buf : Buffer),
      5 * h.m_numOfUsers ≤ buf.length →
      ∃ d, h.Deserialize ru buf = some (d, 5 * h.m_numOfUsers) ∧
        d.staRuMapInfo.size = (recordAids 5 h.m_numOfUsers buf).toFinset.card ∧
        d.staRuMapInfo.size ≤ h.m_numOfUsers ∧
        ((recordAids 5 h.m_numOfUsers buf).Nodup → d.staRuMapInfo.size = h.m_numOfUsers)) ∧
    (∀ (h : WifiHEBsrpMacHeader) (ru : RuInfo) (buf : Buffer),
      5 * h.m_numOfUsers ≤ buf.length →
      ∃ d, h.Deserialize ru buf = some (d, 5 * h.m_numOfUsers) ∧
        d.staRuMapInfo.size = (recordAids 5 h.m_numOfUsers buf).toFinset.card ∧
        d.staRuMapInfo.size ≤ h.m_numOfUsers ∧
        ((recordAids 5 h.m_numOfUsers buf).Nodup → d.staRuMapInfo.size = h.m_numOfUsers)) ∧
    (∀ (h : WifiHEBasicTriggerMacHeader) (ru : RuInfo) (buf : Buffer),
      6 * h.m_numOfUsers ≤ buf.length →
      ∃ d, h.Deserialize ru buf = some (d, 6 * h.m_numOfUsers) ∧
        d.staRuMapInfo.size = (recordAids 6 h.m_numOfUsers buf).toFinset.card ∧
        d.staRuMapInfo.size ≤ h.m_numOfUsers ∧
        ((recordAids 6 h.m_numOfUsers buf).Nodup → d.staRuMapInfo.size = h.m_numOfUsers)) ∧
    (∀ (h : WifiHEMuBarTriggerMacHeader) (ru : RuInfo) (buf : Buffer),
      7 * h.m_numOfUsers ≤ buf.length →
      ∃ d, h.Deserialize ru buf = some (d, 7 * h.m_numOfUsers) ∧
        d.staRuMapInfo.size = (recordAids 7 h.m_numOfUsers buf).toFinset.card ∧
        d.staRuMapInfo.size ≤ h.m_numOfUsers ∧
        ((recordAids 7 h.m_numOfUsers buf).Nodup → d.staRuMapInfo.size = h.m_numOfUsers)) := by
  refine ⟨?_, ?_, ?_, ?_⟩
  · intro h ru buf hlen
    obtain ⟨m2, hl, hdist, h1, h2, h3⟩ := userInfoLoop_from_empty _ 5
      MuRts_DeserializeBody_spec h.m_numOfUsers buf ru hlen
    exact ⟨{ h with staRuMapInfo := m2 }, by simp only [WifiHeMuRtsHeader.Deserialize, hl, hdist], h1, h2, h3⟩
  · intro h ru buf hlen
    obtain ⟨m2, hl, hdist, h1, h2, h3⟩ := userInfoLoop_from_empty _ 5
      Bsrp_DeserializeBody_spec h.m_numOfUsers buf ru hlen
    exact ⟨{ h with staRuMapInfo := m2 }, by simp only [WifiHEBsrpMacHeader.Deserialize, hl, hdist], h1, h2, h3⟩
  · intro h ru buf hlen
    obtain ⟨m2, hl, hdist, h1, h2, h3⟩ := userInfoLoop_from_empty _ 6
      BasicTrigger_DeserializeBody_spec h.m_numOfUsers buf ru hlen
    exact ⟨{ h with staRuMapInfo := m2 }, by simp only [WifiHEBasicTriggerMacHeader.Deserialize, hl, hdist], h1, h2, h3⟩
  · intro h ru buf hlen
    obtain ⟨m2, hl, hdist, h1, h2, h3⟩ := userInfoLoop_from_empty _ 7
      MuBar_DeserializeBody_spec h.m_numOfUsers buf ru hlen
    exact ⟨{ h with staRuMapInfo := m2 }, by simp only [WifiHEMuBarTriggerMacHeader.Deserialize, hl, hdist], h1, h2, h3⟩

end ns3

namespace ns3

/-- Witness for C7: the sample headers, with one and two records. -/
theorem userInfo_GetSize_and_Serialize_length_witness :
    sampleMuRts.GetSize = 5 ∧ sampleMuRts.Serialize.length = 5 ∧
    sampleBasicTrigger.GetSize = 12 ∧ sampleBasicTrigger.Serialize.length = 12 := by
  have h1 := userInfo_GetSize_and_Serialize_length.1 sampleMuRts
    (by decide)
  have h2 := userInfo_GetSize_and_Serialize_length.2.2.1 sampleBasicTrigger
    (by decide)
  exact ⟨h1.1, h1.2, h2.1, h2.2⟩

/-- Witness for C8 (amended): two Basic Trigger records with the AIDs 1 and 2. -/
theorem userInfo_Deserialize_map_size_witness :
    ∃ d, (sampleBasicTrigger.SetNumOfUsers 2).Deserialize default
        sampleBasicTrigger.Serialize = some (d, 6 * 2) ∧ d.staRuMapInfo.size = 2 := by
  obtain ⟨d, hd, -, -, h3⟩ := userInfo_Deserialize_map_size.2.2.1
    (sampleBasicTrigger.SetNumOfUsers 2) default sampleBasicTrigger.Serialize (by decide)
  exact ⟨d, hd, h3 (by decide)⟩

/-- C9, evaluated on the code: the MU-RTS header holding the one sample record
(AID 1, MCS 5, spatial-stream allocation 2) is serialized and deserialized with
one user declared.  The record decoded for AID 1 has the MCS 2, the
spatial-stream allocation that was sent, and as its spatial-stream allocation
whatever the uninitialised local record `ru0` held. -/
theorem MuRts_roundtrip_overwrites_mcs (ru0 : RuInfo) :
    ∃ d n r, (sampleMuRts.SetNumOfUsers 1).Deserialize ru0 sampleMuRts.Serialize = some (d, n) ∧
      sampleMuRts.staRuMapInfo.find 1 = some sampleRu1 ∧
      d.staRuMapInfo.find 1 = some r ∧
      sampleRu1.mcs = 5 ∧ r.mcs = 2 ∧
      sampleRu1.ssAllocation = 2 ∧ r.ssAllocation = ru0.ssAllocation :=
  ⟨_, _, _, rfl, rfl, rfl, rfl, rfl, rfl, rfl⟩

/-- C10, evaluated on the code: the Basic Trigger header holding the two sample
records is serialized and deserialized with two users declared.  The record for
AID 2 was given the MPDU MU-spacing factor 0, the TID aggregation limit 0, the AC
preference level 0 and the preferred AC 0; the record decoded for AID 2 carries
those of the record for AID 1 (3, 5, 1 and 2). -/
theorem BasicTrigger_roundtrip_accumulates (ru0 : RuInfo) :
    ∃ d n r, (sampleBasicTrigger.SetNumOfUsers 2).Deserialize ru0
        sampleBasicTrigger.Serialize = some (d, n) ∧
      sampleBasicTrigger.staRuMapInfo.find 2 = some sampleRu2 ∧
      d.staRuMapInfo.find 2 = some r ∧
      (sampleRu2.mpduMuSpacingFactor = 0 ∧ r.mpduMuSpacingFactor = 3) ∧
      (sampleRu2.tidAggregationLimit = 0 ∧ r.tidAggregationLimit = 5) ∧
      (sampleRu2.acPreferenceLevel = 0 ∧ r.acPreferenceLevel = 1) ∧
      (sampleRu2.preferredAc = 0 ∧ r.preferredAc = 2) :=
  ⟨_, _, _, rfl, rfl, rfl, ⟨rfl, rfl⟩, ⟨rfl, rfl⟩, ⟨rfl, rfl⟩, ⟨rfl, rfl⟩⟩

end ns3

namespace ns3

/-! ## Round trips of the MU-BAR and BSRP user-info records -/

/-- C11, evaluated on the code.  The MU-BAR header holding the one sample record
(AID 1, compressed-bitmap flag 1) is serialized and deserialized with one user
declared: the record decoded for AID 1 has the compressed-bitmap flag 0, because
`Serialize` puts the flag at bit 2 of the BAR control word and `Deserialize`
takes it from bit 3.  The header holding the two sample records is serialized
and deserialized with two users declared: the record for AID 2 was given the BA
ack policy 0 and the TID info 0, and the record decoded for AID 2 carries those
of the record for AID 1 (1 and 6). -/
theorem MuBar_roundtrip_loses_bar_control (ru0 : RuInfo) :
    (∃ d n r, (sampleMuBar.SetNumOfUsers 1).Deserialize ru0 sampleMuBar.Serialize = some (d, n) ∧
      sampleMuBar.staRuMapInfo.find 1 = some sampleRu1 ∧
      d.staRuMapInfo.find 1 = some r ∧
      sampleRu1.m_compressed = 1 ∧ r.m_compressed = 0) ∧
    (∃ d n r, (sampleMuBarTwo.SetNumOfUsers 2).Deserialize ru0 sampleMuBarTwo.Serialize =
        some (d, n) ∧
      sampleMuBarTwo.staRuMapInfo.find 2 = some sampleRu2 ∧
      d.staRuMapInfo.find 2 = some r ∧
      (sampleRu2.m_baAckPolicy = 0 ∧ r.m_baAckPolicy = 1) ∧
      (sampleRu2.m_tidInfo = 0 ∧ r.m_tidInfo = 6)) :=
  ⟨⟨_, _, _, rfl, rfl, rfl, rfl, rfl⟩, ⟨_, _, _, rfl, rfl, rfl, ⟨rfl, rfl⟩, ⟨rfl, rfl⟩⟩⟩

/-- Decoding the user-info word of a record recovers the six members it
carries. -/
theorem setUserInfo_userInfoValue (ru j : RuInfo) (hw : j.WithinWireWidth) :
    setUserInfo ru (userInfoValue j % 4294967296) =
      { ru with
        m_aid := j.m_aid
        index := j.index
        codingType := j.codingType
        mcs := j.mcs
        dcm := j.dcm
        ssAllocation := j.ssAllocation } := by
  obtain ⟨h1, h2, h3, h4, h5, h6⟩ := hw
  simp only [setUserInfo, userInfoValue, shiftLeft_and_shiftLeft, and_mask1, and_mask15,
    and_mask63, and_mask255, and_mask4095, Nat.zero_or]
  simp (disch := omega) only [or_shiftLeft_eq_add _ _ 12, or_shiftLeft_eq_add _ _ 20,
    or_shiftLeft_eq_add _ _ 21, or_shiftLeft_eq_add _ _ 25, or_shiftLeft_eq_add _ _ 26]
  congr 1 <;> omega

end ns3

namespace ns3

/-- One iteration of the BSRP `Deserialize` loop on the octets that `Serialize`
wrote for a record. -/
theorem Bsrp_DeserializeBody_Serialize (ru j : RuInfo) (rest : Buffer)
    (hw : j.WithinWireWidth) :
    WifiHEBsrpMacHeader.DeserializeBody ru
        (WriteHtolsbU32 (userInfoValue j) ++ (WriteU8 0 ++ rest)) =
      some ({ ru with
              m_aid := j.m_aid
              index := j.index
              codingType := j.codingType
              mcs := j.mcs
              dcm := j.dcm
              ssAllocation := j.ssAllocation }, rest) := by
  simp only [WifiHEBsrpMacHeader.DeserializeBody, ReadLsbtohU32_WriteHtolsbU32, ReadU8_WriteU8,
    Option.bind_eq_bind, Option.some_bind, Option.pure_def, setUserInfo_userInfoValue ru j hw]

/-- Inserting a key above every key of the map enters it at the end. -/
theorem staRuMap_insert_last (m : staRuMap) (k : Nat) (v : RuInfo) (h : ∀ e ∈ m, e.1 < k) :
    m.insert k v = m ++ [(k, v)] := by
  induction m with
  | nil => rfl
  | cons e m ih =>
    have he : e.1 < k := h e (List.mem_cons_self e m)
    have h1 : ¬ k < e.1 := by omega
    have h2 : ¬ k = e.1 := by omega
    simp only [staRuMap.insert, h1, h2, if_false, List.cons_append]
    rw [ih (fun x hx => h x (List.mem_cons_of_mem e hx))]

/-- The BSRP `Deserialize` loop run on the octets that the `Serialize` loop wrote
for the entries `m`, the map holding `acc` so far. -/
theorem Bsrp_loop_roundtrip (rest : Buffer) :
    ∀ (m acc : staRuMap) (ru : RuInfo), staRuMap.Ordered (acc ++ m) → m.KeyedByAid →
      (∀ e ∈ m, e.2.WithinWireWidth) →
      ∃ m2, userInfoLoop WifiHEBsrpMacHeader.DeserializeBody m.length
          (WifiHEBsrpMacHeader.SerializeLoop m ++ rest) ru acc = some (rest, acc ++ m2) ∧
        m2.map (fun e => (e.1, e.2.userInfo)) = m.map (fun e => (e.1, e.2.userInfo)) := by
  intro m
  induction m with
  | nil =>
    intro acc ru _ _ _
    exact ⟨[], by simp [userInfoLoop, WifiHEBsrpMacHeader.SerializeLoop], rfl⟩
  | cons j m ih =>
    intro acc ru ho hk hw
    obtain ⟨k, v⟩ := j
    have hj : v.WithinWireWidth := hw (k, v) (List.mem_cons_self _ m)
    have hkj : k = v.m_aid := hk (k, v) (List.mem_cons_self _ m)
    subst hkj
    have hacc : ∀ e ∈ acc, e.1 < v.m_aid := by
      intro e he
      have h := ho
      simp only [staRuMap.Ordered, List.map_append, List.map_cons, List.pairwise_append,
        List.mem_map, List.mem_cons] at h
      exact h.2.2 e.1 ⟨e, he, rfl⟩ v.m_aid (Or.inl rfl)
    obtain ⟨m2, hl, hm2⟩ := ih
      (acc ++ [(v.m_aid, { ru with
              m_aid := v.m_aid
              index := v.index
              codingType := v.codingType
              mcs := v.mcs
              dcm := v.dcm
              ssAllocation := v.ssAllocation })])
      { ru with
              m_aid := v.m_aid
              index := v.index
              codingType := v.codingType
              mcs := v.mcs
              dcm := v.dcm
              ssAllocation := v.ssAllocation }
      (by
        have h := ho
        simp only [staRuMap.Ordered, List.map_append, List.map_cons, List.map_nil,
          List.append_assoc, List.singleton_append] at h ⊢
        exact h)
      (fun e he => hk e (List.mem_cons_of_mem _ he))
      (fun e he => hw e (List.mem_cons_of_mem _ he))
    refine ⟨(v.m_aid, { ru with
              m_aid := v.m_aid
              index := v.index
              codingType := v.codingType
              mcs := v.mcs
              dcm := v.dcm
              ssAllocation := v.ssAllocation }) :: m2, ?_, ?_⟩
    · simp only [WifiHEBsrpMacHeader.SerializeLoop, List.length_cons, userInfoLoop,
        List.append_assoc, Bsrp_DeserializeBody_Serialize ru v _ hj]
      rw [staRuMap_insert_last acc v.m_aid _ hacc, hl]
      simp only [List.append_assoc, List.singleton_append]
    · rw [List.map_cons, List.map_cons, hm2]
      rfl

end ns3

namespace ns3

/-! ## The order of insertion into the AID-keyed map -/

/-- Inserting under a key that the map does not hold adds the entry. -/
theorem staRuMap_insert_perm (m : staRuMap) (k : Nat) (v : RuInfo) (h : k ∉ m.keys) :
    (m.insert k v).Perm ((k, v) :: m) := by
  induction m with
  | nil => exact List.Perm.refl _
  | cons e m ih =>
    simp only [staRuMap.keys, List.map_cons, List.mem_cons, not_or] at h
    simp only [staRuMap.insert]
    split_ifs with h1 h2
    · exact List.Perm.refl _
    · exact absurd h2 h.1
    · exact ((ih h.2).cons e).trans (List.Perm.swap _ _ _)

/-- Inserting records with pairwise different AIDs, none of them in the map,
one after the other: the map stays in key order and gains exactly these
records. -/
theorem staRuMap_foldl_insert (rs : List RuInfo) :
    ∀ (acc : staRuMap), acc.Ordered → (rs.map (fun r => r.m_aid)).Nodup →
      (∀ r ∈ rs, r.m_aid ∉ acc.keys) →
      staRuMap.Ordered (rs.foldl (fun m r => m.insert r.m_aid r) acc) ∧
      (rs.foldl (fun m r => m.insert r.m_aid r) acc).Perm
        (rs.map (fun r => (r.m_aid, r)) ++ acc) := by
  induction rs with
  | nil =>
    intro acc ho _ _
    exact ⟨ho, List.Perm.refl _⟩
  | cons r rs ih =>
    intro acc ho hnd hnot
    simp only [List.map_cons, List.nodup_cons, List.mem_map, not_exists, not_and] at hnd
    have hr : r.m_aid ∉ acc.keys := hnot r (List.mem_cons_self r rs)
    obtain ⟨h1, h2⟩ := ih (acc.insert r.m_aid r) (staRuMap_insert_ordered acc _ _ ho) hnd.2
      (by
        intro x hx hmem
        rcases (staRuMap_mem_keys_insert acc r.m_aid r x.m_aid).1 hmem with h | h
        · exact hnd.1 x hx h
        · exact hnot x (List.mem_cons_of_mem r hx) h)
    refine ⟨h1, ?_⟩
    simp only [List.foldl_cons, List.map_cons, List.cons_append]
    exact h2.trans (((staRuMap_insert_perm acc _ _ hr).append_left _).trans
      List.perm_middle)

/-- A map in key order, keyed by the AID of its records, is the map that results
from inserting its records in any order. -/
theorem staRuMap_ofRecords_eq (m : staRuMap) (hm : m.Ordered) (hk : m.KeyedByAid)
    (rs : List RuInfo) (hp : rs.Perm (m.map Prod.snd)) : staRuMap.ofRecords rs = m := by
  have hkeys : (m.map Prod.snd).map (fun r => r.m_aid) = m.keys := by
    simp only [staRuMap.keys, List.map_map]
    exact List.map_congr_left (fun e he => (hk e he).symm)
  have hpairs : (m.map Prod.snd).map (fun r => (r.m_aid, r)) = m := by
    simp only [List.map_map]
    conv_rhs => rw [← List.map_id m]
    refine List.map_congr_left (fun e he => ?_)
    simp only [Function.comp_apply, id_eq]
    rw [← hk e he]
  have hnd : (rs.map (fun r => r.m_aid)).Nodup := by
    rw [(hp.map (fun r => r.m_aid)).nodup_iff, hkeys]
    exact staRuMap_keys_nodup m hm
  obtain ⟨h1, h2⟩ := staRuMap_foldl_insert rs [] (by simp [staRuMap.Ordered]) hnd
    (by intro r _; simp [staRuMap.keys])
  rw [List.append_nil] at h2
  have h3 : (staRuMap.ofRecords rs).Perm m := by
    have := h2.trans (hp.map (fun r => (r.m_aid, r)))
    rw [hpairs] at this
    exact this
  haveI : IsAntisymm (Nat × RuInfo) (fun a b => a.1 < b.1) :=
    ⟨fun a b h1 h2 => absurd h1 (Nat.lt_asymm h2)⟩
  exact List.eq_of_perm_of_sorted h3
    (by simpa [staRuMap.Ordered, List.pairwise_map, List.Sorted] using h1)
    (by simpa [staRuMap.Ordered, List.pairwise_map, List.Sorted] using hm)

end ns3

namespace ns3

/-- A map in key order whose keys are 12-bit AIDs has at most 4096 entries. -/
theorem staRuMap_size_le_of_aid (m : staRuMap) (hm : m.Ordered) (hb : ∀ e ∈ m, e.1 < 4096) :
    m.size ≤ 4096 := by
  cases m with
  | nil => simp [staRuMap.size]
  | cons e m =>
    have h := length_le_of_ascending 4096 (m.map Prod.fst) e.1
      (by simpa [staRuMap.Ordered] using hm)
      (by
        intro x hx
        rcases List.mem_cons.1 hx with rfl | hx
        · exact hb e (List.mem_cons_self e m)
        · obtain ⟨y, hy, rfl⟩ := List.mem_map.1 hx
          exact hb y (List.mem_cons_of_mem e hy))
    simp only [List.length_cons, List.length_map] at h
    simp only [staRuMap.size, List.length_cons]
    omega

/-- C12: BSRP user-info round trip.  Let the header `h` hold a map of user-info
records keyed by their AID (in key order, as the map type keeps it) with every
member within its wire width, and let the receiving header `h2` declare as many
users as the map has entries.  Then `Deserialize` of the octets written by
`Serialize`, whatever follows them and whatever the local record held, consumes
exactly `GetSize` octets and yields a map with the same keys and, under every
key, the same AID, RU index, coding type, MCS, DCM and SS allocation.  The map,
and with it the octets and the decoded records, does not depend on the order of
insertion: inserting the records of the map in any order gives the same map. -/
theorem Bsrp_Deserialize_Serialize_roundtrip (h h2 : WifiHEBsrpMacHeader) (ru0 : RuInfo)
    (rest : Buffer) (hm : h.staRuMapInfo.Ordered) (hk : h.staRuMapInfo.KeyedByAid)
    (hw : ∀ e ∈ h.staRuMapInfo, e.2.WithinWireWidth)
    (hn : h2.m_numOfUsers = h.staRuMapInfo.size) :
    (∃ d, h2.Deserialize ru0 (h.Serialize ++ rest) = some (d, h.GetSize) ∧
      d.staRuMapInfo.map (fun e => (e.1, e.2.userInfo)) =
        h.staRuMapInfo.map (fun e => (e.1, e.2.userInfo))) ∧
    ∀ rs : List RuInfo, rs.Perm (h.staRuMapInfo.map Prod.snd) →
      staRuMap.ofRecords rs = h.staRuMapInfo := by
  refine ⟨?_, fun rs hp => staRuMap_ofRecords_eq _ hm hk rs hp⟩
  obtain ⟨m2, hl, hm2⟩ := Bsrp_loop_roundtrip rest h.staRuMapInfo [] ru0
    (by simpa using hm) hk hw
  have hsz : h.staRuMapInfo.size ≤ 4096 :=
    staRuMap_size_le_of_aid _ hm (fun e he => by
      have h1 := hk e he
      have h2 := (hw e he).1
      omega)
  refine ⟨{ h2 with staRuMapInfo := m2 }, ?_, hm2⟩
  have hlen := length_Bsrp_SerializeLoop h.staRuMapInfo
  simp only [staRuMap.size] at hn hsz
  simp only [WifiHEBsrpMacHeader.Deserialize, WifiHEBsrpMacHeader.Serialize, hn, hl,
    List.nil_append, GetDistanceFrom, List.length_append, WifiHEBsrpMacHeader.GetSize,
    staRuMap.size, Option.some.injEq, Prod.mk.injEq, true_and]
  omega

/-- Witness for C12: the sample BSRP header, with two records, read back by a
header that declares two users; the two records inserted in the other order give
the same map. -/
theorem Bsrp_Deserialize_Serialize_roundtrip_witness :
    (∃ d, (sampleBsrp.SetNumOfUsers 2).Deserialize default (sampleBsrp.Serialize ++ []) =
        some (d, 10) ∧
      d.staRuMapInfo.map (fun e => (e.1, e.2.userInfo)) =
        sampleBsrp.staRuMapInfo.map (fun e => (e.1, e.2.userInfo))) ∧
    staRuMap.ofRecords [sampleRu2, sampleRu1] = sampleBsrp.staRuMapInfo := by
  have h := Bsrp_Deserialize_Serialize_roundtrip sampleBsrp (sampleBsrp.SetNumOfUsers 2) default []
    (by decide) (by decide) (by decide) (by decide)
  exact ⟨h.1, h.2 [sampleRu2, sampleRu1] (List.Perm.swap _ _ _)⟩

end ns3

namespace ns3

/-! ## The AID map and the eligibility functions of the access point -/

theorem StdMap_find_append {κ ν : Type} [DecidableEq κ] (m : StdMap κ ν) (k : κ) (v : ν)
    (h : StdMap.find m k = none) : StdMap.find (m ++ [(k, v)]) k = some v := by
  induction m with
  | nil => simp [StdMap.find]
  | cons e m ih =>
    simp only [StdMap.find] at h
    split_ifs at h with h1
    simp only [List.cons_append, StdMap.find, h1, if_false]
    exact ih h

/-- Looking up a key after inserting under it finds the value it held before,
or else the value inserted. -/
theorem StdMap_find_insert_self {κ ν : Type} [DecidableEq κ] (m : StdMap κ ν) (k : κ) (v : ν) :
    StdMap.find (StdMap.insert m k v) k = some ((StdMap.find m k).getD v) := by
  unfold StdMap.insert
  cases h : StdMap.find m k with
  | none => simpa using StdMap_find_append m k v h
  | some x => simp [h]

/-- C13: AID allocation is idempotent.  For every MAC address and every state of
the access point, a second call of `AllocateAid` for the address returns the AID
that the first call returned, and leaves the state as the first call left it: the
AID map, the per-AID queue map and the AID counter in particular. -/
theorem AllocateAid_idempotent (s : ApWifiMac) (mac : Mac48Address) :
    ((s.AllocateAid mac).2.AllocateAid mac).1 = (s.AllocateAid mac).1 ∧
    ((s.AllocateAid mac).2.AllocateAid mac).2.m_aidMap = (s.AllocateAid mac).2.m_aidMap ∧
    ((s.AllocateAid mac).2.AllocateAid mac).2.m_ofdmaMap = (s.AllocateAid mac).2.m_ofdmaMap ∧
    ((s.AllocateAid mac).2.AllocateAid mac).2 = (s.AllocateAid mac).2 := by
  have key : (s.AllocateAid mac).2.AllocateAid mac = ((s.AllocateAid mac).1, (s.AllocateAid mac).2) := by
    cases h : StdMap.find s.m_aidMap mac with
    | some a =>
      have h1 : s.AllocateAid mac = (a, s) := by simp only [ApWifiMac.AllocateAid, h]
      rw [h1]
      exact h1
    | none =>
      have h1 : s.AllocateAid mac =
          ((s.aid + 1) % 65536,
            ApWifiMac.SetupStationQueue
              { s with aid := (s.aid + 1) % 65536,
                       m_aidMap := StdMap.insert s.m_aidMap mac ((s.aid + 1) % 65536) }
              ((s.aid + 1) % 65536) mac) := by
        simp only [ApWifiMac.AllocateAid, h]
        rfl
      rw [h1]
      have h2 := StdMap_find_insert_self s.m_aidMap mac ((s.aid + 1) % 65536)
      rw [h] at h2
      simp only [Option.getD_none] at h2
      simp only [ApWifiMac.AllocateAid, ApWifiMac.SetupStationQueue, h2]
  rw [key]
  exact ⟨rfl, rfl, rfl, rfl⟩

/-- C15: `GetShortSlotTimeEnabled` is a function of the state alone (it returns
its result and leaves the state as it is), and it is true if and only if the
non-ERP station list is empty, ERP is supported, the short-slot capability of the
access point is enabled and every station of the associated-station list supports
the short slot time.  In particular a non-ERP station forces false, and so does
an associated station that lacks the support. -/
theorem GetShortSlotTimeEnabled_iff (s : ApWifiMac) :
    (s.GetShortSlotTimeEnabled = true ↔
      s.m_nonErpStations = [] ∧ s.m_erpSupported = true ∧ s.GetShortSlotTimeSupported = true ∧
        ∀ i ∈ s.m_staList, s.m_stationManager.GetShortSlotTimeSupported i = true) ∧
    (s.m_nonErpStations ≠ [] → s.GetShortSlotTimeEnabled = false) ∧
    ((∃ i ∈ s.m_staList, s.m_stationManager.GetShortSlotTimeSupported i = false) →
      s.GetShortSlotTimeEnabled = false) := by
  have main : s.GetShortSlotTimeEnabled = true ↔
      s.m_nonErpStations = [] ∧ s.m_erpSupported = true ∧ s.GetShortSlotTimeSupported = true ∧
        ∀ i ∈ s.m_staList, s.m_stationManager.GetShortSlotTimeSupported i = true := by
    unfold ApWifiMac.GetShortSlotTimeEnabled
    by_cases h1 : s.m_nonErpStations = []
    · by_cases h2 : s.m_erpSupported = true ∧ s.GetShortSlotTimeSupported = true
      · simp [h1, h2, List.all_eq_true]
      · simp only [h1, List.length_nil, ne_eq, not_true_eq_false, if_false, h2, true_and]
        constructor
        · intro h; exact absurd h (by simp)
        · intro h; exact absurd ⟨h.1, h.2.1⟩ h2
    · have h3 : s.m_nonErpStations.length ≠ 0 := by
        intro h; exact h1 (List.length_eq_zero.1 h)
      simp [h1, h3]
  refine ⟨main, ?_, ?_⟩
  · intro h
    cases hb : s.GetShortSlotTimeEnabled with
    | false => rfl
    | true => exact absurd (main.1 hb).1 h
  · rintro ⟨i, hi, hf⟩
    cases hb : s.GetShortSlotTimeEnabled with
    | false => rfl
    | true =>
      have := (main.1 hb).2.2.2 i hi
      rw [hf] at this
      exact absurd this (by simp)

/-- C16: `GetShortPreambleEnabled` is true if and only if ERP is supported or the
PHY supports the short PLCP preamble, and every station of the non-ERP station
list supports the short preamble. -/
theorem GetShortPreambleEnabled_iff (s : ApWifiMac) :
    s.GetShortPreambleEnabled = true ↔
      (s.m_erpSupported = true ∨ s.m_phy.GetShortPlcpPreambleSupported = true) ∧
        ∀ i ∈ s.m_nonErpStations, s.m_stationManager.GetShortPreambleSupported i = true := by
  unfold ApWifiMac.GetShortPreambleEnabled
  by_cases h : s.m_erpSupported = true ∨ s.m_phy.GetShortPlcpPreambleSupported = true
  · simp [h, List.all_eq_true]
  · simp [h]

end ns3

namespace ns3

/-! ## What the helpers of the association branch change -/

open ApWifiMac

theorem SameButManager_refl (s : ApWifiMac) : s.SameButManager s := rfl

theorem SameButManager_trans {s t u : ApWifiMac} (h1 : s.SameButManager t)
    (h2 : t.SameButManager u) : s.SameButManager u := by
  unfold SameButManager at *
  rw [h2, h1]

theorem SameButManager_call (s : ApWifiMac) (c : StationManagerCall) :
    s.SameButManager (s.stationManagerCall c) := rfl

theorem SameButManager_foldl {α : Type} (f : ApWifiMac → α → ApWifiMac)
    (hf : ∀ (s : ApWifiMac) (x : α), s.SameButManager (f s x)) :
    ∀ (xs : List α) (s : ApWifiMac), s.SameButManager (xs.foldl f s) := by
  intro xs
  induction xs with
  | nil => intro s; exact SameButManager_refl s
  | cons x xs ih => intro s; exact SameButManager_trans (hf s x) (ih (f s x))

theorem SameButManager_GetSupportedRates (env : Env) (s : ApWifiMac) :
    s.SameButManager (s.GetSupportedRates env).2 := by
  unfold GetSupportedRates
  simp only
  have key : ∀ (xs : List WifiMode) (acc : SupportedRates × ApWifiMac),
      acc.2.SameButManager (xs.foldl
        (fun (acc : SupportedRates × ApWifiMac) mode =>
          if mode.IsMandatory ∧ mode.GetModulationClass ≠ .WIFI_MOD_CLASS_HR_DSSS then
            ((acc.1.AddSupportedRate (env.GetDataRate mode acc.2.m_phy.GetChannelWidth false 1)),
              acc.2.stationManagerCall (.AddBasicMode mode))
          else ((acc.1.AddSupportedRate (env.GetDataRate mode acc.2.m_phy.GetChannelWidth false 1)),
            acc.2)) acc).2 := by
    intro xs
    induction xs with
    | nil => intro acc; exact SameButManager_refl _
    | cons x xs ih =>
      intro acc
      simp only [List.foldl_cons]
      refine SameButManager_trans ?_ (ih _)
      split_ifs
      · exact SameButManager_call _ _
      · exact SameButManager_refl _
  exact key _ _

end ns3

namespace ns3

open ApWifiMac

theorem SameButManager_GetErpInformation (s : ApWifiMac) :
    s.SameButManager s.GetErpInformation.2 := by
  unfold GetErpInformation GetUseNonErpProtection
  simp only
  split_ifs
  all_goals first
    | exact SameButManager_call _ _
    | exact SameButManager_refl _

/-- `AllocateAid` changes the AID map, the per-AID queue map and the AID counter
at most. -/
theorem AllocateAid_frame (s : ApWifiMac) (mac : Mac48Address) :
    (s.AllocateAid mac).2 =
      { s with
        aid := (s.AllocateAid mac).2.aid
        m_aidMap := (s.AllocateAid mac).2.m_aidMap
        m_ofdmaMap := (s.AllocateAid mac).2.m_ofdmaMap } := by
  unfold AllocateAid
  cases h : StdMap.find s.m_aidMap mac with
  | some a => rfl
  | none => rfl

/-- Queueing a response in a state that differs from `s` in the remote-station
manager at most. -/
theorem SameButManager_queue (s t : ApWifiMac) (h : s.SameButManager t)
    (A : MgtAssocResponseHeader) (H : WifiMacHeader) (P : MgtAssocResponseHeader → Prop)
    (hA : P A) :
    ∃ assoc hdr m,
      t.effect (.Queue .m_dca (Packet.Create.AddHeader (.assocResponse A)) H) =
        { s with
          m_stationManager := m
          effects := s.effects ++ [.Queue .m_dca (assocResponsePacket assoc) hdr] } ∧
      P assoc := by
  refine ⟨A, H, t.m_stationManager, ?_, hA⟩
  unfold SameButManager at h
  conv_lhs => rw [h]
  rfl

/-- `SendAssocResp` with the failure status: the state changes in the
remote-station manager at most, and the response queued carries the failure
status. -/
theorem SendAssocResp_failure (env : Env) (s : ApWifiMac) (dst : Mac48Address)
    (mem : WifiMacHeader) :
    ∃ assoc hdr m, s.SendAssocResp env dst false mem =
        { s with
          m_stationManager := m
          effects := s.effects ++ [.Queue .m_dca (assocResponsePacket assoc) hdr] } ∧
      assoc.m_code = ⟨1⟩ := by
  unfold SendAssocResp
  simp only [Bool.false_eq_true, if_false]
  rcases hG : s.GetSupportedRates env with ⟨rates, sG⟩
  have h1 : s.SameButManager sG := by
    have := SameButManager_GetSupportedRates env s
    rw [hG] at this
    exact this
  rcases hE : sG.GetErpInformation with ⟨information, sE⟩
  have h2 : s.SameButManager sE := by
    have := SameButManager_GetErpInformation sG
    rw [hE] at this
    exact SameButManager_trans h1 this
  simp only
  by_cases c1 : sG.m_erpSupported = true
  · by_cases c2 : sE.m_htSupported = true ∨ sE.m_vhtSupported = true
    · simp only [c1, c2, if_true, hE]
      exact SameButManager_queue s sE h2 _ _ (fun a => a.m_code = ⟨1⟩) (by split_ifs <;> rfl)
    · simp only [c1, c2, if_true, if_false, hE]
      exact SameButManager_queue s sE h2 _ _ (fun a => a.m_code = ⟨1⟩) (by split_ifs <;> rfl)
  · by_cases c2 : sG.m_htSupported = true ∨ sG.m_vhtSupported = true
    · simp only [c1, c2, if_true, if_false]
      exact SameButManager_queue s sG h1 _ _ (fun a => a.m_code = ⟨1⟩) (by split_ifs <;> rfl)
    · simp only [c1, c2, if_false]
      exact SameButManager_queue s sG h1 _ _ (fun a => a.m_code = ⟨1⟩) (by split_ifs <;> rfl)

end ns3

namespace ns3

open ApWifiMac

/-- `SendAssocResp` with the success status: the station is given its AID and
entered at the end of the associated-station list, the state changes besides in
the remote-station manager at most, and the response queued carries the success
status and the AID. -/
theorem SendAssocResp_success (env : Env) (s : ApWifiMac) (dst : Mac48Address)
    (mem : WifiMacHeader) :
    ∃ assoc hdr m, s.SendAssocResp env dst true mem =
        { (s.AllocateAid dst).2 with
          m_staList := (s.AllocateAid dst).2.m_staList ++ [dst]
          m_stationManager := m
          effects := (s.AllocateAid dst).2.effects ++
            [.Queue .m_dca (assocResponsePacket assoc) hdr] } ∧
      (assoc.m_code = ⟨0⟩ ∧ assoc.m_aid = (s.AllocateAid dst).1) := by
  unfold SendAssocResp
  simp only [if_true]
  rcases hA : s.AllocateAid dst with ⟨aid, sA⟩
  simp only
  generalize hs0 : ({ sA with m_staList := sA.m_staList ++ [dst] } : ApWifiMac) = s0
  rcases hG : s0.GetSupportedRates env with ⟨rates, sG⟩
  have h1 : s0.SameButManager sG := by
    have := SameButManager_GetSupportedRates env s0
    rw [hG] at this
    exact this
  rcases hE : sG.GetErpInformation with ⟨information, sE⟩
  have h2 : s0.SameButManager sE := by
    have := SameButManager_GetErpInformation sG
    rw [hE] at this
    exact SameButManager_trans h1 this
  have hcol : s0.m_color = sA.m_color := by rw [← hs0]
  have hfin : ∀ (t : ApWifiMac), s0.SameButManager t → ∀ (A : MgtAssocResponseHeader)
      (H : WifiMacHeader), (A.m_code = ⟨0⟩ ∧ A.m_aid = aid) →
      ∃ assoc hdr m,
        t.effect (.Queue .m_dca (Packet.Create.AddHeader (.assocResponse A)) H) =
          { sA with
            m_staList := sA.m_staList ++ [dst]
            m_stationManager := m
            effects := sA.effects ++ [.Queue .m_dca (assocResponsePacket assoc) hdr] } ∧
        (assoc.m_code = ⟨0⟩ ∧ assoc.m_aid = aid) := by
    intro t ht A H hA
    obtain ⟨assoc, hdr, m, heq, hP⟩ := SameButManager_queue s0 t ht A H
      (fun a => a.m_code = ⟨0⟩ ∧ a.m_aid = aid) hA
    refine ⟨assoc, hdr, m, ?_, hP⟩
    rw [heq, ← hs0]
  by_cases c1 : sG.m_erpSupported = true
  · by_cases c2 : sE.m_htSupported = true ∨ sE.m_vhtSupported = true
    · simp only [c1, c2, if_true, hE]
      exact hfin sE h2 _ _ (by split_ifs <;> exact ⟨rfl, rfl⟩)
    · simp only [c1, c2, if_true, if_false, hE]
      exact hfin sE h2 _ _ (by split_ifs <;> exact ⟨rfl, rfl⟩)
  · by_cases c2 : sG.m_htSupported = true ∨ sG.m_vhtSupported = true
    · simp only [c1, c2, if_true, if_false]
      exact hfin sG h1 _ _ (by split_ifs <;> exact ⟨rfl, rfl⟩)
    · simp only [c1, c2, if_false]
      exact hfin sG h1 _ _ (by split_ifs <;> exact ⟨rfl, rfl⟩)

end ns3

namespace ns3

open WifiMacHeader

/-! ## The frame kind of a header -/

/-- A header whose kind `GetType` returns has the type and subtype that `SetType`
stores for that kind. -/
theorem GetType_some (h : WifiMacHeader) (t : WifiMacType) (ht : h.GetType = some t) :
    h.m_ctrlType = (typeAndSubtype t).1 ∧ h.m_ctrlSubtype = (typeAndSubtype t).2 := by
  unfold GetType at ht
  split_ifs at ht with h1 h2 h3 h4 h5 h6 h7 h8 h9
  · split at ht <;>
      first
      | (simp only [Option.some.injEq] at ht; subst ht; exact ⟨h1, by assumption⟩)
      | exact absurd ht (by simp)
  all_goals first
    | (simp only [Option.some.injEq] at ht; subst ht; exact ⟨by assumption, by assumption⟩)
    | exact absurd ht (by simp)
    | (split at ht <;>
        first
        | (simp only [Option.some.injEq] at ht; subst ht; exact ⟨by assumption, by assumption⟩)
        | exact absurd ht (by simp))

end ns3

namespace ns3

open WifiMacHeader ApWifiMac

/-! ## The management branches of `Receive` -/

/-- `Receive` on an association request addressed to the access point: the
request is checked and answered. -/
theorem Receive_assocReq (env : Env) (s : ApWifiMac) (packet rest : Packet)
    (hdr mem : WifiMacHeader) (req : MgtAssocRequestHeader)
    (ht : hdr.GetType = some .WIFI_MAC_MGT_ASSOCIATION_REQUEST)
    (hto : hdr.GetAddr1 = s.GetAddress)
    (hp : packet.RemoveHeader = some (.assocRequest req, rest)) :
    s.Receive env packet hdr mem =
      (s.checkAssocRequest env hdr.GetAddr2 req).bind (fun r =>
        if r.1.problem = true then some (r.2.SendAssocResp env hdr.GetAddr2 false mem)
        else r.2.commitAssociation env hdr req r.1 mem) := by
  obtain ⟨h1, h2⟩ := GetType_some hdr _ ht
  simp only [typeAndSubtype] at h1 h2
  have hd : hdr.IsData = false := by simp [IsData, h1, TYPE_MGT, TYPE_DATA]
  have hm : hdr.IsMgt = true := by simp [IsMgt, h1]
  simp only [Receive, hd, hm, IsProbeReq, IsAssocReq, ht, hto, hp, Option.bind_eq_bind,
    Option.some_bind, Option.pure_def, Bool.false_eq_true, if_false, if_true, decide_True,
    decide_False, reduceCtorEq]

/-- `Receive` on a disassociation frame addressed to the access point. -/
theorem Receive_disassociation (env : Env) (s : ApWifiMac) (packet : Packet)
    (hdr mem : WifiMacHeader)
    (ht : hdr.GetType = some .WIFI_MAC_MGT_DISASSOCIATION)
    (hto : hdr.GetAddr1 = s.GetAddress) :
    s.Receive env packet hdr mem = some (s.disassociate hdr.GetAddr2) := by
  obtain ⟨h1, h2⟩ := GetType_some hdr _ ht
  simp only [typeAndSubtype] at h1 h2
  have hd : hdr.IsData = false := by simp [IsData, h1, TYPE_MGT, TYPE_DATA]
  have hm : hdr.IsMgt = true := by simp [IsMgt, h1]
  simp only [Receive, hd, hm, IsProbeReq, IsAssocReq, IsDisassociation, ht, hto,
    Option.bind_eq_bind, Option.some_bind, Option.pure_def, Bool.false_eq_true, if_false,
    if_true, decide_True, decide_False, reduceCtorEq]

end ns3

namespace ns3

open WifiMacHeader ApWifiMac

/-- The check of an association request changes the remote-station manager at
most. -/
theorem SameButManager_checkAssocRequest (env : Env) (s t : ApWifiMac) (src : Mac48Address)
    (req : MgtAssocRequestHeader) (c : AssocCheck)
    (h : s.checkAssocRequest env src req = some (c, t)) : s.SameButManager t := by
  have key : ∀ r, s.checkAssocRequest env src req = some r →
      r.2 = (s.stationManagerCall
          (.AddSupportedPlcpPreamble src req.m_capability.IsShortPreamble)).stationManagerCall
        (.AddSupportedErpSlotTime src (req.m_capability.IsShortSlotTime &&
          (basicModesLoop env s.m_phy.GetChannelWidth req.m_rates
            (s.stationManagerCall
              (.AddSupportedPlcpPreamble src
                req.m_capability.IsShortPreamble)).m_stationManager.GetBasicModes
            { problem := false, isHtStation := false, isOfdmStation := false,
              isErpStation := false, isDsssStation := false }).isErpStation)) := by
    intro r hr
    unfold checkAssocRequest at hr
    simp only [Option.bind_eq_bind, Option.pure_def, Option.some_bind] at hr
    split_ifs at hr <;>
      simp only [Option.bind_eq_some, Option.some.injEq, Option.some_bind] at hr <;>
      first
      | (subst hr; rfl)
      | (obtain ⟨_, _, hr⟩ := hr; subst hr; rfl)
      | (obtain ⟨_, _, _, _, hr⟩ := hr; subst hr; rfl)
  have := key _ h
  simp only at this
  rw [this]
  exact SameButManager_trans (SameButManager_call _ _) (SameButManager_call _ _)

/-- The loop over the MCSs of the PHY completes and changes the remote-station
manager at most. -/
theorem supportedMcsLoop_spec (modClass : WifiModulationClass)
    (hc : modClass = .WIFI_MOD_CLASS_HT ∨ modClass = .WIFI_MOD_CLASS_VHT)
    (isSupported : Nat → Bool) (address : Mac48Address) :
    ∀ (l : List WifiMode) (s : ApWifiMac),
      ∃ t, supportedMcsLoop modClass isSupported address l s = some t ∧ s.SameButManager t := by
  intro l
  induction l with
  | nil => intro s; exact ⟨s, rfl, SameButManager_refl s⟩
  | cons mcs rest ih =>
    intro s
    unfold supportedMcsLoop
    by_cases h1 : mcs.GetModulationClass = modClass
    · have hv : mcs.GetMcsValue = some mcs.item.mcsValue := by
        unfold WifiMode.GetMcsValue
        unfold WifiMode.GetModulationClass at h1
        rcases hc with hc | hc <;> simp [h1, hc]
      simp only [h1, if_true, hv, Option.bind_eq_bind, Option.some_bind]
      by_cases h2 : isSupported mcs.item.mcsValue = true
      · simp only [h2, if_true]
        obtain ⟨t, ht, hs⟩ := ih (s.stationManagerCall (.AddSupportedMcs address mcs))
        exact ⟨t, ht, SameButManager_trans (SameButManager_call _ _) hs⟩
      · simp only [h2, if_false]
        exact ih s
    · simp only [h1, if_false]
      exact ih s

end ns3

namespace ns3

open WifiMacHeader ApWifiMac

/-- The association branch of `Receive` for a request that passed the check
completes: besides what it records with the remote-station manager, it enters the
station in the non-HT list unless the station is an HT station, in the non-ERP
list if the station is a DSSS station and not an ERP station, and sends the
response with the success status. -/
theorem commitAssociation_spec (env : Env) (s : ApWifiMac) (hdr mem : WifiMacHeader)
    (req : MgtAssocRequestHeader) (c : AssocCheck) :
    ∃ m, s.commitAssociation env hdr req c mem =
      some (SendAssocResp env
        { s with
          m_stationManager := m
          m_nonHtStations :=
            if c.isHtStation = true then s.m_nonHtStations
            else s.m_nonHtStations ++ [hdr.GetAddr2]
          m_nonErpStations :=
            if ¬ c.isErpStation = true ∧ c.isDsssStation = true then
              s.m_nonErpStations ++ [hdr.GetAddr2]
            else s.m_nonErpStations }
        hdr.GetAddr2 true mem) := by
  unfold commitAssociation
  simp only [Option.bind_eq_bind, Option.pure_def]
  generalize hs1 : List.foldl
    (fun (s : ApWifiMac) mode =>
      if req.m_rates.IsSupportedRate (env.GetDataRate mode s.m_phy.GetChannelWidth false 1) = true
      then s.stationManagerCall (.AddSupportedMode hdr.GetAddr2 mode) else s)
    s s.m_phy.modes = s1
  have h1 : s.SameButManager s1 := by
    rw [← hs1]
    refine SameButManager_foldl _ ?_ _ _
    intro s x
    split_ifs
    · exact SameButManager_call _ _
    · exact SameButManager_refl _
  have fin : ∀ (t : ApWifiMac), s.SameButManager t →
      ∃ m,
        (some (SendAssocResp env
          (if ¬ c.isErpStation = true ∧ c.isDsssStation = true then
            { (if ¬ c.isHtStation = true then
                { t.stationManagerCall (.RecordWaitAssocTxOk hdr.GetAddr2) with
                  m_nonHtStations :=
                    (t.stationManagerCall (.RecordWaitAssocTxOk hdr.GetAddr2)).m_nonHtStations ++
                      [hdr.GetAddr2] }
              else t.stationManagerCall (.RecordWaitAssocTxOk hdr.GetAddr2)) with
              m_nonErpStations :=
                (if ¬ c.isHtStation = true then
                  { t.stationManagerCall (.RecordWaitAssocTxOk hdr.GetAddr2) with
                    m_nonHtStations :=
                      (t.stationManagerCall (.RecordWaitAssocTxOk hdr.GetAddr2)).m_nonHtStations ++
                        [hdr.GetAddr2] }
                else t.stationManagerCall (.RecordWaitAssocTxOk hdr.GetAddr2)).m_nonErpStations ++
                  [hdr.GetAddr2] }
          else
            (if ¬ c.isHtStation = true then
                { t.stationManagerCall (.RecordWaitAssocTxOk hdr.GetAddr2) with
                  m_nonHtStations :=
                    (t.stationManagerCall (.RecordWaitAssocTxOk hdr.GetAddr2)).m_nonHtStations ++
                      [hdr.GetAddr2] }
              else t.stationManagerCall (.RecordWaitAssocTxOk hdr.GetAddr2)))
          hdr.GetAddr2 true mem)) =
        some (SendAssocResp env
          { s with
            m_stationManager := m
            m_nonHtStations :=
              if c.isHtStation = true then s.m_nonHtStations
              else s.m_nonHtStations ++ [hdr.GetAddr2]
            m_nonErpStations :=
              if ¬ c.isErpStation = true ∧ c.isDsssStation = true then
                s.m_nonErpStations ++ [hdr.GetAddr2]
              else s.m_nonErpStations }
          hdr.GetAddr2 true mem) := by
    intro t ht
    refine ⟨(t.stationManagerCall (.RecordWaitAssocTxOk hdr.GetAddr2)).m_stationManager, ?_⟩
    unfold SameButManager at ht
    congr 2
    rw [ht]
    by_cases c1 : c.isHtStation = true <;> by_cases c2 : ¬ c.isErpStation = true ∧ c.isDsssStation = true <;>
      simp only [c1, c2, not_true_eq_false, not_false_eq_true, if_true, if_false] <;> rfl
  by_cases c1 : s1.m_htSupported = true
  · simp only [c1, if_true]
    obtain ⟨s2, hs2, h2⟩ := supportedMcsLoop_spec .WIFI_MOD_CLASS_HT (Or.inl rfl)
      req.m_htCapability.IsSupportedMcs hdr.GetAddr2
      (s1.stationManagerCall (.AddStationHtCapabilities hdr.GetAddr2 req.m_htCapability)).m_phy.mcsList
      (s1.stationManagerCall (.AddStationHtCapabilities hdr.GetAddr2 req.m_htCapability))
    have h2' : s.SameButManager s2 :=
      SameButManager_trans h1 (SameButManager_trans (SameButManager_call _ _) h2)
    simp only [hs2, Option.some_bind]
    by_cases c2 : s2.m_vhtSupported = true
    · simp only [c2, if_true]
      obtain ⟨s3, hs3, h3⟩ := supportedMcsLoop_spec .WIFI_MOD_CLASS_VHT (Or.inr rfl)
        req.m_vhtCapability.IsSupportedTxMcs hdr.GetAddr2
        (s2.stationManagerCall
          (.AddStationVhtCapabilities hdr.GetAddr2 req.m_vhtCapability)).m_phy.mcsList
        (s2.stationManagerCall (.AddStationVhtCapabilities hdr.GetAddr2 req.m_vhtCapability))
      simp only [hs3, Option.some_bind]
      exact fin s3 (SameButManager_trans h2' (SameButManager_trans (SameButManager_call _ _) h3))
    · simp only [c2, if_false, Option.some_bind, Bool.false_eq_true]
      exact fin s2 h2'
  · simp only [c1, if_false, Option.some_bind, Bool.false_eq_true]
    by_cases c2 : s1.m_vhtSupported = true
    · simp only [c2, if_true]
      obtain ⟨s3, hs3, h3⟩ := supportedMcsLoop_spec .WIFI_MOD_CLASS_VHT (Or.inr rfl)
        req.m_vhtCapability.IsSupportedTxMcs hdr.GetAddr2
        (s1.stationManagerCall
          (.AddStationVhtCapabilities hdr.GetAddr2 req.m_vhtCapability)).m_phy.mcsList
        (s1.stationManagerCall (.AddStationVhtCapabilities hdr.GetAddr2 req.m_vhtCapability))
      simp only [hs3, Option.some_bind]
      exact fin s3 (SameButManager_trans h1 (SameButManager_trans (SameButManager_call _ _) h3))
    · simp only [c2, if_false, Option.some_bind, Bool.false_eq_true]
      exact fin s1 h1

end ns3

namespace ns3

open WifiMacHeader ApWifiMac

/-! ## Association and disassociation, step by step -/

/-- What `AllocateAid` returns and what it makes of the registry depends on the
AID map, the per-AID queue map and the AID counter alone. -/
theorem AllocateAid_congr (s t : ApWifiMac) (mac : Mac48Address)
    (h1 : t.m_aidMap = s.m_aidMap) (h2 : t.m_ofdmaMap = s.m_ofdmaMap) (h3 : t.aid = s.aid) :
    (t.AllocateAid mac).1 = (s.AllocateAid mac).1 ∧
    (t.AllocateAid mac).2.m_aidMap = (s.AllocateAid mac).2.m_aidMap ∧
    (t.AllocateAid mac).2.m_ofdmaMap = (s.AllocateAid mac).2.m_ofdmaMap ∧
    (t.AllocateAid mac).2.aid = (s.AllocateAid mac).2.aid := by
  unfold AllocateAid
  rw [h1]
  cases h : StdMap.find s.m_aidMap mac with
  | some a => exact ⟨rfl, h1, h2, h3⟩
  | none => simp [SetupStationQueue, h1, h2, h3]

/-- After `AllocateAid` the AID map holds the AID returned under the address. -/
theorem AllocateAid_find (s : ApWifiMac) (mac : Mac48Address) :
    StdMap.find (s.AllocateAid mac).2.m_aidMap mac = some (s.AllocateAid mac).1 := by
  unfold AllocateAid
  cases h : StdMap.find s.m_aidMap mac with
  | some a => exact h
  | none =>
    have h2 := StdMap_find_insert_self s.m_aidMap mac ((s.aid + 1) % 65536)
    rw [h] at h2
    simpa [SetupStationQueue] using h2

/-- An address that holds an AID is given that AID again, and the state stays as
it is. -/
theorem AllocateAid_of_find (s : ApWifiMac) (mac : Mac48Address) (a : Nat)
    (h : StdMap.find s.m_aidMap mac = some a) : s.AllocateAid mac = (a, s) := by
  simp only [AllocateAid, h]

/-- `Receive` on an association request addressed to the access point that
passes the check: the run completes, the response queued carries the success
status and the AID that `AllocateAid` gives the station in the state before, and
the registry is changed as the flags of the check say. -/
theorem Receive_assocReq_accept (env : Env) (s t : ApWifiMac) (packet rest : Packet)
    (hdr mem : WifiMacHeader) (req : MgtAssocRequestHeader) (c : AssocCheck)
    (ht : hdr.GetType = some .WIFI_MAC_MGT_ASSOCIATION_REQUEST)
    (hto : hdr.GetAddr1 = s.GetAddress)
    (hp : packet.RemoveHeader = some (.assocRequest req, rest))
    (hc : s.checkAssocRequest env hdr.GetAddr2 req = some (c, t))
    (hok : c.problem = false) :
    ∃ s1 assoc h, s.Receive env packet hdr mem = some s1 ∧
      s1.effects = s.effects ++ [.Queue .m_dca (assocResponsePacket assoc) h] ∧
      assoc.m_code = ⟨0⟩ ∧ assoc.m_aid = (s.AllocateAid hdr.GetAddr2).1 ∧
      s1.registry =
        { m_staList := s.m_staList ++ [hdr.GetAddr2]
          m_nonErpStations :=
            if ¬ c.isErpStation = true ∧ c.isDsssStation = true then
              s.m_nonErpStations ++ [hdr.GetAddr2]
            else s.m_nonErpStations
          m_nonHtStations :=
            if c.isHtStation = true then s.m_nonHtStations
            else s.m_nonHtStations ++ [hdr.GetAddr2]
          m_aidMap := (s.AllocateAid hdr.GetAddr2).2.m_aidMap
          m_ofdmaMap := (s.AllocateAid hdr.GetAddr2).2.m_ofdmaMap
          aid := (s.AllocateAid hdr.GetAddr2).2.aid } ∧
      s1.m_address = s.m_address := by
  have hst : s.SameButManager t := SameButManager_checkAssocRequest env s t _ req c hc
  unfold SameButManager at hst
  obtain ⟨m, hcommit⟩ := commitAssociation_spec env t hdr mem req c
  generalize hT : ({ t with
          m_stationManager := m
          m_nonHtStations :=
            if c.isHtStation = true then t.m_nonHtStations
            else t.m_nonHtStations ++ [hdr.GetAddr2]
          m_nonErpStations :=
            if ¬ c.isErpStation = true ∧ c.isDsssStation = true then
              t.m_nonErpStations ++ [hdr.GetAddr2]
            else t.m_nonErpStations } : ApWifiMac) = T at hcommit
  obtain ⟨assoc, h, m2, hsend, hcode, haid⟩ := SendAssocResp_success env T hdr.GetAddr2 mem
  have e1 : T.m_aidMap = s.m_aidMap := by rw [← hT, hst]
  have e2 : T.m_ofdmaMap = s.m_ofdmaMap := by rw [← hT, hst]
  have e3 : T.aid = s.aid := by rw [← hT, hst]
  obtain ⟨g1, g2, g3, g4⟩ := AllocateAid_congr s T hdr.GetAddr2 e1 e2 e3
  have hfr := AllocateAid_frame T hdr.GetAddr2
  have hAe : (T.AllocateAid hdr.GetAddr2).2.effects = s.effects := by
    rw [hfr]
    simp only
    rw [← hT, hst]
  have hAl : (T.AllocateAid hdr.GetAddr2).2.m_staList = s.m_staList := by
    rw [hfr]
    simp only
    rw [← hT, hst]
  have hAa : (T.AllocateAid hdr.GetAddr2).2.m_address = s.m_address := by
    rw [hfr]
    simp only
    rw [← hT, hst]
  have hAh : (T.AllocateAid hdr.GetAddr2).2.m_nonHtStations =
      if c.isHtStation = true then s.m_nonHtStations
      else s.m_nonHtStations ++ [hdr.GetAddr2] := by
    rw [hfr]
    simp only
    rw [← hT, hst]
  have hAn : (T.AllocateAid hdr.GetAddr2).2.m_nonErpStations =
      if ¬ c.isErpStation = true ∧ c.isDsssStation = true then
        s.m_nonErpStations ++ [hdr.GetAddr2]
      else s.m_nonErpStations := by
    rw [hfr]
    simp only
    rw [← hT, hst]
  refine ⟨SendAssocResp env T hdr.GetAddr2 true mem, assoc, h, ?_, ?_, hcode, haid.trans g1,
    ?_, ?_⟩
  · rw [Receive_assocReq env s packet rest hdr mem req ht hto hp, hc]
    simp only [Option.some_bind, hok, Bool.false_eq_true, if_false]
    exact hcommit
  · rw [hsend]
    simp only
    rw [hAe]
  · rw [hsend]
    simp only [registry, g2, g3, g4, hAl, hAh, hAn]
  · rw [hsend]
    simp only
    rw [hAa]

end ns3

namespace ns3

open WifiMacHeader ApWifiMac

/-- C19: association rejection changes no registry state.  Whenever `Receive`
handles an Association Request addressed to the access point whose compatibility
check flags a problem, the run completes, the one call it makes outside the
remote-station manager queues an Association Response that carries the failure
status, and the station registry is as before: the associated-station list, the
AID map, the non-ERP and non-HT lists, the per-AID queue map and the AID
counter. -/
theorem association_rejection_keeps_registry (env : Env) (s : ApWifiMac) (packet rest : Packet)
    (hdr mem : WifiMacHeader) (req : MgtAssocRequestHeader)
    (ht : hdr.GetType = some .WIFI_MAC_MGT_ASSOCIATION_REQUEST)
    (hto : hdr.GetAddr1 = s.GetAddress)
    (hp : packet.RemoveHeader = some (.assocRequest req, rest))
    (hprob : (s.checkAssocRequest env hdr.GetAddr2 req).map (fun r => r.1.problem) = some true) :
    ∃ s1 assoc h, s.Receive env packet hdr mem = some s1 ∧
      s1.effects = s.effects ++ [.Queue .m_dca (assocResponsePacket assoc) h] ∧
      assoc.m_code.IsSuccess = false ∧
      s1.registry = s.registry := by
  cases hc : s.checkAssocRequest env hdr.GetAddr2 req with
  | none => rw [hc] at hprob; exact absurd hprob (by simp)
  | some r =>
    obtain ⟨c, t⟩ := r
    rw [hc] at hprob
    simp only [Option.map_some', Option.some.injEq] at hprob
    have hst : s.SameButManager t := SameButManager_checkAssocRequest env s t _ req c hc
    unfold SameButManager at hst
    obtain ⟨assoc, h, m, hsend, hcode⟩ := SendAssocResp_failure env t hdr.GetAddr2 mem
    refine ⟨SendAssocResp env t hdr.GetAddr2 false mem, assoc, h, ?_, ?_, ?_, ?_⟩
    · rw [Receive_assocReq env s packet rest hdr mem req ht hto hp, hc]
      simp only [Option.some_bind, hprob, if_true]
    · rw [hsend]
      simp only
      rw [hst]
    · rw [hcode]
      rfl
    · rw [hsend]
      simp only [registry]
      rw [hst]

/-- Witness for C19: the sample access point, whose basic rate is 1 Mbit/s,
receives an association request that lists no rate. -/
theorem association_rejection_keeps_registry_witness :
    ∃ s1 assoc h,
      sampleAp.Receive sampleEnv ⟨[.assocRequest sampleAssocReqNoRate], []⟩ sampleAssocReqHdr
        default = some s1 ∧
      s1.effects = sampleAp.effects ++ [.Queue .m_dca (assocResponsePacket assoc) h] ∧
      assoc.m_code.IsSuccess = false ∧
      s1.registry = sampleAp.registry :=
  association_rejection_keeps_registry sampleEnv sampleAp
    ⟨[.assocRequest sampleAssocReqNoRate], []⟩ ⟨[], []⟩ sampleAssocReqHdr default
    sampleAssocReqNoRate (by decide) (by decide) (by decide) (by decide)

end ns3

namespace ns3

open WifiMacHeader ApWifiMac

/-- C14: an AID persists across re-association.  `Receive` on a Disassociation
frame addressed to the access point completes and leaves the AID map as it is.
And when the access point receives an Association Request of the station `mac`
that passes the check, then a Disassociation frame (of this or of any other
station), and then again an Association Request of `mac` that passes the check,
each addressed to it, every run completes, both requests are answered with an
Association Response of success status, and the AID in the second response is
the AID in the first. -/
theorem aid_persists_across_reassociation (env : Env) (s : ApWifiMac) (mac : Mac48Address)
    (p1 rest1 p2 p3 rest3 : Packet) (h1 h2 h3 mem1 mem2 mem3 : WifiMacHeader)
    (req1 req3 : MgtAssocRequestHeader)
    (ht1 : h1.GetType = some .WIFI_MAC_MGT_ASSOCIATION_REQUEST)
    (hto1 : h1.GetAddr1 = s.GetAddress) (hfrom1 : h1.GetAddr2 = mac)
    (hp1 : p1.RemoveHeader = some (.assocRequest req1, rest1))
    (ht2 : h2.GetType = some .WIFI_MAC_MGT_DISASSOCIATION)
    (hto2 : h2.GetAddr1 = s.GetAddress)
    (ht3 : h3.GetType = some .WIFI_MAC_MGT_ASSOCIATION_REQUEST)
    (hto3 : h3.GetAddr1 = s.GetAddress) (hfrom3 : h3.GetAddr2 = mac)
    (hp3 : p3.RemoveHeader = some (.assocRequest req3, rest3)) :
    (∃ t, s.Receive env p2 h2 mem2 = some t ∧ t.m_aidMap = s.m_aidMap) ∧
    ((s.checkAssocRequest env mac req1).map (fun r => r.1.problem) = some false →
      ∃ s1 a1 q1, s.Receive env p1 h1 mem1 = some s1 ∧
        s1.effects = s.effects ++ [.Queue .m_dca (assocResponsePacket a1) q1] ∧
        a1.m_code.IsSuccess = true ∧
        ∃ s2, s1.Receive env p2 h2 mem2 = some s2 ∧ s2.m_aidMap = s1.m_aidMap ∧
          ((s2.checkAssocRequest env mac req3).map (fun r => r.1.problem) = some false →
            ∃ s3 a3 q3, s2.Receive env p3 h3 mem3 = some s3 ∧
              s3.effects = s2.effects ++ [.Queue .m_dca (assocResponsePacket a3) q3] ∧
              a3.m_code.IsSuccess = true ∧ a3.m_aid = a1.m_aid)) := by
  refine ⟨⟨_, Receive_disassociation env s p2 h2 mem2 ht2 hto2, rfl⟩, ?_⟩
  intro hok1
  cases hc1 : s.checkAssocRequest env mac req1 with
  | none => rw [hc1] at hok1; exact absurd hok1 (by simp)
  | some r1 =>
    obtain ⟨c1, t1⟩ := r1
    rw [hc1] at hok1
    simp only [Option.map_some', Option.some.injEq] at hok1
    rw [← hfrom1] at hc1
    obtain ⟨s1, a1, q1, hR1, he1, hcode1, haid1, hreg1, haddr1⟩ :=
      Receive_assocReq_accept env s t1 p1 rest1 h1 mem1 req1 c1 ht1 hto1 hp1 hc1 hok1
    rw [hfrom1] at haid1 hreg1
    have hto2' : h2.GetAddr1 = s1.GetAddress := by
      rw [hto2]; exact haddr1.symm
    have hmap1 : s1.m_aidMap = (s.AllocateAid mac).2.m_aidMap := by
      have := congrArg Registry.m_aidMap hreg1
      exact this
    refine ⟨s1, a1, q1, hR1, he1, by rw [hcode1]; rfl, s1.disassociate h2.GetAddr2,
      Receive_disassociation env s1 p2 h2 mem2 ht2 hto2', rfl, ?_⟩
    intro hok3
    generalize hs2 : s1.disassociate h2.GetAddr2 = s2 at hok3
    have hmap2 : s2.m_aidMap = s1.m_aidMap := by rw [← hs2]; rfl
    have haddr2 : s2.m_address = s1.m_address := by rw [← hs2]; rfl
    cases hc3 : s2.checkAssocRequest env mac req3 with
    | none => rw [hc3] at hok3; exact absurd hok3 (by simp)
    | some r3 =>
      obtain ⟨c3, t3⟩ := r3
      rw [hc3] at hok3
      simp only [Option.map_some', Option.some.injEq] at hok3
      rw [← hfrom3] at hc3
      have hto3' : h3.GetAddr1 = s2.GetAddress := by
        rw [hto3]
        show s.m_address = s2.m_address
        rw [haddr2, haddr1]
      obtain ⟨s3, a3, q3, hR3, he3, hcode3, haid3, -, -⟩ :=
        Receive_assocReq_accept env s2 t3 p3 rest3 h3 mem3 req3 c3 ht3 hto3' hp3 hc3 hok3
      refine ⟨s3, a3, q3, hR3, he3, by rw [hcode3]; rfl, ?_⟩
      rw [haid3, hfrom3, haid1]
      have hfind : StdMap.find s2.m_aidMap mac = some (s.AllocateAid mac).1 := by
        rw [hmap2, hmap1]
        exact AllocateAid_find s mac
      rw [AllocateAid_of_find s2 mac _ hfind]

/-- Witness for C14: the sample station associates with the sample access point,
disassociates and associates again. -/
theorem aid_persists_across_reassociation_witness :
    ∃ s1 a1 q1 s2 s3 a3 q3,
      sampleAp.Receive sampleEnv ⟨[.assocRequest sampleAssocReq], []⟩ sampleAssocReqHdr default =
        some s1 ∧
      s1.effects = sampleAp.effects ++ [.Queue .m_dca (assocResponsePacket a1) q1] ∧
      s1.Receive sampleEnv ⟨[], []⟩ sampleDisassocHdr default = some s2 ∧
      s2.m_aidMap = s1.m_aidMap ∧
      s2.Receive sampleEnv ⟨[.assocRequest sampleAssocReq], []⟩ sampleAssocReqHdr default =
        some s3 ∧
      s3.effects = s2.effects ++ [.Queue .m_dca (assocResponsePacket a3) q3] ∧
      a3.m_aid = a1.m_aid := by
  obtain ⟨-, hseq⟩ := aid_persists_across_reassociation sampleEnv sampleAp sampleSta
    ⟨[.assocRequest sampleAssocReq], []⟩ ⟨[], []⟩ ⟨[], []⟩
    ⟨[.assocRequest sampleAssocReq], []⟩ ⟨[], []⟩
    sampleAssocReqHdr sampleDisassocHdr sampleAssocReqHdr default default default
    sampleAssocReq sampleAssocReq (by decide) (by decide) (by decide) (by decide) (by decide)
    (by decide) (by decide) (by decide) (by decide) (by decide)
  obtain ⟨s1, a1, q1, hR1, he1, -, s2, hR2, hm2, h3⟩ := hseq (by decide)
  have hchk : ((sampleAp.Receive sampleEnv ⟨[.assocRequest sampleAssocReq], []⟩
      sampleAssocReqHdr default).bind
        (fun s1 => s1.Receive sampleEnv ⟨[], []⟩ sampleDisassocHdr default)).bind
        (fun s2 => (s2.checkAssocRequest sampleEnv sampleSta sampleAssocReq).map
          (fun r => r.1.problem)) = some false := by decide
  rw [hR1] at hchk
  simp only [Option.some_bind] at hchk
  rw [hR2] at hchk
  simp only [Option.some_bind] at hchk
  obtain ⟨s3, a3, q3, hR3, he3, -, haid⟩ := h3 hchk
  exact ⟨s1, a1, q1, s2, s3, a3, q3, hR1, he1, hR2, hm2, hR3, he3, haid⟩

/-- C17, evaluated on the code.  The sample access point (basic rate 1 Mbit/s, no
HT) receives from the sample station two Association Requests that list the rate
of 1 Mbit/s, and then a Disassociation frame.  Each run completes; both requests
are accepted, and each enters the station in the associated-station list, in the
non-ERP list and in the non-HT list.  The disassociation erases one entry of
each list, so that afterwards the station is still a member of all three. -/
theorem disassociation_leaves_second_entry :
    ∃ s1 s2 s3,
      sampleAp.Receive sampleEnv ⟨[.assocRequest sampleAssocReq], []⟩ sampleAssocReqHdr default =
        some s1 ∧
      s1.Receive sampleEnv ⟨[.assocRequest sampleAssocReq], []⟩ sampleAssocReqHdr default =
        some s2 ∧
      s2.Receive sampleEnv ⟨[], []⟩ sampleDisassocHdr default = some s3 ∧
      sampleDisassocHdr.IsDisassociation = some true ∧
      sampleDisassocHdr.GetAddr1 = sampleAp.GetAddress ∧
      sampleDisassocHdr.GetAddr2 = sampleSta ∧
      s2.m_staList = [sampleSta, sampleSta] ∧
      s2.m_nonErpStations = [sampleSta, sampleSta] ∧
      s2.m_nonHtStations = [sampleSta, sampleSta] ∧
      sampleSta ∈ s3.m_staList ∧ sampleSta ∈ s3.m_nonErpStations ∧
      sampleSta ∈ s3.m_nonHtStations :=
  ⟨_, _, _, rfl, rfl, rfl, rfl, rfl, rfl, rfl, rfl, rfl, by decide, by decide, by decide⟩

end ns3

namespace ns3

open WifiMacHeader ApWifiMac

/-! ## Forwarding -/

theorem StdMap_find_mem {κ ν : Type} [DecidableEq κ] (m : StdMap κ ν) (k : κ) (v : ν)
    (h : StdMap.find m k = some v) : (k, v) ∈ m := by
  induction m with
  | nil => simp [StdMap.find] at h
  | cons e m ih =>
    simp only [StdMap.find] at h
    split_ifs at h with h1
    · simp only [Option.some.injEq] at h
      subst h1 h
      exact List.mem_cons_self _ _
    · exact List.mem_cons_of_mem _ (ih h)

/-- The access category of a TID below 8 is one of the four of which a station
has a queue. -/
theorem QosUtilsMapTidToAc_toNat_lt (tid : Nat) (h : tid < 8) :
    (QosUtilsMapTidToAc tid).toNat < 4 := by
  interval_cases tid <;> decide

/-- `ForwardDown` with a TID that is below 8 when the access point is a QoS
access point: the run completes, and after the entry of `ForwardDown` one call is
made, which is neither an upward delivery nor an entry of `ForwardDown`. -/
theorem ForwardDown_spec (s : ApWifiMac) (packet : Packet) (src dst : Mac48Address) (tid : Nat)
    (mem : WifiMacHeader) (hq : s.m_qosSupported = true → tid < 8) (hw : s.QueuesProvisioned) :
    ∃ e, s.ForwardDown packet src dst tid mem =
        some { s with effects := s.effects ++ [.ForwardDown packet src dst tid, e] } ∧
      e.isForwardUp = false ∧ e.isForwardDown = false := by
  rcases s with ⟨addr, qos, ht, vht, he, erp, dsss, sst, ssid, sm, phy, bi, nep, col, sta, nerp,
    nht, aidm, ofd, aid, eff⟩
  unfold ForwardDown
  simp only [effect, List.append_assoc, List.singleton_append] at hq ⊢
  cases qos with
  | false => exact ⟨_, rfl, rfl, rfl⟩
  | true =>
    have ht := hq rfl
    simp only [if_true, ht, not_true_eq_false, if_false]
    cases he with
    | false => exact ⟨_, rfl, rfl, rfl⟩
    | true =>
      simp only [if_true]
      split
      · rename_i queues hf
        have hlen : queues.length = 4 := hw _ (StdMap_find_mem _ _ _ hf)
        have hlt := QosUtilsMapTidToAc_toNat_lt tid ht
        split
        · exact ⟨_, rfl, rfl, rfl⟩
        · rename_i hnone
          rw [List.get?_eq_none] at hnone
          omega
      · exact ⟨_, rfl, rfl, rfl⟩

end ns3

namespace ns3

open WifiMacHeader ApWifiMac

/-- The loop of `DeaggregateAmsduAndForward` under a QoS data header whose TID is
below 8 when the access point is a QoS access point: the run completes; the
upward deliveries it makes are those of the sub-frames for the access point, in
their order, and the entries of `ForwardDown` those of the other sub-frames, in
their order, each with the TID of the header. -/
theorem DeaggregateLoop_spec (hdr mem : WifiMacHeader) (hqos : hdr.IsQosData = true) :
    ∀ (l : List (Packet × AmsduSubframeHeader)) (s : ApWifiMac),
      (s.m_qosSupported = true → hdr.m_qosTid < 8) → s.QueuesProvisioned →
      ∃ new, DeaggregateLoop hdr mem l s = some { s with effects := s.effects ++ new } ∧
        new.filter Effect.isForwardUp =
          (l.filter (fun i => decide (i.2.GetDestinationAddr = s.GetAddress))).map
            (fun i => Effect.ForwardUp i.1 i.2.GetSourceAddr i.2.GetDestinationAddr) ∧
        new.filter Effect.isForwardDown =
          (l.filter (fun i => !decide (i.2.GetDestinationAddr = s.GetAddress))).map
            (fun i => Effect.ForwardDown i.1 i.2.GetSourceAddr i.2.GetDestinationAddr
              hdr.m_qosTid) := by
  intro l
  induction l with
  | nil =>
    intro s _ _
    exact ⟨[], by simp [DeaggregateLoop], rfl, rfl⟩
  | cons i rest ih =>
    intro s hq hw
    unfold DeaggregateLoop
    by_cases h1 : i.2.GetDestinationAddr = s.GetAddress
    · simp only [h1, if_true]
      obtain ⟨new, hl, hu, hd⟩ := ih (s.ForwardUp i.1 i.2.GetSourceAddr s.GetAddress) hq hw
      refine ⟨Effect.ForwardUp i.1 i.2.GetSourceAddr s.GetAddress :: new, ?_, ?_, ?_⟩
      · rw [hl]
        simp only [ForwardUp, effect, List.append_assoc, List.singleton_append]
      · have ha : Effect.isForwardUp (Effect.ForwardUp i.1 i.2.GetSourceAddr s.GetAddress) = true :=
          rfl
        simp only [List.filter_cons, ha, if_true, h1, decide_True, List.map_cons]
        rw [hu]
        rfl
      · have ha : Effect.isForwardDown (Effect.ForwardUp i.1 i.2.GetSourceAddr s.GetAddress) =
            false := rfl
        simp only [List.filter_cons, ha, h1, decide_True, Bool.not_true,
          Bool.false_eq_true, if_false]
        rw [hd]
        rfl
    · have htid : hdr.GetQosTid = some hdr.m_qosTid := by simp [GetQosTid, hqos]
      obtain ⟨e, hf, he1, he2⟩ := ForwardDown_spec s i.1 i.2.GetSourceAddr i.2.GetDestinationAddr
        hdr.m_qosTid mem hq hw
      simp only [h1, if_false, htid, Option.bind_eq_bind, Option.some_bind, hf]
      obtain ⟨new, hl, hu, hd⟩ := ih
        { s with effects := s.effects ++
            [Effect.ForwardDown i.1 i.2.GetSourceAddr i.2.GetDestinationAddr hdr.m_qosTid, e] }
        hq hw
      refine ⟨Effect.ForwardDown i.1 i.2.GetSourceAddr i.2.GetDestinationAddr hdr.m_qosTid ::
        e :: new, ?_, ?_, ?_⟩
      · rw [hl]
        simp only [List.append_assoc, List.cons_append, List.nil_append]
      · have ha : Effect.isForwardUp (Effect.ForwardDown i.1 i.2.GetSourceAddr
            i.2.GetDestinationAddr hdr.m_qosTid) = false := rfl
        simp only [List.filter_cons, ha, he1, Bool.false_eq_true, if_false, h1, decide_False]
        rw [hu]
        rfl
      · have ha : Effect.isForwardDown (Effect.ForwardDown i.1 i.2.GetSourceAddr
            i.2.GetDestinationAddr hdr.m_qosTid) = true := rfl
        simp only [List.filter_cons, ha, he2, Bool.false_eq_true, if_false,
          if_true, h1, decide_False, Bool.not_false, List.map_cons]
        rw [hd]
        rfl

end ns3

namespace ns3

open WifiMacHeader ApWifiMac

/-- C18, evaluated on the code: the sample QoS access point handles an
aggregate of a QoS data frame with the TID 8 that deaggregates into two
sub-frames, the first for the access point and the second for another station.
The claim asks for one upward delivery and one forward-out with the TID 8.  The
run does not complete: the forward-out is made with the TID of the outer frame,
which `ForwardDown` takes unchecked, and its assertion `tid < 8` fails. -/
theorem DeaggregateAmsduAndForward_tid8_fails :
    sampleQosAp.m_qosSupported = true ∧
    (sampleQosDataHdr 8 sampleApAddress).GetQosTid = some 8 ∧
    (sampleEnv.Deaggregate ⟨[], []⟩).length = 2 ∧
    (sampleEnv.Deaggregate ⟨[], []⟩).countP
      (fun i => decide (i.2.GetDestinationAddr = sampleQosAp.GetAddress)) = 1 ∧
    sampleQosAp.DeaggregateAmsduAndForward sampleEnv ⟨[], []⟩
      (sampleQosDataHdr 8 sampleApAddress) default = none :=
  ⟨rfl, rfl, rfl, rfl, rfl⟩

/-- A-MSDU deaggregation where the assertion of `ForwardDown` holds (the
statement of C18 on these frames).  Let the outer frame be a QoS data frame
whose TID is below 8 if the access point is a QoS access point, in a state in
which every per-AID queue set holds its four queues.  For every aggregate, which
deaggregates into N sub-frames of which M have the address of the access point as
destination, `DeaggregateAmsduAndForward` completes and makes exactly M upward
deliveries (`ForwardUp`) and exactly N - M forward-outs (`ForwardDown`), and every
forward-out is made with the TID of the outer frame. -/
theorem DeaggregateAmsduAndForward_counts (env : Env) (s : ApWifiMac) (aggregatedPacket : Packet)
    (hdr mem : WifiMacHeader) (hqos : hdr.IsQosData = true)
    (htid : s.m_qosSupported = true → hdr.m_qosTid < 8) (hw : s.QueuesProvisioned) :
    ∃ s1 new, s.DeaggregateAmsduAndForward env aggregatedPacket hdr mem = some s1 ∧
      s1.effects = s.effects ++ new ∧
      new.countP Effect.isForwardUp =
        (env.Deaggregate aggregatedPacket).countP
          (fun i => decide (i.2.GetDestinationAddr = s.GetAddress)) ∧
      new.countP Effect.isForwardDown =
        (env.Deaggregate aggregatedPacket).length -
          (env.Deaggregate aggregatedPacket).countP
            (fun i => decide (i.2.GetDestinationAddr = s.GetAddress)) ∧
      ∀ e ∈ new, e.isForwardDown = true → ∃ p src dst, e = .ForwardDown p src dst hdr.m_qosTid := by
  obtain ⟨new, hl, hu, hd⟩ := DeaggregateLoop_spec hdr mem hqos (env.Deaggregate aggregatedPacket)
    s htid hw
  refine ⟨_, new, hl, rfl, ?_, ?_, ?_⟩
  · rw [List.countP_eq_length_filter, hu, List.length_map, ← List.countP_eq_length_filter]
  · rw [List.countP_eq_length_filter, hd, List.length_map, ← List.countP_eq_length_filter]
    have := List.length_eq_countP_add_countP
      (fun i : Packet × AmsduSubframeHeader => decide (i.2.GetDestinationAddr = s.GetAddress))
      (env.Deaggregate aggregatedPacket)
    have h2 : List.countP (fun i : Packet × AmsduSubframeHeader =>
          !decide (i.2.GetDestinationAddr = s.GetAddress)) (env.Deaggregate aggregatedPacket) =
        List.countP (fun a : Packet × AmsduSubframeHeader =>
          decide ¬ decide (a.2.GetDestinationAddr = s.GetAddress) = true)
          (env.Deaggregate aggregatedPacket) := by
      congr 1
      funext i
      by_cases h : i.2.GetDestinationAddr = s.GetAddress <;> simp [h]
    rw [h2]
    omega
  · intro e he hfd
    have hmem : e ∈ new.filter Effect.isForwardDown := List.mem_filter.2 ⟨he, hfd⟩
    rw [hd] at hmem
    obtain ⟨i, -, hi⟩ := List.mem_map.1 hmem
    exact ⟨_, _, _, hi.symm⟩

/-- The aggregate of `DeaggregateAmsduAndForward_tid8_fails` under the TID 5:
one upward delivery and one forward-out. -/
theorem DeaggregateAmsduAndForward_counts_witness :
    ∃ s1 new, sampleQosAp.DeaggregateAmsduAndForward sampleEnv ⟨[], []⟩
        (sampleQosDataHdr 5 sampleApAddress) default = some s1 ∧
      s1.effects = sampleQosAp.effects ++ new ∧
      new.countP Effect.isForwardUp = 1 ∧ new.countP Effect.isForwardDown = 2 - 1 ∧
      ∀ e ∈ new, e.isForwardDown = true → ∃ p src dst, e = .ForwardDown p src dst 5 :=
  DeaggregateAmsduAndForward_counts sampleEnv sampleQosAp ⟨[], []⟩
    (sampleQosDataHdr 5 sampleApAddress) default (by decide) (by decide) (by decide)

/-- C20, evaluated on the code: the sample QoS access point receives from the
associated sample station a QoS data frame with the TID 8, ToDS set and FromDS
clear, addressed to the access point and destined to the broadcast address.  The
claim asks for one forward-out towards Addr3 with the TID 8 and one upward
delivery of a copy.  The run does not complete: `Receive` hands the TID of the
frame unchecked to `ForwardDown`, whose assertion `tid < 8` fails before the
upward delivery is made. -/
theorem Receive_tid8_fails :
    (sampleQosDataHdr 8 Mac48Address.GetBroadcast).IsData = true ∧
    (sampleQosDataHdr 8 Mac48Address.GetBroadcast).IsToDs = true ∧
    (sampleQosDataHdr 8 Mac48Address.GetBroadcast).IsFromDs = false ∧
    (sampleQosDataHdr 8 Mac48Address.GetBroadcast).GetAddr1 = sampleQosAp.GetAddress ∧
    sampleQosAp.m_stationManager.IsAssociated
      (sampleQosDataHdr 8 Mac48Address.GetBroadcast).GetAddr2 = true ∧
    (sampleQosDataHdr 8 Mac48Address.GetBroadcast).GetAddr3 ≠ sampleQosAp.GetAddress ∧
    (sampleQosDataHdr 8 Mac48Address.GetBroadcast).GetAddr3.IsGroup = true ∧
    sampleQosAp.Receive sampleEnv ⟨[], [7]⟩ (sampleQosDataHdr 8 Mac48Address.GetBroadcast)
      default = none :=
  ⟨rfl, rfl, rfl, rfl, rfl, by decide, rfl, rfl⟩

/-- The forwarding branch of `Receive` where the assertion of `ForwardDown`
holds (the statement of C20 on these frames).  Let `Receive` be given a data
frame with ToDS set and FromDS clear, whose Addr1 is the address of the access point and whose sender is
associated, whose final destination Addr3 differs from the access point and is a
group address or an associated station, and whose TID, if it is a QoS data frame
and the access point a QoS access point, is below 8; the state being one in which
every per-AID queue set holds its four queues.  Then the run completes and makes
exactly one forward-out (`ForwardDown`) towards Addr3, with the TID of the frame
when it is a QoS data frame, one call by which `ForwardDown` queues the frame or
logs that there is no queue, and exactly one upward delivery, of the copy. -/
theorem Receive_forwards_and_delivers (env : Env) (s : ApWifiMac) (packet : Packet)
    (hdr mem : WifiMacHeader) (hd : hdr.IsData = true) (hfrom : hdr.IsFromDs = false)
    (hto : hdr.IsToDs = true) (ha1 : hdr.GetAddr1 = s.GetAddress)
    (hassoc : s.m_stationManager.IsAssociated hdr.GetAddr2 = true)
    (ha3 : hdr.GetAddr3 ≠ s.GetAddress)
    (hdst : hdr.GetAddr3.IsGroup = true ∨ s.m_stationManager.IsAssociated hdr.GetAddr3 = true)
    (htid : s.m_qosSupported = true → hdr.IsQosData = true → hdr.m_qosTid < 8)
    (hw : s.QueuesProvisioned) :
    ∃ s1 tid e, s.Receive env packet hdr mem = some s1 ∧
      s1.effects = s.effects ++
        [.ForwardDown packet hdr.GetAddr2 hdr.GetAddr3 tid, e,
          .ForwardUp packet.Copy hdr.GetAddr2 hdr.GetAddr3] ∧
      e.isForwardDown = false ∧ e.isForwardUp = false ∧
      (hdr.IsQosData = true → tid = hdr.m_qosTid) := by
  unfold Receive
  simp only [hd, if_true, hfrom, hto, ha1, hassoc, Bool.false_eq_true, not_false_eq_true,
    and_self, ha3, if_false, hdst, Option.bind_eq_bind, Option.pure_def]
  by_cases hq : hdr.IsQosData = true
  · have htid' : hdr.GetQosTid = some hdr.m_qosTid := by simp [GetQosTid, hq]
    obtain ⟨e, hf, he1, he2⟩ := ForwardDown_spec s packet hdr.GetAddr2 hdr.GetAddr3
      hdr.m_qosTid mem (fun h => htid h hq) hw
    simp only [hq, if_true, htid', Option.some_bind, hf]
    exact ⟨_, hdr.m_qosTid, e, rfl, by simp [ForwardUp, effect], he2, he1, fun _ => rfl⟩
  · simp only [hq, if_false, ForwardDownPacketTid, Bool.false_eq_true]
    obtain ⟨e, hf, he1, he2⟩ := ForwardDown_spec s packet hdr.GetAddr2 hdr.GetAddr3
      (if s.m_qosSupported = true then
        if env.QosUtilsGetTidForPacket packet % 256 > 7 then 0
        else env.QosUtilsGetTidForPacket packet % 256
      else 0) mem
      (by
        intro h
        simp only [h, if_true]
        split_ifs <;> omega) hw
    simp only [hf, Option.some_bind]
    refine ⟨_, (if s.m_qosSupported = true then
        if env.QosUtilsGetTidForPacket packet % 256 > 7 then 0
        else env.QosUtilsGetTidForPacket packet % 256
      else 0), e, rfl, by simp [ForwardUp, effect], he2, he1, ?_⟩
    intro h
    exact absurd h (by simp)

/-- The frame of `Receive_tid8_fails` under the TID 5: one forward-out and one
upward delivery. -/
theorem Receive_forwards_and_delivers_witness :
    ∃ s1 tid e,
      sampleQosAp.Receive sampleEnv ⟨[], [7]⟩ (sampleQosDataHdr 5 Mac48Address.GetBroadcast)
        default = some s1 ∧
      s1.effects = sampleQosAp.effects ++
        [.ForwardDown ⟨[], [7]⟩ sampleSta Mac48Address.GetBroadcast tid, e,
          .ForwardUp ⟨[], [7]⟩ sampleSta Mac48Address.GetBroadcast] ∧
      e.isForwardDown = false ∧ e.isForwardUp = false ∧
      ((sampleQosDataHdr 5 Mac48Address.GetBroadcast).IsQosData = true → tid = 5) :=
  Receive_forwards_and_delivers sampleEnv sampleQosAp ⟨[], [7]⟩
    (sampleQosDataHdr 5 Mac48Address.GetBroadcast) default (by decide) (by decide) (by decide)
    (by decide) (by decide) (by decide) (by decide) (by decide) (by decide)

end ns3

namespace ns3

open WifiMacHeader ApWifiMac

/-- C21: a data frame for the access point itself.  Let `Receive` be given a
data frame with ToDS set and FromDS clear, whose Addr1 is the address of the
access point, whose sender (Addr2) is associated, whose Addr3 is the address of
the access point, and which is not an A-MSDU (it is not a QoS data frame with
the A-MSDU flag).  Then `Receive` completes, and what it does is one call: the
upward delivery of the packet, from the sender to Addr1.  So it makes exactly
one upward delivery and no `ForwardDown`, and changes nothing else. -/
theorem Receive_delivers_frame_for_ap (env : Env) (s : ApWifiMac) (packet : Packet)
    (hdr mem : WifiMacHeader)
    (hdata : hdr.IsData = true) (hfrom : hdr.IsFromDs = false) (hto : hdr.IsToDs = true)
    (hbss : hdr.GetAddr1 = s.GetAddress)
    (hassoc : s.m_stationManager.IsAssociated hdr.GetAddr2 = true)
    (hdst : hdr.GetAddr3 = s.GetAddress)
    (hna : hdr.IsQosAmsdu ≠ some true) :
    s.Receive env packet hdr mem =
        some { s with effects := s.effects ++ [.ForwardUp packet hdr.GetAddr2 hdr.GetAddr1] } ∧
      ∀ s1, s.Receive env packet hdr mem = some s1 →
        ((s1.effects.drop s.effects.length).filter Effect.isForwardUp).length = 1 ∧
        ((s1.effects.drop s.effects.length).filter Effect.isForwardDown).length = 0 := by
  have hR : s.Receive env packet hdr mem =
      some { s with effects := s.effects ++ [.ForwardUp packet hdr.GetAddr2 hdr.GetAddr1] } := by
    unfold Receive
    simp only [hdata, hfrom, hto, hbss, hassoc, hdst, if_true, Bool.false_eq_true, not_false_eq_true,
      and_self, Option.pure_def, Option.bind_eq_bind]
    cases hq : hdr.IsQosData with
    | false => simp [ApWifiMac.ForwardUp, effect]
    | true =>
      have ha : hdr.IsQosAmsdu = some false := by
        unfold IsQosAmsdu at hna ⊢
        rw [hq] at hna ⊢
        simp only [if_true, ne_eq, Option.some.injEq] at hna ⊢
        cases hd : decide (hdr.m_amsduPresent = 1) with
        | false => rfl
        | true => exact absurd hd hna
      simp [ha, ApWifiMac.ForwardUp, effect]
  refine ⟨hR, ?_⟩
  intro s1 h1
  rw [hR] at h1
  simp only [Option.some.injEq] at h1
  subst h1
  have hu : Effect.isForwardUp (.ForwardUp packet hdr.GetAddr2 hdr.GetAddr1) = true := rfl
  have hd : Effect.isForwardDown (.ForwardUp packet hdr.GetAddr2 hdr.GetAddr1) = false := rfl
  simp [hu, hd]

/-- Witness for C21: the sample access point receives a data frame that the
first sample station, which is associated, sends to the access point itself. -/
theorem Receive_delivers_frame_for_ap_witness :
    sampleAp.Receive sampleEnv ⟨[], [7]⟩ (sampleDataHdr sampleApAddress) default =
        some { sampleAp with
          effects := sampleAp.effects ++
            [.ForwardUp ⟨[], [7]⟩ (sampleDataHdr sampleApAddress).GetAddr2
              (sampleDataHdr sampleApAddress).GetAddr1] } ∧
      ∀ s1, sampleAp.Receive sampleEnv ⟨[], [7]⟩ (sampleDataHdr sampleApAddress) default =
          some s1 →
        ((s1.effects.drop sampleAp.effects.length).filter Effect.isForwardUp).length = 1 ∧
        ((s1.effects.drop sampleAp.effects.length).filter Effect.isForwardDown).length = 0 :=
  Receive_delivers_frame_for_ap sampleEnv sampleAp ⟨[], [7]⟩ (sampleDataHdr sampleApAddress)
    default (by decide) (by decide) (by decide) (by decide) (by decide) (by decide) (by decide)

/-- C22: an AP-to-AP data frame is dropped.  For every data frame with both ToDS
and FromDS set, whatever its addresses and whatever the state, `Receive`
completes, and what it does is one call: it reports the drop of the packet
(`NotifyRxDrop`).  So it makes no upward delivery and no `ForwardDown`, hands no
frame to a queue, and leaves the station registry and the remote-station
manager as they are. -/
theorem Receive_drops_ap_to_ap_frame (env : Env) (s : ApWifiMac) (packet : Packet)
    (hdr mem : WifiMacHeader)
    (hdata : hdr.IsData = true) (hfrom : hdr.IsFromDs = true) (hto : hdr.IsToDs = true) :
    s.Receive env packet hdr mem =
        some { s with effects := s.effects ++ [.NotifyRxDrop packet] } ∧
      ∀ s1, s.Receive env packet hdr mem = some s1 →
        s1.registry = s.registry ∧
        ((s1.effects.drop s.effects.length).filter Effect.isForwardUp).length = 0 ∧
        ((s1.effects.drop s.effects.length).filter Effect.isForwardDown).length = 0 := by
  have hR : s.Receive env packet hdr mem =
      some { s with effects := s.effects ++ [.NotifyRxDrop packet] } := by
    unfold Receive
    simp [hdata, hfrom, hto, ApWifiMac.NotifyRxDrop, effect]
  refine ⟨hR, ?_⟩
  intro s1 h1
  rw [hR] at h1
  simp only [Option.some.injEq] at h1
  subst h1
  have hu : Effect.isForwardUp (.NotifyRxDrop packet) = false := rfl
  have hd : Effect.isForwardDown (.NotifyRxDrop packet) = false := rfl
  simp [hu, hd, registry]

/-- Witness for C22: the sample access point receives a QoS data frame with both
ToDS and FromDS set, sent by the first sample station to the second. -/
theorem Receive_drops_ap_to_ap_frame_witness :
    sampleAp.Receive sampleEnv ⟨[], [7]⟩ (sampleQosDataHdr 0 sampleSta2).SetDsFrom default =
        some { sampleAp with effects := sampleAp.effects ++ [.NotifyRxDrop ⟨[], [7]⟩] } ∧
      ∀ s1, sampleAp.Receive sampleEnv ⟨[], [7]⟩ (sampleQosDataHdr 0 sampleSta2).SetDsFrom
          default = some s1 →
        s1.registry = sampleAp.registry ∧
        ((s1.effects.drop sampleAp.effects.length).filter Effect.isForwardUp).length = 0 ∧
        ((s1.effects.drop sampleAp.effects.length).filter Effect.isForwardDown).length = 0 :=
  Receive_drops_ap_to_ap_frame sampleEnv sampleAp ⟨[], [7]⟩
    (sampleQosDataHdr 0 sampleSta2).SetDsFrom default (by decide) (by decide) (by decide)

end ns3

namespace ns3

open WifiMacHeader ApWifiMac

/-! ## Block-ack agreement -/

/-- The response that `SendAddBaResponse` builds carries the TID of the
request. -/
theorem addBaResponseHeader_tid (reqHdr : MgtAddBaRequestHeader) :
    (addBaResponseHeader reqHdr).m_tid = reqHdr.m_tid := by
  unfold addBaResponseHeader
  split_ifs <;> rfl

/-- What `SendAddBaResponse` does, by the queue that it selects: it completes if
there is such a queue, and then it has handed the response it built to the MAC
low and pushed the frame to the front of the queue. -/
theorem SendAddBaResponse_eq (s : ApWifiMac) (reqHdr : MgtAddBaRequestHeader)
    (originator : Mac48Address) (mem : WifiMacHeader) :
    s.SendAddBaResponse reqHdr originator mem =
      (match s.m_ofdmaMap.find (s.GetAid originator) with
        | some queues =>
          (queues.get? (QosUtilsMapTidToAc reqHdr.m_tid).toNat).map TxQueue.m_ofdmaMap
        | none => m_edca (QosUtilsMapTidToAc reqHdr.m_tid)).map
        (fun q =>
          { s with
            effects := s.effects ++
              [Effect.CreateBlockAckAgreement (addBaResponseHeader reqHdr) originator
                reqHdr.m_startingSeq,
               Effect.PushFront q (addBaResponsePacket (addBaResponseHeader reqHdr))
                (addBaResponseMacHeader s originator mem)] }) := by
  unfold SendAddBaResponse
  simp only [effect, List.append_assoc, List.singleton_append, addBaResponseHeader_tid, GetAid,
    GetAddress]
  split
  · split
    · rename_i hq
      rw [hq]
      rfl
    · rename_i hq
      rw [hq]
      rfl
  · split
    · rename_i hq
      rw [hq]
      rfl
    · rename_i hq
      rw [hq]
      rfl

/-- C23: the ADDBA response.  For every ADDBA request, the response that
`SendAddBaResponse` builds carries the buffer size 1023, so that (buffer size +
1) % 16 = 0, and the success status, and it carries the TID, the time-out, the
immediate-or-delayed policy and the A-MSDU-support flag of the request as they
are.  This response is the one that the function hands on: whenever the run
gets to its end, it has handed this response to the MAC low
(`CreateBlockAckAgreement`) and has pushed the packet that holds it. -/
theorem SendAddBaResponse_response (s : ApWifiMac) (reqHdr : MgtAddBaRequestHeader)
    (originator : Mac48Address) (mem : WifiMacHeader) :
    (addBaResponseHeader reqHdr).m_bufferSize = 1023 ∧
    ((addBaResponseHeader reqHdr).m_bufferSize + 1) % 16 = 0 ∧
    (addBaResponseHeader reqHdr).m_code.IsSuccess = true ∧
    (addBaResponseHeader reqHdr).m_tid = reqHdr.m_tid ∧
    (addBaResponseHeader reqHdr).m_timeoutValue = reqHdr.m_timeoutValue ∧
    (addBaResponseHeader reqHdr).m_immediateBlockAck = reqHdr.m_immediateBlockAck ∧
    (addBaResponseHeader reqHdr).m_amsduSupport = reqHdr.m_amsduSupport ∧
    (s.SendAddBaResponse reqHdr originator mem = none ∨
      ∃ q, s.SendAddBaResponse reqHdr originator mem =
        some { s with
          effects := s.effects ++
            [Effect.CreateBlockAckAgreement (addBaResponseHeader reqHdr) originator
              reqHdr.m_startingSeq,
             Effect.PushFront q (addBaResponsePacket (addBaResponseHeader reqHdr))
              (addBaResponseMacHeader s originator mem)] }) := by
  have hb : (addBaResponseHeader reqHdr).m_bufferSize = 1023 := by
    unfold addBaResponseHeader
    split_ifs <;> rfl
  refine ⟨hb, by rw [hb], ?_, addBaResponseHeader_tid reqHdr, ?_, ?_, ?_, ?_⟩
  · unfold addBaResponseHeader
    split_ifs <;> rfl
  · unfold addBaResponseHeader
    split_ifs <;> rfl
  · unfold addBaResponseHeader
    cases hi : reqHdr.m_immediateBlockAck <;> simp
  · unfold addBaResponseHeader
    split_ifs <;> rfl
  · rw [SendAddBaResponse_eq]
    generalize (match s.m_ofdmaMap.find (s.GetAid originator) with
        | some queues =>
          (queues.get? (QosUtilsMapTidToAc reqHdr.m_tid).toNat).map TxQueue.m_ofdmaMap
        | none => m_edca (QosUtilsMapTidToAc reqHdr.m_tid)) = oq
    cases oq with
    | none => exact Or.inl rfl
    | some q => exact Or.inr ⟨q, rfl⟩

end ns3

namespace ns3

open WifiMacHeader ApWifiMac

/-! ## Routing miss -/

end ns3

namespace ns3

open WifiMacHeader ApWifiMac

/-! ## The check of an association request -/

/-- C26, evaluated on the code.  The basic modes are the DSSS mode of 1 Mbit/s and
the ERP-OFDM mode of 6 Mbit/s, and the request of the sample station lists the
rate of 6 Mbit/s, a basic rate of the ERP-OFDM family, and not the rate of
1 Mbit/s.  With the DSSS mode first in the Basic Rate Set, the rate check flags a
problem at the first basic mode, and `Receive` answers with the failure status
and does not enter the station in the associated-station list.  With the
ERP-OFDM mode first, the same request against the same Basic Rate Set passes
the check, and `Receive` answers with the success status and enters the
station. -/
theorem rate_check_depends_on_order :
    sampleAssocReq6Mbps.m_rates.IsSupportedRate
      (sampleEnvOfdm.GetDataRate sampleErpOfdmRate6Mbps 20 false 1) = true ∧
    sampleErpOfdmRate6Mbps.GetModulationClass = .WIFI_MOD_CLASS_ERP_OFDM ∧
    ((sampleApWithBasicModes [sampleDsssRate1Mbps, sampleErpOfdmRate6Mbps]).checkAssocRequest
      sampleEnvOfdm sampleSta sampleAssocReq6Mbps).map (fun r => r.1.problem) = some true ∧
    ((sampleApWithBasicModes [sampleErpOfdmRate6Mbps, sampleDsssRate1Mbps]).checkAssocRequest
      sampleEnvOfdm sampleSta sampleAssocReq6Mbps).map (fun r => r.1.problem) = some false ∧
    (∃ s1 assoc h,
      (sampleApWithBasicModes [sampleDsssRate1Mbps, sampleErpOfdmRate6Mbps]).Receive sampleEnvOfdm
        ⟨[.assocRequest sampleAssocReq6Mbps], []⟩ sampleAssocReqHdr default = some s1 ∧
      s1.effects = [.Queue .m_dca (assocResponsePacket assoc) h] ∧
      assoc.m_code.IsSuccess = false ∧ s1.m_staList = []) ∧
    (∃ s1 assoc h,
      (sampleApWithBasicModes [sampleErpOfdmRate6Mbps, sampleDsssRate1Mbps]).Receive sampleEnvOfdm
        ⟨[.assocRequest sampleAssocReq6Mbps], []⟩ sampleAssocReqHdr default = some s1 ∧
      s1.effects = [.Queue .m_dca (assocResponsePacket assoc) h] ∧
      assoc.m_code.IsSuccess = true ∧ s1.m_staList = [sampleSta]) :=
  ⟨by decide, rfl, by decide, by decide, ⟨_, _, _, rfl, rfl, by decide, rfl⟩,
    ⟨_, _, _, rfl, rfl, by decide, rfl⟩⟩

end ns3

namespace ns3

open WifiMacHeader ApWifiMac

/-- C27, evaluated on the code.  The basic modes are the DSSS mode of 1 Mbit/s and
the OFDM mode of 6 Mbit/s, and the request of the sample station lists both
rates.  The check leaves the flags of the DSSS and of the OFDM family set and
the flag of the ERP-OFDM family clear, and flags no problem; `Receive` answers
with the success status and enters the station, which matches the OFDM family,
in the non-ERP list. -/
theorem ofdm_station_classified_non_erp_counterexample :
    ((sampleApWithBasicModes [sampleDsssRate1Mbps, sampleOfdmRate6Mbps]).checkAssocRequest
      sampleEnvOfdm sampleSta sampleAssocReqBoth).map (fun r => r.1) =
      some { problem := false, isHtStation := false, isOfdmStation := true,
             isErpStation := false, isDsssStation := true } ∧
    (∃ s1 assoc h,
      (sampleApWithBasicModes [sampleDsssRate1Mbps, sampleOfdmRate6Mbps]).Receive sampleEnvOfdm
        ⟨[.assocRequest sampleAssocReqBoth], []⟩ sampleAssocReqHdr default = some s1 ∧
      s1.effects = [.Queue .m_dca (assocResponsePacket assoc) h] ∧
      assoc.m_code.IsSuccess = true ∧ s1.m_nonErpStations = [sampleSta]) :=
  ⟨by decide, ⟨_, _, _, rfl, rfl, by decide, rfl⟩⟩

/-- C27 (amended): the non-ERP classification.  Let `Receive` handle an
Association Request addressed to the access point whose check completes and
flags no problem, and let `c` hold the flags that the check leaves.  Then
`Receive` completes and answers with the success status, and the requester is
added to the non-ERP list if and only if the flag of the ERP-OFDM family is
clear and the flag of the DSSS family is set: in that case the list is the list
before with the requester at its end, and otherwise it is the list before.  The
flag of the OFDM family plays no part. -/
theorem non_erp_classification (env : Env) (s t : ApWifiMac) (packet rest : Packet)
    (hdr mem : WifiMacHeader) (req : MgtAssocRequestHeader) (c : AssocCheck)
    (ht : hdr.GetType = some .WIFI_MAC_MGT_ASSOCIATION_REQUEST)
    (hto : hdr.GetAddr1 = s.GetAddress)
    (hp : packet.RemoveHeader = some (.assocRequest req, rest))
    (hc : s.checkAssocRequest env hdr.GetAddr2 req = some (c, t))
    (hok : c.problem = false) :
    ∃ s1 assoc h, s.Receive env packet hdr mem = some s1 ∧
      s1.effects = s.effects ++ [.Queue .m_dca (assocResponsePacket assoc) h] ∧
      assoc.m_code.IsSuccess = true ∧
      (c.isErpStation = false ∧ c.isDsssStation = true →
        s1.m_nonErpStations = s.m_nonErpStations ++ [hdr.GetAddr2]) ∧
      (¬ (c.isErpStation = false ∧ c.isDsssStation = true) →
        s1.m_nonErpStations = s.m_nonErpStations) := by
  obtain ⟨s1, assoc, h, hR, heff, hcode, _, hreg, _⟩ :=
    Receive_assocReq_accept env s t packet rest hdr mem req c ht hto hp hc hok
  have hn := congrArg Registry.m_nonErpStations hreg
  simp only [registry] at hn
  refine ⟨s1, assoc, h, hR, heff, ?_, ?_, ?_⟩
  · rw [hcode]
    rfl
  · intro hcl
    rw [hn, if_pos]
    simpa using hcl
  · intro hcl
    rw [hn, if_neg]
    simpa using hcl

/-- Witness for C27: the access point whose basic modes are the DSSS mode of
1 Mbit/s and the OFDM mode of 6 Mbit/s receives the request that lists both
rates. -/
theorem non_erp_classification_witness :
    ∃ s1 assoc h,
      (sampleApWithBasicModes [sampleDsssRate1Mbps, sampleOfdmRate6Mbps]).Receive sampleEnvOfdm
        ⟨[.assocRequest sampleAssocReqBoth], []⟩ sampleAssocReqHdr default = some s1 ∧
      s1.effects = (sampleApWithBasicModes [sampleDsssRate1Mbps, sampleOfdmRate6Mbps]).effects ++
        [.Queue .m_dca (assocResponsePacket assoc) h] ∧
      assoc.m_code.IsSuccess = true ∧
      ((false = false ∧ true = true) →
        s1.m_nonErpStations =
          (sampleApWithBasicModes [sampleDsssRate1Mbps, sampleOfdmRate6Mbps]).m_nonErpStations ++
            [sampleAssocReqHdr.GetAddr2]) ∧
      (¬ (false = false ∧ true = true) →
        s1.m_nonErpStations =
          (sampleApWithBasicModes [sampleDsssRate1Mbps, sampleOfdmRate6Mbps]).m_nonErpStations) :=
  non_erp_classification sampleEnvOfdm
    (sampleApWithBasicModes [sampleDsssRate1Mbps, sampleOfdmRate6Mbps])
    (((sampleApWithBasicModes [sampleDsssRate1Mbps, sampleOfdmRate6Mbps]).stationManagerCall
      (.AddSupportedPlcpPreamble sampleSta false)).stationManagerCall
      (.AddSupportedErpSlotTime sampleSta false))
    ⟨[.assocRequest sampleAssocReqBoth], []⟩ ⟨[], []⟩ sampleAssocReqHdr default sampleAssocReqBoth
    { problem := false, isHtStation := false, isOfdmStation := true, isErpStation := false,
      isDsssStation := true }
    (by decide) (by decide) (by decide) rfl rfl

end ns3

namespace ns3

open WifiMacHeader ApWifiMac

/-- The loop over the basic MCSs completes when every basic MCS is an HT, VHT or
HE MCS. -/
theorem basicMcsLoop_total (isSupported : Nat → Bool) :
    ∀ (l : List WifiMode), (∀ mcs ∈ l, mcs.GetMcsValue ≠ none) →
      ∃ b, basicMcsLoop isSupported l = some b := by
  intro l
  induction l with
  | nil => intro _; exact ⟨false, rfl⟩
  | cons mcs rest ih =>
    intro hall
    have hm := hall mcs (List.mem_cons_self _ _)
    obtain ⟨v, hv⟩ := Option.ne_none_iff_exists'.mp hm
    unfold basicMcsLoop
    simp only [hv, Option.bind_eq_bind, Option.some_bind, Option.pure_def]
    split_ifs
    · exact ih (fun m hmem => hall m (List.mem_cons_of_mem _ hmem))
    · exact ⟨true, rfl⟩

/-- The loop over the basic MCSs finds a basic MCS that is not supported, when
there is one and every basic MCS is an HT, VHT or HE MCS. -/
theorem basicMcsLoop_lacking (isSupported : Nat → Bool) :
    ∀ (l : List WifiMode), (∀ mcs ∈ l, mcs.GetMcsValue ≠ none) →
      (∃ mcs ∈ l, ∃ v, mcs.GetMcsValue = some v ∧ isSupported v = false) →
      basicMcsLoop isSupported l = some true := by
  intro l
  induction l with
  | nil =>
    intro _ h
    obtain ⟨mcs, hmem, _⟩ := h
    exact absurd hmem (List.not_mem_nil _)
  | cons mcs rest ih =>
    intro hall hlack
    have hm := hall mcs (List.mem_cons_self _ _)
    obtain ⟨v, hv⟩ := Option.ne_none_iff_exists'.mp hm
    unfold basicMcsLoop
    simp only [hv, Option.bind_eq_bind, Option.some_bind, Option.pure_def]
    split_ifs with hs
    · refine ih (fun m hmem => hall m (List.mem_cons_of_mem _ hmem)) ?_
      obtain ⟨m, hmem, w, hw, hns⟩ := hlack
      rcases List.mem_cons.mp hmem with heq | hin
      · subst heq
        rw [hv] at hw
        simp only [Option.some.injEq] at hw
        subst hw
        rw [hs] at hns
        exact absurd hns (by simp)
      · exact ⟨m, hin, w, hw, hns⟩
    · rfl

/-- The check of an association request on an access point with HT flags a
problem for a request that carries HT capabilities whose MCS set lacks a basic
MCS. -/
theorem checkAssocRequest_lacking_mcs (env : Env) (s : ApWifiMac) (src : Mac48Address)
    (req : MgtAssocRequestHeader)
    (hht : s.m_htSupported = true)
    (hinfo : req.m_htCapability.GetHtCapabilitiesInfo ≠ 0)
    (hall : ∀ mcs ∈ (s.managerAtMcsCheck env src req).GetBasicMcss, mcs.GetMcsValue ≠ none)
    (hlack : ∃ mcs ∈ (s.managerAtMcsCheck env src req).GetBasicMcss, ∃ v,
      mcs.GetMcsValue = some v ∧ req.m_htCapability.IsSupportedMcs v = false) :
    ∃ c t, s.checkAssocRequest env src req = some (c, t) ∧ c.problem = true := by
  have h1 := basicMcsLoop_lacking req.m_htCapability.IsSupportedMcs _ hall hlack
  obtain ⟨b, h2⟩ := basicMcsLoop_total req.m_vhtCapability.IsSupportedTxMcs _ hall
  unfold managerAtMcsCheck at h1 h2
  simp only [stationManagerCall] at h1 h2
  unfold checkAssocRequest
  simp only [stationManagerCall, hht, if_true, hinfo, ne_eq, not_false_eq_true, h1, h2,
    Option.bind_eq_bind, Option.some_bind, Option.pure_def]
  by_cases hv : s.m_vhtSupported = true
  · by_cases hi : req.m_vhtCapability.GetVhtCapabilitiesInfo = 0
    · simp [hv, hi]
    · cases b <;> simp [hv, hi]
  · simp [hv]

/-- C28, evaluated on the code.  The sample access point with HT has the HT
MCS 0 as its basic MCS.  The request of the sample station lists the basic rate
and carries no HT capabilities (the capabilities word is 0), so that its HT MCS
set lacks the basic MCS.  The MCS check is skipped, and `Receive` answers with
the success status and enters the station in the associated-station list. -/
theorem ht_mcs_check_skipped_counterexample :
    sampleHtAp.m_htSupported = true ∧
    sampleHtAp.m_stationManager.GetBasicMcss = [sampleHtMcs0] ∧
    sampleHtMcs0.GetMcsValue = some 0 ∧
    sampleAssocReq.m_htCapability.IsSupportedMcs 0 = false ∧
    sampleAssocReq.m_htCapability.GetHtCapabilitiesInfo = 0 ∧
    (∃ s1 assoc h,
      sampleHtAp.Receive sampleEnv ⟨[.assocRequest sampleAssocReq], []⟩ sampleAssocReqHdr
        default = some s1 ∧
      s1.effects = [.Queue .m_dca (assocResponsePacket assoc) h] ∧
      assoc.m_code.IsSuccess = true ∧ s1.m_staList = [sampleSta]) :=
  ⟨rfl, rfl, rfl, by decide, rfl, ⟨_, _, _, rfl, rfl, by decide, rfl⟩⟩

/-- C28 (amended): rejection for a missing basic MCS.  On an access point with
HT, let `Receive` handle an Association Request addressed to the access point
that carries HT capabilities (its capabilities word is not 0) and whose HT MCS
set lacks at least one basic MCS, every basic MCS being an HT, VHT or HE MCS.
Whatever the other contents of the request, `Receive` completes, the one call
it makes outside the remote-station manager queues an Association Response with
the failure status, and the station registry is as before.  (The basic MCSs are
those of the remote-station manager as the check finds it.) -/
theorem missing_basic_mcs_rejected (env : Env) (s : ApWifiMac) (packet rest : Packet)
    (hdr mem : WifiMacHeader) (req : MgtAssocRequestHeader)
    (ht : hdr.GetType = some .WIFI_MAC_MGT_ASSOCIATION_REQUEST)
    (hto : hdr.GetAddr1 = s.GetAddress)
    (hp : packet.RemoveHeader = some (.assocRequest req, rest))
    (hht : s.m_htSupported = true)
    (hinfo : req.m_htCapability.GetHtCapabilitiesInfo ≠ 0)
    (hall : ∀ mcs ∈ (s.managerAtMcsCheck env hdr.GetAddr2 req).GetBasicMcss,
      mcs.GetMcsValue ≠ none)
    (hlack : ∃ mcs ∈ (s.managerAtMcsCheck env hdr.GetAddr2 req).GetBasicMcss, ∃ v,
      mcs.GetMcsValue = some v ∧ req.m_htCapability.IsSupportedMcs v = false) :
    ∃ s1 assoc h, s.Receive env packet hdr mem = some s1 ∧
      s1.effects = s.effects ++ [.Queue .m_dca (assocResponsePacket assoc) h] ∧
      assoc.m_code.IsSuccess = false ∧
      s1.registry = s.registry := by
  obtain ⟨c, t, hc, hprob⟩ := checkAssocRequest_lacking_mcs env s hdr.GetAddr2 req hht hinfo hall
    hlack
  have hst : s.SameButManager t := SameButManager_checkAssocRequest env s t _ req c hc
  unfold SameButManager at hst
  obtain ⟨assoc, h, m, hsend, hcode⟩ := SendAssocResp_failure env t hdr.GetAddr2 mem
  refine ⟨SendAssocResp env t hdr.GetAddr2 false mem, assoc, h, ?_, ?_, ?_, ?_⟩
  · rw [Receive_assocReq env s packet rest hdr mem req ht hto hp, hc]
    simp only [Option.some_bind, hprob, if_true]
  · rw [hsend]
    simp only
    rw [hst]
  · rw [hcode]
    rfl
  · rw [hsend]
    simp only [registry]
    rw [hst]

/-- Witness for C28: the sample access point with HT receives the request that
carries HT capabilities with an empty MCS set. -/
theorem missing_basic_mcs_rejected_witness :
    ∃ s1 assoc h,
      sampleHtAp.Receive sampleEnv ⟨[.assocRequest sampleAssocReqHtNoMcs], []⟩ sampleAssocReqHdr
        default = some s1 ∧
      s1.effects = sampleHtAp.effects ++ [.Queue .m_dca (assocResponsePacket assoc) h] ∧
      assoc.m_code.IsSuccess = false ∧
      s1.registry = sampleHtAp.registry :=
  missing_basic_mcs_rejected sampleEnv sampleHtAp ⟨[.assocRequest sampleAssocReqHtNoMcs], []⟩
    ⟨[], []⟩ sampleAssocReqHdr default sampleAssocReqHtNoMcs (by decide) (by decide) (by decide)
    (by decide) (by decide) (by decide) (by decide)

end ns3

namespace ns3

open WifiMacHeader ApWifiMac

/-! ## Protection elements -/

/-- C29: the ERP information element.  When ERP is supported, the element that
`GetErpInformation` builds has its non-ERP-present flag set (1) exactly when the
non-ERP list is not empty, and clear (0) otherwise; and it has its
use-protection flag set (1) exactly when the non-ERP list is not empty and the
non-ERP protection is enabled, and clear (0) otherwise. -/
theorem GetErpInformation_flags (s : ApWifiMac) (herp : s.m_erpSupported = true) :
    (s.GetErpInformation.1.nonErpPresent = 1 ↔ s.m_nonErpStations ≠ []) ∧
    (s.GetErpInformation.1.nonErpPresent = 0 ↔ s.m_nonErpStations = []) ∧
    (s.GetErpInformation.1.useProtection = 1 ↔
      s.m_nonErpStations ≠ [] ∧ s.m_enableNonErpProtection = true) ∧
    (s.GetErpInformation.1.useProtection = 0 ↔
      ¬ (s.m_nonErpStations ≠ [] ∧ s.m_enableNonErpProtection = true)) := by
  have hp : s.GetErpInformation.1.nonErpPresent =
      if s.m_nonErpStations.isEmpty = true then 0 else 1 := by
    unfold GetErpInformation GetUseNonErpProtection
    simp only [herp, if_true]
    split_ifs <;> simp_all
  have hu : s.GetErpInformation.1.useProtection =
      if (!s.m_nonErpStations.isEmpty && s.m_enableNonErpProtection) = true then 1 else 0 := by
    unfold GetErpInformation GetUseNonErpProtection
    simp only [herp, if_true]
    split_ifs <;> simp_all
  rw [hp, hu]
  cases hl : s.m_nonErpStations with
  | nil => simp
  | cons a l => cases he : s.m_enableNonErpProtection <;> simp

/-- Witness for C29: the sample access point with ERP, which has a station in
its non-ERP list and the non-ERP protection enabled. -/
theorem GetErpInformation_flags_witness :
    (sampleErpAp.GetErpInformation.1.nonErpPresent = 1 ↔ sampleErpAp.m_nonErpStations ≠ []) ∧
    (sampleErpAp.GetErpInformation.1.nonErpPresent = 0 ↔ sampleErpAp.m_nonErpStations = []) ∧
    (sampleErpAp.GetErpInformation.1.useProtection = 1 ↔
      sampleErpAp.m_nonErpStations ≠ [] ∧ sampleErpAp.m_enableNonErpProtection = true) ∧
    (sampleErpAp.GetErpInformation.1.useProtection = 0 ↔
      ¬ (sampleErpAp.m_nonErpStations ≠ [] ∧ sampleErpAp.m_enableNonErpProtection = true)) :=
  GetErpInformation_flags sampleErpAp (by decide)

/-- C30: the HT operation element.  When HT is supported, the element that
`GetHtOperations` builds advertises the mixed-mode protection if and only if the
non-HT list is not empty, and no protection if and only if the list is empty. -/
theorem GetHtOperations_protection (s : ApWifiMac) (hht : s.m_htSupported = true) :
    (s.GetHtOperations.htProtection = .MIXED_MODE_PROTECTION ↔ s.m_nonHtStations ≠ []) ∧
    (s.GetHtOperations.htProtection = .NO_PROTECTION ↔ s.m_nonHtStations = []) := by
  unfold GetHtOperations
  simp only [hht, if_true]
  cases hl : s.m_nonHtStations with
  | nil => simp
  | cons a l => simp

/-- Witness for C30: the sample access point with HT, whose non-HT list is
empty. -/
theorem GetHtOperations_protection_witness :
    (sampleHtAp.GetHtOperations.htProtection = .MIXED_MODE_PROTECTION ↔
      sampleHtAp.m_nonHtStations ≠ []) ∧
    (sampleHtAp.GetHtOperations.htProtection = .NO_PROTECTION ↔
      sampleHtAp.m_nonHtStations = []) :=
  GetHtOperations_protection sampleHtAp (by decide)

end ns3

namespace ns3

open WifiMacHeader

/-! ## Frame kinds, frame control and the multi-TID report -/

/-- C33, on the code.  For every header and every frame kind `t`, `GetType`
after `SetType t` returns `t`, except for `WIFI_MAC_CTL_CTLWRAPPER`: `SetType`
stores the control subtype 7 for it, `GetType` has no case for that subtype, and
the run reaches the assertion after the `switch`. -/
theorem GetType_SetType (h : WifiMacHeader) (t : WifiMacType) :
    (h.SetType t).GetType = if t = .WIFI_MAC_CTL_CTLWRAPPER then none else some t := by
  cases t <;> rfl

/-- Masking with a shifted mask is masking the shifted value. -/
theorem and_shiftLeft_mask (x m k : Nat) : x &&& (m <<< k) = ((x >>> k) &&& m) <<< k := by
  apply Nat.eq_of_testBit_eq
  intro i
  simp only [Nat.testBit_and, Nat.testBit_shiftLeft, Nat.testBit_shiftRight]
  by_cases hk : k ≤ i
  · simp [hk, Nat.add_sub_cancel' hk]
  · simp [hk]

/-- The bits that the mask 0xEFFC keeps, in arithmetic. -/
theorem and_0xEFFC (c : Nat) : c &&& 0xEFFC = (c / 4 % 1024) * 4 + (c / 8192 % 8) * 8192 := by
  have hm : (0xEFFC : Nat) = (1023 <<< 2) ||| (7 <<< 13) := by decide
  rw [hm, Nat.and_or_distrib_left, and_shiftLeft_mask, and_shiftLeft_mask,
    Nat.and_pow_two_sub_one_eq_mod _ 10, and_mask7, Nat.shiftRight_eq_div_pow,
    Nat.shiftRight_eq_div_pow]
  rw [or_shiftLeft_eq_add _ _ 13 (by rw [Nat.shiftLeft_eq]; omega), Nat.shiftLeft_eq]
  omega

/-- The frame control of a header whose nine members are within their widths,
in arithmetic. -/
theorem GetFrameControl_eq_sum (h : WifiMacHeader) (hw : h.FrameControlValid) :
    h.GetFrameControl = h.m_ctrlType * 4 + h.m_ctrlSubtype * 16 + h.m_ctrlToDs * 256 +
      h.m_ctrlFromDs * 512 + h.m_ctrlMoreFrag * 1024 + h.m_ctrlRetry * 2048 +
      h.m_ctrlMoreData * 8192 + h.m_ctrlWep * 16384 + h.m_ctrlOrder * 32768 := by
  obtain ⟨h1, h2, h3, h4, h5, h6, h7, h8, h9⟩ := hw
  simp only [GetFrameControl, shiftLeft_and_shiftLeft, and_mask1, and_mask3, and_mask15,
    Nat.zero_or]
  simp only [Nat.shiftLeft_eq]
  have e1 : h.m_ctrlType % 4 = h.m_ctrlType := by omega
  have e2 : h.m_ctrlSubtype % 16 = h.m_ctrlSubtype := by omega
  have e3 : h.m_ctrlToDs % 2 = h.m_ctrlToDs := by omega
  have e4 : h.m_ctrlFromDs % 2 = h.m_ctrlFromDs := by omega
  have e5 : h.m_ctrlMoreFrag % 2 = h.m_ctrlMoreFrag := by omega
  have e6 : h.m_ctrlRetry % 2 = h.m_ctrlRetry := by omega
  have e7 : h.m_ctrlMoreData % 2 = h.m_ctrlMoreData := by omega
  have e8 : h.m_ctrlWep % 2 = h.m_ctrlWep := by omega
  have e9 : h.m_ctrlOrder % 2 = h.m_ctrlOrder := by omega
  rw [e1, e2, e3, e4, e5, e6, e7, e8, e9]
  have s4 := or_shiftLeft_eq_add (h.m_ctrlType * 2 ^ 2) h.m_ctrlSubtype 4 (by omega)
  rw [Nat.shiftLeft_eq] at s4
  rw [s4]
  have s8 := or_shiftLeft_eq_add (h.m_ctrlType * 2 ^ 2 + h.m_ctrlSubtype * 2 ^ 4) h.m_ctrlToDs 8
    (by omega)
  rw [Nat.shiftLeft_eq] at s8
  rw [s8]
  have s9 := or_shiftLeft_eq_add
    (h.m_ctrlType * 2 ^ 2 + h.m_ctrlSubtype * 2 ^ 4 + h.m_ctrlToDs * 2 ^ 8) h.m_ctrlFromDs 9
    (by omega)
  rw [Nat.shiftLeft_eq] at s9
  rw [s9]
  have s10 := or_shiftLeft_eq_add
    (h.m_ctrlType * 2 ^ 2 + h.m_ctrlSubtype * 2 ^ 4 + h.m_ctrlToDs * 2 ^ 8 +
      h.m_ctrlFromDs * 2 ^ 9) h.m_ctrlMoreFrag 10 (by omega)
  rw [Nat.shiftLeft_eq] at s10
  rw [s10]
  have s11 := or_shiftLeft_eq_add
    (h.m_ctrlType * 2 ^ 2 + h.m_ctrlSubtype * 2 ^ 4 + h.m_ctrlToDs * 2 ^ 8 +
      h.m_ctrlFromDs * 2 ^ 9 + h.m_ctrlMoreFrag * 2 ^ 10) h.m_ctrlRetry 11 (by omega)
  rw [Nat.shiftLeft_eq] at s11
  rw [s11]
  have s13 := or_shiftLeft_eq_add
    (h.m_ctrlType * 2 ^ 2 + h.m_ctrlSubtype * 2 ^ 4 + h.m_ctrlToDs * 2 ^ 8 +
      h.m_ctrlFromDs * 2 ^ 9 + h.m_ctrlMoreFrag * 2 ^ 10 + h.m_ctrlRetry * 2 ^ 11)
    h.m_ctrlMoreData 13 (by omega)
  rw [Nat.shiftLeft_eq] at s13
  rw [s13]
  have s14 := or_shiftLeft_eq_add
    (h.m_ctrlType * 2 ^ 2 + h.m_ctrlSubtype * 2 ^ 4 + h.m_ctrlToDs * 2 ^ 8 +
      h.m_ctrlFromDs * 2 ^ 9 + h.m_ctrlMoreFrag * 2 ^ 10 + h.m_ctrlRetry * 2 ^ 11 +
      h.m_ctrlMoreData * 2 ^ 13) h.m_ctrlWep 14 (by omega)
  rw [Nat.shiftLeft_eq] at s14
  rw [s14]
  have s15 := or_shiftLeft_eq_add
    (h.m_ctrlType * 2 ^ 2 + h.m_ctrlSubtype * 2 ^ 4 + h.m_ctrlToDs * 2 ^ 8 +
      h.m_ctrlFromDs * 2 ^ 9 + h.m_ctrlMoreFrag * 2 ^ 10 + h.m_ctrlRetry * 2 ^ 11 +
      h.m_ctrlMoreData * 2 ^ 13 + h.m_ctrlWep * 2 ^ 14) h.m_ctrlOrder 15 (by omega)
  rw [Nat.shiftLeft_eq] at s15
  rw [s15]
  omega

/-- C34: frame-control decode then encode.  For every header and every word
`c`, `GetFrameControl` after `SetFrameControl c` returns `c & 0xEFFC`: the bits
of the type, the subtype, ToDS, FromDS, more-fragments, retry, more-data,
protected and order are kept.  Put in arithmetic, for a 16-bit word the result
is `c` without its two protocol-version bits (bits 0 and 1) and its
power-management bit (bit 12). -/
theorem GetFrameControl_SetFrameControl (h : WifiMacHeader) (c : Nat) :
    (h.SetFrameControl c).GetFrameControl = c &&& 0xEFFC ∧
    (h.SetFrameControl c).GetFrameControl + c % 4 + (c / 4096 % 2) * 4096 = c % 65536 := by
  have hv : (h.SetFrameControl c).FrameControlValid := by
    simp only [FrameControlValid, SetFrameControl, and_mask1, and_mask3, and_mask15]
    refine ⟨?_, ?_, ?_, ?_, ?_, ?_, ?_, ?_, ?_⟩ <;> omega
  rw [and_0xEFFC, GetFrameControl_eq_sum _ hv]
  simp only [SetFrameControl, and_mask1, and_mask3, and_mask15, Nat.shiftRight_eq_div_pow,
    Nat.reducePow]
  constructor <;> omega

/-- `SetControlHeader` with a word whose control id is 7. -/
theorem SetControlHeader_mtid (h0 : WifiMacHeader) (v : Nat)
    (hid : (v >>> 2) &&& 0x0000000f = 7) :
    h0.SetControlHeader v =
      { h0 with
        m_htControlType := v &&& 0x00000003
        m_htControlId := 7
        m_qsize_be := (v >>> 6) &&& 0x0000003f
        m_qsize_bk := (v >>> 12) &&& 0x0000003f
        m_qsize_vi := (v >>> 18) &&& 0x0000003f
        m_qsize_vo := (v >>> 24) &&& 0x0000003f } := by
  unfold SetControlHeader
  simp only [hid, show (7 : Nat) = 3 ↔ False by decide, if_false, if_true]

/-- The control word of a header on which the four queue sizes were set. -/
theorem GetControlHeader_mtid_sizes (h : WifiMacHeader) (be bk vi vo : Nat)
    (hbe : be < 64) (hbk : bk < 64) (hvi : vi < 64) (hvo : vo < 64) :
    ((((h.SetBESize be).SetBKSize bk).SetVISize vi).SetVOSize vo).GetControlHeader =
      3 + 7 * 4 + be * 64 + bk * 4096 + vi * 262144 + vo * 16777216 := by
  obtain ⟨h4, hh⟩ : ∃ h4, h4 = (((h.SetBESize be).SetBKSize bk).SetVISize vi).SetVOSize vo :=
    ⟨_, rfl⟩
  have f1 : h4.m_htControlType = 3 := by rw [hh]; rfl
  have f2 : h4.m_htControlId = 7 := by rw [hh]; rfl
  have f3 : h4.m_qsize_be = be % 256 := by rw [hh]; rfl
  have f4 : h4.m_qsize_bk = bk % 256 := by rw [hh]; rfl
  have f5 : h4.m_qsize_vi = vi % 256 := by rw [hh]; rfl
  have f6 : h4.m_qsize_vo = vo % 256 := by rw [hh]; rfl
  rw [← hh]
  have e1 : be % 256 = be := by omega
  have e2 : bk % 256 = bk := by omega
  have e3 : vi % 256 = vi := by omega
  have e4 : vo % 256 = vo := by omega
  simp only [GetControlHeader, f1, f2, f3, f4, f5, f6, e1, e2, e3, e4, Nat.zero_or,
    show (7 : Nat) = 3 ↔ False by decide, if_false, if_true]
  simp (disch := omega) only [or_shiftLeft_eq_add _ _ 2, or_shiftLeft_eq_add _ _ 6,
    or_shiftLeft_eq_add _ _ 12, or_shiftLeft_eq_add _ _ 18, or_shiftLeft_eq_add _ _ 24]
  omega

/-- C35: the multi-TID buffer-status round trip.  Let the four queue sizes be
below 64 and be set with `SetBESize`, `SetBKSize`, `SetVISize` and `SetVOSize`
on any header `h`.  `SetControlHeader` with the word that `GetControlHeader`
returns for it, on any header `h0` (a fresh one in particular), gives a header
whose four queue sizes are the ones set and for which `IsCtrlBsrMtid` is true;
the word is below 2 ^ 32. -/
theorem mtid_report_roundtrip (h h0 : WifiMacHeader) (be bk vi vo : Nat)
    (hbe : be < 64) (hbk : bk < 64) (hvi : vi < 64) (hvo : vo < 64) :
    ((((h.SetBESize be).SetBKSize bk).SetVISize vi).SetVOSize vo).GetControlHeader
      < 4294967296 ∧
    (h0.SetControlHeader
      ((((h.SetBESize be).SetBKSize bk).SetVISize vi).SetVOSize vo).GetControlHeader).GetBESize
      = be ∧
    (h0.SetControlHeader
      ((((h.SetBESize be).SetBKSize bk).SetVISize vi).SetVOSize vo).GetControlHeader).GetBKSize
      = bk ∧
    (h0.SetControlHeader
      ((((h.SetBESize be).SetBKSize bk).SetVISize vi).SetVOSize vo).GetControlHeader).GetVISize
      = vi ∧
    (h0.SetControlHeader
      ((((h.SetBESize be).SetBKSize bk).SetVISize vi).SetVOSize vo).GetControlHeader).GetVOSize
      = vo ∧
    (h0.SetControlHeader
      ((((h.SetBESize be).SetBKSize bk).SetVISize vi).SetVOSize vo).GetControlHeader
      ).IsCtrlBsrMtid = true := by
  rw [GetControlHeader_mtid_sizes h be bk vi vo hbe hbk hvi hvo]
  generalize hv : 3 + 7 * 4 + be * 64 + bk * 4096 + vi * 262144 + vo * 16777216 = v
  have e1 : (v >>> 2) &&& 0x0000000f = 7 := by
    rw [and_mask15, Nat.shiftRight_eq_div_pow]
    omega
  rw [SetControlHeader_mtid h0 v e1]
  simp only [GetBESize, GetBKSize, GetVISize, GetVOSize, IsCtrlBsrMtid, and_mask3, and_mask63,
    Nat.shiftRight_eq_div_pow, decide_eq_true_eq, Nat.reducePow]
  refine ⟨?_, ?_, ?_, ?_, ?_, ?_, ?_⟩
  all_goals first | omega | trivial

/-- Witness for C35: the queue sizes 1, 2, 3 and 63 on the default header. -/
theorem mtid_report_roundtrip_witness :
    (((((default : WifiMacHeader).SetBESize 1).SetBKSize 2).SetVISize 3).SetVOSize
      63).GetControlHeader < 4294967296 ∧
    ((default : WifiMacHeader).SetControlHeader
      (((((default : WifiMacHeader).SetBESize 1).SetBKSize 2).SetVISize 3).SetVOSize
        63).GetControlHeader).GetBESize = 1 ∧
    ((default : WifiMacHeader).SetControlHeader
      (((((default : WifiMacHeader).SetBESize 1).SetBKSize 2).SetVISize 3).SetVOSize
        63).GetControlHeader).GetBKSize = 2 ∧
    ((default : WifiMacHeader).SetControlHeader
      (((((default : WifiMacHeader).SetBESize 1).SetBKSize 2).SetVISize 3).SetVOSize
        63).GetControlHeader).GetVISize = 3 ∧
    ((default : WifiMacHeader).SetControlHeader
      (((((default : WifiMacHeader).SetBESize 1).SetBKSize 2).SetVISize 3).SetVOSize
        63).GetControlHeader).GetVOSize = 63 ∧
    ((default : WifiMacHeader).SetControlHeader
      (((((default : WifiMacHeader).SetBESize 1).SetBKSize 2).SetVISize 3).SetVOSize
        63).GetControlHeader).IsCtrlBsrMtid = true :=
  mtid_report_roundtrip default default 1 2 3 63 (by decide) (by decide) (by decide) (by decide)

end ns3

namespace ns3

open WifiMacHeader ApWifiMac

/-! ## The frame that `ForwardDown` builds, and frames that are not forwarded -/

/-- `ForwardDown` with a TID that is below 8 when the access point is a QoS
access point: after its entry the run logs a routing miss or hands the packet
to a queue with the header it has built. -/
theorem ForwardDown_queue (s : ApWifiMac) (packet : Packet) (src dst : Mac48Address) (tid : Nat)
    (mem : WifiMacHeader) (hq : s.m_qosSupported = true → tid < 8) (hw : s.QueuesProvisioned) :
    ∃ e, s.ForwardDown packet src dst tid mem =
        some { s with effects := s.effects ++ [.ForwardDown packet src dst tid, e] } ∧
      (e = .LogNoQueue ∨ ∃ q, e = .Queue q packet (forwardDownHeader s src dst tid mem)) := by
  rcases s with ⟨addr, qos, ht, vht, he, erp, dsss, sst, ssid, sm, phy, bi, nep, col, sta, nerp,
    nht, aidm, ofd, aid, eff⟩
  unfold ForwardDown
  simp only [effect, List.append_assoc, List.singleton_append] at hq ⊢
  cases qos with
  | false => exact ⟨_, rfl, Or.inr ⟨_, rfl⟩⟩
  | true =>
    have htid := hq rfl
    simp only [if_true, htid, not_true_eq_false, if_false]
    cases he with
    | false => exact ⟨_, rfl, Or.inr ⟨_, rfl⟩⟩
    | true =>
      simp only [if_true]
      split
      · rename_i queues hf
        have hlen : queues.length = 4 := hw _ (StdMap_find_mem _ _ _ hf)
        have hlt := QosUtilsMapTidToAc_toNat_lt tid htid
        split
        · cases ht <;> cases vht <;> exact ⟨_, rfl, Or.inr ⟨_, rfl⟩⟩
        · rename_i hnone
          rw [List.get?_eq_none] at hnone
          omega
      · exact ⟨_, rfl, Or.inl rfl⟩

/-- The QoS accessors of a QoS data frame, by the members of the header. -/
theorem qos_accessors_of_members (h : WifiMacHeader) (tid : Nat) (htid : tid < 8)
    (h1 : h.m_ctrlType = 2) (h2 : h.m_ctrlSubtype = 8) (h3 : h.m_qosTid = tid % 256)
    (h4 : h.m_qosAckPolicy = 0) (h5 : h.m_qosEosp = 0) (h6 : h.m_amsduPresent = 0) :
    h.IsQosData = true ∧ h.GetQosTid = some tid ∧ h.IsQosAck = some true ∧
    h.GetQosAckPolicy = some .NORMAL_ACK ∧ h.IsQosEosp = some false ∧
    h.IsQosAmsdu = some false := by
  have hmod : tid % 256 = tid := by omega
  have hq : h.IsQosData = true := by simp [IsQosData, h1, h2, TYPE_DATA]
  refine ⟨hq, ?_, ?_, ?_, ?_, ?_⟩
  · simp [GetQosTid, hq, h3, hmod]
  · simp [IsQosAck, hq, h4]
  · simp [GetQosAckPolicy, h4]
  · simp [IsQosEosp, hq, h5]
  · simp [IsQosAmsdu, hq, h6]

/-- The header that `ForwardDown` builds: the flags and addresses, and on a QoS
access point the QoS control. -/
theorem forwardDownHeader_spec (s : ApWifiMac) (src dst : Mac48Address) (tid : Nat)
    (mem : WifiMacHeader) (hq : s.m_qosSupported = true → tid < 8) :
    (forwardDownHeader s src dst tid mem).IsData = true ∧
    (forwardDownHeader s src dst tid mem).IsFromDs = true ∧
    (forwardDownHeader s src dst tid mem).IsToDs = false ∧
    (forwardDownHeader s src dst tid mem).GetAddr1 = dst ∧
    (forwardDownHeader s src dst tid mem).GetAddr2 = s.GetAddress ∧
    (forwardDownHeader s src dst tid mem).GetAddr3 = src ∧
    (forwardDownHeader s src dst tid mem).printedAddressRoles.DA = dst ∧
    (forwardDownHeader s src dst tid mem).printedAddressRoles.SA = src ∧
    (forwardDownHeader s src dst tid mem).printedAddressRoles.BSSID = some s.GetAddress ∧
    (s.m_qosSupported = true →
      (forwardDownHeader s src dst tid mem).GetType = some .WIFI_MAC_QOSDATA ∧
      (forwardDownHeader s src dst tid mem).IsQosData = true ∧
      (forwardDownHeader s src dst tid mem).GetQosTid = some tid ∧
      (forwardDownHeader s src dst tid mem).IsQosAck = some true ∧
      (forwardDownHeader s src dst tid mem).GetQosAckPolicy = some .NORMAL_ACK ∧
      (forwardDownHeader s src dst tid mem).IsQosEosp = some false ∧
      (forwardDownHeader s src dst tid mem).IsQosAmsdu = some false) ∧
    (s.m_qosSupported = false →
      (forwardDownHeader s src dst tid mem).GetType = some .WIFI_MAC_DATA) := by
  rcases s with ⟨addr, qos, ht, vht, he, erp, dsss, sst, ssid, sm, phy, bi, nep, col, sta, nerp,
    nht, aidm, ofd, aid, eff⟩
  simp only at hq
  cases qos with
  | false =>
    cases ht <;> cases vht <;> cases he <;>
      exact ⟨rfl, rfl, rfl, rfl, rfl, rfl, rfl, rfl, rfl, fun h => absurd h (by simp),
        fun _ => rfl⟩
  | true =>
    have htid := hq rfl
    cases ht <;> cases vht <;> cases he <;>
      exact ⟨rfl, rfl, rfl, rfl, rfl, rfl, rfl, rfl, rfl,
        fun _ => ⟨rfl, qos_accessors_of_members _ tid htid rfl rfl rfl rfl rfl rfl⟩,
        fun h => absurd h (by simp)⟩

/-- C32: the frame forwarded out.  Let `ForwardDown` be called with a TID that
is below 8 if the access point is a QoS access point, in a state in which every
per-AID queue set holds its four queues.  Then the run completes, and after its
entry it makes one call `e`: either it logs that the destination has no queue,
or it hands the packet to a queue with a header `hdr` that is a data frame with
FromDS set and ToDS clear, Addr1 the destination, Addr2 the address of the
access point and Addr3 the source, so that `Print` names Addr1 as DA, Addr3 as
SA and Addr2 as BSSID.  On a QoS access point `hdr` is a QoS data frame
(`WIFI_MAC_QOSDATA`) with the given TID, the normal ack policy, no EOSP and no
A-MSDU; on another access point it is a `WIFI_MAC_DATA` frame. -/
theorem ForwardDown_frame (s : ApWifiMac) (packet : Packet) (src dst : Mac48Address)
    (tid : Nat) (mem : WifiMacHeader) (hq : s.m_qosSupported = true → tid < 8)
    (hw : s.QueuesProvisioned) :
    ∃ e, s.ForwardDown packet src dst tid mem =
        some { s with effects := s.effects ++ [.ForwardDown packet src dst tid, e] } ∧
      (e = .LogNoQueue ∨ ∃ q hdr, e = .Queue q packet hdr ∧
        hdr.IsData = true ∧ hdr.IsFromDs = true ∧ hdr.IsToDs = false ∧
        hdr.GetAddr1 = dst ∧ hdr.GetAddr2 = s.GetAddress ∧ hdr.GetAddr3 = src ∧
        hdr.printedAddressRoles.DA = dst ∧ hdr.printedAddressRoles.SA = src ∧
        hdr.printedAddressRoles.BSSID = some s.GetAddress ∧
        (s.m_qosSupported = true →
          hdr.GetType = some .WIFI_MAC_QOSDATA ∧ hdr.IsQosData = true ∧
          hdr.GetQosTid = some tid ∧ hdr.IsQosAck = some true ∧
          hdr.GetQosAckPolicy = some .NORMAL_ACK ∧ hdr.IsQosEosp = some false ∧
          hdr.IsQosAmsdu = some false) ∧
        (s.m_qosSupported = false → hdr.GetType = some .WIFI_MAC_DATA)) := by
  obtain ⟨e, he, hcase⟩ := ForwardDown_queue s packet src dst tid mem hq hw
  refine ⟨e, he, ?_⟩
  rcases hcase with h | ⟨q, h⟩
  · exact Or.inl h
  · exact Or.inr ⟨q, _, h, forwardDownHeader_spec s src dst tid mem hq⟩

/-- Witness for C32: the sample QoS access point forwards a frame of the first
sample station to the second with the TID 5. -/
theorem ForwardDown_frame_witness :
    ∃ e, sampleQosAp.ForwardDown ⟨[], [7]⟩ sampleSta sampleSta2 5 default =
        some { sampleQosAp with
          effects := sampleQosAp.effects ++ [.ForwardDown ⟨[], [7]⟩ sampleSta sampleSta2 5, e] } ∧
      (e = .LogNoQueue ∨ ∃ q hdr, e = .Queue q ⟨[], [7]⟩ hdr ∧
        hdr.IsData = true ∧ hdr.IsFromDs = true ∧ hdr.IsToDs = false ∧
        hdr.GetAddr1 = sampleSta2 ∧ hdr.GetAddr2 = sampleQosAp.GetAddress ∧
        hdr.GetAddr3 = sampleSta ∧
        hdr.printedAddressRoles.DA = sampleSta2 ∧ hdr.printedAddressRoles.SA = sampleSta ∧
        hdr.printedAddressRoles.BSSID = some sampleQosAp.GetAddress ∧
        (sampleQosAp.m_qosSupported = true →
          hdr.GetType = some .WIFI_MAC_QOSDATA ∧ hdr.IsQosData = true ∧
          hdr.GetQosTid = some 5 ∧ hdr.IsQosAck = some true ∧
          hdr.GetQosAckPolicy = some .NORMAL_ACK ∧ hdr.IsQosEosp = some false ∧
          hdr.IsQosAmsdu = some false) ∧
        (sampleQosAp.m_qosSupported = false → hdr.GetType = some .WIFI_MAC_DATA)) :=
  ForwardDown_frame sampleQosAp ⟨[], [7]⟩ sampleSta sampleSta2 5 default (by decide) (by decide)

/-- C37, evaluated on the code.  `SetQosControl`, which decodes the QoS control
of a received frame, keeps four bits of TID, so that a received header can hold
a TID from 8 to 15.  The sample QoS access point receives from the associated
sample station a QoS data frame whose QoS control decodes to the TID 8, ToDS
set and FromDS clear, addressed to the access point and destined to the
broadcast address: `Receive` hands the TID 8 to `ForwardDown`, whose assertion
`tid < 8` fails.  The same happens through `DeaggregateAmsduAndForward` for an
A-MSDU with the TID 8 that holds a sub-frame for another station. -/
theorem received_tid_fails_assertion :
    (∀ (h : WifiMacHeader) (qos : Nat), (h.SetQosControl qos).m_qosTid = qos % 16) ∧
    sampleQosAp.m_qosSupported = true ∧
    ((sampleQosDataHdr 0 Mac48Address.GetBroadcast).SetQosControl 8).IsQosData = true ∧
    ((sampleQosDataHdr 0 Mac48Address.GetBroadcast).SetQosControl 8).GetQosTid = some 8 ∧
    (sampleQosAp.ForwardDown ⟨[], [7]⟩ sampleSta Mac48Address.GetBroadcast 8 default).isSome =
      false ∧
    (sampleQosAp.Receive sampleEnv ⟨[], [7]⟩
      ((sampleQosDataHdr 0 Mac48Address.GetBroadcast).SetQosControl 8) default).isSome = false ∧
    ((sampleQosDataHdr 0 sampleApAddress).SetQosControl 0x88).IsQosAmsdu = some true ∧
    ((sampleQosDataHdr 0 sampleApAddress).SetQosControl 0x88).GetQosTid = some 8 ∧
    (sampleQosAp.DeaggregateAmsduAndForward sampleEnv ⟨[], []⟩
      ((sampleQosDataHdr 0 sampleApAddress).SetQosControl 0x88) default).isSome = false ∧
    (sampleQosAp.Receive sampleEnv ⟨[], []⟩
      ((sampleQosDataHdr 0 sampleApAddress).SetQosControl 0x88) default).isSome = false := by
  refine ⟨?_, by decide, by decide, by decide, by decide, by decide, by decide, by decide,
    by decide, by decide⟩
  intro h qos
  simp only [SetQosControl, and_mask15]

/-- C38: a data frame of a sender that is not associated.  For every data frame
whose Addr2 is not an associated station, whatever its flags and addresses and
whatever the state, `Receive` completes, and what it does is one call: it
reports the drop of the packet (`NotifyRxDrop`).  So it makes no upward
delivery and no `ForwardDown`, and hands no frame to a queue. -/
theorem Receive_drops_unassociated_sender (env : Env) (s : ApWifiMac) (packet : Packet)
    (hdr mem : WifiMacHeader)
    (hdata : hdr.IsData = true)
    (hna : s.m_stationManager.IsAssociated hdr.GetAddr2 = false) :
    s.Receive env packet hdr mem =
        some { s with effects := s.effects ++ [.NotifyRxDrop packet] } ∧
      ∀ s1, s.Receive env packet hdr mem = some s1 →
        ((s1.effects.drop s.effects.length).filter Effect.isForwardUp).length = 0 ∧
        ((s1.effects.drop s.effects.length).filter Effect.isForwardDown).length = 0 ∧
        ((s1.effects.drop s.effects.length).filter Effect.isEnqueue).length = 0 := by
  have hR : s.Receive env packet hdr mem =
      some { s with effects := s.effects ++ [.NotifyRxDrop packet] } := by
    unfold Receive
    simp [hdata, hna, ApWifiMac.NotifyRxDrop, effect]
  refine ⟨hR, ?_⟩
  intro s1 h1
  rw [hR] at h1
  simp only [Option.some.injEq] at h1
  subst h1
  have hu : Effect.isForwardUp (.NotifyRxDrop packet) = false := rfl
  have hd : Effect.isForwardDown (.NotifyRxDrop packet) = false := rfl
  have hn : Effect.isEnqueue (.NotifyRxDrop packet) = false := rfl
  simp [hu, hd, hn]

/-- Witness for C38: the sample access point receives a data frame that the
second sample station, which is not associated, sends to the access point. -/
theorem Receive_drops_unassociated_sender_witness :
    sampleAp.Receive sampleEnv ⟨[], [7]⟩ ((sampleDataHdr sampleApAddress).SetAddr2 sampleSta2)
        default =
        some { sampleAp with effects := sampleAp.effects ++ [.NotifyRxDrop ⟨[], [7]⟩] } ∧
      ∀ s1, sampleAp.Receive sampleEnv ⟨[], [7]⟩
          ((sampleDataHdr sampleApAddress).SetAddr2 sampleSta2) default = some s1 →
        ((s1.effects.drop sampleAp.effects.length).filter Effect.isForwardUp).length = 0 ∧
        ((s1.effects.drop sampleAp.effects.length).filter Effect.isForwardDown).length = 0 ∧
        ((s1.effects.drop sampleAp.effects.length).filter Effect.isEnqueue).length = 0 :=
  Receive_drops_unassociated_sender sampleEnv sampleAp ⟨[], [7]⟩
    ((sampleDataHdr sampleApAddress).SetAddr2 sampleSta2) default (by decide) (by decide)

end ns3

namespace ns3

open WifiMacHeader ApWifiMac

/-! ## The beacon and the slot time -/

theorem AfterBeaconCalls_refl (s : ApWifiMac) : s.AfterBeaconCalls s := by
  refine ⟨[], ?_, ?_⟩
  · intro c hc
    exact absurd hc (List.not_mem_nil _)
  · simp only [List.append_nil]

theorem AfterBeaconCalls_trans {s t u : ApWifiMac} (h1 : s.AfterBeaconCalls t)
    (h2 : t.AfterBeaconCalls u) : s.AfterBeaconCalls u := by
  obtain ⟨cs1, hc1, e1⟩ := h1
  obtain ⟨cs2, hc2, e2⟩ := h2
  refine ⟨cs1 ++ cs2, ?_, ?_⟩
  · intro c hc
    rcases List.mem_append.mp hc with h | h
    · exact hc1 c h
    · exact hc2 c h
  · rw [e2, e1]
    simp only [List.append_assoc]

theorem AfterBeaconCalls_call (s : ApWifiMac) (c : StationManagerCall)
    (hc : c.isBeaconCall = true) : s.AfterBeaconCalls (s.stationManagerCall c) := by
  refine ⟨[c], ?_, rfl⟩
  intro d hd
  rw [List.mem_singleton] at hd
  rw [hd]
  exact hc

theorem AfterBeaconCalls_GetSupportedRates (env : Env) (s : ApWifiMac) :
    s.AfterBeaconCalls (s.GetSupportedRates env).2 := by
  unfold GetSupportedRates
  simp only
  have key : ∀ (xs : List WifiMode) (acc : SupportedRates × ApWifiMac),
      acc.2.AfterBeaconCalls (xs.foldl
        (fun (acc : SupportedRates × ApWifiMac) mode =>
          if mode.IsMandatory ∧ mode.GetModulationClass ≠ .WIFI_MOD_CLASS_HR_DSSS then
            ((acc.1.AddSupportedRate (env.GetDataRate mode acc.2.m_phy.GetChannelWidth false 1)),
              acc.2.stationManagerCall (.AddBasicMode mode))
          else ((acc.1.AddSupportedRate (env.GetDataRate mode acc.2.m_phy.GetChannelWidth false 1)),
            acc.2)) acc).2 := by
    intro xs
    induction xs with
    | nil => intro acc; exact AfterBeaconCalls_refl _
    | cons x xs ih =>
      intro acc
      simp only [List.foldl_cons]
      refine AfterBeaconCalls_trans ?_ (ih _)
      split_ifs
      · exact AfterBeaconCalls_call _ _ rfl
      · exact AfterBeaconCalls_refl _
  exact key _ _

theorem AfterBeaconCalls_GetErpInformation (s : ApWifiMac) :
    s.AfterBeaconCalls s.GetErpInformation.2 := by
  unfold GetErpInformation GetUseNonErpProtection
  simp only
  split_ifs
  all_goals first
    | exact AfterBeaconCalls_call _ _ rfl
    | exact AfterBeaconCalls_refl _

/-- The end of `SendOneBeacon`, in a state that is the state `s` after calls on
the remote-station manager. -/
theorem SendOneBeacon_tail (s t : ApWifiMac) (h : s.AfterBeaconCalls t) (packet : Packet)
    (hdr : WifiMacHeader) :
    (if ((t.effect (.Queue .m_beaconDca packet hdr)).effect
          (.ScheduleBeacon (t.effect (.Queue .m_beaconDca packet hdr)).m_beaconInterval)
          ).m_erpSupported = true then
        if ((t.effect (.Queue .m_beaconDca packet hdr)).effect
            (.ScheduleBeacon (t.effect (.Queue .m_beaconDca packet hdr)).m_beaconInterval)
            ).GetShortSlotTimeEnabled = true then
          ((t.effect (.Queue .m_beaconDca packet hdr)).effect
            (.ScheduleBeacon (t.effect (.Queue .m_beaconDca packet hdr)).m_beaconInterval)
            ).SetSlot 9
        else
          ((t.effect (.Queue .m_beaconDca packet hdr)).effect
            (.ScheduleBeacon (t.effect (.Queue .m_beaconDca packet hdr)).m_beaconInterval)
            ).SetSlot 20
      else
        (t.effect (.Queue .m_beaconDca packet hdr)).effect
          (.ScheduleBeacon (t.effect (.Queue .m_beaconDca packet hdr)).m_beaconInterval)) =
      if s.m_erpSupported = true then
        { t with
          effects := s.effects ++
            [Effect.Queue .m_beaconDca packet hdr, Effect.ScheduleBeacon s.m_beaconInterval,
              Effect.SetSlot (if t.GetShortSlotTimeEnabled = true then 9 else 20)] }
      else
        { t with
          effects := s.effects ++
            [Effect.Queue .m_beaconDca packet hdr, Effect.ScheduleBeacon s.m_beaconInterval] } := by
  have hX : ((t.effect (.Queue .m_beaconDca packet hdr)).effect
      (.ScheduleBeacon (t.effect (.Queue .m_beaconDca packet hdr)).m_beaconInterval)
      ).GetShortSlotTimeEnabled = t.GetShortSlotTimeEnabled := rfl
  have hE : ((t.effect (.Queue .m_beaconDca packet hdr)).effect
      (.ScheduleBeacon (t.effect (.Queue .m_beaconDca packet hdr)).m_beaconInterval)
      ).m_erpSupported = s.m_erpSupported := by
    obtain ⟨cs, _, rfl⟩ := h
    rfl
  rw [hX, hE]
  by_cases he : s.m_erpSupported = true
  · rw [if_pos he, if_pos he]
    by_cases hg : t.GetShortSlotTimeEnabled = true
    · rw [if_pos hg, if_pos hg]
      obtain ⟨cs, _, rfl⟩ := h
      simp only [effect, ApWifiMac.SetSlot, List.append_assoc, List.singleton_append,
        List.cons_append, List.nil_append]
    · rw [if_neg hg, if_neg hg]
      obtain ⟨cs, _, rfl⟩ := h
      simp only [effect, ApWifiMac.SetSlot, List.append_assoc, List.singleton_append,
        List.cons_append, List.nil_append]
  · rw [if_neg he, if_neg he]
    obtain ⟨cs, _, rfl⟩ := h
    simp only [effect, List.append_assoc, List.singleton_append]


/-- The shape of `SendOneBeacon`: after calls on the remote-station manager it
hands a frame to the beacon queue, schedules the next beacon, and with ERP sets
the slot time by `GetShortSlotTimeEnabled`. -/
theorem SendOneBeacon_form (env : Env) (s : ApWifiMac) (mem : WifiMacHeader)
    (P : ApWifiMac → Prop)
    (hP : ∀ (t : ApWifiMac) (packet : Packet) (hdr : WifiMacHeader), s.AfterBeaconCalls t →
      P (if ((t.effect (.Queue .m_beaconDca packet hdr)).effect
          (.ScheduleBeacon (t.effect (.Queue .m_beaconDca packet hdr)).m_beaconInterval)
          ).m_erpSupported = true then
        if ((t.effect (.Queue .m_beaconDca packet hdr)).effect
            (.ScheduleBeacon (t.effect (.Queue .m_beaconDca packet hdr)).m_beaconInterval)
            ).GetShortSlotTimeEnabled = true then
          ((t.effect (.Queue .m_beaconDca packet hdr)).effect
            (.ScheduleBeacon (t.effect (.Queue .m_beaconDca packet hdr)).m_beaconInterval)
            ).SetSlot 9
        else
          ((t.effect (.Queue .m_beaconDca packet hdr)).effect
            (.ScheduleBeacon (t.effect (.Queue .m_beaconDca packet hdr)).m_beaconInterval)
            ).SetSlot 20
      else
        (t.effect (.Queue .m_beaconDca packet hdr)).effect
          (.ScheduleBeacon (t.effect (.Queue .m_beaconDca packet hdr)).m_beaconInterval))) :
    P (s.SendOneBeacon env mem) := by
  unfold SendOneBeacon
  lift_lets
  extract_lets hdr0 hdr1 hdr2 hdr3 hdr4 hdr5 hdr6 packet beacon0 beacon1
  clear_value hdr6 beacon1
  rcases hG : s.GetSupportedRates env with ⟨rates, sG⟩
  have h1 : s.AfterBeaconCalls sG := by
    have := AfterBeaconCalls_GetSupportedRates env s
    rw [hG] at this
    exact this
  dsimp -zeta only
  lift_lets
  beta_reduce
  lift_lets
  extract_lets b2 s1 s2 b3 b4 b5 pk sQ sS
  clear_value b3 pk
  have h2 : s.AfterBeaconCalls s2 :=
    AfterBeaconCalls_trans h1
      (AfterBeaconCalls_trans
        (AfterBeaconCalls_call sG (.SetShortPreambleEnabled sG.GetShortPreambleEnabled) rfl)
        (AfterBeaconCalls_call s1 (.SetShortSlotTimeEnabled s1.GetShortSlotTimeEnabled) rfl))
  refine hP _ pk _ ?_
  by_cases c1 : s2.m_erpSupported = true
  · rw [if_pos c1]
    exact AfterBeaconCalls_trans h2 (AfterBeaconCalls_GetErpInformation s2)
  · rw [if_neg c1]
    exact h2

/-- What `SendOneBeacon` does: it makes calls on the remote-station manager,
queues the beacon on the beacon queue and schedules the next beacon, and with
ERP it then sets the slot time to 9 microseconds if `GetShortSlotTimeEnabled`
is true then, and to 20 microseconds if not. -/
theorem SendOneBeacon_eq (env : Env) (s : ApWifiMac) (mem : WifiMacHeader) :
    ∃ t packet hdr, s.AfterBeaconCalls t ∧
      s.SendOneBeacon env mem =
        if s.m_erpSupported = true then
          { t with
            effects := s.effects ++
              [Effect.Queue .m_beaconDca packet hdr, Effect.ScheduleBeacon s.m_beaconInterval,
                Effect.SetSlot (if t.GetShortSlotTimeEnabled = true then 9 else 20)] }
        else
          { t with
            effects := s.effects ++
              [Effect.Queue .m_beaconDca packet hdr,
                Effect.ScheduleBeacon s.m_beaconInterval] } := by
  refine SendOneBeacon_form env s mem
    (fun u => ∃ t packet hdr, s.AfterBeaconCalls t ∧
      u =
        if s.m_erpSupported = true then
          { t with
            effects := s.effects ++
              [Effect.Queue .m_beaconDca packet hdr, Effect.ScheduleBeacon s.m_beaconInterval,
                Effect.SetSlot (if t.GetShortSlotTimeEnabled = true then 9 else 20)] }
        else
          { t with
            effects := s.effects ++
              [Effect.Queue .m_beaconDca packet hdr,
                Effect.ScheduleBeacon s.m_beaconInterval] }) ?_
  intro t packet hdr h
  exact ⟨t, packet, hdr, h, SendOneBeacon_tail s t h packet hdr⟩

theorem all_congr_of_mem {α : Type} (l : List α) (f g : α → Bool)
    (h : ∀ i ∈ l, f i = g i) : l.all f = l.all g := by
  induction l with
  | nil => rfl
  | cons x xs ih =>
    simp only [List.all_cons]
    rw [h x (List.mem_cons_self _ _), ih (fun i hi => h i (List.mem_cons_of_mem _ hi))]

/-- The calls that `SendOneBeacon` makes on the remote-station manager leave
`GetShortSlotTimeEnabled` as it is, if they leave the answers of the manager
about the associated stations as they are. -/
theorem AfterBeaconCalls_GetShortSlotTimeEnabled (s t : ApWifiMac) (h : s.AfterBeaconCalls t)
    (hs : s.SlotSupportStable) : t.GetShortSlotTimeEnabled = s.GetShortSlotTimeEnabled := by
  obtain ⟨cs, hcs, rfl⟩ := h
  have ha : s.m_staList.all
      (fun i => s.m_stationManager.shortSlotTimeSupported (s.m_stationManager.calls ++ cs) i) =
      s.m_staList.all
        (fun i => s.m_stationManager.shortSlotTimeSupported s.m_stationManager.calls i) :=
    all_congr_of_mem _ _ _ (hs cs hcs)
  unfold GetShortSlotTimeEnabled
  simp only [ApWifiMac.GetShortSlotTimeSupported, WifiRemoteStationManager.GetShortSlotTimeSupported]
  rw [ha]

/-- What `Receive` hands to the queues on an association request addressed to
the access point: one frame, to the queue `m_dca`. -/
theorem Receive_assocReq_effects (env : Env) (s s1 : ApWifiMac) (packet rest : Packet)
    (hdr mem : WifiMacHeader) (req : MgtAssocRequestHeader)
    (ht : hdr.GetType = some .WIFI_MAC_MGT_ASSOCIATION_REQUEST)
    (hto : hdr.GetAddr1 = s.GetAddress)
    (hp : packet.RemoveHeader = some (.assocRequest req, rest))
    (h1 : s.Receive env packet hdr mem = some s1) :
    ∃ p h, s1.effects = s.effects ++ [Effect.Queue .m_dca p h] := by
  cases hc : s.checkAssocRequest env hdr.GetAddr2 req with
  | none =>
    rw [Receive_assocReq env s packet rest hdr mem req ht hto hp, hc] at h1
    exact absurd h1 (by simp)
  | some r =>
    rcases r with ⟨c, t⟩
    have hst : s.SameButManager t := SameButManager_checkAssocRequest env s t _ req c hc
    cases hpb : c.problem with
    | true =>
      rw [Receive_assocReq env s packet rest hdr mem req ht hto hp, hc] at h1
      simp only [Option.some_bind, hpb, if_true, Option.some.injEq] at h1
      obtain ⟨assoc, h, m, he, _⟩ := SendAssocResp_failure env t hdr.GetAddr2 mem
      rw [he] at h1
      have hte : t.effects = s.effects := by
        unfold SameButManager at hst
        rw [hst]
      refine ⟨assocResponsePacket assoc, h, ?_⟩
      rw [← h1, ← hte]
    | false =>
      obtain ⟨s2, assoc, h, hr, he, _⟩ :=
        Receive_assocReq_accept env s t packet rest hdr mem req c ht hto hp hc hpb
      rw [hr] at h1
      simp only [Option.some.injEq] at h1
      rw [← h1]
      exact ⟨_, h, he⟩

/-- C31: the beacon sets the slot time, and nothing else does.  On an access
point with ERP, `SendOneBeacon` completes, and what it does is this: it makes
calls on the remote-station manager, queues the beacon, schedules the next
beacon and then sets the slot time once, to 9 microseconds if
`GetShortSlotTimeEnabled` is true in the state in which it is asked, the state
after those calls, and to 20 microseconds if not; if the calls leave the answers
of the manager about the associated stations as they are, that is
`GetShortSlotTimeEnabled` of the state at the tick.  `Receive` on an association
request addressed to the access point, if it completes, hands one frame to the
queue `m_dca` and sets no slot time, and on a disassociation frame addressed to
the access point it completes and makes no call but the one on the manager: so
a change of the station lists bears on the slot time at the next beacon. -/
theorem SendOneBeacon_slot_time (env : Env) (s : ApWifiMac) (mem : WifiMacHeader)
    (herp : s.m_erpSupported = true) :
    (∃ t packet hdr, s.AfterBeaconCalls t ∧
      s.SendOneBeacon env mem =
        { t with
          effects := s.effects ++
            [Effect.Queue .m_beaconDca packet hdr, Effect.ScheduleBeacon s.m_beaconInterval,
              Effect.SetSlot (if t.GetShortSlotTimeEnabled = true then 9 else 20)] } ∧
      (s.SlotSupportStable → t.GetShortSlotTimeEnabled = s.GetShortSlotTimeEnabled)) ∧
    (∀ (packet rest : Packet) (hdr : WifiMacHeader) (req : MgtAssocRequestHeader),
      hdr.GetType = some .WIFI_MAC_MGT_ASSOCIATION_REQUEST → hdr.GetAddr1 = s.GetAddress →
      packet.RemoveHeader = some (.assocRequest req, rest) →
      ∀ s1, s.Receive env packet hdr mem = some s1 →
        (∃ p h, s1.effects = s.effects ++ [Effect.Queue .m_dca p h]) ∧
        ∀ e ∈ s1.effects.drop s.effects.length, e.isSetSlot = false) ∧
    (∀ (packet : Packet) (hdr : WifiMacHeader),
      hdr.GetType = some .WIFI_MAC_MGT_DISASSOCIATION → hdr.GetAddr1 = s.GetAddress →
      ∃ s1, s.Receive env packet hdr mem = some s1 ∧ s1.effects = s.effects ∧
        ∀ e ∈ s1.effects.drop s.effects.length, e.isSetSlot = false) := by
  refine ⟨?_, ?_, ?_⟩
  · obtain ⟨t, packet, hdr, h, he⟩ := SendOneBeacon_eq env s mem
    rw [if_pos herp] at he
    exact ⟨t, packet, hdr, h, he, AfterBeaconCalls_GetShortSlotTimeEnabled s t h⟩
  · intro packet rest hdr req ht hto hp s1 h1
    obtain ⟨p, h, he⟩ := Receive_assocReq_effects env s s1 packet rest hdr mem req ht hto hp h1
    refine ⟨⟨p, h, he⟩, ?_⟩
    intro e hmem
    rw [he, List.drop_left] at hmem
    rw [List.mem_singleton] at hmem
    rw [hmem]
    rfl
  · intro packet hdr ht hto
    refine ⟨_, Receive_disassociation env s packet hdr mem ht hto, rfl, ?_⟩
    intro e hmem
    have hd : (s.disassociate hdr.GetAddr2).effects = s.effects := rfl
    rw [hd, List.drop_length] at hmem
    exact absurd hmem (List.not_mem_nil _)

/-- Witness for C31: the sample access point with ERP and the short slot time,
with the first sample station associated. -/
theorem SendOneBeacon_slot_time_witness :
    sampleErpShortSlotAp.m_erpSupported = true ∧
    ((∃ t packet hdr, sampleErpShortSlotAp.AfterBeaconCalls t ∧
      sampleErpShortSlotAp.SendOneBeacon sampleEnv default =
        { t with
          effects := sampleErpShortSlotAp.effects ++
            [Effect.Queue .m_beaconDca packet hdr,
              Effect.ScheduleBeacon sampleErpShortSlotAp.m_beaconInterval,
              Effect.SetSlot (if t.GetShortSlotTimeEnabled = true then 9 else 20)] } ∧
      (sampleErpShortSlotAp.SlotSupportStable →
        t.GetShortSlotTimeEnabled = sampleErpShortSlotAp.GetShortSlotTimeEnabled)) ∧
    (∀ (packet rest : Packet) (hdr : WifiMacHeader) (req : MgtAssocRequestHeader),
      hdr.GetType = some .WIFI_MAC_MGT_ASSOCIATION_REQUEST →
      hdr.GetAddr1 = sampleErpShortSlotAp.GetAddress →
      packet.RemoveHeader = some (.assocRequest req, rest) →
      ∀ s1, sampleErpShortSlotAp.Receive sampleEnv packet hdr default = some s1 →
        (∃ p h, s1.effects = sampleErpShortSlotAp.effects ++ [Effect.Queue .m_dca p h]) ∧
        ∀ e ∈ s1.effects.drop sampleErpShortSlotAp.effects.length, e.isSetSlot = false) ∧
    (∀ (packet : Packet) (hdr : WifiMacHeader),
      hdr.GetType = some .WIFI_MAC_MGT_DISASSOCIATION →
      hdr.GetAddr1 = sampleErpShortSlotAp.GetAddress →
      ∃ s1, sampleErpShortSlotAp.Receive sampleEnv packet hdr default = some s1 ∧
        s1.effects = sampleErpShortSlotAp.effects ∧
        ∀ e ∈ s1.effects.drop sampleErpShortSlotAp.effects.length, e.isSetSlot = false)) :=
  ⟨by decide, SendOneBeacon_slot_time sampleEnv sampleErpShortSlotAp default (by decide)⟩

end ns3

namespace ns3

open ApWifiMac

/-! ## The AID map -/

/-- The count of first-time allocations does not go down. -/
theorem runRegistryCalls_count_le (calls : List RegistryCall) (r : Nat × ApWifiMac) :
    r.1 ≤ (runRegistryCalls calls r).1 := by
  induction calls generalizing r with
  | nil => exact Nat.le_refl _
  | cons c cs ih =>
    simp only [runRegistryCalls]
    refine Nat.le_trans ?_ (ih _)
    simp only
    split_ifs
    · exact Nat.le_succ _
    · exact Nat.le_refl _

/-- The invariant of the AID map at the count `n` of first-time allocations:
the counter of `AllocateAid` is `n`, every AID of the map is between 1 and `n`,
and no AID is in the map twice. -/
theorem runRegistryCalls_invariant (calls : List RegistryCall) (n : Nat) (s : ApWifiMac)
    (ha : s.aid = n) (hr : ∀ e ∈ s.m_aidMap, 1 ≤ e.2 ∧ e.2 ≤ n)
    (hd : (s.m_aidMap.map Prod.snd).Nodup)
    (hn : (runRegistryCalls calls (n, s)).1 ≤ 65535) :
    (∀ e ∈ (runRegistryCalls calls (n, s)).2.m_aidMap, 1 ≤ e.2) ∧
    (((runRegistryCalls calls (n, s)).2.m_aidMap).map Prod.snd).Nodup := by
  induction calls generalizing n s with
  | nil => exact ⟨fun e he => (hr e he).1, hd⟩
  | cons c cs ih =>
    simp only [runRegistryCalls] at hn ⊢
    cases c with
    | AllocateAid mac =>
      cases hf : StdMap.find s.m_aidMap mac with
      | some a =>
        have h1 : (RegistryCall.AllocateAid mac).isFirstTime s = false := by
          simp [RegistryCall.isFirstTime, hf]
        have h2 : (RegistryCall.AllocateAid mac).run s = s := by
          simp only [RegistryCall.run, AllocateAid_of_find s mac a hf]
        rw [h1, h2] at hn ⊢
        exact ih n s ha hr hd hn
      | none =>
        have h1 : (RegistryCall.AllocateAid mac).isFirstTime s = true := by
          simp [RegistryCall.isFirstTime, hf]
        rw [h1] at hn ⊢
        simp only [if_true] at hn ⊢
        have hle : n + 1 ≤ 65535 := Nat.le_trans (runRegistryCalls_count_le cs (n + 1, _)) hn
        have hm : (n + 1) % 65536 = n + 1 := Nat.mod_eq_of_lt (by omega)
        have h3 : ((RegistryCall.AllocateAid mac).run s).aid = n + 1 := by
          simp only [RegistryCall.run, AllocateAid, hf, SetupStationQueue, ha, hm]
        have h4 : ((RegistryCall.AllocateAid mac).run s).m_aidMap = s.m_aidMap ++ [(mac, n + 1)] := by
          simp only [RegistryCall.run, AllocateAid, hf, SetupStationQueue, ha, hm, StdMap.insert]
        refine ih (n + 1) _ h3 ?_ ?_ hn
        · intro e he
          rw [h4] at he
          rcases List.mem_append.mp he with h | h
          · have := hr e h
            omega
          · rw [List.mem_singleton] at h
            rw [h]
            simp
        · rw [h4, List.map_append, List.nodup_append]
          refine ⟨hd, List.nodup_singleton _, ?_⟩
          intro x hx
          simp only [List.map_cons, List.map_nil, List.mem_singleton]
          intro hx2
          obtain ⟨e, he, hex⟩ := List.mem_map.mp hx
          have := hr e he
          omega
    | SetWifiRemoteStationManager m =>
      have h1 : (RegistryCall.SetWifiRemoteStationManager m).isFirstTime s = false := rfl
      rw [h1] at hn ⊢
      simp only [Bool.false_eq_true, if_false] at hn ⊢
      have h3 : ((RegistryCall.SetWifiRemoteStationManager m).run s).aid = s.aid := by
        simp only [RegistryCall.run, ApWifiMac.SetWifiRemoteStationManager, SetupStationQueue]
        split_ifs <;> rfl
      have h4 : ((RegistryCall.SetWifiRemoteStationManager m).run s).m_aidMap = s.m_aidMap := by
        simp only [RegistryCall.run, ApWifiMac.SetWifiRemoteStationManager, SetupStationQueue]
        split_ifs <;> rfl
      refine ih n _ (h3.trans ha) ?_ ?_ hn
      · rw [h4]
        exact hr
      · rw [h4]
        exact hd
    | AllocateAidElsewhere =>
      have h1 : RegistryCall.AllocateAidElsewhere.isFirstTime s = true := rfl
      rw [h1] at hn ⊢
      simp only [if_true] at hn ⊢
      have hle : n + 1 ≤ 65535 := Nat.le_trans (runRegistryCalls_count_le cs (n + 1, _)) hn
      have hm : (n + 1) % 65536 = n + 1 := Nat.mod_eq_of_lt (by omega)
      refine ih (n + 1) _ ?_ ?_ ?_ hn
      · simp only [RegistryCall.run, ha, hm]
      · intro e he
        have := hr e he
        omega
      · exact hd

/-- C36: AIDs are unique and non-zero.  Let an access point start with an empty
AID map and the counter of `AllocateAid` at 0, and let calls of `AllocateAid`
and `SetWifiRemoteStationManager` be made, and first-time allocations by other
access points, which advance the same counter.  If the first-time allocations
are at most 65535 in number, and so also if they are fewer than 65535, then in
the state reached no two different addresses hold the same AID, and no address
holds the AID 0: the AID map has no entry with the AID 0. -/
theorem aid_map_injective_nonzero (s0 : ApWifiMac) (calls : List RegistryCall)
    (hmap : s0.m_aidMap = []) (haid : s0.aid = 0)
    (hn : (runRegistryCalls calls (0, s0)).1 ≤ 65535) :
    (∀ a b x, StdMap.find (runRegistryCalls calls (0, s0)).2.m_aidMap a = some x →
      StdMap.find (runRegistryCalls calls (0, s0)).2.m_aidMap b = some x → a = b) ∧
    (∀ a, StdMap.find (runRegistryCalls calls (0, s0)).2.m_aidMap a ≠ some 0) ∧
    (∀ e ∈ (runRegistryCalls calls (0, s0)).2.m_aidMap, e.2 ≠ 0) := by
  have hinv := runRegistryCalls_invariant calls 0 s0 haid
    (by rw [hmap]; intro e he; exact absurd he (List.not_mem_nil _))
    (by rw [hmap]; exact List.nodup_nil) hn
  obtain ⟨h1, h2⟩ := hinv
  refine ⟨?_, ?_, ?_⟩
  · intro a b x ha hb
    have ma := StdMap_find_mem _ a x ha
    have mb := StdMap_find_mem _ b x hb
    have := List.inj_on_of_nodup_map h2 ma mb rfl
    exact congrArg Prod.fst this
  · intro a ha
    have := h1 _ (StdMap_find_mem _ a 0 ha)
    simp at this
  · intro e he h0
    have := h1 e he
    omega

/-- Witness for C36: the sample access point allocates an AID for the first
sample station, another access point allocates one, and the sample access point
allocates an AID for the second sample station and asks again for the first. -/
theorem aid_map_injective_nonzero_witness :
    sampleAp.m_aidMap = [] ∧ sampleAp.aid = 0 ∧
    (runRegistryCalls [.AllocateAid sampleSta, .AllocateAidElsewhere, .AllocateAid sampleSta2,
      .AllocateAid sampleSta] (0, sampleAp)).1 ≤ 65535 ∧
    ((∀ a b x,
      StdMap.find (runRegistryCalls [.AllocateAid sampleSta, .AllocateAidElsewhere,
        .AllocateAid sampleSta2, .AllocateAid sampleSta] (0, sampleAp)).2.m_aidMap a = some x →
      StdMap.find (runRegistryCalls [.AllocateAid sampleSta, .AllocateAidElsewhere,
        .AllocateAid sampleSta2, .AllocateAid sampleSta] (0, sampleAp)).2.m_aidMap b = some x →
      a = b) ∧
    (∀ a, StdMap.find (runRegistryCalls [.AllocateAid sampleSta, .AllocateAidElsewhere,
        .AllocateAid sampleSta2, .AllocateAid sampleSta] (0, sampleAp)).2.m_aidMap a ≠ some 0) ∧
    (∀ e ∈ (runRegistryCalls [.AllocateAid sampleSta, .AllocateAidElsewhere,
        .AllocateAid sampleSta2, .AllocateAid sampleSta] (0, sampleAp)).2.m_aidMap, e.2 ≠ 0)) :=
  ⟨by decide, by decide, by decide,
    aid_map_injective_nonzero sampleAp [.AllocateAid sampleSta, .AllocateAidElsewhere,
      .AllocateAid sampleSta2, .AllocateAid sampleSta] (by decide) (by decide) (by decide)⟩

end ns3

namespace ns3

open WifiMode

/-! ## The HE rate tables and the PHY rate -/

/-- The tables that `CreateHeRateTable` builds from the empty tables: the MCS
values 0 to 9 for the width codes 2, 4 and 8, and 0 to 11 for the width codes 20,
40, 80 and 160. -/
theorem heRateTables_eq :
    heRateTables =
    {
      heDataRate :=
        [(0, ⟨900000⟩), (1, ⟨1800000⟩), (2, ⟨2600000⟩), (3, ⟨3500000⟩), (4, ⟨5300000⟩),
          (5, ⟨7100000⟩), (6, ⟨7900000⟩), (7, ⟨8800000⟩), (8, ⟨10600000⟩), (9, ⟨11800000⟩)]
      m_he52DataRate :=
        [(0, ⟨1800000⟩), (1, ⟨3500000⟩), (2, ⟨5300000⟩), (3, ⟨7100000⟩), (4, ⟨10600000⟩),
          (5, ⟨14100000⟩), (6, ⟨15900000⟩), (7, ⟨17600000⟩), (8, ⟨21200000⟩), (9, ⟨23500000⟩)]
      m_he106DataRate :=
        [(0, ⟨3800000⟩), (1, ⟨7500000⟩), (2, ⟨11300000⟩), (3, ⟨15000000⟩), (4, ⟨22500000⟩),
          (5, ⟨30000000⟩), (6, ⟨33800000⟩), (7, ⟨37500000⟩), (8, ⟨45000000⟩), (9, ⟨50000000⟩)]
      m_he242DataRate :=
        [(0, ⟨8600000⟩), (1, ⟨17200000⟩), (2, ⟨25800000⟩), (3, ⟨34400000⟩), (4, ⟨51600000⟩),
          (5, ⟨68800000⟩), (6, ⟨77400000⟩), (7, ⟨86000000⟩), (8, ⟨103200000⟩), (9, ⟨114700000⟩),
          (10, ⟨129000000⟩), (11, ⟨143400000⟩)]
      m_he484DataRate :=
        [(0, ⟨17200000⟩), (1, ⟨34400000⟩), (2, ⟨51600000⟩), (3, ⟨68800000⟩), (4, ⟨103200000⟩),
          (5, ⟨137600000⟩), (6, ⟨154900000⟩), (7, ⟨172100000⟩), (8, ⟨206500000⟩),
          (9, ⟨229400000⟩), (10, ⟨258100000⟩), (11, ⟨286800000⟩)]
      m_he996DataRate :=
        [(0, ⟨36000000⟩), (1, ⟨72100000⟩), (2, ⟨108100000⟩), (3, ⟨144100000⟩), (4, ⟨216200000⟩),
          (5, ⟨288200000⟩), (6, ⟨324300000⟩), (7, ⟨360300000⟩), (8, ⟨432400000⟩),
          (9, ⟨480400000⟩), (10, ⟨540400000⟩), (11, ⟨600400000⟩)]
      m_he996x2DataRate :=
        [(0, ⟨72100000⟩), (1, ⟨144100000⟩), (2, ⟨216200000⟩), (3, ⟨288200000⟩), (4, ⟨432400000⟩),
          (5, ⟨576500000⟩), (6, ⟨648500000⟩), (7, ⟨720600000⟩), (8, ⟨864700000⟩),
          (9, ⟨960700000⟩), (10, ⟨1080900000⟩), (11, ⟨1201000000⟩)] } := by
  decide

/-- The lookup of the HE branch finds an entry for the MCS values 0 to 9 at
every width code, and for the MCS values 10 and 11 at the width codes 20, 40, 80
and 160. -/
theorem heMapValue_isSome (w mcs : Nat) (hw : w ∈ [2, 4, 8, 20, 40, 80, 160])
    (hmcs : mcs ≤ 9 ∨ (mcs ≤ 11 ∧ w ∈ [20, 40, 80, 160])) :
    (heMapValue heRateTables w mcs).isSome = true := by
  rw [heRateTables_eq]
  simp only [List.mem_cons, List.mem_singleton, List.not_mem_nil, or_false] at hw hmcs
  rcases hw with rfl | rfl | rfl | rfl | rfl | rfl | rfl
  all_goals
    have h11 : mcs ≤ 11 := by omega
    interval_cases mcs
    all_goals first
      | rfl
      | (exfalso; omega)

/-- `GetDataRate` of an HE mode with an MCS value up to 11 and at most 4
streams, when the lookup finds an entry: the rate of the entry times the number
of streams. -/
theorem GetDataRate_he_of_entry (floatRate : WifiMode → Nat → Bool → Nat) (m : WifiMode)
    (channelWidth : Nat) (isShortGuardInterval : Bool) (nss : Nat) (e : HeDataRate_t)
    (hm : m.item.modClass = .WIFI_MOD_CLASS_HE) (h11 : m.item.mcsValue ≤ 11) (hn : nss ≤ 4)
    (he : heMapValue heRateTables channelWidth m.item.mcsValue = some e) :
    m.GetDataRate floatRate heRateTables channelWidth isShortGuardInterval nss =
      some (e.dataRate * nss % 18446744073709551616) := by
  have hc : m.GetConstellationSize ≠ 0 := by
    unfold GetConstellationSize
    simp only [hm, reduceCtorEq, if_false, if_true]
    generalize m.item.mcsValue = v at h11
    interval_cases v <;> simp
  have hv : m.GetMcsValue = some m.item.mcsValue := by
    simp [GetMcsValue, hm]
  unfold GetDataRate
  simp only [hn, not_true_eq_false, if_false, hc, hm, reduceCtorEq, false_or, or_false, if_true,
    hv, he, Option.bind_eq_bind, Option.some_bind, Option.pure_def]

/-- `GetPhyRate` when `GetDataRate` returns a rate: the rate is cut to 32 bits,
and so is its product by the numerator of the code rate, before the division. -/
theorem GetPhyRate_of_GetDataRate (floatRate : WifiMode → Nat → Bool → Nat) (t : HeRateTables)
    (m : WifiMode) (channelWidth : Nat) (isShortGuardInterval : Bool) (nss d : Nat)
    (hn : nss ≤ 4)
    (hd : m.GetDataRate floatRate t channelWidth isShortGuardInterval nss = some d) :
    m.GetPhyRate floatRate t channelWidth isShortGuardInterval nss =
      some (match m.GetCodeRate with
        | .WIFI_CODE_RATE_5_6 => d % 4294967296 * 6 % 4294967296 / 5
        | .WIFI_CODE_RATE_3_4 => d % 4294967296 * 4 % 4294967296 / 3
        | .WIFI_CODE_RATE_2_3 => d % 4294967296 * 3 % 4294967296 / 2
        | .WIFI_CODE_RATE_1_2 => d % 4294967296 * 2 % 4294967296 / 1
        | .WIFI_CODE_RATE_UNDEFINED => d % 4294967296) := by
  unfold GetPhyRate
  simp only [hn, not_true_eq_false, if_false, hd, Option.bind_eq_bind, Option.some_bind,
    Option.pure_def]

/-- C39, evaluated on the code.  The tables of the width codes 2, 4 and 8 hold
no entry for the MCS values 10 and 11, so the lookup of the HE branch gives the
end iterator there, and `GetDataRate` of the HE MCS 10 at the width code 2
dereferences it. -/
theorem he_lookup_missing_entry_counterexample :
    heMapValue heRateTables 2 10 = none ∧ heMapValue heRateTables 2 11 = none ∧
    heMapValue heRateTables 4 10 = none ∧ heMapValue heRateTables 4 11 = none ∧
    heMapValue heRateTables 8 10 = none ∧ heMapValue heRateTables 8 11 = none ∧
    (sampleHeMcs 10).GetConstellationSize = 1024 ∧
    (sampleHeMcs 10).GetMcsValue = some 10 ∧
    (sampleHeMcs 10).GetDataRate (fun _ _ _ => 0) heRateTables 2 false 1 = none := by
  rw [heRateTables_eq]
  decide

/-- C39 (amended): the HE rate lookup is total where the tables have entries.
For an HE mode whose MCS value is from 0 to 9 and a width code among 2, 4, 8,
20, 40, 80 and 160, or whose MCS value is 10 or 11 and a width code among 20,
40, 80 and 160, the table that `GetDataRate` selects for the width holds an
entry for the MCS value, and with at most 4 streams `GetDataRate` completes and
returns the rate of that entry times the number of streams. -/
theorem he_lookup_total (floatRate : WifiMode → Nat → Bool → Nat) (m : WifiMode)
    (channelWidth : Nat) (isShortGuardInterval : Bool) (nss : Nat)
    (hm : m.item.modClass = .WIFI_MOD_CLASS_HE)
    (hw : channelWidth ∈ [2, 4, 8, 20, 40, 80, 160])
    (hmcs : m.item.mcsValue ≤ 9 ∨
      (m.item.mcsValue ≤ 11 ∧ channelWidth ∈ [20, 40, 80, 160]))
    (hn : nss ≤ 4) :
    ∃ e, heMapValue heRateTables channelWidth m.item.mcsValue = some e ∧
      m.GetDataRate floatRate heRateTables channelWidth isShortGuardInterval nss =
        some (e.dataRate * nss % 18446744073709551616) := by
  have hs := heMapValue_isSome channelWidth m.item.mcsValue hw hmcs
  obtain ⟨e, he⟩ := Option.isSome_iff_exists.mp hs
  refine ⟨e, he, ?_⟩
  exact GetDataRate_he_of_entry floatRate m channelWidth isShortGuardInterval nss e hm
    (by omega) hn he

/-- Witness for C39: the HE MCS 11 at the width code 160 with 4 streams. -/
theorem he_lookup_total_witness :
    (sampleHeMcs 11).item.modClass = .WIFI_MOD_CLASS_HE ∧
    160 ∈ [2, 4, 8, 20, 40, 80, 160] ∧
    ((sampleHeMcs 11).item.mcsValue ≤ 9 ∨
      ((sampleHeMcs 11).item.mcsValue ≤ 11 ∧ 160 ∈ [20, 40, 80, 160])) ∧
    4 ≤ 4 ∧
    ∃ e, heMapValue heRateTables 160 (sampleHeMcs 11).item.mcsValue = some e ∧
      (sampleHeMcs 11).GetDataRate (fun _ _ _ => 0) heRateTables 160 false 4 =
        some (e.dataRate * 4 % 18446744073709551616) :=
  ⟨by decide, by decide, by decide, by decide,
    he_lookup_total (fun _ _ _ => 0) (sampleHeMcs 11) 160 false 4 (by decide) (by decide)
      (by decide) (by decide)⟩

/-- C40, evaluated on the code: the PHY rate wraps around.  The HE MCS 7 has the
code rate 5/6, and at the width code 160 with one stream `GetDataRate` returns
the rate 720600000 of the table.  The exact quotient is 864720000, and
`GetPhyRate` returns 5726540: the product by 6 is taken in 32 bits.  The HE MCS
11 has no code rate, and at the width code 160 with 4 streams `GetDataRate`
returns 4804000000, of which `GetPhyRate` returns the low 32 bits,
509032704. -/
theorem GetPhyRate_wraps_around (floatRate : WifiMode → Nat → Bool → Nat) :
    (sampleHeMcs 7).GetCodeRate = .WIFI_CODE_RATE_5_6 ∧
    (sampleHeMcs 7).GetDataRate floatRate heRateTables 160 false 1 = some 720600000 ∧
    exactPhyRate 720600000 (sampleHeMcs 7).GetCodeRate = 864720000 ∧
    (sampleHeMcs 7).GetPhyRate floatRate heRateTables 160 false 1 = some 5726540 ∧
    (sampleHeMcs 11).GetCodeRate = .WIFI_CODE_RATE_UNDEFINED ∧
    (sampleHeMcs 11).GetDataRate floatRate heRateTables 160 false 4 = some 4804000000 ∧
    exactPhyRate 4804000000 (sampleHeMcs 11).GetCodeRate = 4804000000 ∧
    (sampleHeMcs 11).GetPhyRate floatRate heRateTables 160 false 4 = some 509032704 := by
  have c7 : (sampleHeMcs 7).GetCodeRate = .WIFI_CODE_RATE_5_6 := by decide
  have c11 : (sampleHeMcs 11).GetCodeRate = .WIFI_CODE_RATE_UNDEFINED := by decide
  have e7 : heMapValue heRateTables 160 (sampleHeMcs 7).item.mcsValue = some ⟨720600000⟩ := by
    rw [heRateTables_eq]
    rfl
  have e11 : heMapValue heRateTables 160 (sampleHeMcs 11).item.mcsValue = some ⟨1201000000⟩ := by
    rw [heRateTables_eq]
    rfl
  have h7 : (sampleHeMcs 7).GetDataRate floatRate heRateTables 160 false 1 = some 720600000 :=
    GetDataRate_he_of_entry floatRate (sampleHeMcs 7) 160 false 1 _ rfl (by decide) (by decide) e7
  have h11 : (sampleHeMcs 11).GetDataRate floatRate heRateTables 160 false 4 =
      some 4804000000 :=
    GetDataRate_he_of_entry floatRate (sampleHeMcs 11) 160 false 4 _ rfl (by decide) (by decide)
      e11
  refine ⟨c7, h7, ?_, ?_, c11, h11, ?_, ?_⟩
  · rw [c7]
    rfl
  · rw [GetPhyRate_of_GetDataRate floatRate heRateTables _ 160 false 1 _ (by decide) h7, c7]
  · rw [c11]
    rfl
  · rw [GetPhyRate_of_GetDataRate floatRate heRateTables _ 160 false 4 _ (by decide) h11, c11]

end ns3
